import Mathlib

set_option maxRecDepth 20000

/-!
# Execution host of k-chain-vm-v1_2-go: metering and nested-call state stacks

A shallow embedding of `vmhost/contexts/metering.go` and of the nested-call
orchestration of `vmhost/hostCore/execution.go`.

* `uint64` values are natural numbers; the helpers of the repository's `math`
  package saturate at `MaxUint64`.
* Go methods that mutate their receiver become functions returning the new host.
* A Go `error` result is an `Option VMError` (`none` is `nil`).
-/

namespace VMHost

/-! ## Basic types -/

/-- A Go byte slice. -/
abbrev Bytes := List Nat

/-- An account address (a byte string). -/
abbrev Address := List Nat

/-- The largest `uint64`. -/
def MaxUint64 : Nat := 2 ^ 64 - 1

/-- Modelled from the spec: `math.AddUint64` of the repository's `math` package
(not among the sources) is a saturating add that never wraps. -/
def AddUint64 (a b : Nat) : Nat :=
  if a + b > MaxUint64 then MaxUint64 else a + b

/-- Modelled from the spec: `math.MulUint64` of the repository's `math` package
(not among the sources), saturating like `AddUint64`. -/
def MulUint64 (a b : Nat) : Nat :=
  if a * b > MaxUint64 then MaxUint64 else a * b

/-- Modelled from the spec: `math.SubUint64` of the repository's `math` package
(not among the sources): the difference floored at zero, with the shortfall
reported separately. -/
def SubUint64 (a b : Nat) : Nat × Nat :=
  if a < b then (0, b - a) else (a - b, 0)

/-- The call types of `vm.CallType`. -/
inductive CallType where
  | DirectCall
  | AsynchronousCall
  | AsynchronousCallBack
  | DCDTTransferAndExecute
  deriving DecidableEq, Repr

/-- The return codes of `vmcommon.ReturnCode`. -/
inductive ReturnCode where
  | Ok
  | FunctionNotFound
  | FunctionWrongSignature
  | ContractNotFound
  | UserError
  | OutOfGas
  | AccountCollision
  | OutOfFunds
  | CallStackOverFlow
  | ContractInvalid
  | ExecutionFailed
  | UpgradeFailed
  deriving DecidableEq, Repr

/-- The error values of package `vmhost` that the modelled code returns, and
`other` for any error coming from a collaborator. -/
inductive VMError where
  | ErrNotEnoughGas
  | ErrExecutionFailed
  | ErrBuiltinCallOnSameContextDisallowed
  | ErrInitFuncCalledInRun
  | ErrReturnCodeNotOk
  | ErrContractNotFound
  | ErrContractInvalid
  | ErrSignalError
  | ErrTransferInsufficientFunds
  | ErrCallBackFuncCalledInRun
  | ErrInvalidCallOnReadOnlyMode
  | ErrDeploymentOverExistingAccount
  | ErrNilCallbackFunction
  | ErrNilContract
  | ErrUpgradeNotAllowed
  | ErrInvalidUpgradeArguments
  | other (msg : String)
  deriving DecidableEq, Repr

/-- The type `vmcommon.DCDTTransfer`; the value and the nonce are natural
numbers. -/
structure DCDTTransfer where
  DCDTValue : Nat
  DCDTTokenName : Bytes
  DCDTTokenType : Nat
  DCDTTokenNonce : Nat
  deriving DecidableEq, Repr

/-- The fields of `vmcommon.VMInput` read or written by the modelled code. -/
structure VMInput where
  CallerAddr : Address
  Arguments : List Bytes
  CallValue : Int
  CallType : CallType
  GasPrice : Nat
  GasProvided : Nat
  GasLocked : Nat
  OriginalTxHash : Bytes
  CurrentTxHash : Bytes
  PrevTxHash : Bytes
  DCDTTransfers : List DCDTTransfer := []
  deriving DecidableEq, Repr

/-- The type `vmcommon.ContractCallInput`. -/
structure ContractCallInput where
  VMInput : VMInput
  RecipientAddr : Address
  Function : String
  AllowInitFunction : Bool
  deriving DecidableEq, Repr

/-- The type `vmhost.CodeDeployInput`. -/
structure CodeDeployInput where
  ContractCode : Bytes
  ContractCodeMetadata : Bytes
  ContractAddress : Address
  CodeDeployerAddress : Address
  deriving DecidableEq, Repr

/-- The entries of `config.BaseOperationCost` read by the metering context. -/
structure BaseOperationCost where
  CompilePerByte : Nat
  AoTPreparePerByte : Nat
  GetCode : Nat
  deriving DecidableEq, Repr

/-- The entries of `config.BaseOpsAPICost` read by the metering context and by
the hooks of `vmhooks/baseOps.go`; the costs of the hooks are 1 unless told
otherwise, as in the gas map of the tests. -/
structure BaseOpsAPICost where
  CreateContract : Nat
  AsyncCallStep : Nat
  AsyncCallbackGasLock : Nat
  GetArgument : Nat := 1
  GetReturnDataSize : Nat := 1
  GetReturnData : Nat := 1
  deriving DecidableEq, Repr

/-- The type `config.GasCost`, restricted to the tables read here. -/
structure GasCost where
  BaseOperationCost : BaseOperationCost
  BaseOpsAPICost : BaseOpsAPICost
  deriving DecidableEq, Repr

/-- The fields of `vmhost.AsyncContextInfo` (declared outside the sources): the
caller, the return data and the pending calls by context identifier. -/
structure AsyncContextInfo where
  CallerAddr : Address
  ReturnData : Bytes
  AsyncContextMap : List (Bytes × List Bytes)
  deriving DecidableEq, Repr

/-! ## Output -/

/-- The type `vmcommon.OutputTransfer`. -/
structure OutputTransfer where
  Value : Int
  GasLimit : Nat
  GasLocked : Nat
  Data : Bytes
  CallType : CallType
  SenderAddress : Address
  deriving DecidableEq, Repr

/-- The type `vmcommon.OutputAccount`. -/
structure OutputAccount where
  Address : Address
  Nonce : Nat
  BalanceDelta : Int
  StorageUpdates : List (Bytes × Bytes)
  Code : Bytes
  CodeMetadata : Bytes
  OutputTransfers : List OutputTransfer
  GasUsed : Nat
  CodeDeployerAddress : VMHost.Address := []
  deriving DecidableEq, Repr

/-- The type `vmcommon.LogEntry`. -/
structure LogEntry where
  Address : Address
  Topics : List Bytes
  Data : Bytes
  deriving DecidableEq, Repr

/-- The type `vmcommon.VMOutput`: it is also the active state of the Output
context. -/
structure VMOutput where
  ReturnData : List Bytes
  ReturnCode : ReturnCode
  ReturnMessage : String
  GasRemaining : Nat
  GasRefund : Nat
  OutputAccounts : List (Address × OutputAccount)
  DeletedAccounts : List Address
  Logs : List LogEntry
  deriving DecidableEq, Repr

/-! ## The contexts of a host -/

/-- The frame fields that `meteringContext.PushState` copies. -/
structure meteringFrame where
  initialGasProvided : Nat
  initialCost : Nat
  gasForExecution : Nat
  deriving DecidableEq, Repr

/-- The type `contractGasState`. -/
structure contractGasState where
  forwarded : Nat
  returned : Nat
  deriving DecidableEq, Repr

/-- The type `meteringContext` (the `host` field is the enclosing `vmHost`). The
Go map `gasStates` is an association list. -/
structure meteringContext where
  stateStack : List meteringFrame
  gasSchedule : GasCost
  blockGasLimit : Nat
  initialGasProvided : Nat
  initialCost : Nat
  gasForExecution : Nat
  gasStates : List (Address × contractGasState)
  totalUsedGas : Nat
  deriving DecidableEq, Repr

/-- Modelled from the spec: a snapshot of the Runtime context (the file
`contexts/runtime.go` is not among the sources): the call input, the contract
address, the function, the read-only flag and the handle of the instance that
was running when the snapshot was taken. The snapshot holds the instance by
reference: the points-used counter stays with the instance. -/
structure runtimeFrame where
  vmInput : VMInput
  scAddress : Address
  callFunction : String
  readOnly : Bool
  asyncContextInfo : AsyncContextInfo
  instanceHandle : Nat
  deriving DecidableEq, Repr

/-- Modelled from the spec: the Runtime context (the file `contexts/runtime.go`
is not among the sources): the active frame, the points-used counter and the
handle of the running instance, the stack of snapshots, and the counters of the
instances that have been suspended, by handle (the latest entry of a handle
comes first). -/
structure runtimeContext where
  vmInput : VMInput
  scAddress : Address
  callFunction : String
  readOnly : Bool
  asyncContextInfo : AsyncContextInfo
  pointsUsed : Nat
  stateStack : List runtimeFrame
  instanceHandle : Nat := 0
  instances : List (Nat × Nat) := []
  deriving DecidableEq, Repr

/-- Modelled from the spec: the Output context (the file `contexts/output.go` is
not among the sources): the active output state and the stack of snapshots. -/
structure outputContext where
  outputState : VMOutput
  stateStack : List VMOutput
  deriving DecidableEq, Repr

/-- Modelled from the spec: the BigInt context (the file `contexts/bigInt.go` is
not among the sources): the values by handle and the stack of snapshots. -/
structure bigIntContext where
  values : List (Nat × Int)
  stateStack : List (List (Nat × Int))
  deriving DecidableEq, Repr

/-- Modelled from the spec: the Storage context (the file `contexts/storage.go`
is not among the sources): the active contract address and the stack of
snapshots. -/
structure storageContext where
  address : Address
  stateStack : List Address
  deriving DecidableEq, Repr

/-- The type `vmHost`: the contexts, the feature flags answered by
`IsVMV2Enabled`, `IsAheadOfTimeCompileEnabled`, `IsDynamicGasLockingEnabled` and
`IsDCDTFunctionsEnabled`, and the names of the protocol builtin functions. The
field `blockChainHook` is an external capability: of its state the host keeps
`builtinCalls`, the inputs its `ProcessBuiltInFunction` has been called with, in
order. -/
structure vmHost where
  bigIntContext : bigIntContext
  meteringContext : meteringContext
  outputContext : outputContext
  runtimeContext : runtimeContext
  storageContext : storageContext
  vmV2Enabled : Bool
  aotEnabled : Bool
  dynGasLockingEnabled : Bool
  dcdtFunctionsEnabled : Bool
  protocolBuiltinFunctions : List String
  builtinCalls : List ContractCallInput := []
  deriving DecidableEq, Repr

/-! ## Runtime context: the operations the metering context calls -/

/-- Modelled from the spec: `GetPointsUsed` of the active runtime instance. -/
def runtimeContext.GetPointsUsed (r : runtimeContext) : Nat :=
  r.pointsUsed

/-- Modelled from the spec: `SetPointsUsed` of the active runtime instance. -/
def runtimeContext.SetPointsUsed (r : runtimeContext) (gasPoints : Nat) : runtimeContext :=
  { r with pointsUsed := gasPoints }

/-- Modelled from the spec: `IsContractOnTheStack` tells whether the address is
the contract of a frame on the live call stack. -/
def runtimeContext.IsContractOnTheStack (r : runtimeContext) (address : Address) : Bool :=
  r.stateStack.any (fun st => decide (st.scAddress = address))

/-- The setter of the points-used counter, seen from the host. -/
def vmHost.SetPointsUsed (host : vmHost) (gasPoints : Nat) : vmHost :=
  { host with runtimeContext := host.runtimeContext.SetPointsUsed gasPoints }

/-! ## Metering context (`vmhost/contexts/metering.go`) -/

namespace meteringContext

/-- The method `InitState`. -/
def InitState (host : vmHost) : vmHost :=
  { host with meteringContext :=
      { host.meteringContext with
        gasStates := []
        initialGasProvided := 0
        initialCost := 0
        gasForExecution := 0 } }

/-- The method `PushState`. -/
def PushState (host : vmHost) : vmHost :=
  let context := host.meteringContext
  let newState : meteringFrame :=
    { initialGasProvided := context.initialGasProvided
      initialCost := context.initialCost
      gasForExecution := context.gasForExecution }
  { host with meteringContext := { context with stateStack := context.stateStack ++ [newState] } }

/-- The method `PopSetActiveState`. -/
def PopSetActiveState (host : vmHost) : vmHost :=
  let context := host.meteringContext
  match context.stateStack.getLast? with
  | none => host
  | some prevState =>
    { host with meteringContext :=
        { context with
          stateStack := context.stateStack.dropLast
          initialGasProvided := prevState.initialGasProvided
          initialCost := prevState.initialCost
          gasForExecution := prevState.gasForExecution } }

/-- The method `PopDiscard`. -/
def PopDiscard (host : vmHost) : vmHost :=
  let context := host.meteringContext
  if context.stateStack.length = 0 then host
  else { host with meteringContext := { context with stateStack := context.stateStack.dropLast } }

/-- The method `ClearStateStack`. -/
def ClearStateStack (host : vmHost) : vmHost :=
  { host with meteringContext := { host.meteringContext with stateStack := [] } }

/-- The method `unlockGasIfAsyncCallback`: the input is mutated, so it is
returned next to the host. -/
def unlockGasIfAsyncCallback (host : vmHost) (input : VMInput) : vmHost × VMInput :=
  if input.CallType ≠ CallType.AsynchronousCallBack then (host, input)
  else
    let gasProvided := AddUint64 input.GasProvided input.GasLocked
    ({ host with meteringContext := { host.meteringContext with gasForExecution := gasProvided } },
     { input with GasProvided := gasProvided, GasLocked := 0 })

/-- The method `InitStateFromContractCallInput`: the input is mutated, so it is
returned next to the host. -/
def InitStateFromContractCallInput (host : vmHost) (input : VMInput) : vmHost × VMInput :=
  let (host, input) := unlockGasIfAsyncCallback host input
  ({ host with meteringContext :=
      { host.meteringContext with
        initialGasProvided := input.GasProvided
        gasForExecution := input.GasProvided
        initialCost := 0 } },
   input)

/-- The method `UseGas`. -/
def UseGas (host : vmHost) (gas : Nat) : vmHost :=
  let gasUsed := AddUint64 host.runtimeContext.GetPointsUsed gas
  host.SetPointsUsed gasUsed

/-- The method `RestoreGas`. -/
def RestoreGas (host : vmHost) (gas : Nat) : vmHost :=
  let gasUsed := host.runtimeContext.GetPointsUsed
  if gas ≤ gasUsed then host.SetPointsUsed (gasUsed - gas) else host

/-- The method `GasLeft`. -/
def GasLeft (host : vmHost) : Nat :=
  let gasProvided := host.meteringContext.gasForExecution
  let gasUsed := host.runtimeContext.GetPointsUsed
  if gasProvided < gasUsed then 0 else gasProvided - gasUsed

/-- The method `getContractGasState`: the entry of the address, created with
zeros when it does not exist. -/
def getContractGasState (host : vmHost) (address : Address) : contractGasState × vmHost :=
  match host.meteringContext.gasStates.lookup address with
  | some state => (state, host)
  | none =>
    let state : contractGasState := { forwarded := 0, returned := 0 }
    (state, { host with meteringContext :=
      { host.meteringContext with gasStates := (address, state) :: host.meteringContext.gasStates } })

/-- Writing through the pointer returned by `getContractGasState`. -/
def setContractGasState (host : vmHost) (address : Address) (state : contractGasState) : vmHost :=
  { host with meteringContext :=
    { host.meteringContext with
      gasStates := host.meteringContext.gasStates.map
        (fun kv => if kv.1 = address then (kv.1, state) else kv) } }

/-- The method `addForwardedGas`. -/
def addForwardedGas (host : vmHost) (address : Address) (gas : Nat) : vmHost :=
  let (state, host) := getContractGasState host address
  setContractGasState host address { state with forwarded := AddUint64 state.forwarded gas }

/-- The method `addReturnedGas`. -/
def addReturnedGas (host : vmHost) (address : Address) (gas : Nat) : vmHost :=
  let (state, host) := getContractGasState host address
  setContractGasState host address { state with returned := AddUint64 state.returned gas }

/-- The method `ForwardGas`. -/
def ForwardGas (host : vmHost) (sourceAddress destAddress : Address) (gas : Nat) : vmHost :=
  let host := addForwardedGas host sourceAddress gas
  let selfCall := decide (sourceAddress = destAddress)
  let alreadyOnExecutionStack := host.runtimeContext.IsContractOnTheStack destAddress
  if selfCall || alreadyOnExecutionStack then addReturnedGas host destAddress gas else host

/-- The method `getTotalForwardedGas`. -/
def getTotalForwardedGas (host : vmHost) (address : Address) : Nat × vmHost :=
  let (state, host) := getContractGasState host address
  ((SubUint64 state.forwarded state.returned).1, host)

/-- The method `GasUsedByContract`: the two results, and the host (the lookup
may create the entry of the running contract). -/
def GasUsedByContract (host : vmHost) : (Nat × Nat) × vmHost :=
  let runtime := host.runtimeContext
  let executionGasUsed := runtime.GetPointsUsed
  let gasUsed := if host.vmV2Enabled then host.meteringContext.initialCost else 0
  let gasUsed := AddUint64 gasUsed executionGasUsed
  let (totalGasForwarded, host) := getTotalForwardedGas host runtime.scAddress
  (SubUint64 gasUsed totalGasForwarded, host)

/-- The method `GasUsedForExecution`. -/
def GasUsedForExecution (host : vmHost) : Nat × vmHost :=
  let ((gasUsed, _), host) := GasUsedByContract host
  ((SubUint64 gasUsed host.meteringContext.initialCost).1, host)

/-- The method `GasSpentByContract`. -/
def GasSpentByContract (host : vmHost) : Nat :=
  let executionGasUsed := host.runtimeContext.GetPointsUsed
  let gasSpent := if host.vmV2Enabled then host.meteringContext.initialCost else 0
  AddUint64 gasSpent executionGasUsed

/-- The method `GetGasForExecution`. -/
def GetGasForExecution (host : vmHost) : Nat :=
  host.meteringContext.gasForExecution

/-- The method `GetGasProvided`. -/
def GetGasProvided (host : vmHost) : Nat :=
  host.meteringContext.initialGasProvided

/-- The method `GetSCPrepareInitialCost`. -/
def GetSCPrepareInitialCost (host : vmHost) : Nat :=
  host.meteringContext.initialCost

/-- The method `UseGasBounded`. -/
def UseGasBounded (host : vmHost) (gasToUse : Nat) : Option VMError × vmHost :=
  if GasLeft host ≤ gasToUse then (some VMError.ErrNotEnoughGas, host)
  else (none, UseGas host gasToUse)

/-- The method `UseGasForAsyncStep`. -/
def UseGasForAsyncStep (host : vmHost) : Option VMError × vmHost :=
  let gasSchedule := host.meteringContext.gasSchedule.BaseOpsAPICost
  let gasToDeduct := gasSchedule.AsyncCallStep
  UseGasBounded host gasToDeduct

/-- The method `deductInitialGas`. -/
def deductInitialGas (host : vmHost) (code : Bytes) (baseCost costPerByte : Nat) :
    Option VMError × vmHost :=
  let input := host.runtimeContext.vmInput
  let codeLength := code.length
  let codeCost := MulUint64 codeLength costPerByte
  let initialCost := AddUint64 baseCost codeCost
  if initialCost > input.GasProvided then (some VMError.ErrNotEnoughGas, host)
  else
    (none, { host with meteringContext :=
      { host.meteringContext with
        initialCost := initialCost
        gasForExecution := input.GasProvided - initialCost } })

/-- The method `DeductInitialGasForExecution`. -/
def DeductInitialGasForExecution (host : vmHost) (contract : Bytes) : Option VMError × vmHost :=
  let schedule := host.meteringContext.gasSchedule.BaseOperationCost
  let costPerByte := if host.aotEnabled then schedule.AoTPreparePerByte else schedule.CompilePerByte
  let baseCost := if host.aotEnabled then schedule.GetCode else 0
  deductInitialGas host contract baseCost costPerByte

/-- The method `DeductInitialGasForDirectDeployment`. -/
def DeductInitialGasForDirectDeployment (host : vmHost) (input : CodeDeployInput) :
    Option VMError × vmHost :=
  deductInitialGas host input.ContractCode
    host.meteringContext.gasSchedule.BaseOpsAPICost.CreateContract
    host.meteringContext.gasSchedule.BaseOperationCost.CompilePerByte

/-- The method `DeductInitialGasForIndirectDeployment`. -/
def DeductInitialGasForIndirectDeployment (host : vmHost) (input : CodeDeployInput) :
    Option VMError × vmHost :=
  deductInitialGas host input.ContractCode 0
    host.meteringContext.gasSchedule.BaseOperationCost.CompilePerByte

/-- The method `SetTotalUsedGas`. -/
def SetTotalUsedGas (host : vmHost) (total : Nat) : vmHost :=
  { host with meteringContext := { host.meteringContext with totalUsedGas := total } }

/-- The method `GetPreviousTotalUsedGas`. -/
def GetPreviousTotalUsedGas (host : vmHost) : Nat :=
  host.meteringContext.totalUsedGas

end meteringContext

/-! ## State stacks of the Runtime, Output, BigInt and Storage contexts -/

namespace runtimeContext

/-- Modelled from the spec: the points-used counter of the instance with the
given handle: the counter of the running instance, or the one kept for a
suspended instance. -/
def pointsUsedOf (r : runtimeContext) (handle : Nat) : Nat :=
  if handle = r.instanceHandle then r.pointsUsed
  else (r.instances.lookup handle).getD 0

/-- Modelled from the spec: the points-used counter of the instance of the
caller, the instance that the top snapshot of the state stack holds. -/
def callerPointsUsed (r : runtimeContext) : Option Nat :=
  r.stateStack.getLast?.map (fun prevState => r.pointsUsedOf prevState.instanceHandle)

/-- Modelled from the spec: a handle that neither the running instance nor a
snapshot of the state stack has. -/
def freshInstance (r : runtimeContext) : Nat :=
  (r.stateStack.map (fun st => st.instanceHandle)).foldr max r.instanceHandle + 1

/-- Modelled from the spec: the start of an instance for a callee: the running
instance is suspended with its counter, and a new instance, which has used no
points, runs in its place. -/
def startInstance (r : runtimeContext) : runtimeContext :=
  { r with
    instances := (r.instanceHandle, r.pointsUsed) :: r.instances
    instanceHandle := r.freshInstance
    pointsUsed := 0 }

/-- Modelled from the spec: `PushState` of the Runtime context snapshots the
frame fields onto the stack, with the handle of the running instance (the
instance itself is not copied, so what is charged on it after the push stays
charged). -/
def PushState (host : vmHost) : vmHost :=
  let context := host.runtimeContext
  let newState : runtimeFrame :=
    { vmInput := context.vmInput
      scAddress := context.scAddress
      callFunction := context.callFunction
      readOnly := context.readOnly
      asyncContextInfo := context.asyncContextInfo
      instanceHandle := context.instanceHandle }
  { host with runtimeContext := { context with stateStack := context.stateStack ++ [newState] } }

/-- Modelled from the spec: `PopSetActiveState` of the Runtime context restores
the top snapshot as current and discards it from the stack; the instance of the
snapshot runs again, with the counter it has: the one of the running instance
when it is the same instance, the one it was suspended with otherwise. -/
def PopSetActiveState (host : vmHost) : vmHost :=
  let context := host.runtimeContext
  match context.stateStack.getLast? with
  | none => host
  | some prevState =>
    { host with runtimeContext :=
        { vmInput := prevState.vmInput
          scAddress := prevState.scAddress
          callFunction := prevState.callFunction
          readOnly := prevState.readOnly
          asyncContextInfo := prevState.asyncContextInfo
          pointsUsed := context.pointsUsedOf prevState.instanceHandle
          stateStack := context.stateStack.dropLast
          instanceHandle := prevState.instanceHandle
          instances := context.instances } }

/-- Modelled from the spec: `InitStateFromContractCallInput` of the Runtime
context rebinds the frame to the callee of the input. -/
def InitStateFromContractCallInput (host : vmHost) (input : ContractCallInput) : vmHost :=
  { host with runtimeContext :=
      { host.runtimeContext with
        vmInput := input.VMInput
        scAddress := input.RecipientAddr
        callFunction := input.Function
        asyncContextInfo :=
          { CallerAddr := input.VMInput.CallerAddr, ReturnData := [], AsyncContextMap := [] } } }

end runtimeContext

namespace bigIntContext

/-- Modelled from the spec: `InitState` of the BigInt context resets it to a
fresh zero state. -/
def InitState (host : vmHost) : vmHost :=
  { host with bigIntContext := { host.bigIntContext with values := [] } }

/-- Modelled from the spec: `PushState` of the BigInt context. -/
def PushState (host : vmHost) : vmHost :=
  let context := host.bigIntContext
  { host with bigIntContext := { context with stateStack := context.stateStack ++ [context.values] } }

/-- Modelled from the spec: `PopSetActiveState` of the BigInt context. -/
def PopSetActiveState (host : vmHost) : vmHost :=
  let context := host.bigIntContext
  match context.stateStack.getLast? with
  | none => host
  | some prevState =>
    { host with bigIntContext := { values := prevState, stateStack := context.stateStack.dropLast } }

/-- Modelled from the spec: `PopDiscard` of the BigInt context. -/
def PopDiscard (host : vmHost) : vmHost :=
  let context := host.bigIntContext
  if context.stateStack.length = 0 then host
  else { host with bigIntContext := { context with stateStack := context.stateStack.dropLast } }

end bigIntContext

namespace storageContext

/-- Modelled from the spec: `SetAddress` of the Storage context scopes it to a
contract address. -/
def SetAddress (host : vmHost) (address : Address) : vmHost :=
  { host with storageContext := { host.storageContext with address := address } }

/-- Modelled from the spec: `PushState` of the Storage context. -/
def PushState (host : vmHost) : vmHost :=
  let context := host.storageContext
  { host with storageContext := { context with stateStack := context.stateStack ++ [context.address] } }

/-- Modelled from the spec: `PopSetActiveState` of the Storage context. -/
def PopSetActiveState (host : vmHost) : vmHost :=
  let context := host.storageContext
  match context.stateStack.getLast? with
  | none => host
  | some prevState =>
    { host with storageContext := { address := prevState, stateStack := context.stateStack.dropLast } }

end storageContext

/-- Modelled from the spec: the message of an error value (`err.Error()`). -/
def VMError.Error : VMError → String
  | .ErrNotEnoughGas => "not enough gas"
  | .ErrExecutionFailed => "execution failed"
  | .ErrBuiltinCallOnSameContextDisallowed => "calling built-in function on the same context is disallowed"
  | .ErrInitFuncCalledInRun => "it is not allowed to call init in run"
  | .ErrReturnCodeNotOk => "return code is not ok"
  | .ErrContractNotFound => "contract not found"
  | .ErrContractInvalid => "invalid contract code"
  | .ErrSignalError => "error signalled by smartcontract"
  | .ErrTransferInsufficientFunds => "insufficient funds for transfer"
  | .ErrCallBackFuncCalledInRun => "it is not allowed to call callBack in run"
  | .ErrInvalidCallOnReadOnlyMode => "operation not permitted in read only mode"
  | .ErrDeploymentOverExistingAccount => "cannot deploy over existing account"
  | .ErrNilCallbackFunction => "nil callback function"
  | .ErrNilContract => "nil contract"
  | .ErrUpgradeNotAllowed => "upgrade not allowed"
  | .ErrInvalidUpgradeArguments => "invalid upgrade arguments"
  | .other msg => msg

namespace outputContext

/-- Modelled from the spec: `PushState` of the Output context snapshots the
active output state onto the stack. -/
def PushState (host : vmHost) : vmHost :=
  let context := host.outputContext
  { host with outputContext := { context with stateStack := context.stateStack ++ [context.outputState] } }

/-- Modelled from the spec: `PopSetActiveState` of the Output context restores
the top snapshot verbatim and discards it from the stack. -/
def PopSetActiveState (host : vmHost) : vmHost :=
  let context := host.outputContext
  match context.stateStack.getLast? with
  | none => host
  | some prevState =>
    { host with outputContext := { outputState := prevState, stateStack := context.stateStack.dropLast } }

/-- Modelled from the spec: `PopDiscard` of the Output context discards the top
snapshot without restoring it. -/
def PopDiscard (host : vmHost) : vmHost :=
  let context := host.outputContext
  if context.stateStack.length = 0 then host
  else { host with outputContext := { context with stateStack := context.stateStack.dropLast } }

/-- Modelled from the spec: storage updates of the child overwrite those of the
parent by key. -/
def mergeStorageUpdates (left right : List (Bytes × Bytes)) : List (Bytes × Bytes) :=
  right.foldl (fun acc kv => (acc.filter (fun e => decide (e.1 ≠ kv.1))) ++ [kv]) left

/-- Modelled from the spec: merging the output account of the child into the one
of the parent: balance deltas sum, storage updates overwrite by key, transfer
lists concatenate. -/
def mergeOutputAccounts (left right : OutputAccount) : OutputAccount :=
  { left with
    Nonce := if right.Nonce > left.Nonce then right.Nonce else left.Nonce
    BalanceDelta := left.BalanceDelta + right.BalanceDelta
    StorageUpdates := mergeStorageUpdates left.StorageUpdates right.StorageUpdates
    Code := if right.Code.length > 0 then right.Code else left.Code
    CodeMetadata := if right.CodeMetadata.length > 0 then right.CodeMetadata else left.CodeMetadata
    OutputTransfers := left.OutputTransfers ++ right.OutputTransfers
    GasUsed := right.GasUsed }

/-- Modelled from the spec: merging the output of the child additively into the
snapshot of the parent. -/
def mergeVMOutputs (left right : VMOutput) : VMOutput :=
  { ReturnData := left.ReturnData ++ right.ReturnData
    ReturnCode := right.ReturnCode
    ReturnMessage := right.ReturnMessage
    GasRemaining := right.GasRemaining
    GasRefund := right.GasRefund
    OutputAccounts :=
      right.OutputAccounts.foldl
        (fun acc kv =>
          match acc.lookup kv.1 with
          | some l =>
            acc.map (fun e => if e.1 = kv.1 then (e.1, mergeOutputAccounts l kv.2) else e)
          | none => acc ++ [kv])
        left.OutputAccounts
    DeletedAccounts := left.DeletedAccounts ++ right.DeletedAccounts
    Logs := left.Logs ++ right.Logs }

/-- Modelled from the spec: `PopMergeActiveState` of the Output context pops the
top snapshot and merges the active output of the child into it. -/
def PopMergeActiveState (host : vmHost) : vmHost :=
  let context := host.outputContext
  match context.stateStack.getLast? with
  | none => host
  | some prevState =>
    { host with outputContext :=
        { outputState := mergeVMOutputs prevState context.outputState
          stateStack := context.stateStack.dropLast } }

/-- Modelled from the spec: `CensorVMOutput` strips the return data and the logs
accumulated by the current frame from the active output. -/
def CensorVMOutput (host : vmHost) : vmHost :=
  { host with outputContext :=
      { host.outputContext with
        outputState := { host.outputContext.outputState with ReturnData := [], Logs := [] } } }

/-- Modelled from the spec: the return code of an error; `NotEnoughGas` becomes
`OutOfGas`, and no error is turned into `Ok`. The entry-point errors give
`UserError`, as `TestExecution_CallSCMethod` expects. -/
def resolveReturnCodeFromError : VMError → ReturnCode
  | .ErrNotEnoughGas => ReturnCode.OutOfGas
  | .ErrInitFuncCalledInRun => ReturnCode.UserError
  | .ErrCallBackFuncCalledInRun => ReturnCode.UserError
  | .ErrContractNotFound => ReturnCode.ContractNotFound
  | .ErrContractInvalid => ReturnCode.ContractInvalid
  | .ErrSignalError => ReturnCode.UserError
  | .ErrTransferInsufficientFunds => ReturnCode.OutOfFunds
  | _ => ReturnCode.ExecutionFailed

/-- Modelled from the spec: `CreateVMOutputInCaseOfError` builds a terminal
output with the return code and message of the error, zero gas remaining and no
output accounts. -/
def CreateVMOutputInCaseOfError (err : VMError) : VMOutput :=
  { ReturnData := []
    ReturnCode := resolveReturnCodeFromError err
    ReturnMessage := err.Error
    GasRemaining := 0
    GasRefund := 0
    OutputAccounts := []
    DeletedAccounts := []
    Logs := [] }

/-- The method `ReturnCode` of the Output context. -/
def ReturnCode (host : vmHost) : VMHost.ReturnCode :=
  host.outputContext.outputState.ReturnCode

end outputContext

/-! ## Nested calls (`vmhost/hostCore/execution.go`) -/

/-- The parts of a nested call that end outside the sources: the methods of the
Output context that work on its active state (`TransferValueOnly`,
`GetVMOutput`, `GetCurrentTotalUsedGas`), the execution of the callee, which
ends in the bytecode engine (`execute`), and `processAsyncInfo`. -/
structure Collaborators where
  TransferValueOnly : vmHost → Address → Address → Int → Bool → Option VMError × VMOutput
  GetVMOutput : vmHost → VMOutput × VMOutput
  GetCurrentTotalUsedGas : vmHost → Nat × Bool
  execute : vmHost → ContractCallInput → (Nat × Option VMError) × vmHost
  processAsyncInfo : vmHost → AsyncContextInfo → Option VMError × vmHost

/-- Replacing the active state of the Output context. -/
def vmHost.setOutputState (host : vmHost) (out : VMOutput) : vmHost :=
  { host with outputContext := { host.outputContext with outputState := out } }

/-- The depths of the BigInt, Output, Runtime, Metering and Storage state
stacks. -/
def vmHost.stackDepths (host : vmHost) : Nat × Nat × Nat × Nat × Nat :=
  (host.bigIntContext.stateStack.length, host.outputContext.stateStack.length,
   host.runtimeContext.stateStack.length, host.meteringContext.stateStack.length,
   host.storageContext.stateStack.length)

/-- The function `copyTxHashesFromContext`. -/
def copyTxHashesFromContext (copyEnabled : Bool) (runtime : runtimeContext)
    (input : ContractCallInput) : ContractCallInput :=
  if !copyEnabled then input
  else
    let currentVMInput := runtime.vmInput
    let input :=
      if currentVMInput.OriginalTxHash.length > 0 then
        { input with VMInput := { input.VMInput with OriginalTxHash := currentVMInput.OriginalTxHash } }
      else input
    let input :=
      if currentVMInput.CurrentTxHash.length > 0 then
        { input with VMInput := { input.VMInput with CurrentTxHash := currentVMInput.CurrentTxHash } }
      else input
    if currentVMInput.PrevTxHash.length > 0 then
      { input with VMInput := { input.VMInput with PrevTxHash := currentVMInput.PrevTxHash } }
    else input

/-- The method `IsBuiltinFunctionName`. -/
def vmHost.IsBuiltinFunctionName (host : vmHost) (functionName : String) : Bool :=
  host.protocolBuiltinFunctions.contains functionName

/-- The method `computeGasUsedBefore`. -/
def computeGasUsedBefore (E : Collaborators) (host : vmHost) : vmHost :=
  let (gasUsed, _) := E.GetCurrentTotalUsedGas host
  meteringContext.SetTotalUsedGas host gasUsed

/-- The method `finishExecuteOnDestContext`. -/
def finishExecuteOnDestContext (E : Collaborators) (host : vmHost) (executeErr : Option VMError) :
    VMOutput × vmHost :=
  let (vmOutput, host) :=
    match executeErr with
    | some err => (outputContext.CreateVMOutputInCaseOfError err, host)
    | none =>
      let (vmOutput, out) := E.GetVMOutput host
      (vmOutput, host.setOutputState out)
  let childContract := host.runtimeContext.scAddress
  let gasSpentByChildContract := meteringContext.GasSpentByContract host
  let gasSpentByChildContract :=
    if vmOutput.ReturnCode ≠ ReturnCode.Ok then 0 else gasSpentByChildContract
  let host := bigIntContext.PopSetActiveState host
  let host := meteringContext.PopSetActiveState host
  let host := runtimeContext.PopSetActiveState host
  let host := storageContext.PopSetActiveState host
  let host := meteringContext.RestoreGas host vmOutput.GasRemaining
  let host := meteringContext.ForwardGas host host.runtimeContext.scAddress childContract
    gasSpentByChildContract
  let host :=
    if vmOutput.ReturnCode = ReturnCode.Ok then outputContext.PopMergeActiveState host
    else outputContext.PopSetActiveState host
  (vmOutput, host)

/-- The opening of `ExecuteOnDestContext`, up to the `defer`: every context is
pushed and bound to the callee. The input is mutated (transaction hashes, gas
unlocking), and the Runtime context holds a pointer to it, so both see the
unlocked gas. -/
def enterExecuteOnDestContext (E : Collaborators) (host : vmHost) (input : ContractCallInput) :
    vmHost × ContractCallInput :=
  let host := bigIntContext.PushState host
  let host := bigIntContext.InitState host
  let host := outputContext.PushState host
  let host := outputContext.CensorVMOutput host
  let input := copyTxHashesFromContext host.dcdtFunctionsEnabled host.runtimeContext input
  let host := runtimeContext.PushState host
  let host := runtimeContext.InitStateFromContractCallInput host input
  let host := meteringContext.PushState host
  let (host, vmInput) := meteringContext.InitStateFromContractCallInput host input.VMInput
  let input := { input with VMInput := vmInput }
  let host := { host with runtimeContext := { host.runtimeContext with vmInput := vmInput } }
  let host := computeGasUsedBefore E host
  let host := storageContext.PushState host
  let host := storageContext.SetAddress host host.runtimeContext.scAddress
  (host, input)

/-- The results of `ExecuteOnDestContext`. -/
structure DestContextResult where
  vmOutput : VMOutput
  asyncInfo : Option AsyncContextInfo
  gasUsedBeforeReset : Nat
  err : Option VMError
  host : vmHost

/-- The body of `ExecuteOnDestContext` between the `defer` and the return: the
value transfer, the execution and the processing of the async info. It gives
the named results `asyncInfo`, `gasUsedBeforeReset` and `err`, and the host. -/
def bodyExecuteOnDestContext (E : Collaborators) (host : vmHost) (input : ContractCallInput) :
    Option AsyncContextInfo × Nat × Option VMError × vmHost :=
  let transfer : Option VMError × vmHost :=
    if input.VMInput.CallType ≠ CallType.AsynchronousCallBack ∨ input.VMInput.CallValue = 0 then
      let (err, out) := E.TransferValueOnly host input.RecipientAddr input.VMInput.CallerAddr
        input.VMInput.CallValue false
      (err, host.setOutputState out)
    else (none, host)
  match transfer with
  | (some err, host) => (none, 0, some err, host)
  | (none, host) =>
    match E.execute host input with
    | ((gasUsedBeforeReset, some err), host) => (none, gasUsedBeforeReset, some err, host)
    | ((gasUsedBeforeReset, none), host) =>
      let asyncInfo := host.runtimeContext.asyncContextInfo
      let (err, host) := E.processAsyncInfo host asyncInfo
      (some asyncInfo, gasUsedBeforeReset, err, host)

/-- The method `ExecuteOnDestContext`: the opening, the body, and the deferred
function, which runs on every return. -/
def ExecuteOnDestContext (E : Collaborators) (host : vmHost) (input : ContractCallInput) :
    DestContextResult :=
  let (host, input) := enterExecuteOnDestContext E host input
  let (asyncInfo, gasUsedBeforeReset, err, host) := bodyExecuteOnDestContext E host input
  let (vmOutput, host) := finishExecuteOnDestContext E host err
  let host := meteringContext.SetTotalUsedGas host 0
  let err :=
    if err = none ∧ vmOutput.ReturnCode ≠ ReturnCode.Ok then some VMError.ErrExecutionFailed
    else err
  { vmOutput := vmOutput, asyncInfo := asyncInfo, gasUsedBeforeReset := gasUsedBeforeReset,
    err := err, host := host }

/-- The method `finishExecuteOnSameContext`. -/
def finishExecuteOnSameContext (E : Collaborators) (host : vmHost) (executeErr : Option VMError) :
    vmHost :=
  if outputContext.ReturnCode host ≠ ReturnCode.Ok ∨ executeErr ≠ none then
    let host := bigIntContext.PopSetActiveState host
    let host := meteringContext.PopSetActiveState host
    let host := outputContext.PopSetActiveState host
    runtimeContext.PopSetActiveState host
  else
    let childContract := host.runtimeContext.scAddress
    let (vmOutput, out) := E.GetVMOutput host
    let host := host.setOutputState out
    let gasSpentByContract := meteringContext.GasSpentByContract host
    let gasSpentByContract := if vmOutput.ReturnCode ≠ ReturnCode.Ok then 0 else gasSpentByContract
    let host := bigIntContext.PopDiscard host
    let host := outputContext.PopDiscard host
    let host := meteringContext.PopSetActiveState host
    let host := runtimeContext.PopSetActiveState host
    let host := meteringContext.RestoreGas host vmOutput.GasRemaining
    meteringContext.ForwardGas host host.runtimeContext.scAddress childContract gasSpentByContract

/-- The opening of `ExecuteOnSameContext` after the builtin check, up to the
`defer`: the BigInt, Output, Runtime and Metering contexts are backed up. -/
def enterExecuteOnSameContext (host : vmHost) (input : ContractCallInput) :
    vmHost × ContractCallInput :=
  let host := bigIntContext.PushState host
  let host := outputContext.PushState host
  let input := copyTxHashesFromContext host.dcdtFunctionsEnabled host.runtimeContext input
  let host := runtimeContext.PushState host
  let host := runtimeContext.InitStateFromContractCallInput host input
  let host := meteringContext.PushState host
  let (host, vmInput) := meteringContext.InitStateFromContractCallInput host input.VMInput
  let input := { input with VMInput := vmInput }
  let host := { host with runtimeContext := { host.runtimeContext with vmInput := vmInput } }
  (host, input)

/-- The body of `ExecuteOnSameContext` between the `defer` and the return. -/
def bodyExecuteOnSameContext (E : Collaborators) (host : vmHost) (input : ContractCallInput) :
    Option AsyncContextInfo × Option VMError × vmHost :=
  let (err, out) := E.TransferValueOnly host input.RecipientAddr input.VMInput.CallerAddr
    input.VMInput.CallValue false
  let host := host.setOutputState out
  match err with
  | some err => (none, some err, host)
  | none =>
    match E.execute host input with
    | ((_, some err), host) => (none, some err, host)
    | ((_, none), host) => (some host.runtimeContext.asyncContextInfo, none, host)

/-- The method `ExecuteOnSameContext`. -/
def ExecuteOnSameContext (E : Collaborators) (host : vmHost) (input : ContractCallInput) :
    Option AsyncContextInfo × Option VMError × vmHost :=
  if host.IsBuiltinFunctionName input.Function then
    (none, some VMError.ErrBuiltinCallOnSameContextDisallowed, host)
  else
    let (host, input) := enterExecuteOnSameContext host input
    let (asyncInfo, err, host) := bodyExecuteOnSameContext E host input
    let host := finishExecuteOnSameContext E host err
    (asyncInfo, err, host)

/-! ## Scenario helpers -/

/-- The gas recorded as forwarded by an address (zero when it has no entry). -/
def forwardedOf (host : vmHost) (address : Address) : Nat :=
  match host.meteringContext.gasStates.lookup address with
  | some state => state.forwarded
  | none => 0

/-- The gas recorded as returned to an address (zero when it has no entry). -/
def returnedOf (host : vmHost) (address : Address) : Nat :=
  match host.meteringContext.gasStates.lookup address with
  | some state => state.returned
  | none => 0

/-- Binding a VM input to a frame as the callers of the metering context do: the
Runtime context holds a pointer to the very input that
`InitStateFromContractCallInput` mutates. -/
def bindVMInput (host : vmHost) (input : VMInput) : vmHost :=
  let (host, input) := meteringContext.InitStateFromContractCallInput host input
  { host with runtimeContext := { host.runtimeContext with vmInput := input } }

/-- The three initial deductions of the metering context. -/
inductive DeductCall where
  | forExecution (contract : Bytes)
  | forDirectDeployment (input : CodeDeployInput)
  | forIndirectDeployment (input : CodeDeployInput)
  deriving DecidableEq, Repr

/-- Running one initial deduction; its error, if any, is dropped and the host is
kept. -/
def DeductCall.run (host : vmHost) : DeductCall → vmHost
  | .forExecution contract => (meteringContext.DeductInitialGasForExecution host contract).2
  | .forIndirectDeployment input => (meteringContext.DeductInitialGasForIndirectDeployment host input).2
  | .forDirectDeployment input => (meteringContext.DeductInitialGasForDirectDeployment host input).2

/-- Running a sequence of initial deductions, successful or failed. -/
def runDeductCalls (host : vmHost) (calls : List DeductCall) : vmHost :=
  calls.foldl DeductCall.run host

/-- The entry into a child frame as in `TestMeteringContext_GasUsed_StackOneLevel`:
the parent charges the gas of the child on its own instance, the runtime is
bound to the child with a fresh instance, and the metering context pushes its
state and is initialised from the input of the child. -/
def enterChildFrame (host : vmHost) (child : Address) (childInput : VMInput) : vmHost :=
  let host := meteringContext.UseGas host childInput.GasProvided
  let host := { host with runtimeContext :=
    { host.runtimeContext with scAddress := child, pointsUsed := 0, vmInput := childInput } }
  let host := meteringContext.PushState host
  bindVMInput host childInput

/-- The return to the parent as in `TestMeteringContext_GasUsed_StackOneLevel`:
the metering state is popped, the runtime of the parent (its address, its input
and its points used) is put back, the remaining gas `r` of the child is
restored and the gas `u` used by the child is forwarded. -/
def returnToParentFrame (parentRuntime : runtimeContext) (host : vmHost) (child : Address)
    (r u : Nat) : vmHost :=
  let host := meteringContext.PopSetActiveState host
  let host := { host with runtimeContext := parentRuntime }
  let host := meteringContext.RestoreGas host r
  meteringContext.ForwardGas host parentRuntime.scAddress child u

/-- The invariant of the frame fields kept by the initial deductions: the gas for
execution is the gas provided less the initial cost, the initial cost does not
exceed the gas provided, and the gas provided is the one of the input held by the
Runtime context. -/
def FrameInvariant (host : vmHost) : Prop :=
  host.meteringContext.gasForExecution =
      host.meteringContext.initialGasProvided - host.meteringContext.initialCost ∧
    host.meteringContext.initialCost ≤ host.meteringContext.initialGasProvided ∧
    host.meteringContext.initialGasProvided = host.runtimeContext.vmInput.GasProvided

/-- The nested steps keep the depth of every state stack. -/
def Collaborators.DepthPreserving (E : Collaborators) : Prop :=
  (∀ host input, (E.execute host input).2.stackDepths = host.stackDepths) ∧
  (∀ host asyncInfo, (E.processAsyncInfo host asyncInfo).2.stackDepths = host.stackDepths)

/-- The nested steps leave the state stack of the Output context as they found
it. -/
def Collaborators.KeepsOutputStack (E : Collaborators) : Prop :=
  (∀ host input,
    (E.execute host input).2.outputContext.stateStack = host.outputContext.stateStack) ∧
  (∀ host asyncInfo,
    (E.processAsyncInfo host asyncInfo).2.outputContext.stateStack =
      host.outputContext.stateStack)

/-! ## Concrete hosts and inputs -/

/-- An input of the given call type, gas provided and gas locked, every other
field empty. -/
def testVMInput (callType : CallType) (gasProvided gasLocked : Nat) : VMInput :=
  { CallerAddr := [], Arguments := [], CallValue := 0, CallType := callType,
    GasPrice := 0, GasProvided := gasProvided, GasLocked := gasLocked, OriginalTxHash := [],
    CurrentTxHash := [], PrevTxHash := [] }

/-- A host with every stack empty, the gas schedule of the tests (every cost
is 1), V2 metering and ahead-of-time compilation enabled, running the contract
at the given address. -/
def testHost (scAddress : Address) : vmHost :=
  { bigIntContext := { values := [], stateStack := [] }
    meteringContext :=
      { stateStack := []
        gasSchedule :=
          { BaseOperationCost := { CompilePerByte := 1, AoTPreparePerByte := 1, GetCode := 1 }
            BaseOpsAPICost := { CreateContract := 1, AsyncCallStep := 1, AsyncCallbackGasLock := 1 } }
        blockGasLimit := 15000
        initialGasProvided := 0
        initialCost := 0
        gasForExecution := 0
        gasStates := []
        totalUsedGas := 0 }
    outputContext :=
      { outputState :=
          { ReturnData := [], ReturnCode := ReturnCode.Ok, ReturnMessage := "", GasRemaining := 0,
            GasRefund := 0, OutputAccounts := [], DeletedAccounts := [], Logs := [] }
        stateStack := [] }
    runtimeContext :=
      { vmInput := testVMInput CallType.DirectCall 0 0, scAddress := scAddress,
        callFunction := "", readOnly := false,
        asyncContextInfo := { CallerAddr := [], ReturnData := [], AsyncContextMap := [] },
        pointsUsed := 0, stateStack := [] }
    storageContext := { address := scAddress, stateStack := [] }
    vmV2Enabled := true
    aotEnabled := true
    dynGasLockingEnabled := false
    dcdtFunctionsEnabled := false
    protocolBuiltinFunctions := [] }

/-- The frame of `TestMeteringContext_GasUsed_NoStacking`, with the given gas
provided and the given ledger: a contract of 1000 bytes is charged, then 400
points are used. -/
def testFrame (scAddress : Address) (input : VMInput)
    (gasStates : List (Address × contractGasState)) : vmHost :=
  let host := testHost scAddress
  let host := { host with meteringContext := { host.meteringContext with gasStates := gasStates } }
  let host := bindVMInput host input
  let host := (meteringContext.DeductInitialGasForExecution host (List.replicate 1000 0)).2
  meteringContext.UseGas host 400

/-- The end of the child frame of `TestMeteringContext_GasUsed_StackOneLevel`: the
child is entered with 500 gas, a contract of 100 bytes is charged and 50 points
are used. -/
def testChildEnd (parent : vmHost) (child : Address) : vmHost :=
  let host := enterChildFrame parent child (testVMInput CallType.DirectCall 500 0)
  let host := (meteringContext.DeductInitialGasForExecution host (List.replicate 100 0)).2
  meteringContext.UseGas host 50

/-- The host `testHost` after the running contract has finished one value, written
one log and received a balance of 10 in its output account. -/
def testHostWithOutput (scAddress : Address) : vmHost :=
  (testHost scAddress).setOutputState
    { ReturnData := [[7]], ReturnCode := ReturnCode.Ok, ReturnMessage := "", GasRemaining := 0,
      GasRefund := 0,
      OutputAccounts :=
        [(scAddress,
          { Address := scAddress, Nonce := 0, BalanceDelta := 10, StorageUpdates := [([1], [2])],
            Code := [], CodeMetadata := [], OutputTransfers := [], GasUsed := 0 })],
      DeletedAccounts := [],
      Logs := [{ Address := scAddress, Topics := [[4]], Data := [5] }] }

/-- Collaborators of a callee that receives the value, writes return data and a
log, and then fails for lack of gas; as in `executeSmartContractCall`, the gas
provided is charged on the instance of the caller and the callee runs on an
instance of its own. -/
def failingCollaborators : Collaborators :=
  { TransferValueOnly := fun host destination _ value _ =>
      (none, { host.outputContext.outputState with
        OutputAccounts := host.outputContext.outputState.OutputAccounts ++
          [(destination,
            { Address := destination, Nonce := 0, BalanceDelta := value, StorageUpdates := [],
              Code := [], CodeMetadata := [], OutputTransfers := [], GasUsed := 0 })] })
    GetVMOutput := fun host => (host.outputContext.outputState, host.outputContext.outputState)
    GetCurrentTotalUsedGas := fun _ => (0, false)
    execute := fun host input =>
      let host := meteringContext.UseGas host input.VMInput.GasProvided
      let host := { host with runtimeContext := host.runtimeContext.startInstance }
      ((0, some VMError.ErrNotEnoughGas),
        host.setOutputState { host.outputContext.outputState with
          ReturnData := [[1]]
          Logs := [{ Address := [2], Topics := [], Data := [3] }] })
    processAsyncInfo := fun host _ => (none, host) }

/-- A call of the function `f` of the contract at `[2]` by the contract at `[1]`,
with value 5 and 500 gas. -/
def testCallInput : ContractCallInput :=
  { VMInput := { testVMInput CallType.DirectCall 500 0 with CallerAddr := [1], CallValue := 5 }
    RecipientAddr := [2]
    Function := "f"
    AllowInitFunction := false }

/-! ## Entry points and indirect deployment (`vmhost/hostCore/execution.go`) -/

/-- The type `vmcommon.ContractCreateInput`. -/
structure ContractCreateInput where
  VMInput : VMInput
  ContractCode : Bytes
  ContractCodeMetadata : Bytes
  deriving DecidableEq, Repr

/-- The reserved function names `InitFunctionName`, `InitFunctionNameEth`,
`CallbackFunctionName` and `UpgradeFunctionName` of package `vmhost`, which are
declared outside the sources. -/
structure FunctionNames where
  InitFunctionName : String
  InitFunctionNameEth : String
  CallbackFunctionName : String
  UpgradeFunctionName : String
  deriving DecidableEq, Repr

namespace outputContext

/-- Modelled from the spec: the output account of an address, created lazily on
first touch. -/
def GetOutputAccount (out : VMOutput) (address : Address) : OutputAccount × VMOutput :=
  match out.OutputAccounts.lookup address with
  | some account => (account, out)
  | none =>
    let account : OutputAccount :=
      { Address := address, Nonce := 0, BalanceDelta := 0, StorageUpdates := [], Code := [],
        CodeMetadata := [], OutputTransfers := [], GasUsed := 0 }
    (account, { out with OutputAccounts := out.OutputAccounts ++ [(address, account)] })

/-- Modelled from the spec: `DeployCode` marks the output account of the contract
address as freshly deployed: it sets the code, the metadata and the deployer. -/
def DeployCode (host : vmHost) (input : CodeDeployInput) : vmHost :=
  let (account, out) := GetOutputAccount host.outputContext.outputState input.ContractAddress
  let newSCAccount : OutputAccount :=
    { account with
      Code := input.ContractCode
      CodeMetadata := input.ContractCodeMetadata
      CodeDeployerAddress := input.CodeDeployerAddress }
  host.setOutputState
    { out with
      OutputAccounts := out.OutputAccounts.map
        (fun kv => if kv.1 = input.ContractAddress then (kv.1, newSCAccount) else kv) }

/-- Modelled from the spec: `DeleteOutputAccount` removes the output account of
the address. -/
def DeleteOutputAccount (host : vmHost) (address : Address) : vmHost :=
  host.setOutputState
    { host.outputContext.outputState with
      OutputAccounts :=
        host.outputContext.outputState.OutputAccounts.filter (fun kv => decide (kv.1 ≠ address)) }

/-- Modelled from the spec: `SetReturnCode` of the Output context. -/
def SetReturnCode (host : vmHost) (returnCode : VMHost.ReturnCode) : vmHost :=
  host.setOutputState { host.outputContext.outputState with ReturnCode := returnCode }

end outputContext

/-- The collaborators of the entry points, on top of those of a nested call: the
reserved names; `InitState` and `Clean` of the host; `NewAddress`,
`AccountExists` and `IncreaseNonce` of the Blockchain context (the last one
writes the nonce into the output account); `AddTxValueToAccount` of the Output
context; `GetSCCode`, `StartWasmerInstance`, `CleanWasmerInstance`,
`MustVerifyNextContractCode`, `GetInitFunction` of the Runtime context;
`getFunctionByCallType`, `handleBreakpointIfAny`, `processCallbackStack` and
`sendCallbackToCurrentCaller` of the host; and `pendingMap`, the first result of
`processAsyncInfo`. None of them is under the sources; an exported function of
the contract is a function on the host. -/
structure HostCollaborators extends Collaborators where
  names : FunctionNames
  InitState : vmHost → vmHost
  Clean : vmHost → vmHost
  NewAddress : vmHost → Address → Except VMError Address
  AccountExists : vmHost → Address → Bool
  IncreaseNonce : vmHost → Address → VMOutput
  AddTxValueToAccount : vmHost → Address → Int → VMOutput
  GetSCCode : vmHost → Except VMError Bytes
  StartWasmerInstance : vmHost → Bytes → Nat → Bool → Option VMError × vmHost
  CleanWasmerInstance : vmHost → vmHost
  MustVerifyNextContractCode : runtimeContext → runtimeContext
  GetInitFunction : vmHost → Option (vmHost → Option VMError × vmHost)
  getFunctionByCallType : vmHost → CallType → Except VMError (vmHost → Option VMError × vmHost)
  handleBreakpointIfAny : vmHost → VMError → Option VMError × vmHost
  processCallbackStack : vmHost → Option VMError × vmHost
  sendCallbackToCurrentCaller : vmHost → Option VMError × vmHost
  pendingMap : vmHost → AsyncContextInfo → AsyncContextInfo

/-- The method `verifyAllowedFunctionCall`. -/
def verifyAllowedFunctionCall (names : FunctionNames) (host : vmHost) : Option VMError :=
  let functionName := host.runtimeContext.callFunction
  let isInit :=
    functionName = names.InitFunctionName ∨ functionName = names.InitFunctionNameEth
  if isInit then some VMError.ErrInitFuncCalledInRun
  else
    let isCallBack := functionName = names.CallbackFunctionName
    let isInAsyncCallBack := host.runtimeContext.vmInput.CallType = CallType.AsynchronousCallBack
    if isCallBack ∧ ¬ isInAsyncCallBack then some VMError.ErrCallBackFuncCalledInRun
    else none

/-- The method `checkFinalGasAfterExit`. -/
def checkFinalGasAfterExit (host : vmHost) : Option VMError :=
  if !host.vmV2Enabled then none
  else
    let totalUsedPoints := host.runtimeContext.GetPointsUsed
    if totalUsedPoints > meteringContext.GetGasForExecution host then some VMError.ErrNotEnoughGas
    else none

/-- The method `checkGasForGetCode`. -/
def checkGasForGetCode (host : vmHost) (input : ContractCallInput) : Option VMError :=
  if !host.vmV2Enabled then none
  else
    let getCodeBaseCost := host.meteringContext.gasSchedule.BaseOperationCost.GetCode
    if input.VMInput.GasProvided < getCodeBaseCost then some VMError.ErrNotEnoughGas
    else none

/-- The method `callInitFunction`. -/
def callInitFunction (R : HostCollaborators) (host : vmHost) : Option VMError × vmHost :=
  match R.GetInitFunction host with
  | none => (none, host)
  | some init =>
    let (err, host) := init host
    let (err, host) :=
      match err with
      | some e => R.handleBreakpointIfAny host e
      | none => (none, host)
    match err with
    | none => (checkFinalGasAfterExit host, host)
    | some e => (some e, host)

/-- The method `callSCMethod`. -/
def callSCMethod (R : HostCollaborators) (host : vmHost) : Option VMError × vmHost :=
  match verifyAllowedFunctionCall R.names host with
  | some err => (some err, host)
  | none =>
    let callType := host.runtimeContext.vmInput.CallType
    match R.getFunctionByCallType host callType with
    | .error err =>
      if callType = CallType.AsynchronousCallBack ∧ err = VMError.ErrNilCallbackFunction then
        R.processCallbackStack host
      else (some err, host)
    | .ok function =>
      let (err, host) := function host
      let (err, host) :=
        match err with
        | some e => R.handleBreakpointIfAny host e
        | none => (none, host)
      let err :=
        match err with
        | none => checkFinalGasAfterExit host
        | some e => some e
      match err with
      | some e => (some e, host)
      | none =>
        match callType with
        | CallType.AsynchronousCall =>
          let pendingMap := R.pendingMap host host.runtimeContext.asyncContextInfo
          match R.processAsyncInfo host host.runtimeContext.asyncContextInfo with
          | (some paiErr, host) => (some paiErr, host)
          | (none, host) =>
            if pendingMap.AsyncContextMap.length = 0 then R.sendCallbackToCurrentCaller host
            else (none, host)
        | CallType.AsynchronousCallBack => R.processCallbackStack host
        | _ => R.processAsyncInfo host host.runtimeContext.asyncContextInfo

/-- Modelled from the spec: `SetVMInput` of the Runtime context. -/
def runtimeContext.SetVMInput (host : vmHost) (vmInput : VMInput) : vmHost :=
  { host with runtimeContext := { host.runtimeContext with vmInput := vmInput } }

/-- Modelled from the spec: `SetSCAddress` of the Runtime context. -/
def runtimeContext.SetSCAddress (host : vmHost) (scAddress : Address) : vmHost :=
  { host with runtimeContext := { host.runtimeContext with scAddress := scAddress } }

/-- The opening of `doRunSmartContractCall`, up to the gas checks: the host is
initialised and the contexts are bound to the input. The Runtime context holds
a pointer to the input that the Metering context mutates. -/
def bindSmartContractCall (R : HostCollaborators) (host : vmHost) (input : ContractCallInput) :
    vmHost × ContractCallInput :=
  let host := R.InitState host
  let host := runtimeContext.InitStateFromContractCallInput host input
  let (host, vmInput) := meteringContext.InitStateFromContractCallInput host input.VMInput
  let input := { input with VMInput := vmInput }
  let host := runtimeContext.SetVMInput host vmInput
  let host := host.setOutputState
    (R.AddTxValueToAccount host input.RecipientAddr input.VMInput.CallValue)
  let host := storageContext.SetAddress host host.runtimeContext.scAddress
  (host, input)

/-- The method `doRunSmartContractCall`; the deferred `Clean` runs on every
return. -/
def doRunSmartContractCall (R : HostCollaborators) (host : vmHost) (input : ContractCallInput) :
    VMOutput × vmHost :=
  let (host, input) := bindSmartContractCall R host input
  match checkGasForGetCode host input with
  | some _ => (outputContext.CreateVMOutputInCaseOfError VMError.ErrNotEnoughGas, R.Clean host)
  | none =>
    match R.GetSCCode host with
    | .error _ =>
      (outputContext.CreateVMOutputInCaseOfError VMError.ErrContractNotFound, R.Clean host)
    | .ok contract =>
      match meteringContext.DeductInitialGasForExecution host contract with
      | (some _, host) =>
        (outputContext.CreateVMOutputInCaseOfError VMError.ErrNotEnoughGas, R.Clean host)
      | (none, host) =>
        match R.StartWasmerInstance host contract (meteringContext.GetGasForExecution host)
          false with
        | (some _, host) =>
          (outputContext.CreateVMOutputInCaseOfError VMError.ErrContractInvalid, R.Clean host)
        | (none, host) =>
          match callSCMethod R host with
          | (some err, host) => (outputContext.CreateVMOutputInCaseOfError err, R.Clean host)
          | (none, host) =>
            let (vmOutput, out) := R.GetVMOutput host
            let host := host.setOutputState out
            let host := R.CleanWasmerInstance host
            (vmOutput, R.Clean host)

/-- The method `performCodeDeployment`: it returns either an error or a
`VMOutput`. -/
def performCodeDeployment (R : HostCollaborators) (host : vmHost) (input : CodeDeployInput) :
    Except VMError VMOutput × vmHost :=
  match meteringContext.DeductInitialGasForDirectDeployment host input with
  | (some err, host) =>
    (.error err, outputContext.SetReturnCode host ReturnCode.OutOfGas)
  | (none, host) =>
    let host := { host with runtimeContext := R.MustVerifyNextContractCode host.runtimeContext }
    match R.StartWasmerInstance host input.ContractCode (meteringContext.GetGasForExecution host)
      true with
    | (some _, host) => (.error VMError.ErrContractInvalid, host)
    | (none, host) =>
      match callInitFunction R host with
      | (some err, host) => (.error err, host)
      | (none, host) =>
        let host := outputContext.DeployCode host input
        let (vmOutput, out) := R.GetVMOutput host
        let host := host.setOutputState out
        let host := R.CleanWasmerInstance host
        (.ok vmOutput, host)

/-- The opening of `doRunSmartContractCreate` once the new address is known: the
contexts are bound to the input and to the new address. -/
def bindSmartContractCreate (R : HostCollaborators) (host : vmHost) (input : ContractCreateInput)
    (address : Address) : vmHost × ContractCreateInput :=
  let host := runtimeContext.SetVMInput host input.VMInput
  let host := runtimeContext.SetSCAddress host address
  let (host, vmInput) := meteringContext.InitStateFromContractCallInput host input.VMInput
  let input := { input with VMInput := vmInput }
  let host := runtimeContext.SetVMInput host vmInput
  let host := host.setOutputState (R.AddTxValueToAccount host address input.VMInput.CallValue)
  let host := storageContext.SetAddress host host.runtimeContext.scAddress
  (host, input)

/-- The method `doRunSmartContractCreate`; the deferred `Clean` runs on every
return. -/
def doRunSmartContractCreate (R : HostCollaborators) (host : vmHost)
    (input : ContractCreateInput) : VMOutput × vmHost :=
  let host := R.InitState host
  match R.NewAddress host input.VMInput.CallerAddr with
  | .error err => (outputContext.CreateVMOutputInCaseOfError err, R.Clean host)
  | .ok address =>
    let (host, input) := bindSmartContractCreate R host input address
    let codeDeployInput : CodeDeployInput :=
      { ContractCode := input.ContractCode
        ContractCodeMetadata := input.ContractCodeMetadata
        ContractAddress := address
        CodeDeployerAddress := input.VMInput.CallerAddr }
    match performCodeDeployment R host codeDeployInput with
    | (.error err, host) => (outputContext.CreateVMOutputInCaseOfError err, R.Clean host)
    | (.ok vmOutput, host) => (vmOutput, R.Clean host)

/-- The results of `CreateNewContract`. -/
structure CreateNewContractResult where
  newContractAddress : Option Address
  err : Option VMError
  host : vmHost

/-- The method `CreateNewContract`. The two deferred functions run last
registered first: on an error the output account of the new address is deleted
(when `DeployCode` was reached), then the returned address is set to nil. -/
def CreateNewContract (R : HostCollaborators) (host : vmHost) (input : ContractCreateInput) :
    CreateNewContractResult :=
  let codeDeployInput : CodeDeployInput :=
    { ContractCode := input.ContractCode
      ContractCodeMetadata := input.ContractCodeMetadata
      ContractAddress := []
      CodeDeployerAddress := input.VMInput.CallerAddr }
  match meteringContext.DeductInitialGasForIndirectDeployment host codeDeployInput with
  | (some err, host) => { newContractAddress := none, err := some err, host := host }
  | (none, host) =>
    if host.runtimeContext.readOnly then
      { newContractAddress := none, err := some VMError.ErrInvalidCallOnReadOnlyMode, host := host }
    else
      match R.NewAddress host input.VMInput.CallerAddr with
      | .error err => { newContractAddress := none, err := some err, host := host }
      | .ok newContractAddress =>
        if R.AccountExists host newContractAddress then
          { newContractAddress := none, err := some VMError.ErrDeploymentOverExistingAccount,
            host := host }
        else
          let codeDeployInput := { codeDeployInput with ContractAddress := newContractAddress }
          let host := outputContext.DeployCode host codeDeployInput
          let host :=
            { host with runtimeContext := R.MustVerifyNextContractCode host.runtimeContext }
          let initCallInput : ContractCallInput :=
            { RecipientAddr := newContractAddress
              Function := R.names.InitFunctionName
              AllowInitFunction := true
              VMInput := input.VMInput }
          let result := ExecuteOnDestContext R.toCollaborators host initCallInput
          match result.err with
          | some err =>
            { newContractAddress := none, err := some err,
              host := outputContext.DeleteOutputAccount result.host newContractAddress }
          | none =>
            { newContractAddress := some newContractAddress, err := none,
              host := result.host.setOutputState
                (R.IncreaseNonce result.host input.VMInput.CallerAddr) }

/-- Collaborators whose value transfer is always refused, and whose callee does
nothing and succeeds. -/
def refusingCollaborators : Collaborators :=
  { TransferValueOnly := fun host _ _ _ _ =>
      (some (VMError.other "transfer refused"), host.outputContext.outputState)
    GetVMOutput := fun host => (host.outputContext.outputState, host.outputContext.outputState)
    GetCurrentTotalUsedGas := fun _ => (0, false)
    execute := fun host _ => ((0, none), host)
    processAsyncInfo := fun host _ => (none, host) }

/-- The call `testCallInput` as an asynchronous callback carrying the given
value. -/
def testCallbackInput (value : Int) : ContractCallInput :=
  { testCallInput with
    VMInput :=
      { testCallInput.VMInput with CallType := CallType.AsynchronousCallBack, CallValue := value } }

/-- The reserved names used at concrete inputs. -/
def testNames : FunctionNames :=
  { InitFunctionName := "init"
    InitFunctionNameEth := "solidity.ctor"
    CallbackFunctionName := "callBack"
    UpgradeFunctionName := "upgradeContract" }

/-- Collaborators of the entry points at concrete inputs: the nested call behaves
as the given collaborators, the new address is `[9]`, which has no account, the
code of the running contract has 1000 bytes, the instance starts (the running
instance is suspended and a new one runs), the called function finishes one
value and there is no `init` function. -/
def testHostCollaborators (E : Collaborators) : HostCollaborators :=
  { toCollaborators := E
    names := testNames
    InitState := fun host =>
      meteringContext.InitState
        (meteringContext.ClearStateStack
          { host with
            bigIntContext := { values := [], stateStack := [] }
            outputContext := { (testHost []).outputContext with stateStack := [] }
            runtimeContext := { host.runtimeContext with stateStack := [], pointsUsed := 0 }
            storageContext := { host.storageContext with stateStack := [] } })
    Clean := fun host => host
    NewAddress := fun _ _ => .ok [9]
    AccountExists := fun _ _ => false
    IncreaseNonce := fun host address =>
      { host.outputContext.outputState with
        OutputAccounts := host.outputContext.outputState.OutputAccounts.map
          (fun kv => if kv.1 = address then (kv.1, { kv.2 with Nonce := kv.2.Nonce + 1 }) else kv) }
    AddTxValueToAccount := fun host _ _ => host.outputContext.outputState
    GetSCCode := fun _ => .ok (List.replicate 1000 0)
    StartWasmerInstance := fun host _ _ _ =>
      (none, { host with runtimeContext := host.runtimeContext.startInstance })
    CleanWasmerInstance := fun host => host
    MustVerifyNextContractCode := fun runtime => runtime
    GetInitFunction := fun _ => none
    getFunctionByCallType := fun _ _ =>
      .ok (fun host =>
        (none, host.setOutputState
          { host.outputContext.outputState with ReturnData := [[42]] }))
    handleBreakpointIfAny := fun host err => (some err, host)
    processCallbackStack := fun host => (none, host)
    sendCallbackToCurrentCaller := fun host => (none, host)
    pendingMap := fun _ asyncInfo => asyncInfo }

/-- A deployment by the contract at `[1]` of a code of 3 bytes with the given gas. -/
def testCreateInput (gasProvided : Nat) : ContractCreateInput :=
  { VMInput := { testVMInput CallType.DirectCall gasProvided 0 with CallerAddr := [1] }
    ContractCode := [0, 97, 115]
    ContractCodeMetadata := [1, 0] }

/-! ## Gas locking and sequences of frame changes (`vmhost/contexts/metering.go`) -/

/-- The method `ComputeGasLockedForAsync`; `codeSize` is the value returned by
`Runtime().GetSCCodeSize()` (the Runtime context is not among the sources). -/
def meteringContext.ComputeGasLockedForAsync (host : vmHost) (codeSize : Nat) : Nat :=
  let baseGasSchedule := host.meteringContext.gasSchedule.BaseOperationCost
  let apiGasSchedule := host.meteringContext.gasSchedule.BaseOpsAPICost
  let costPerByte :=
    if host.aotEnabled then baseGasSchedule.AoTPreparePerByte else baseGasSchedule.CompilePerByte
  let compilationGasLock := if host.dynGasLockingEnabled then MulUint64 codeSize costPerByte else 0
  let executionGasLock := AddUint64 apiGasSchedule.AsyncCallStep apiGasSchedule.AsyncCallbackGasLock
  AddUint64 compilationGasLock executionGasLock

/-- The method `BlockGasLimit`. -/
def meteringContext.BlockGasLimit (host : vmHost) : Nat :=
  host.meteringContext.blockGasLimit

/-- A sequence of changes to the frame fields of the metering context, as made
between a `PushState` and its pop: `InitStateFromContractCallInput` alone
(`init`) or together with the Runtime context taking the input (`bind`), an
initial deduction (`deduct`), and a nested pair of `PushState` and
`PopSetActiveState` or `PopDiscard` around further changes (`nested`). -/
inductive FrameChanges where
  | done
  | init (input : VMInput) (rest : FrameChanges)
  | bind (input : VMInput) (rest : FrameChanges)
  | deduct (call : DeductCall) (rest : FrameChanges)
  | nested (inner : FrameChanges) (discard : Bool) (rest : FrameChanges)

/-- Running a sequence of frame changes on a host. -/
def FrameChanges.run : FrameChanges → vmHost → vmHost
  | .done, host => host
  | .init input rest, host =>
    rest.run (meteringContext.InitStateFromContractCallInput host input).1
  | .bind input rest, host => rest.run (bindVMInput host input)
  | .deduct call rest, host => rest.run (call.run host)
  | .nested inner discard rest, host =>
    let host := meteringContext.PushState host
    let host := inner.run host
    let host :=
      if discard then meteringContext.PopDiscard host else meteringContext.PopSetActiveState host
    rest.run host

/-- The frame of the tests with both compilation costs told apart: compiling
costs 1 per byte, preparing ahead of time costs 2 per byte. -/
def testHostAoT (dynGasLocking : Bool) : vmHost :=
  { testHost [1] with
    dynGasLockingEnabled := dynGasLocking
    meteringContext :=
      { (testHost [1]).meteringContext with
        gasSchedule :=
          { BaseOperationCost := { CompilePerByte := 1, AoTPreparePerByte := 2, GetCode := 1 }
            BaseOpsAPICost := { CreateContract := 1, AsyncCallStep := 1, AsyncCallbackGasLock := 1 } } } }

/-! ## Builtin functions and the execution of a call (`vmhost/hostCore/execution.go`)

A result of type `Option` in this section is `none` when the Go code stops in a
run-time panic (an index out of range, a nil pointer). -/

/-- The constants of package `core` read by the modelled code, declared outside
the sources: the names of the two DCDT transfer builtin functions, their
minimum numbers of arguments, and the token type `NonFungible`. -/
structure DCDTConstants where
  BuiltInFunctionDCDTTransfer : String
  BuiltInFunctionDCDTNFTTransfer : String
  MinLenArgumentsDCDTTransfer : Nat
  MinLenArgumentsDCDTNFTTransfer : Nat
  NonFungible : Nat
  deriving DecidableEq, Repr

/-- The methods of `vmcommon.UserAccountHandler` read by the modelled code:
`GetCodeMetadata` and `GetOwnerAddress`. -/
structure UserAccount where
  CodeMetadata : Bytes
  OwnerAddress : Address
  deriving DecidableEq, Repr

/-- The collaborators of `execute`, on top of those of the entry points: the
constants of package `core`; `ProcessBuiltInFunction` of the blockchain hook,
with its two results (a `VMOutput` pointer and an error);
`computeGasUsedInExecutionBeforeReset` and `AreInSameShard` of the host;
`IsSmartContract` of the Blockchain context; `ParseData` of the call-arguments
parser; `AddToActiveState` of the Output context, which gives the new active
state; `FailExecution` of the Runtime context, which gives the new Runtime
context and the new active output state; `GetFunctionToCall` and
`ExtractCodeUpgradeFromArgs` of the Runtime context; `GetUserAccount` of the
blockchain hook, with its two results (an account and an error); and
`CodeMetadataUpgradeable`, the field `Upgradeable` of
`vmcommon.CodeMetadataFromBytes`. None of them is under the sources. -/
structure BuiltinCollaborators extends HostCollaborators where
  core : DCDTConstants
  ProcessBuiltInFunction : vmHost → ContractCallInput → Option VMOutput × Option VMError
  computeGasUsedInExecutionBeforeReset : vmHost → ContractCallInput → Nat
  AreInSameShard : vmHost → Address → Address → Bool
  IsSmartContract : vmHost → Address → Bool
  ParseData : Bytes → Except VMError (String × List Bytes)
  AddToActiveState : vmHost → VMOutput → VMOutput
  FailExecution : vmHost → VMError → runtimeContext × VMOutput
  GetFunctionToCall : vmHost → Except VMError (vmHost → Option VMError × vmHost)
  ExtractCodeUpgradeFromArgs : vmHost → Except VMError (Bytes × Bytes)
  GetUserAccount : vmHost → Address → Option UserAccount × Option VMError
  CodeMetadataUpgradeable : Bytes → Bool

/-- The call `host.blockChainHook.ProcessBuiltInFunction(input)`: the result is
the one of the hook, and the host records the input in `builtinCalls`. -/
def vmHost.ProcessBuiltInFunction (B : BuiltinCollaborators) (host : vmHost)
    (input : ContractCallInput) : (Option VMOutput × Option VMError) × vmHost :=
  (B.ProcessBuiltInFunction host input,
    { host with builtinCalls := host.builtinCalls ++ [input] })

/-- The call `host.runtimeContext.FailExecution(err)`. -/
def vmHost.FailExecution (B : BuiltinCollaborators) (host : vmHost) (err : VMError) : vmHost :=
  let result := B.FailExecution host err
  { host with
    runtimeContext := result.1
    outputContext := { host.outputContext with outputState := result.2 } }

/-- The method `isInitFunctionBeingCalled`. -/
def isInitFunctionBeingCalled (names : FunctionNames) (host : vmHost) : Bool :=
  let functionName := host.runtimeContext.callFunction
  decide (functionName = names.InitFunctionName ∨ functionName = names.InitFunctionNameEth)

/-- The method `isBuiltinFunctionBeingCalled`. -/
def isBuiltinFunctionBeingCalled (host : vmHost) : Bool :=
  let functionName := host.runtimeContext.callFunction
  host.IsBuiltinFunctionName functionName

/-- The method `callSCMethodIndirect`. -/
def callSCMethodIndirect (B : BuiltinCollaborators) (host : vmHost) : Option VMError × vmHost :=
  match B.GetFunctionToCall host with
  | .error err =>
    if err = VMError.ErrNilCallbackFunction then (none, host) else (some err, host)
  | .ok function =>
    let (err, host) := function host
    match err with
    | some e => B.handleBreakpointIfAny host e
    | none => (none, host)

/-- The method `checkUpgradePermission`. -/
def checkUpgradePermission (B : BuiltinCollaborators) (host : vmHost)
    (vmInput : ContractCallInput) : Option VMError :=
  match B.GetUserAccount host vmInput.RecipientAddr with
  | (_, some err) => some err
  | (none, none) => some VMError.ErrNilContract
  | (some contract, none) =>
    let isUpgradeable := B.CodeMetadataUpgradeable contract.CodeMetadata
    let callerAddress := vmInput.VMInput.CallerAddr
    let ownerAddress := contract.OwnerAddress
    let isCallerOwner := decide (callerAddress = ownerAddress)
    if isUpgradeable ∧ isCallerOwner then none
    else some VMError.ErrUpgradeNotAllowed

/-- The method `executeUpgrade`. -/
def executeUpgrade (B : BuiltinCollaborators) (host : vmHost) (input : ContractCallInput) :
    Option VMError × vmHost :=
  match checkUpgradePermission B host input with
  | some err => (some err, host)
  | none =>
    match B.ExtractCodeUpgradeFromArgs host with
    | .error _ => (some VMError.ErrInvalidUpgradeArguments, host)
    | .ok (code, codeMetadata) =>
      let codeDeployInput : CodeDeployInput :=
        { ContractCode := code
          ContractCodeMetadata := codeMetadata
          ContractAddress := input.RecipientAddr
          CodeDeployerAddress := input.VMInput.CallerAddr }
      match meteringContext.DeductInitialGasForDirectDeployment host codeDeployInput with
      | (some err, host) => (some err, outputContext.SetReturnCode host ReturnCode.OutOfGas)
      | (none, host) =>
        let host :=
          { host with runtimeContext := B.MustVerifyNextContractCode host.runtimeContext }
        match B.StartWasmerInstance host codeDeployInput.ContractCode
            (meteringContext.GetGasForExecution host) true with
        | (some _, host) => (some VMError.ErrContractInvalid, host)
        | (none, host) =>
          match callInitFunction B.toHostCollaborators host with
          | (some err, host) => (some err, host)
          | (none, host) =>
            let host := outputContext.DeployCode host codeDeployInput
            if outputContext.ReturnCode host ≠ ReturnCode.Ok then
              (some VMError.ErrReturnCodeNotOk, host)
            else (none, host)

/-- The method `executeSmartContractCall`. -/
def executeSmartContractCall (B : BuiltinCollaborators) (host : vmHost)
    (input : ContractCallInput) (withInitialGasDeduct : Bool) : Option VMError × vmHost :=
  if isInitFunctionBeingCalled B.names host ∧ ¬ input.AllowInitFunction then
    (some VMError.ErrInitFuncCalledInRun, host)
  else
    let host := meteringContext.UseGas host input.VMInput.GasProvided
    let isUpgrade := input.Function = B.names.UpgradeFunctionName
    if isUpgrade then executeUpgrade B host input
    else
      match B.GetSCCode host with
      | .error err => (some err, host)
      | .ok contract =>
        let (err, host) :=
          if withInitialGasDeduct then meteringContext.DeductInitialGasForExecution host contract
          else (none, host)
        match err with
        | some e => (some e, host)
        | none =>
          match B.StartWasmerInstance host contract (meteringContext.GetGasForExecution host)
              false with
          | (some e, host) => (some e, host)
          | (none, host) =>
            match callSCMethodIndirect B host with
            | (some e, host) => (some e, host)
            | (none, host) =>
              if outputContext.ReturnCode host ≠ ReturnCode.Ok then
                (some VMError.ErrReturnCodeNotOk, host)
              else (none, host)

/-- The method `RevertDCDTTransfer`. The arguments of the revert input are the
first `numArgsForTransfer` arguments of the input (`make` and `copy`, the
length having been checked). -/
def RevertDCDTTransfer (B : BuiltinCollaborators) (host : vmHost) (input : ContractCallInput) :
    Option vmHost :=
  let isDCDTTransfer :=
    input.Function = B.core.BuiltInFunctionDCDTTransfer ∨
      input.Function = B.core.BuiltInFunctionDCDTNFTTransfer
  if ¬ isDCDTTransfer then some host
  else if input.VMInput.CallType = CallType.AsynchronousCallBack then some host
  else
    let numArgsForTransfer :=
      if input.Function = B.core.BuiltInFunctionDCDTNFTTransfer then
        B.core.MinLenArgumentsDCDTNFTTransfer
      else B.core.MinLenArgumentsDCDTTransfer
    if input.VMInput.Arguments.length < numArgsForTransfer then some host
    else
      let revertInput : ContractCallInput :=
        { VMInput :=
            { CallerAddr := input.RecipientAddr
              Arguments := input.VMInput.Arguments.take numArgsForTransfer
              CallValue := 0
              CallType := CallType.AsynchronousCallBack
              GasPrice := input.VMInput.GasPrice
              GasProvided := meteringContext.BlockGasLimit host
              GasLocked := 0
              OriginalTxHash := input.VMInput.OriginalTxHash
              CurrentTxHash := input.VMInput.CurrentTxHash
              PrevTxHash := []
              DCDTTransfers := [] }
          RecipientAddr := input.VMInput.CallerAddr
          Function := input.Function
          AllowInitFunction := false }
      let revertInput : Option ContractCallInput :=
        if input.Function = B.core.BuiltInFunctionDCDTNFTTransfer then
          let actualRecipient := input.VMInput.CallerAddr
          if numArgsForTransfer = 0 then none
          else
            match input.VMInput.Arguments.get? (numArgsForTransfer - 1) with
            | none => none
            | some actualSender =>
              some { revertInput with
                RecipientAddr := actualSender
                VMInput :=
                  { revertInput.VMInput with
                    CallerAddr := actualSender
                    Arguments :=
                      revertInput.VMInput.Arguments.set (numArgsForTransfer - 1)
                        actualRecipient } }
        else some revertInput
      match revertInput with
      | none => none
      | some revertInput =>
        match host.ProcessBuiltInFunction B revertInput with
        | ((_, some err), host) =>
          let host := meteringContext.UseGas host (meteringContext.GasLeft host)
          some (host.FailExecution B err)
        | ((some vmOutput, none), host) =>
          if vmOutput.ReturnCode ≠ ReturnCode.Ok then
            let host := meteringContext.UseGas host (meteringContext.GasLeft host)
            some (host.FailExecution B (VMError.other vmOutput.ReturnMessage))
          else some host
        | ((none, none), host) => some host

/-- The function `hex.EncodeToString` of the Go standard library: two lower-case
hexadecimal digits for each byte. -/
def hexEncodeToString (bytes : Bytes) : String :=
  String.mk (bytes.flatMap (fun b => [Nat.digitChar (b / 16 % 16), Nat.digitChar (b % 16)]))

/-- The conversion `[]byte(s)` of a Go string: its bytes in UTF-8. -/
def stringToBytes (s : String) : Bytes :=
  s.data.flatMap (fun c => (String.utf8EncodeChar c).map (fun b => b.toNat))

/-- The function `addOutputTransferToVMOutput`. -/
def addOutputTransferToVMOutput (function : String) (arguments : List Bytes)
    (sender recipient : Address) (callType : CallType) (vmOutput : VMOutput) : VMOutput :=
  let dcdtTransferTxData :=
    arguments.foldl (fun data arg => data ++ "@" ++ hexEncodeToString arg) function
  let outTransfer : OutputTransfer :=
    { Value := 0
      GasLimit := 0
      GasLocked := 0
      Data := stringToBytes dcdtTransferTxData
      CallType := callType
      SenderAddress := sender }
  match vmOutput.OutputAccounts.lookup recipient with
  | some outAcc =>
    let outAcc := { outAcc with OutputTransfers := outAcc.OutputTransfers ++ [outTransfer] }
    { vmOutput with
      OutputAccounts :=
        vmOutput.OutputAccounts.map (fun kv => if kv.1 = recipient then (kv.1, outAcc) else kv) }
  | none =>
    let outAcc : OutputAccount :=
      { Address := recipient, Nonce := 0, BalanceDelta := 0, StorageUpdates := [], Code := [],
        CodeMetadata := [], OutputTransfers := [outTransfer], GasUsed := 0 }
    { vmOutput with OutputAccounts := vmOutput.OutputAccounts ++ [(recipient, outAcc)] }

/-- The method `addDCDTTransferToVMOutputSCIntraShardCall`. -/
def addDCDTTransferToVMOutputSCIntraShardCall (B : BuiltinCollaborators) (host : vmHost)
    (input : ContractCallInput) (output : VMOutput) : VMOutput :=
  if output.ReturnCode ≠ ReturnCode.Ok then output
  else if !B.AreInSameShard host input.RecipientAddr input.VMInput.CallerAddr then output
  else
    let isDCDTTransfer :=
      input.Function = B.core.BuiltInFunctionDCDTTransfer ∨
        input.Function = B.core.BuiltInFunctionDCDTNFTTransfer
    if ¬ isDCDTTransfer then output
    else
      let recipientAddr : Option Address :=
        if input.Function = B.core.BuiltInFunctionDCDTNFTTransfer then
          if input.VMInput.Arguments.length ≠ 4 then none
          else input.VMInput.Arguments.get? 3
        else some input.RecipientAddr
      match recipientAddr with
      | none => output
      | some recipientAddr =>
        addOutputTransferToVMOutput input.Function input.VMInput.Arguments
          input.VMInput.CallerAddr recipientAddr input.VMInput.CallType output

/-- The value of `big.NewInt(0).SetBytes(b)`: the bytes as a big-endian natural
number. -/
def bytesToNat (b : Bytes) : Nat :=
  b.foldl (fun acc x => acc * 256 + x) 0

/-- The function `fillWithDCDTValue`; the new input is mutated, so it is
returned. -/
def fillWithDCDTValue (core : DCDTConstants) (fullVMInput newVMInput : ContractCallInput) :
    Option ContractCallInput :=
  let isDCDTTransfer :=
    fullVMInput.Function = core.BuiltInFunctionDCDTTransfer ∨
      fullVMInput.Function = core.BuiltInFunctionDCDTNFTTransfer
  if ¬ isDCDTTransfer then some newVMInput
  else
    match fullVMInput.VMInput.Arguments.get? 0 with
    | none => none
    | some tokenName =>
      match fullVMInput.VMInput.Arguments.get? 1 with
      | none => none
      | some valueBytes =>
        let dcdtTransfer : DCDTTransfer :=
          { DCDTValue := bytesToNat valueBytes
            DCDTTokenName := tokenName
            DCDTTokenType := 0
            DCDTTokenNonce := 0 }
        if fullVMInput.Function = core.BuiltInFunctionDCDTNFTTransfer then
          match fullVMInput.VMInput.Arguments.get? 2 with
          | none => none
          | some nftValueBytes =>
            let dcdtTransfer :=
              { dcdtTransfer with
                DCDTTokenNonce := bytesToNat valueBytes % 2 ^ 64
                DCDTValue := bytesToNat nftValueBytes
                DCDTTokenType := core.NonFungible % 2 ^ 32 }
            some { newVMInput with
              VMInput := { newVMInput.VMInput with DCDTTransfers := [dcdtTransfer] } }
        else
          some { newVMInput with
            VMInput := { newVMInput.VMInput with DCDTTransfers := [dcdtTransfer] } }

/-- The method `isSCExecutionAfterBuiltInFunc`, with its two results. -/
def isSCExecutionAfterBuiltInFunc (B : BuiltinCollaborators) (host : vmHost)
    (vmInput : ContractCallInput) (vmOutput : VMOutput) :
    Option (Option ContractCallInput × Option VMError) :=
  if vmOutput.ReturnCode ≠ ReturnCode.Ok then some (none, none)
  else
    let recipient : Option Address :=
      if vmInput.Function = B.core.BuiltInFunctionDCDTNFTTransfer ∧
          vmInput.VMInput.CallerAddr = vmInput.RecipientAddr then
        vmInput.VMInput.Arguments.get? 3
      else some vmInput.RecipientAddr
    match recipient with
    | none => none
    | some recipient =>
      if !B.AreInSameShard host vmInput.VMInput.CallerAddr recipient then some (none, none)
      else if !B.IsSmartContract host recipient then some (none, none)
      else
        match vmOutput.OutputAccounts.lookup recipient with
        | none => some (none, none)
        | some outAcc =>
          if outAcc.OutputTransfers.length ≠ 1 then some (none, none)
          else
            match outAcc.OutputTransfers.get? 0 with
            | none => none
            | some scCallOutTransfer =>
              let callType := vmInput.VMInput.CallType
              match B.ParseData scCallOutTransfer.Data with
              | .error err => some (none, some err)
              | .ok (function, arguments) =>
                let newVMInput : ContractCallInput :=
                  { VMInput :=
                      { CallerAddr := vmInput.VMInput.CallerAddr
                        Arguments := arguments
                        CallValue := 0
                        CallType := callType
                        GasPrice := vmInput.VMInput.GasPrice
                        GasProvided := scCallOutTransfer.GasLimit
                        GasLocked := scCallOutTransfer.GasLocked
                        OriginalTxHash := vmInput.VMInput.OriginalTxHash
                        CurrentTxHash := vmInput.VMInput.CurrentTxHash
                        PrevTxHash := []
                        DCDTTransfers := [] }
                    RecipientAddr := recipient
                    Function := function
                    AllowInitFunction := false }
                match fillWithDCDTValue B.core vmInput newVMInput with
                | none => none
                | some newVMInput => some (some newVMInput, none)

/-- The body of the two loops of `callBuiltinFunction` for one output transfer of
the builtin output: the gas consumed so far and the host are updated. -/
def builtinTransferGas (input : ContractCallInput) (state : Nat × vmHost)
    (outTransfer : OutputTransfer) : Nat × vmHost :=
  let (gasConsumed, host) := state
  if outTransfer.GasLimit > 0 ∨ outTransfer.GasLocked > 0 then
    let gasForwarded := AddUint64 outTransfer.GasLocked outTransfer.GasLimit
    let gasConsumed := AddUint64 gasConsumed outTransfer.GasLocked
    if input.VMInput.CallType ≠ CallType.AsynchronousCallBack then
      (gasConsumed,
        meteringContext.ForwardGas host host.runtimeContext.scAddress [] gasForwarded)
    else ((SubUint64 gasConsumed outTransfer.GasLimit).1, host)
  else (gasConsumed, host)

/-- The method `callBuiltinFunction`, with its three results and the host. The
output accounts of the builtin output are visited in the order of the list. -/
def callBuiltinFunction (B : BuiltinCollaborators) (host : vmHost) (input : ContractCallInput) :
    Option ((Option ContractCallInput × Nat × Option VMError) × vmHost) :=
  let gasConsumedForExecution := B.computeGasUsedInExecutionBeforeReset host input
  let host := host.SetPointsUsed 0
  match host.ProcessBuiltInFunction B input with
  | ((_, some err), host) =>
    let host := meteringContext.UseGas host input.VMInput.GasProvided
    some ((none, gasConsumedForExecution, some err), host)
  | ((none, none), _) => none
  | ((some vmOutput, none), host) =>
    let gasConsumed := (SubUint64 input.VMInput.GasProvided vmOutput.GasRemaining).1
    let (gasConsumed, host) :=
      (vmOutput.OutputAccounts.flatMap (fun kv => kv.2.OutputTransfers)).foldl
        (builtinTransferGas input) (gasConsumed, host)
    let host :=
      if vmOutput.GasRemaining < input.VMInput.GasProvided then
        meteringContext.UseGas host gasConsumed
      else host
    match isSCExecutionAfterBuiltInFunc B host input vmOutput with
    | none => none
    | some (_, some err) => some ((none, gasConsumedForExecution, some err), host)
    | some (newVMInput, none) =>
      let vmOutput :=
        if newVMInput.isSome then
          { vmOutput with
            OutputAccounts :=
              vmOutput.OutputAccounts.map (fun kv => (kv.1, { kv.2 with OutputTransfers := [] })) }
        else vmOutput
      let vmOutput := addDCDTTransferToVMOutputSCIntraShardCall B host input vmOutput
      let host := host.setOutputState (B.AddToActiveState host vmOutput)
      some ((newVMInput, gasConsumedForExecution, none), host)

/-- The rebinding of the Runtime, Metering and Storage contexts to the follow-up
call in `execute`. The Runtime context holds a pointer to the input of the
follow-up call, which the Metering context mutates. -/
def bindFollowUpCall (host : vmHost) (newVMInput : ContractCallInput) :
    vmHost × ContractCallInput :=
  let host := runtimeContext.InitStateFromContractCallInput host newVMInput
  let (host, vmInput) := meteringContext.InitStateFromContractCallInput host newVMInput.VMInput
  let newVMInput := { newVMInput with VMInput := vmInput }
  let host := { host with runtimeContext := { host.runtimeContext with vmInput := vmInput } }
  let host := storageContext.SetAddress host host.runtimeContext.scAddress
  (host, newVMInput)

/-- The method `execute`, with its two results and the host. -/
def execute (B : BuiltinCollaborators) (host : vmHost) (input : ContractCallInput) :
    Option ((Nat × Option VMError) × vmHost) :=
  if isBuiltinFunctionBeingCalled host then
    match callBuiltinFunction B host input with
    | none => none
    | some ((_, gasUsedBeforeReset, some err), host) => some ((gasUsedBeforeReset, some err), host)
    | some ((some newVMInput, gasUsedBeforeReset, none), host) =>
      let (host, newVMInput) := bindFollowUpCall host newVMInput
      match executeSmartContractCall B host newVMInput false with
      | (some err, host) =>
        match RevertDCDTTransfer B host input with
        | none => none
        | some host => some ((gasUsedBeforeReset, some err), host)
      | (none, host) => some ((gasUsedBeforeReset, none), host)
    | some ((none, gasUsedBeforeReset, none), host) => some ((gasUsedBeforeReset, none), host)
  else
    let (err, host) := executeSmartContractCall B host input true
    some ((0, err), host)

/-- The execution step of the collaborators of a nested call is the method
`execute` wherever that one returns. -/
def Collaborators.RunsExecute (E : Collaborators) (B : BuiltinCollaborators) : Prop :=
  ∀ host input result, VMHost.execute B host input = some result → E.execute host input = result

/-- The value transfer at the start of the body of `ExecuteOnDestContext`: its
error and the host it leaves. -/
def transferOnDestContext (E : Collaborators) (host : vmHost) (input : ContractCallInput) :
    Option VMError × vmHost :=
  if input.VMInput.CallType ≠ CallType.AsynchronousCallBack ∨ input.VMInput.CallValue = 0 then
    let (err, out) := E.TransferValueOnly host input.RecipientAddr input.VMInput.CallerAddr
      input.VMInput.CallValue false
    (err, host.setOutputState out)
  else (none, host)

/-- The constants of package `core` at concrete inputs. -/
def testDCDTConstants : DCDTConstants :=
  { BuiltInFunctionDCDTTransfer := "DCDTTransfer"
    BuiltInFunctionDCDTNFTTransfer := "DCDTNFTTransfer"
    MinLenArgumentsDCDTTransfer := 2
    MinLenArgumentsDCDTNFTTransfer := 4
    NonFungible := 2 }

/-- The output of a builtin function at concrete inputs: the given return code
and message, no gas remaining, and an output account of the recipient holding
the given transfers. -/
def testBuiltinOutput (returnCode : ReturnCode) (message : String) (recipient : Address)
    (transfers : List OutputTransfer) : VMOutput :=
  { ReturnData := [], ReturnCode := returnCode, ReturnMessage := message, GasRemaining := 0,
    GasRefund := 0,
    OutputAccounts :=
      [(recipient,
        { Address := recipient, Nonce := 0, BalanceDelta := 0, StorageUpdates := [], Code := [],
          CodeMetadata := [], OutputTransfers := transfers, GasUsed := 0 })],
    DeletedAccounts := [], Logs := [] }

/-- Collaborators of `execute` at concrete inputs, after the mocked builtin
functions of the tests: `builtinFail` fails with the error `whatdidyoudo`,
`builtinRefuse` returns the return code `UserError` with the message `refused`,
the DCDT transfer succeeds with one output transfer to the recipient and a
revert input (an asynchronous callback) succeeds with none; every address is in
the same shard and is a smart contract, the transfer data parse to a call of
`g`, and the function of the follow-up call fails or not as told; the contract
at `[2]` is upgradeable and the one at `[3]` is not, both owned by `[1]`, and
there is no other account. -/
def testBuiltinCollaborators (followUpFails : Bool) : BuiltinCollaborators :=
  { toHostCollaborators := testHostCollaborators failingCollaborators
    core := testDCDTConstants
    ProcessBuiltInFunction := fun _ input =>
      if input.Function = "builtinFail" then (none, some (VMError.other "whatdidyoudo"))
      else if input.Function = "builtinRefuse" then
        (some (testBuiltinOutput ReturnCode.UserError "refused" input.RecipientAddr []), none)
      else if input.VMInput.CallType = CallType.AsynchronousCallBack then
        (some (testBuiltinOutput ReturnCode.Ok "" input.RecipientAddr []), none)
      else
        (some (testBuiltinOutput ReturnCode.Ok "" input.RecipientAddr
          [{ Value := 0, GasLimit := 100, GasLocked := 0, Data := [103],
             CallType := CallType.AsynchronousCall, SenderAddress := input.VMInput.CallerAddr }]),
          none)
    computeGasUsedInExecutionBeforeReset := fun _ _ => 0
    AreInSameShard := fun _ _ _ => true
    IsSmartContract := fun _ _ => true
    ParseData := fun _ => .ok ("g", [])
    AddToActiveState := fun host out =>
      outputContext.mergeVMOutputs host.outputContext.outputState out
    FailExecution := fun host err =>
      (host.runtimeContext,
        { host.outputContext.outputState with
          ReturnCode := ReturnCode.ExecutionFailed, ReturnMessage := err.Error })
    GetFunctionToCall := fun _ =>
      .ok (fun host => (if followUpFails then some VMError.ErrExecutionFailed else none, host))
    ExtractCodeUpgradeFromArgs := fun host =>
      match host.runtimeContext.vmInput.Arguments with
      | [code, codeMetadata] => .ok (code, codeMetadata)
      | _ => .error (VMError.other "invalid arguments")
    GetUserAccount := fun _ address =>
      if address = [2] then (some { CodeMetadata := [1, 0], OwnerAddress := [1] }, none)
      else if address = [3] then (some { CodeMetadata := [0, 0], OwnerAddress := [1] }, none)
      else (none, none)
    CodeMetadataUpgradeable := fun metadata => decide (metadata.head? = some 1) }

/-- Collaborators of a nested call at concrete inputs whose execution step is the
method `execute` with the collaborators `testBuiltinCollaborators`; the value
transfer succeeds and changes nothing, and there is no async info to process. -/
def testNestedCollaborators (followUpFails : Bool) : Collaborators :=
  { TransferValueOnly := fun host _ _ _ _ => (none, host.outputContext.outputState)
    GetVMOutput := fun host => (host.outputContext.outputState, host.outputContext.outputState)
    GetCurrentTotalUsedGas := fun _ => (0, false)
    execute := fun host input =>
      match VMHost.execute (testBuiltinCollaborators followUpFails) host input with
      | some result => result
      | none => ((0, some (VMError.other "panic")), host)
    processAsyncInfo := fun host _ => (none, host) }

/-- A call of a builtin function by the contract at `[1]`, with the contract at
`[2]` as recipient, 500 gas and the given arguments. -/
def testBuiltinInput (function : String) (arguments : List Bytes) : ContractCallInput :=
  { VMInput :=
      { testVMInput CallType.DirectCall 500 0 with CallerAddr := [1], Arguments := arguments }
    RecipientAddr := [2]
    Function := function
    AllowInitFunction := false }

/-- The host of the tests with output, with the builtin functions of the tests
registered and the Runtime context bound to the given call. -/
def testBuiltinHost (input : ContractCallInput) : vmHost :=
  runtimeContext.InitStateFromContractCallInput
    { testHostWithOutput [1] with
      protocolBuiltinFunctions := ["builtinFail", "builtinRefuse", "DCDTTransfer"] }
    input

/-! ## Gas limits and the gas schedule (`vmhost/contexts/metering.go`, `scenarioexec/exec.go`) -/

/-- The method `BoundGasLimit`; `value` is an `int64`, and `uint64(value)` is its
reinterpretation in two's complement. -/
def meteringContext.BoundGasLimit (host : vmHost) (value : Int) : Nat :=
  let gasLeft := meteringContext.GasLeft host
  let limit := (value % 2 ^ 64).toNat
  if gasLeft < limit then gasLeft else limit

/-- The type `config.GasScheduleMap` (declared outside the sources): costs by
section and by name. -/
abbrev GasScheduleMap := List (String × List (String × Nat))

/-- The parts of the gas-schedule setters that end outside the sources:
`config.CreateGasConfig`, `config.MakeGasMapForTests`,
`hostCore.LoadGasScheduleConfig` and `filepath.Join`. -/
structure ScheduleCollaborators where
  CreateGasConfig : GasScheduleMap → Except VMError GasCost
  MakeGasMapForTests : GasScheduleMap
  LoadGasScheduleConfig : String → Except VMError GasScheduleMap
  Join : String → String → String

/-- The method `SetGasSchedule` of the metering context. -/
def meteringContext.SetGasSchedule (S : ScheduleCollaborators) (host : vmHost)
    (gasMap : GasScheduleMap) : vmHost :=
  match S.CreateGasConfig gasMap with
  | .error _ => host
  | .ok gasSchedule =>
    { host with meteringContext := { host.meteringContext with gasSchedule := gasSchedule } }

/-- Modelled from the spec: `GasScheduleChange` of the host (the file `host.go` is not
among the sources) replaces the gas schedule of the metering context wholesale,
through `SetGasSchedule`. -/
def vmHost.GasScheduleChange (S : ScheduleCollaborators) (host : vmHost)
    (newGasSchedule : GasScheduleMap) : vmHost :=
  meteringContext.SetGasSchedule S host newGasSchedule

/-- The values of `mj.GasSchedule` (an integer type declared outside the
sources). -/
inductive ScenarioGasSchedule where
  | GasScheduleDefault
  | GasScheduleDummy
  | GasScheduleV1
  | GasScheduleV2
  | GasScheduleV3
  | unknown (value : Int)
  deriving DecidableEq, Repr

/-- The fields of `VMTestExecutor` read by the gas-schedule setter. -/
structure VMTestExecutor where
  vm : vmHost
  scenarioexecPath : String
  scenGasScheduleLoaded : Bool

/-- The method `gasScheduleMapFromScenarios`. -/
def VMTestExecutor.gasScheduleMapFromScenarios (S : ScheduleCollaborators)
    (ae : VMTestExecutor) (scenGasSchedule : ScenarioGasSchedule) :
    Except VMError GasScheduleMap :=
  match scenGasSchedule with
  | .GasScheduleDefault =>
    S.LoadGasScheduleConfig (S.Join ae.scenarioexecPath "gasSchedules/gasScheduleV3.toml")
  | .GasScheduleDummy => .ok S.MakeGasMapForTests
  | .GasScheduleV1 =>
    S.LoadGasScheduleConfig (S.Join ae.scenarioexecPath "gasSchedules/gasScheduleV1.toml")
  | .GasScheduleV2 =>
    S.LoadGasScheduleConfig (S.Join ae.scenarioexecPath "gasSchedules/gasScheduleV2.toml")
  | .GasScheduleV3 =>
    S.LoadGasScheduleConfig (S.Join ae.scenarioexecPath "gasSchedules/gasScheduleV3.toml")
  | .unknown value =>
    .error (VMError.other ("unknown scenario GasSchedule: " ++ toString value))

/-- The method `SetScenariosGasSchedule`. -/
def VMTestExecutor.SetScenariosGasSchedule (S : ScheduleCollaborators) (ae : VMTestExecutor)
    (newGasSchedule : ScenarioGasSchedule) : Option VMError × VMTestExecutor :=
  if ae.scenGasScheduleLoaded then (none, ae)
  else
    let ae := { ae with scenGasScheduleLoaded := true }
    match ae.gasScheduleMapFromScenarios S newGasSchedule with
    | .error err => (some err, ae)
    | .ok gasSchedule => (none, { ae with vm := ae.vm.GasScheduleChange S gasSchedule })

/-- Collaborators of the gas-schedule setters at concrete inputs: the map of the
tests gives the schedule in which every cost is 1, a loaded file gives the
schedule in which every cost is 2. -/
def testScheduleCollaborators : ScheduleCollaborators :=
  { CreateGasConfig := fun gasMap =>
      if gasMap = [] then
        .ok { BaseOperationCost := { CompilePerByte := 1, AoTPreparePerByte := 1, GetCode := 1 }
              BaseOpsAPICost :=
                { CreateContract := 1, AsyncCallStep := 1, AsyncCallbackGasLock := 1 } }
      else
        .ok { BaseOperationCost := { CompilePerByte := 2, AoTPreparePerByte := 2, GetCode := 2 }
              BaseOpsAPICost :=
                { CreateContract := 2, AsyncCallStep := 2, AsyncCallbackGasLock := 2 } }
    MakeGasMapForTests := []
    LoadGasScheduleConfig := fun path => .ok [(path, [])]
    Join := fun dir file => dir ++ "/" ++ file }

/-! ## DCDT transfers (`vmhost/hostCore/execution.go`) -/

/-- The bytes of a natural number, most significant first, none for zero, with
at most `fuel` digits. -/
def natToBytesAux : Nat → Nat → Bytes → Bytes
  | 0, _, acc => acc
  | fuel + 1, n, acc => if n = 0 then acc else natToBytesAux fuel (n / 256) (n % 256 :: acc)

/-- The value of `x.Bytes()` for a `big.Int` of absolute value `n`: the bytes of
`n`, most significant first (a number has at most as many digits as its
value). -/
def natToBytes (n : Nat) : Bytes :=
  natToBytesAux n n []

/-- The input that `ExecuteDCDTTransfer` builds and passes to the builtin hook. -/
def buildDCDTTransferInput (core : DCDTConstants) (host : vmHost)
    (destination sender : Address) (tokenIdentifier : Bytes) (nonce : Nat) (value : Int)
    (callType : CallType) (isRevert : Bool) : ContractCallInput :=
  let dcdtTransferInput : ContractCallInput :=
    { VMInput :=
        { CallerAddr := sender
          Arguments := []
          CallValue := 0
          CallType := callType
          GasPrice := host.runtimeContext.vmInput.GasPrice
          GasProvided := meteringContext.GasLeft host
          GasLocked := 0
          OriginalTxHash := []
          CurrentTxHash := []
          PrevTxHash := []
          DCDTTransfers := [] }
      RecipientAddr := destination
      Function := core.BuiltInFunctionDCDTTransfer
      AllowInitFunction := false }
  let dcdtTransferInput : ContractCallInput :=
    if nonce > 0 then
      let nonceAsBytes := natToBytes nonce
      { dcdtTransferInput with
        Function := core.BuiltInFunctionDCDTNFTTransfer
        RecipientAddr := dcdtTransferInput.VMInput.CallerAddr
        VMInput :=
          { dcdtTransferInput.VMInput with
            Arguments :=
              dcdtTransferInput.VMInput.Arguments ++
                [tokenIdentifier, nonceAsBytes, natToBytes value.natAbs, destination] } }
    else
      { dcdtTransferInput with
        VMInput :=
          { dcdtTransferInput.VMInput with
            Arguments :=
              dcdtTransferInput.VMInput.Arguments ++
                [tokenIdentifier, natToBytes value.natAbs] } }
  if isRevert then
    { dcdtTransferInput with
      VMInput :=
        { dcdtTransferInput.VMInput with GasProvided := meteringContext.BlockGasLimit host } }
  else dcdtTransferInput

/-- The method `ExecuteDCDTTransfer`, with its three results and the host. -/
def ExecuteDCDTTransfer (B : BuiltinCollaborators) (host : vmHost)
    (destination sender : Address) (tokenIdentifier : Bytes) (nonce : Nat) (value : Int)
    (callType : CallType) (isRevert : Bool) :
    Option ((Option VMOutput × Nat × Option VMError) × vmHost) :=
  let dcdtTransferInput :=
    buildDCDTTransferInput B.core host destination sender tokenIdentifier nonce value callType
      isRevert
  match host.ProcessBuiltInFunction B dcdtTransferInput with
  | ((vmOutput, some err), host) =>
    some ((vmOutput, dcdtTransferInput.VMInput.GasProvided, some err), host)
  | ((none, none), _) => none
  | ((some vmOutput, none), host) =>
    if vmOutput.ReturnCode ≠ ReturnCode.Ok then
      some ((some vmOutput, dcdtTransferInput.VMInput.GasProvided,
        some VMError.ErrExecutionFailed), host)
    else
      let gasConsumed :=
        (SubUint64 dcdtTransferInput.VMInput.GasProvided vmOutput.GasRemaining).1
      let gasConsumed :=
        (vmOutput.OutputAccounts.flatMap (fun kv => kv.2.OutputTransfers)).foldl
          (fun gas transfer => (SubUint64 gas transfer.GasLimit).1) gasConsumed
      if callType ≠ CallType.AsynchronousCallBack ∧ ¬ isRevert then
        if meteringContext.GasLeft host < gasConsumed then
          some ((some vmOutput, dcdtTransferInput.VMInput.GasProvided,
            some VMError.ErrNotEnoughGas), host)
        else some ((some vmOutput, gasConsumed, none), meteringContext.UseGas host gasConsumed)
      else some ((some vmOutput, gasConsumed, none), host)

/-! ## Hooks on arguments and return data (`vmhost/vmhooks/baseOps.go`) -/

/-- The conversion `int32(n)`: the integer in `[-2^31, 2^31)` congruent to `n`
modulo `2^32`. -/
def toInt32 (n : Int) : Int :=
  (n + 2 ^ 31) % 2 ^ 32 - 2 ^ 31

/-- Modelled from the spec: `Arguments` of the Runtime context (not among the
sources) gives the arguments of the call input. -/
def runtimeContext.Arguments (host : vmHost) : List Bytes :=
  host.runtimeContext.vmInput.Arguments

/-- Modelled from the spec: `ReturnData` of the Output context (not among the
sources) gives the ordered return data of the active output. -/
def outputContext.ReturnData (host : vmHost) : List Bytes :=
  host.outputContext.outputState.ReturnData

/-- The parts of the hooks that end outside the sources: `MemStore` and
`BaseOpsErrorShouldFailExecution` of the Runtime context and `vmhost.WithFault`,
which gives its boolean result and the host. -/
structure HookCollaborators where
  MemStore : vmHost → Int → Bytes → Option VMError × vmHost
  BaseOpsErrorShouldFailExecution : vmHost → Bool
  WithFault : Option VMError → vmHost → Bool → Bool × vmHost

/-- The hook `v1_2_getArgumentLength`, with its result and the host; `id` is an
`int32`. -/
def v1_2_getArgumentLength (host : vmHost) (id : Int) : Option (Int × vmHost) :=
  let gasToUse := host.meteringContext.gasSchedule.BaseOpsAPICost.GetArgument
  let host := meteringContext.UseGas host gasToUse
  let args := runtimeContext.Arguments host
  if id < 0 ∨ toInt32 args.length ≤ id then some (-1, host)
  else
    match args.get? id.toNat with
    | none => none
    | some arg => some (toInt32 arg.length, host)

/-- The hook `v1_2_getReturnDataSize`, with its result and the host; `resultID`
is an `int32`. An index that is negative or not below the length is a run-time
panic. -/
def v1_2_getReturnDataSize (host : vmHost) (resultID : Int) : Option (Int × vmHost) :=
  let gasToUse := host.meteringContext.gasSchedule.BaseOpsAPICost.GetReturnDataSize
  let host := meteringContext.UseGas host gasToUse
  let returnData := outputContext.ReturnData host
  if resultID ≥ toInt32 returnData.length then some (0, host)
  else if resultID < 0 then none
  else
    match returnData.get? resultID.toNat with
    | none => none
    | some data => some (toInt32 data.length, host)

/-- The hook `v1_2_getReturnData`, with its result and the host; `resultID` and
`dataOffset` are `int32`. -/
def v1_2_getReturnData (H : HookCollaborators) (host : vmHost) (resultID dataOffset : Int) :
    Option (Int × vmHost) :=
  let gasToUse := host.meteringContext.gasSchedule.BaseOpsAPICost.GetReturnData
  let host := meteringContext.UseGas host gasToUse
  let returnData := outputContext.ReturnData host
  if resultID ≥ toInt32 returnData.length then some (0, host)
  else if resultID < 0 then none
  else
    match returnData.get? resultID.toNat with
    | none => none
    | some data =>
      let (err, host) := H.MemStore host dataOffset data
      let (fault, host) := H.WithFault err host (H.BaseOpsErrorShouldFailExecution host)
      if fault then some (0, host) else some (toInt32 data.length, host)

/-- Collaborators of the hooks at concrete inputs: the memory store succeeds and
changes nothing. -/
def testHookCollaborators : HookCollaborators :=
  { MemStore := fun host _ _ => (none, host)
    BaseOpsErrorShouldFailExecution := fun _ => true
    WithFault := fun err host _ => (err.isSome, host) }

/-! ## Checks of the tokens of an account (`scenarioexec/stepCheckAccounts.go`) -/

/-- The type `JSONCheckUint64` of the scenario model, with the fields that the
checks read. -/
structure JSONCheckUint64 where
  Value : Nat
  Original : String

/-- The type `JSONCheckBigInt` of the scenario model, with the fields that the
checks read. -/
structure JSONCheckBigInt where
  Value : Int
  Original : String

/-- The type `JSONBytesFromString` of the scenario model; the bytes are kept as
the Go string that `string(..)` makes of them. -/
structure JSONBytesFromString where
  Value : String
  Original : String

/-- The type `CheckDCDTInstance` (`scenarios/json/model/dcdt.go`), with the
fields that the checks read. -/
structure CheckDCDTInstance where
  Nonce : JSONCheckUint64
  Balance : JSONCheckBigInt

/-- The type `CheckDCDTData` (`scenarios/json/model/dcdt.go`), with the fields
that the checks read. -/
structure CheckDCDTData where
  TokenIdentifier : JSONBytesFromString
  Instances : List CheckDCDTInstance
  LastNonce : JSONCheckUint64
  Roles : List String

/-- The type `CheckAccount` of the scenario model, with the fields that
`checkAccountDCDT` reads. -/
structure CheckAccount where
  Address : JSONBytesFromString
  IgnoreDCDT : Bool
  CheckDCDTData : List CheckDCDTData

/-- The type `dcdt.MetaData`, with the fields that the checks read. -/
structure MetaData where
  Name : String
  Nonce : Nat

/-- The type `dcdt.DCDigitalToken`, with the fields that the checks read. -/
structure DCDigitalToken where
  Value : Int
  TokenMetaData : MetaData

/-- The type `worldmock.MockDCDTData`, with the fields that the checks read; each
role is kept as the Go string that `string(..)` makes of it. -/
structure MockDCDTData where
  TokenIdentifier : String
  Instances : List DCDigitalToken
  LastNonce : Nat
  Roles : List String

/-- The type `worldmock.Account`, as far as `checkAccountDCDT` reads it: the
result of its method `GetFullMockDCDTData`, a map from token names to token data
(a list of entries) or an error. -/
structure Account where
  GetFullMockDCDTData : Except String (List (String × MockDCDTData))

/-- The methods `Check` of `JSONCheckUint64` and of `JSONCheckBigInt`, which are
outside the sources. -/
structure CheckCollaborators where
  CheckUint64 : JSONCheckUint64 → Nat → Bool
  CheckBigInt : JSONCheckBigInt → Int → Bool

/-- The assignment `m[k] = v` on a Go map kept as the list of its entries. -/
def goMapSet {K V : Type} [DecidableEq K] (m : List (K × V)) (k : K) (v : V) : List (K × V) :=
  (k, v) :: m.filter (fun kv => kv.1 ≠ k)

/-- The read `m[k]` on a Go map of pointers kept as the list of its entries:
`none` is the nil pointer of an absent key. -/
def goMapGet {K V : Type} [DecidableEq K] (m : List (K × V)) (k : K) : Option V :=
  (m.find? (fun kv => kv.1 = k)).map Prod.snd

/-- The keys of a Go map kept as the list of its entries. -/
def goMapKeys {K V : Type} (m : List (K × V)) : List K :=
  m.map Prod.fst

/-- The function `makeErrorString`: the messages, separated by line breaks. -/
def makeErrorString (errors : List String) : String :=
  errors.enum.foldl
    (fun errorString ie =>
      let errorString := errorString ++ ie.2
      if ie.1 + 1 < errors.length then errorString ++ "\n" else errorString)
    ""

/-- The function `getExpectedTokens`. -/
def getExpectedTokens (expectedAcct : CheckAccount) : List (String × CheckDCDTData) :=
  expectedAcct.CheckDCDTData.foldl
    (fun expectedTokens expectedTokenData =>
      goMapSet expectedTokens expectedTokenData.TokenIdentifier.Value expectedTokenData)
    []

/-- The map `expectedInstances` of `checkTokenInstances`: the expected instances
by nonce. -/
def expectedInstances (expectedToken : CheckDCDTData) : List (Nat × CheckDCDTInstance) :=
  expectedToken.Instances.foldl
    (fun m expectedInstance => goMapSet m expectedInstance.Nonce.Value expectedInstance) []

/-- The map `accountInstances` of `checkTokenInstances`: the instances of the
account by nonce. -/
def accountInstances (accountToken : MockDCDTData) : List (Nat × DCDigitalToken) :=
  accountToken.Instances.foldl
    (fun m accountInstance => goMapSet m accountInstance.TokenMetaData.Nonce accountInstance) []

/-- The function `checkTokenInstances`; the nonces are visited in the order in
which they enter `allNonces`. -/
def checkTokenInstances (C : CheckCollaborators) (accountAddress tokenName : String)
    (expectedToken : CheckDCDTData) (accountToken : MockDCDTData) : List String :=
  let allNonces : List Nat :=
    (goMapKeys (expectedInstances expectedToken) ++
      goMapKeys (accountInstances accountToken)).dedup
  allNonces.flatMap fun nonce =>
    match goMapGet (expectedInstances expectedToken) nonce,
      goMapGet (accountInstances accountToken) nonce with
    | none, _ => []
    | some _, none => []
    | some expectedInstance, some accountInstance =>
      if ¬ C.CheckBigInt expectedInstance.Balance accountInstance.Value then
        ["bad DCDT balance. Account: " ++ accountAddress ++ ". Token: " ++ tokenName ++
          ". Nonce: " ++ toString nonce ++ ". Want: " ++ expectedInstance.Balance.Original ++
          ". Have: " ++ toString accountInstance.Value]
      else []

/-- The function `checkTokenRoles`; the roles are visited in the order in which
they enter `allRoles`. -/
def checkTokenRoles (accountAddress tokenName : String) (expectedToken : CheckDCDTData)
    (accountToken : MockDCDTData) : List String :=
  let allRoles : List String := (expectedToken.Roles ++ accountToken.Roles).dedup
  let expectedRoles : String → Bool := fun role => decide (role ∈ expectedToken.Roles)
  let accountRoles : String → Bool := fun role => decide (role ∈ accountToken.Roles)
  allRoles.flatMap fun role =>
    (if ¬ expectedRoles role then
      ["unexpected DCDT role. Account: " ++ accountAddress ++ ". Token: " ++ tokenName ++
        ". Role: " ++ role]
    else []) ++
    (if ¬ accountRoles role then
      ["missing DCDT role. Account: " ++ accountAddress ++ ". Token: " ++ tokenName ++
        ". Role: " ++ role]
    else [])

/-- The function `checkTokenState`. -/
def checkTokenState (C : CheckCollaborators) (accountAddress tokenName : String)
    (expectedToken : CheckDCDTData) (accountToken : MockDCDTData) : List String :=
  let errors := checkTokenInstances C accountAddress tokenName expectedToken accountToken
  let errors :=
    if ¬ C.CheckUint64 expectedToken.LastNonce accountToken.LastNonce then
      errors ++
        ["bad account DCDT last nonce. Account: " ++ accountAddress ++ ". Token: " ++ tokenName ++
          ". Want: \"" ++ expectedToken.LastNonce.Original ++ "\". Have: " ++
          toString accountToken.LastNonce]
    else errors
  errors ++ checkTokenRoles accountAddress tokenName expectedToken accountToken

/-- The errors that the loop of `checkAccountDCDT` over all token names
collects: a token name that the expectation lacks, and one that the account
lacks, gets a default that nothing reads; the token names are visited in the
order in which they enter `allTokenNames`. -/
def checkAccountDCDTErrors (C : CheckCollaborators) (accountAddress : String)
    (expectedTokens : List (String × CheckDCDTData))
    (accountTokens : List (String × MockDCDTData)) : List String :=
  let allTokenNames : List String :=
    (goMapKeys expectedTokens ++ goMapKeys accountTokens).dedup
  allTokenNames.flatMap fun tokenName =>
    match goMapGet expectedTokens tokenName, goMapGet accountTokens tokenName with
    | none, _ => []
    | some _, none => []
    | some expectedToken, some accountToken =>
      checkTokenState C accountAddress tokenName expectedToken accountToken

/-- The method `checkAccountDCDT`: the error, if any. -/
def checkAccountDCDT (C : CheckCollaborators) (expectedAcct : CheckAccount)
    (matchingAcct : Account) : Option String :=
  if expectedAcct.IgnoreDCDT then none
  else
    let accountAddress := expectedAcct.Address.Original
    let expectedTokens := getExpectedTokens expectedAcct
    match matchingAcct.GetFullMockDCDTData with
    | .error err => some err
    | .ok accountTokens =>
      let errors := checkAccountDCDTErrors C accountAddress expectedTokens accountTokens
      let errorString := makeErrorString errors
      if errorString.length > 0 then
        some ("mismatch for account " ++ accountAddress ++ ": " ++ errorString)
      else none

/-- The words of the specification: some token present both in the expectation
and in the account differs in an instance balance present on both sides, in last
nonce, or in its role set. -/
def TokenMismatch (C : CheckCollaborators) (expectedAcct : CheckAccount)
    (accountTokens : List (String × MockDCDTData)) : Prop :=
  ∃ tokenName expectedToken accountToken,
    goMapGet (getExpectedTokens expectedAcct) tokenName = some expectedToken ∧
    goMapGet accountTokens tokenName = some accountToken ∧
    ((∃ nonce expectedInstance accountInstance,
        goMapGet (expectedInstances expectedToken) nonce = some expectedInstance ∧
        goMapGet (accountInstances accountToken) nonce = some accountInstance ∧
        C.CheckBigInt expectedInstance.Balance accountInstance.Value = false) ∨
      C.CheckUint64 expectedToken.LastNonce accountToken.LastNonce = false ∨
      ¬ (∀ role, role ∈ expectedToken.Roles ↔ role ∈ accountToken.Roles))

/-- Checks at concrete inputs: a number is as expected when it equals the
value of the expectation. -/
def testCheckCollaborators : CheckCollaborators :=
  { CheckUint64 := fun expected have_ => decide (expected.Value = have_)
    CheckBigInt := fun expected have_ => decide (expected.Value = have_) }

/-- An expectation at concrete inputs: token `TOK` with balance 5 at nonce 0 and
token `ONLY` that the account lacks. -/
def testCheckAccount : CheckAccount :=
  { Address := { Value := "a", Original := "str:a" }
    IgnoreDCDT := false
    CheckDCDTData :=
      [ { TokenIdentifier := { Value := "TOK", Original := "str:TOK" }
          Instances := [ { Nonce := { Value := 0, Original := "0" }
                           Balance := { Value := 5, Original := "5" } } ]
          LastNonce := { Value := 0, Original := "0" }
          Roles := [] },
        { TokenIdentifier := { Value := "ONLY", Original := "str:ONLY" }
          Instances := [ { Nonce := { Value := 0, Original := "0" }
                           Balance := { Value := 1, Original := "1" } } ]
          LastNonce := { Value := 0, Original := "0" }
          Roles := [] } ] }

/-- An account at concrete inputs: token `TOK` with the given balance at nonce 0
and token `EXTRA` that is not expected. -/
def testAccount (balance : Int) : Account :=
  { GetFullMockDCDTData :=
      .ok
        [ ("TOK",
            { TokenIdentifier := "TOK"
              Instances := [ { Value := balance, TokenMetaData := { Name := "TOK", Nonce := 0 } } ]
              LastNonce := 0
              Roles := [] }),
          ("EXTRA",
            { TokenIdentifier := "EXTRA"
              Instances := [ { Value := 7, TokenMetaData := { Name := "EXTRA", Nonce := 0 } } ]
              LastNonce := 0
              Roles := [] }) ] }

/-! ## Collaborators of the indirect deployment -/

/-- The nested steps leave the state stack of the Metering context as they found
it. -/
def Collaborators.KeepsMeteringStack (E : Collaborators) : Prop :=
  (∀ host input,
    (E.execute host input).2.meteringContext.stateStack = host.meteringContext.stateStack) ∧
  (∀ host asyncInfo,
    (E.processAsyncInfo host asyncInfo).2.meteringContext.stateStack =
      host.meteringContext.stateStack)

/-- Collaborators of a callee that does nothing and succeeds, the value transfer
succeeding without a change. -/
def succeedingCollaborators : Collaborators :=
  { TransferValueOnly := fun host _ _ _ _ => (none, host.outputContext.outputState)
    GetVMOutput := fun host => (host.outputContext.outputState, host.outputContext.outputState)
    GetCurrentTotalUsedGas := fun _ => (0, false)
    execute := fun host _ => ((0, none), host)
    processAsyncInfo := fun host _ => (none, host) }

/-! ## The instance of the caller of a nested call -/

/-- The frame of the caller in the Runtime context: the state stack and the
points-used counter of the instance that its top snapshot holds. -/
def vmHost.callerInstance (host : vmHost) : List runtimeFrame × Option Nat :=
  (host.runtimeContext.stateStack, host.runtimeContext.callerPointsUsed)

/-- The steps of a callee leave the state stack of the Runtime context and the
instance of the caller as they found them: `MustVerifyNextContractCode`, the
start of the instance of the callee, and, once that instance runs, the called
function and the `init` function with their handling of breakpoints. -/
def BuiltinCollaborators.KeepsCallerInstance (B : BuiltinCollaborators) : Prop :=
  (∀ host : vmHost,
    ({ host with runtimeContext :=
        B.MustVerifyNextContractCode host.runtimeContext } : vmHost).callerInstance =
      host.callerInstance) ∧
  (∀ host contract gas newCode,
    (B.StartWasmerInstance host contract gas newCode).2.callerInstance =
      host.callerInstance) ∧
  (∀ host contract gas newCode,
    (B.StartWasmerInstance host contract gas newCode).1 = none →
    (callSCMethodIndirect B (B.StartWasmerInstance host contract gas newCode).2).2.callerInstance =
      host.callerInstance) ∧
  (∀ host contract gas newCode,
    (B.StartWasmerInstance host contract gas newCode).1 = none →
    (callInitFunction B.toHostCollaborators
      (B.StartWasmerInstance host contract gas newCode).2).2.callerInstance =
      host.callerInstance)

/-! ## Theorems: metering -/

section metering

open meteringContext

theorem AddUint64_of_le {a b : Nat} (h : a + b ≤ MaxUint64) : AddUint64 a b = a + b := by
  unfold AddUint64
  rw [if_neg (by omega)]

theorem AddUint64_le (a b : Nat) : AddUint64 a b ≤ MaxUint64 := by
  unfold AddUint64
  split <;> omega

theorem cost_exact {b l c : Nat} (h : b + l * c ≤ MaxUint64) :
    AddUint64 b (MulUint64 l c) = b + l * c := by
  have h1 : MulUint64 l c = l * c := by
    unfold MulUint64
    rw [if_neg (by omega)]
  rw [h1]
  exact AddUint64_of_le h

theorem GasLeft_eq (host : vmHost) :
    GasLeft host = host.meteringContext.gasForExecution - host.runtimeContext.pointsUsed := by
  unfold GasLeft
  simp only [runtimeContext.GetPointsUsed]
  split <;> omega

/-- C6. `GasLeft` is `gasForExecution - pointsUsed` when the points used by the
active instance do not exceed `gasForExecution`, and 0 otherwise. -/
theorem GasLeft_floor (host : vmHost) :
    GasLeft host =
      if host.runtimeContext.GetPointsUsed ≤ host.meteringContext.gasForExecution then
        host.meteringContext.gasForExecution - host.runtimeContext.GetPointsUsed
      else 0 := by
  unfold GasLeft
  simp only []
  split <;> split <;> omega

/-- C5. With `gasForExecution` a `uint64`: `UseGasBounded n` returns
`ErrNotEnoughGas` exactly when `n ≥ GasLeft`, and then leaves the host, so the
points-used counter, unchanged; otherwise it returns no error and the
points-used counter has grown by `n`. -/
theorem UseGasBounded_spec (host : vmHost) (n : Nat)
    (hU : host.meteringContext.gasForExecution ≤ MaxUint64) :
    ((UseGasBounded host n).1 = some VMError.ErrNotEnoughGas ↔ n ≥ GasLeft host) ∧
    UseGasBounded host n =
      if n ≥ GasLeft host then (some VMError.ErrNotEnoughGas, host)
      else (none, host.SetPointsUsed (host.runtimeContext.GetPointsUsed + n)) := by
  have hg := GasLeft_eq host
  refine ⟨?_, ?_⟩
  · unfold UseGasBounded
    split
    · simp; omega
    · simp; omega
  · unfold UseGasBounded
    split
    · rfl
    · rename_i hlt
      rw [hg] at hlt
      simp only [UseGas, runtimeContext.GetPointsUsed]
      rw [AddUint64_of_le (by omega)]

/-- Witness of C5: with 1000 gas for execution and no points used,
`UseGasBounded 999` is charged. -/
theorem UseGasBounded_spec_witness :
    (bindVMInput (testHost [1])
        (testVMInput CallType.DirectCall 1000 0)).meteringContext.gasForExecution ≤ MaxUint64 ∧
    (UseGasBounded (bindVMInput (testHost [1]) (testVMInput CallType.DirectCall 1000 0)) 1000).1
      = some VMError.ErrNotEnoughGas ∧
    (UseGasBounded (bindVMInput (testHost [1])
        (testVMInput CallType.DirectCall 1000 0)) 999).2.runtimeContext.GetPointsUsed = 999 := by
  refine ⟨by decide, ?_, ?_⟩
  · exact (UseGasBounded_spec (bindVMInput (testHost [1])
      (testVMInput CallType.DirectCall 1000 0)) 1000 (by decide)).1.2 (by decide)
  · rw [(UseGasBounded_spec (bindVMInput (testHost [1])
      (testVMInput CallType.DirectCall 1000 0)) 999 (by decide)).2]
    decide

theorem deductInitialGas_spec (host : vmHost) (code : Bytes) (baseCost costPerByte : Nat) :
    deductInitialGas host code baseCost costPerByte =
      if AddUint64 baseCost (MulUint64 code.length costPerByte) ≤
          host.runtimeContext.vmInput.GasProvided then
        (none, { host with meteringContext :=
          { host.meteringContext with
            initialCost := AddUint64 baseCost (MulUint64 code.length costPerByte)
            gasForExecution := host.runtimeContext.vmInput.GasProvided -
              AddUint64 baseCost (MulUint64 code.length costPerByte) } })
      else (some VMError.ErrNotEnoughGas, host) := by
  unfold deductInitialGas
  simp only []
  split <;> split <;> first | rfl | omega

/-- C7, counterexample. First, with the gas schedule of the tests
(`CreateContract = 1`, `CompilePerByte = 1`), a code of one byte and
`GasProvided = 2`, the deduction succeeds (the cost 2 does not exceed the gas),
although `G = 2` and `L > 0`. Second, with `CreateContract = 2^64 - 1`, a code
of one byte, `CompilePerByte = 1` and `GasProvided = 2^64 - 1`, the cost
`CreateContract + L * CompilePerByte = 2^64` exceeds the gas provided, yet the
deduction succeeds, with `initialCost = 2^64 - 1`. -/
theorem DeductInitialGasForDirectDeployment_counterexample :
    (DeductInitialGasForDirectDeployment
        (bindVMInput (testHost [1]) (testVMInput CallType.DirectCall 2 0))
        { ContractCode := [0], ContractCodeMetadata := [], ContractAddress := [],
          CodeDeployerAddress := [] }).1 = none ∧
    ¬ ((18446744073709551615 : Nat) + [0].length * 1 ≤ 18446744073709551615) ∧
    (DeductInitialGasForDirectDeployment
        { bindVMInput (testHost [1]) (testVMInput CallType.DirectCall 18446744073709551615 0) with
          meteringContext :=
            { (bindVMInput (testHost [1])
                (testVMInput CallType.DirectCall 18446744073709551615 0)).meteringContext with
              gasSchedule :=
                { BaseOperationCost := { CompilePerByte := 1, AoTPreparePerByte := 1, GetCode := 1 }
                  BaseOpsAPICost :=
                    { CreateContract := 18446744073709551615, AsyncCallStep := 1,
                      AsyncCallbackGasLock := 1 } } } }
        { ContractCode := [0], ContractCodeMetadata := [], ContractAddress := [],
          CodeDeployerAddress := [] }) =
      (none,
        { bindVMInput (testHost [1]) (testVMInput CallType.DirectCall 18446744073709551615 0) with
          meteringContext :=
            { (bindVMInput (testHost [1])
                (testVMInput CallType.DirectCall 18446744073709551615 0)).meteringContext with
              gasSchedule :=
                { BaseOperationCost := { CompilePerByte := 1, AoTPreparePerByte := 1, GetCode := 1 }
                  BaseOpsAPICost :=
                    { CreateContract := 18446744073709551615, AsyncCallStep := 1,
                      AsyncCallbackGasLock := 1 } }
              initialCost := 18446744073709551615
              gasForExecution := 0 } }) := by
  decide

/-- C7, amended. Absent `uint64` overflow of `CreateContract + L * CompilePerByte`:
`DeductInitialGasForDirectDeployment` succeeds if and only if this cost does not
exceed the gas provided by the input of the runtime, and then sets `initialCost`
to the cost and `gasForExecution` to the gas provided less the cost; otherwise
it returns `ErrNotEnoughGas` and leaves the host unchanged. -/
theorem DeductInitialGasForDirectDeployment_spec (host : vmHost) (input : CodeDeployInput)
    (hno : host.meteringContext.gasSchedule.BaseOpsAPICost.CreateContract +
        input.ContractCode.length * host.meteringContext.gasSchedule.BaseOperationCost.CompilePerByte
      ≤ MaxUint64) :
    DeductInitialGasForDirectDeployment host input =
      if host.meteringContext.gasSchedule.BaseOpsAPICost.CreateContract +
          input.ContractCode.length * host.meteringContext.gasSchedule.BaseOperationCost.CompilePerByte
          ≤ host.runtimeContext.vmInput.GasProvided then
        (none, { host with meteringContext :=
          { host.meteringContext with
            initialCost :=
              host.meteringContext.gasSchedule.BaseOpsAPICost.CreateContract +
                input.ContractCode.length *
                  host.meteringContext.gasSchedule.BaseOperationCost.CompilePerByte
            gasForExecution := host.runtimeContext.vmInput.GasProvided -
              (host.meteringContext.gasSchedule.BaseOpsAPICost.CreateContract +
                input.ContractCode.length *
                  host.meteringContext.gasSchedule.BaseOperationCost.CompilePerByte) } })
      else (some VMError.ErrNotEnoughGas, host) := by
  unfold DeductInitialGasForDirectDeployment
  rw [deductInitialGas_spec, cost_exact hno]

/-- Witness of C7, amended: with the gas schedule of the tests, a code of 12 bytes
and 10000 gas the deduction leaves `10000 - 1 - 12` gas for execution; with 2 gas
and a code of 2 bytes it fails. -/
theorem DeductInitialGasForDirectDeployment_spec_witness :
    (1 + (List.replicate 12 0).length * 1 ≤ MaxUint64) ∧
    (DeductInitialGasForDirectDeployment
        (bindVMInput (testHost [1]) (testVMInput CallType.DirectCall 10000 0))
        { ContractCode := List.replicate 12 0, ContractCodeMetadata := [], ContractAddress := [],
          CodeDeployerAddress := [] }).2.meteringContext.gasForExecution = 9987 ∧
    (DeductInitialGasForDirectDeployment
        (bindVMInput (testHost [1]) (testVMInput CallType.DirectCall 2 0))
        { ContractCode := [0, 0], ContractCodeMetadata := [], ContractAddress := [],
          CodeDeployerAddress := [] }).1 = some VMError.ErrNotEnoughGas := by
  refine ⟨by decide, ?_, ?_⟩
  · rw [DeductInitialGasForDirectDeployment_spec
      (bindVMInput (testHost [1]) (testVMInput CallType.DirectCall 10000 0))
      { ContractCode := List.replicate 12 0, ContractCodeMetadata := [], ContractAddress := [],
        CodeDeployerAddress := [] } (by decide)]
    decide
  · rw [DeductInitialGasForDirectDeployment_spec
      (bindVMInput (testHost [1]) (testVMInput CallType.DirectCall 2 0))
      { ContractCode := [0, 0], ContractCodeMetadata := [], ContractAddress := [],
        CodeDeployerAddress := [] } (by decide)]
    decide

theorem FrameInvariant_bindVMInput (host : vmHost) (input : VMInput) :
    FrameInvariant (bindVMInput host input) := by
  simp [FrameInvariant, bindVMInput, InitStateFromContractCallInput]

theorem FrameInvariant_deductInitialGas (host : vmHost) (code : Bytes) (baseCost costPerByte : Nat)
    (h : FrameInvariant host) :
    FrameInvariant (deductInitialGas host code baseCost costPerByte).2 := by
  rw [deductInitialGas_spec]
  split
  · obtain ⟨_, _, h3⟩ := h
    simp only [FrameInvariant]
    omega
  · exact h

theorem FrameInvariant_run (host : vmHost) (call : DeductCall) (h : FrameInvariant host) :
    FrameInvariant (call.run host) := by
  cases call <;> exact FrameInvariant_deductInitialGas _ _ _ _ h

theorem FrameInvariant_runDeductCalls (calls : List DeductCall) :
    ∀ host : vmHost, FrameInvariant host → FrameInvariant (runDeductCalls host calls) := by
  induction calls with
  | nil => intro host h; exact h
  | cons call rest ih =>
    intro host h
    exact ih _ (FrameInvariant_run host call h)

/-- C8. After `InitStateFromContractCallInput` on the input held by the runtime,
followed by any sequence of initial deductions (for execution, direct or indirect
deployment, successful or failed), `gasForExecution = initialGasProvided -
initialCost` and `initialCost ≤ initialGasProvided`. -/
theorem deduct_calls_keep_frame_invariant (host : vmHost) (input : VMInput)
    (calls : List DeductCall) :
    (runDeductCalls (bindVMInput host input) calls).meteringContext.gasForExecution =
      (runDeductCalls (bindVMInput host input) calls).meteringContext.initialGasProvided -
        (runDeductCalls (bindVMInput host input) calls).meteringContext.initialCost ∧
    (runDeductCalls (bindVMInput host input) calls).meteringContext.initialCost ≤
      (runDeductCalls (bindVMInput host input) calls).meteringContext.initialGasProvided := by
  have h := FrameInvariant_runDeductCalls calls _ (FrameInvariant_bindVMInput host input)
  exact ⟨h.1, h.2.1⟩

/-- C9. After `InitStateFromContractCallInput`, `initialGasProvided` and
`gasForExecution` are both `G'` and `initialCost` is 0, where `G'` is the gas
provided for a call that is not an asynchronous callback, and the gas provided
plus the gas locked (absent overflow) for a callback, whose input then provides
`G'` and locks 0; initialising again with the resulting input changes nothing. -/
theorem InitStateFromContractCallInput_spec (host : vmHost) (input : VMInput)
    (hno : input.CallType = CallType.AsynchronousCallBack →
      input.GasProvided + input.GasLocked ≤ MaxUint64) :
    (InitStateFromContractCallInput host input).1.meteringContext.initialGasProvided
        = (if input.CallType = CallType.AsynchronousCallBack then
            input.GasProvided + input.GasLocked else input.GasProvided) ∧
    (InitStateFromContractCallInput host input).1.meteringContext.gasForExecution
        = (if input.CallType = CallType.AsynchronousCallBack then
            input.GasProvided + input.GasLocked else input.GasProvided) ∧
    (InitStateFromContractCallInput host input).1.meteringContext.initialCost = 0 ∧
    (InitStateFromContractCallInput host input).2 =
      (if input.CallType = CallType.AsynchronousCallBack then
        { input with GasProvided := input.GasProvided + input.GasLocked, GasLocked := 0 }
       else input) ∧
    (InitStateFromContractCallInput (InitStateFromContractCallInput host input).1
        (InitStateFromContractCallInput host input).2)
      = InitStateFromContractCallInput host input := by
  by_cases hc : input.CallType = CallType.AsynchronousCallBack
  · have h := AddUint64_of_le (hno hc)
    have h0 : AddUint64 (input.GasProvided + input.GasLocked) 0
        = input.GasProvided + input.GasLocked := AddUint64_of_le (hno hc)
    simp [InitStateFromContractCallInput, unlockGasIfAsyncCallback, hc, h, h0]
  · simp [InitStateFromContractCallInput, unlockGasIfAsyncCallback, hc]

/-- Witness of C9: a callback providing 1000 gas with 100 gas locked is
initialised with 1100 gas, also when initialised twice. -/
theorem InitStateFromContractCallInput_spec_witness :
    ((testVMInput CallType.AsynchronousCallBack 1000 100).CallType =
        CallType.AsynchronousCallBack → 1000 + 100 ≤ MaxUint64) ∧
    (InitStateFromContractCallInput (testHost [1])
      (testVMInput CallType.AsynchronousCallBack 1000 100)).1.meteringContext.initialGasProvided
        = 1100 ∧
    (InitStateFromContractCallInput
        (InitStateFromContractCallInput (testHost [1])
          (testVMInput CallType.AsynchronousCallBack 1000 100)).1
        (InitStateFromContractCallInput (testHost [1])
          (testVMInput CallType.AsynchronousCallBack 1000 100)).2)
      = InitStateFromContractCallInput (testHost [1])
          (testVMInput CallType.AsynchronousCallBack 1000 100) :=
  ⟨fun _ => by decide,
   (InitStateFromContractCallInput_spec (testHost [1])
      (testVMInput CallType.AsynchronousCallBack 1000 100) (fun _ => by decide)).1,
   (InitStateFromContractCallInput_spec (testHost [1])
      (testVMInput CallType.AsynchronousCallBack 1000 100) (fun _ => by decide)).2.2.2.2⟩

theorem getContractGasState_fst (host : vmHost) (a : Address) :
    (getContractGasState host a).1 =
      { forwarded := forwardedOf host a, returned := returnedOf host a } := by
  unfold getContractGasState forwardedOf returnedOf
  split <;> simp_all

theorem GasUsedByContract_fst (host : vmHost) :
    (GasUsedByContract host).1 =
      SubUint64
        (AddUint64 (if host.vmV2Enabled then host.meteringContext.initialCost else 0)
          host.runtimeContext.pointsUsed)
        (SubUint64 (forwardedOf host host.runtimeContext.scAddress)
          (returnedOf host host.runtimeContext.scAddress)).1 := by
  unfold GasUsedByContract getTotalForwardedGas
  simp only [getContractGasState_fst, runtimeContext.GetPointsUsed]

/-- C10. Absent `uint64` overflow of `S`, `GasUsedByContract` returns `(S - N, 0)`
when `S ≥ N` and `(0, N - S)` otherwise, where `S` is the points used plus the
initial cost (the latter only with V2 metering) and `N` is the gas forwarded by
the running contract less the gas returned to it, floored at zero. -/
theorem GasUsedByContract_spec (host : vmHost)
    (hS : host.runtimeContext.GetPointsUsed +
      (if host.vmV2Enabled then host.meteringContext.initialCost else 0) ≤ MaxUint64) :
    (GasUsedByContract host).1 =
      if (if returnedOf host host.runtimeContext.scAddress ≤
              forwardedOf host host.runtimeContext.scAddress
            then forwardedOf host host.runtimeContext.scAddress -
              returnedOf host host.runtimeContext.scAddress
            else 0)
          ≤ host.runtimeContext.GetPointsUsed +
            (if host.vmV2Enabled then host.meteringContext.initialCost else 0) then
        (host.runtimeContext.GetPointsUsed +
            (if host.vmV2Enabled then host.meteringContext.initialCost else 0) -
          (if returnedOf host host.runtimeContext.scAddress ≤
              forwardedOf host host.runtimeContext.scAddress
            then forwardedOf host host.runtimeContext.scAddress -
              returnedOf host host.runtimeContext.scAddress
            else 0), 0)
      else
        (0, (if returnedOf host host.runtimeContext.scAddress ≤
              forwardedOf host host.runtimeContext.scAddress
            then forwardedOf host host.runtimeContext.scAddress -
              returnedOf host host.runtimeContext.scAddress
            else 0) -
          (host.runtimeContext.GetPointsUsed +
            (if host.vmV2Enabled then host.meteringContext.initialCost else 0))) := by
  have hadd : AddUint64 (if host.vmV2Enabled then host.meteringContext.initialCost else 0)
      host.runtimeContext.pointsUsed =
      host.runtimeContext.pointsUsed +
        (if host.vmV2Enabled then host.meteringContext.initialCost else 0) := by
    simp only [runtimeContext.GetPointsUsed] at hS
    rw [AddUint64_of_le (by omega)]; omega
  rw [GasUsedByContract_fst, hadd]
  simp only [runtimeContext.GetPointsUsed]
  generalize host.runtimeContext.pointsUsed +
        (if host.vmV2Enabled then host.meteringContext.initialCost else 0) = S
  generalize forwardedOf host host.runtimeContext.scAddress = f
  generalize returnedOf host host.runtimeContext.scAddress = t
  unfold SubUint64
  split_ifs <;> first | rfl | (exfalso; omega)

/-- Witness of C10: the frame of the test (initial cost 1001, 400 points used)
with 300 gas forwarded and 100 returned reports `(1201, 0)`. -/
theorem GasUsedByContract_spec_witness :
    ((testFrame [1] (testVMInput CallType.DirectCall 2000 0)
        [([1], { forwarded := 300, returned := 100 })]).runtimeContext.GetPointsUsed +
      (if (testFrame [1] (testVMInput CallType.DirectCall 2000 0)
          [([1], { forwarded := 300, returned := 100 })]).vmV2Enabled then
        (testFrame [1] (testVMInput CallType.DirectCall 2000 0)
          [([1], { forwarded := 300, returned := 100 })]).meteringContext.initialCost
       else 0) ≤ MaxUint64) ∧
    (GasUsedByContract (testFrame [1] (testVMInput CallType.DirectCall 2000 0)
        [([1], { forwarded := 300, returned := 100 })])).1 = (1201, 0) := by
  refine ⟨by decide, ?_⟩
  rw [GasUsedByContract_spec _ (by decide)]
  decide

theorem deductInitialGas_keeps (host : vmHost) (code : Bytes) (baseCost costPerByte : Nat) :
    (deductInitialGas host code baseCost costPerByte).2.meteringContext.initialGasProvided =
      host.meteringContext.initialGasProvided ∧
    (deductInitialGas host code baseCost costPerByte).2.vmV2Enabled = host.vmV2Enabled := by
  rw [deductInitialGas_spec]
  split <;> exact ⟨rfl, rfl⟩

theorem bindVMInput_provided (host : vmHost) (input : VMInput) :
    (bindVMInput host input).meteringContext.initialGasProvided =
      (if input.CallType = CallType.AsynchronousCallBack then
        AddUint64 input.GasProvided input.GasLocked else input.GasProvided) ∧
    (bindVMInput host input).vmV2Enabled = host.vmV2Enabled := by
  by_cases hc : input.CallType = CallType.AsynchronousCallBack <;>
    simp [bindVMInput, InitStateFromContractCallInput, unlockGasIfAsyncCallback, hc]

/-- C3, amended. With V2 metering enabled and the gas provided a `uint64`: after
`InitStateFromContractCallInput` on the input held by the runtime and a
successful `DeductInitialGasForExecution`, for any points used `p ≤
gasForExecution`, `GasSpentByContract + GasLeft` is the gas provided by the
input for a call that is not an asynchronous callback, and the gas provided plus
the gas locked (saturating) for a callback. -/
theorem gas_conservation_one_frame (host : vmHost) (input : VMInput) (contract : Bytes) (p : Nat)
    (hV2 : host.vmV2Enabled = true)
    (hG : input.GasProvided ≤ MaxUint64)
    (_hd : (DeductInitialGasForExecution (bindVMInput host input) contract).1 = none)
    (hp : p ≤ (DeductInitialGasForExecution (bindVMInput host input)
      contract).2.meteringContext.gasForExecution) :
    GasSpentByContract
        ((DeductInitialGasForExecution (bindVMInput host input) contract).2.SetPointsUsed p) +
      GasLeft
        ((DeductInitialGasForExecution (bindVMInput host input) contract).2.SetPointsUsed p) =
      (if input.CallType = CallType.AsynchronousCallBack then
        AddUint64 input.GasProvided input.GasLocked else input.GasProvided) := by
  have hinv : FrameInvariant (DeductInitialGasForExecution (bindVMInput host input) contract).2 :=
    FrameInvariant_deductInitialGas _ _ _ _ (FrameInvariant_bindVMInput host input)
  have hk : (DeductInitialGasForExecution (bindVMInput host input)
        contract).2.meteringContext.initialGasProvided =
        (bindVMInput host input).meteringContext.initialGasProvided ∧
      (DeductInitialGasForExecution (bindVMInput host input) contract).2.vmV2Enabled =
        (bindVMInput host input).vmV2Enabled := deductInitialGas_keeps _ _ _ _
  obtain ⟨hb1, hb2⟩ := bindVMInput_provided host input
  obtain ⟨hk1, hk2⟩ := hk
  obtain ⟨hi1, hi2, _⟩ := hinv
  rw [hb1] at hk1
  rw [hb2, hV2] at hk2
  have hbound : (if input.CallType = CallType.AsynchronousCallBack then
      AddUint64 input.GasProvided input.GasLocked else input.GasProvided) ≤ MaxUint64 := by
    split
    · exact AddUint64_le _ _
    · exact hG
  generalize (DeductInitialGasForExecution (bindVMInput host input) contract).2 = h2 at *
  rw [← hk1] at hbound ⊢
  simp only [GasSpentByContract, GasLeft, vmHost.SetPointsUsed, runtimeContext.SetPointsUsed,
    runtimeContext.GetPointsUsed, hk2, if_true]
  rw [AddUint64_of_le (by omega), if_neg (by omega)]
  omega

/-- C3, counterexample. For an asynchronous callback providing 2000 gas with 100
gas locked, a contract of 1000 bytes and 400 points used, the deduction succeeds
and `GasSpentByContract + GasLeft` is 2100, not the 2000 gas the input
provides. -/
theorem gas_conservation_callback_counterexample :
    (DeductInitialGasForExecution
      (bindVMInput (testHost [1]) (testVMInput CallType.AsynchronousCallBack 2000 100))
      (List.replicate 1000 0)).1 = none ∧
    400 ≤ (DeductInitialGasForExecution
      (bindVMInput (testHost [1]) (testVMInput CallType.AsynchronousCallBack 2000 100))
      (List.replicate 1000 0)).2.meteringContext.gasForExecution ∧
    GasSpentByContract ((DeductInitialGasForExecution
        (bindVMInput (testHost [1]) (testVMInput CallType.AsynchronousCallBack 2000 100))
        (List.replicate 1000 0)).2.SetPointsUsed 400) +
      GasLeft ((DeductInitialGasForExecution
        (bindVMInput (testHost [1]) (testVMInput CallType.AsynchronousCallBack 2000 100))
        (List.replicate 1000 0)).2.SetPointsUsed 400) = 2100 ∧
    GasSpentByContract ((DeductInitialGasForExecution
        (bindVMInput (testHost [1]) (testVMInput CallType.AsynchronousCallBack 2000 100))
        (List.replicate 1000 0)).2.SetPointsUsed 400) +
      GasLeft ((DeductInitialGasForExecution
        (bindVMInput (testHost [1]) (testVMInput CallType.AsynchronousCallBack 2000 100))
        (List.replicate 1000 0)).2.SetPointsUsed 400) ≠
      (testVMInput CallType.AsynchronousCallBack 2000 100).GasProvided := by
  decide

/-- Witness of C3, amended: the frame of `TestMeteringContext_GasUsed_NoStacking`
(2000 gas, a contract of 1000 bytes, 400 points used): `1401 + 599 = 2000`. -/
theorem gas_conservation_one_frame_witness :
    (testHost [1]).vmV2Enabled = true ∧
    (testVMInput CallType.DirectCall 2000 0).GasProvided ≤ MaxUint64 ∧
    (DeductInitialGasForExecution
      (bindVMInput (testHost [1]) (testVMInput CallType.DirectCall 2000 0))
      (List.replicate 1000 0)).1 = none ∧
    400 ≤ (DeductInitialGasForExecution
      (bindVMInput (testHost [1]) (testVMInput CallType.DirectCall 2000 0))
      (List.replicate 1000 0)).2.meteringContext.gasForExecution ∧
    GasSpentByContract ((DeductInitialGasForExecution
        (bindVMInput (testHost [1]) (testVMInput CallType.DirectCall 2000 0))
        (List.replicate 1000 0)).2.SetPointsUsed 400) +
      GasLeft ((DeductInitialGasForExecution
        (bindVMInput (testHost [1]) (testVMInput CallType.DirectCall 2000 0))
        (List.replicate 1000 0)).2.SetPointsUsed 400) = 2000 :=
  ⟨by decide, by decide, by decide, by decide,
   gas_conservation_one_frame (testHost [1]) (testVMInput CallType.DirectCall 2000 0)
     (List.replicate 1000 0) 400 (by decide) (by decide) (by decide) (by decide)⟩

theorem lookup_map_set (gs : List (Address × contractGasState)) (a : Address)
    (st : contractGasState) :
    (gs.map (fun kv => if kv.1 = a then (kv.1, st) else kv)).lookup a =
      (gs.lookup a).map (fun _ => st) := by
  induction gs with
  | nil => rfl
  | cons kv rest ih =>
    by_cases h : kv.1 = a
    · rw [List.map_cons, if_pos h, List.lookup_cons, List.lookup_cons]
      simp [h]
    · have h2 : (a == kv.1) = false := by
        simp; exact fun e => h e.symm
      rw [List.map_cons, if_neg h, List.lookup_cons, List.lookup_cons, h2]
      exact ih

theorem addForwardedGas_lookup (host : vmHost) (a : Address) (g : Nat) :
    (addForwardedGas host a g).meteringContext.gasStates.lookup a =
      some { forwarded := AddUint64 (forwardedOf host a) g, returned := returnedOf host a } := by
  unfold addForwardedGas getContractGasState setContractGasState forwardedOf returnedOf
  cases hl : host.meteringContext.gasStates.lookup a with
  | none =>
    simp only [List.map_cons, if_true, List.lookup_cons, beq_self_eq_true]
  | some st => simp [lookup_map_set, hl]

theorem addForwardedGas_rest (host : vmHost) (a : Address) (g : Nat) :
    (addForwardedGas host a g).runtimeContext = host.runtimeContext ∧
    (addForwardedGas host a g).vmV2Enabled = host.vmV2Enabled ∧
    (addForwardedGas host a g).meteringContext.initialCost = host.meteringContext.initialCost ∧
    (addForwardedGas host a g).meteringContext.gasForExecution =
      host.meteringContext.gasForExecution := by
  unfold addForwardedGas getContractGasState setContractGasState
  cases host.meteringContext.gasStates.lookup a <;> simp

theorem forwardedOf_addForwardedGas (host : vmHost) (a : Address) (g : Nat) :
    forwardedOf (addForwardedGas host a g) a = AddUint64 (forwardedOf host a) g ∧
    returnedOf (addForwardedGas host a g) a = returnedOf host a := by
  have h := addForwardedGas_lookup host a g
  constructor
  · rw [forwardedOf, h]
  · rw [returnedOf, h]

theorem PopSetActiveState_enterChildFrame (host c : vmHost) (child : Address) (childInput : VMInput)
    (hstack : c.meteringContext.stateStack =
      (enterChildFrame host child childInput).meteringContext.stateStack) :
    (PopSetActiveState c).meteringContext.initialCost = host.meteringContext.initialCost ∧
    (PopSetActiveState c).meteringContext.gasForExecution = host.meteringContext.gasForExecution ∧
    (PopSetActiveState c).meteringContext.gasStates = c.meteringContext.gasStates ∧
    (PopSetActiveState c).vmV2Enabled = c.vmV2Enabled := by
  have hs : c.meteringContext.stateStack = host.meteringContext.stateStack ++
      [{ initialGasProvided := host.meteringContext.initialGasProvided
         initialCost := host.meteringContext.initialCost
         gasForExecution := host.meteringContext.gasForExecution }] := by
    rw [hstack]
    simp [enterChildFrame, bindVMInput, InitStateFromContractCallInput, unlockGasIfAsyncCallback,
      PushState, UseGas, vmHost.SetPointsUsed]
    split <;> rfl
  unfold PopSetActiveState
  simp only [hs, List.getLast?_append, List.getLast?_singleton]
  simp

/-- C4, amended. Let the ledger of the parent have at least as much gas forwarded
as returned, let the child differ from the parent and not be on the execution
stack, and let no `uint64` overflow occur. If the parent charges `g` for the
child, the child frame, entered with `PushState` and initialised with gas `g`,
ends (leaving the metering stack and the ledger entry of the parent as it found
them) with `GasUsedByContract = u` and `GasLeft = r`, `u + r = g`, and the
parent pops the metering state, gets its points used back, restores `r` and
forwards `u` to the child, then `GasUsedByContract` of the parent is what it was
before the call and its `GasLeft` has decreased by `u`. -/
theorem stack_one_level_parent_usage (host c : vmHost) (child : Address) (childInput : VMInput)
    (hne : child ≠ host.runtimeContext.scAddress)
    (hnot : host.runtimeContext.IsContractOnTheStack child = false)
    (hledger : returnedOf host host.runtimeContext.scAddress ≤
      forwardedOf host host.runtimeContext.scAddress)
    (hov1 : (if host.vmV2Enabled then host.meteringContext.initialCost else 0) +
      host.runtimeContext.pointsUsed + childInput.GasProvided ≤ MaxUint64)
    (hov2 : forwardedOf host host.runtimeContext.scAddress + childInput.GasProvided ≤ MaxUint64)
    (hstack : c.meteringContext.stateStack =
      (enterChildFrame host child childInput).meteringContext.stateStack)
    (hflag : c.vmV2Enabled = host.vmV2Enabled)
    (hkeep : forwardedOf c host.runtimeContext.scAddress =
        forwardedOf host host.runtimeContext.scAddress ∧
      returnedOf c host.runtimeContext.scAddress = returnedOf host host.runtimeContext.scAddress)
    (hur : (GasUsedByContract c).1.1 + GasLeft c = childInput.GasProvided) :
    (GasUsedByContract (returnToParentFrame
        (UseGas host childInput.GasProvided).runtimeContext c child
        (GasLeft c) (GasUsedByContract c).1.1)).1.1 = (GasUsedByContract host).1.1 ∧
    GasLeft (returnToParentFrame
        (UseGas host childInput.GasProvided).runtimeContext c child
        (GasLeft c) (GasUsedByContract c).1.1) = GasLeft host - (GasUsedByContract c).1.1 := by
  obtain ⟨hp1, hp2, hp3, hp4⟩ := PopSetActiveState_enterChildFrame host c child childInput hstack
  generalize hu : (GasUsedByContract c).1.1 = u at *
  generalize hr : GasLeft c = r at *
  -- the runtime of the parent after charging the child
  have hrt : (UseGas host childInput.GasProvided).runtimeContext =
      { host.runtimeContext with pointsUsed := host.runtimeContext.pointsUsed + childInput.GasProvided } := by
    simp only [UseGas, vmHost.SetPointsUsed, runtimeContext.SetPointsUsed,
      runtimeContext.GetPointsUsed]
    rw [AddUint64_of_le (by omega)]
  -- the host after the pop, the runtime restore and the gas restore
  set h3 : vmHost := RestoreGas { PopSetActiveState c with
      runtimeContext := (UseGas host childInput.GasProvided).runtimeContext } r with hh3
  have h3rt : h3.runtimeContext =
      { host.runtimeContext with pointsUsed := host.runtimeContext.pointsUsed + u } := by
    rw [hh3, hrt]
    simp only [RestoreGas, runtimeContext.GetPointsUsed]
    rw [if_pos (by omega)]
    simp only [vmHost.SetPointsUsed, runtimeContext.SetPointsUsed]
    congr 1
    omega
  have h3m : h3.meteringContext = (PopSetActiveState c).meteringContext := by
    rw [hh3]
    simp only [RestoreGas, runtimeContext.GetPointsUsed]
    split <;> rfl
  have h3f : h3.vmV2Enabled = host.vmV2Enabled := by
    rw [hh3, ← hflag, ← hp4]
    simp only [RestoreGas, runtimeContext.GetPointsUsed]
    split <;> rfl
  have h3sc : h3.runtimeContext.scAddress = host.runtimeContext.scAddress := by rw [h3rt]
  have hret : returnToParentFrame (UseGas host childInput.GasProvided).runtimeContext c child r u
      = addForwardedGas h3 host.runtimeContext.scAddress u := by
    have hsc : (UseGas host childInput.GasProvided).runtimeContext.scAddress =
        host.runtimeContext.scAddress := by rw [hrt]
    unfold returnToParentFrame ForwardGas
    simp only [hsc, ← hh3]
    have hst : (addForwardedGas h3 host.runtimeContext.scAddress u).runtimeContext.IsContractOnTheStack
        child = false := by
      rw [(addForwardedGas_rest h3 _ u).1, h3rt]
      exact hnot
    have hself : decide (host.runtimeContext.scAddress = child) = false := by
      simp; exact fun e => hne e.symm
    rw [hst, hself]
    rfl
  rw [hret]
  obtain ⟨ha1, ha2, ha3, ha4⟩ := addForwardedGas_rest h3 host.runtimeContext.scAddress u
  obtain ⟨hf, ht⟩ := forwardedOf_addForwardedGas h3 host.runtimeContext.scAddress u
  have hf3 : forwardedOf h3 host.runtimeContext.scAddress =
      forwardedOf host host.runtimeContext.scAddress := by
    rw [← hkeep.1]; unfold forwardedOf; rw [h3m, hp3]
  have ht3 : returnedOf h3 host.runtimeContext.scAddress =
      returnedOf host host.runtimeContext.scAddress := by
    rw [← hkeep.2]; unfold returnedOf; rw [h3m, hp3]
  constructor
  · rw [GasUsedByContract_fst, GasUsedByContract_fst, ha1, ha2, ha3, h3f, h3m, hp1, h3sc, hf, ht,
      hf3, ht3, h3rt]
    simp only []
    rw [AddUint64_of_le (by omega), AddUint64_of_le (by omega), AddUint64_of_le (by omega)]
    unfold SubUint64
    split_ifs <;> simp only [] <;> omega
  · unfold GasLeft
    simp only [runtimeContext.GetPointsUsed, ha1, ha4, h3m, hp2, h3rt]
    split_ifs <;> omega

/-- C4, counterexample. The parent of `TestMeteringContext_GasUsed_StackOneLevel`
(4000 gas, `GasUsedByContract = 1401`) with a ledger in which 100 gas was
returned to it and none forwarded: the child `[2]`, not on the execution stack,
is charged 500 gas and ends with `u = 151` and `r = 349`; after the return the
parent reports 1501, not 1401. -/
theorem stack_one_level_ledger_counterexample :
    (testFrame [1] (testVMInput CallType.DirectCall 4000 0)
      [([1], { forwarded := 0, returned := 100 })]).runtimeContext.IsContractOnTheStack [2]
      = false ∧
    (GasUsedByContract (testFrame [1] (testVMInput CallType.DirectCall 4000 0)
      [([1], { forwarded := 0, returned := 100 })])).1.1 = 1401 ∧
    (GasUsedByContract (testChildEnd (testFrame [1] (testVMInput CallType.DirectCall 4000 0)
      [([1], { forwarded := 0, returned := 100 })]) [2])).1.1 = 151 ∧
    GasLeft (testChildEnd (testFrame [1] (testVMInput CallType.DirectCall 4000 0)
      [([1], { forwarded := 0, returned := 100 })]) [2]) = 349 ∧
    (GasUsedByContract (returnToParentFrame
      (UseGas (testFrame [1] (testVMInput CallType.DirectCall 4000 0)
        [([1], { forwarded := 0, returned := 100 })]) 500).runtimeContext
      (testChildEnd (testFrame [1] (testVMInput CallType.DirectCall 4000 0)
        [([1], { forwarded := 0, returned := 100 })]) [2])
      [2] 349 151)).1.1 = 1501 := by
  decide

/-- Witness of C4, amended: `TestMeteringContext_GasUsed_StackOneLevel`. The parent
(4000 gas, a contract of 1000 bytes, 400 points used) reports 1401 before and
after the call of the child, and its gas left goes from 2599 to 2448. -/
theorem stack_one_level_parent_usage_witness :
    ([2] ≠ (testFrame [1] (testVMInput CallType.DirectCall 4000 0) []).runtimeContext.scAddress) ∧
    (GasUsedByContract (testChildEnd (testFrame [1] (testVMInput CallType.DirectCall 4000 0) [])
      [2])).1.1 +
      GasLeft (testChildEnd (testFrame [1] (testVMInput CallType.DirectCall 4000 0) []) [2])
      = (testVMInput CallType.DirectCall 500 0).GasProvided ∧
    (GasUsedByContract (returnToParentFrame
        (UseGas (testFrame [1] (testVMInput CallType.DirectCall 4000 0) [])
          (testVMInput CallType.DirectCall 500 0).GasProvided).runtimeContext
        (testChildEnd (testFrame [1] (testVMInput CallType.DirectCall 4000 0) []) [2]) [2]
        (GasLeft (testChildEnd (testFrame [1] (testVMInput CallType.DirectCall 4000 0) []) [2]))
        (GasUsedByContract (testChildEnd
          (testFrame [1] (testVMInput CallType.DirectCall 4000 0) []) [2])).1.1)).1.1 =
      (GasUsedByContract (testFrame [1] (testVMInput CallType.DirectCall 4000 0) [])).1.1 ∧
    GasLeft (returnToParentFrame
        (UseGas (testFrame [1] (testVMInput CallType.DirectCall 4000 0) [])
          (testVMInput CallType.DirectCall 500 0).GasProvided).runtimeContext
        (testChildEnd (testFrame [1] (testVMInput CallType.DirectCall 4000 0) []) [2]) [2]
        (GasLeft (testChildEnd (testFrame [1] (testVMInput CallType.DirectCall 4000 0) []) [2]))
        (GasUsedByContract (testChildEnd
          (testFrame [1] (testVMInput CallType.DirectCall 4000 0) []) [2])).1.1) =
      GasLeft (testFrame [1] (testVMInput CallType.DirectCall 4000 0) []) -
        (GasUsedByContract (testChildEnd
          (testFrame [1] (testVMInput CallType.DirectCall 4000 0) []) [2])).1.1 :=
  ⟨by decide, by decide,
   stack_one_level_parent_usage (testFrame [1] (testVMInput CallType.DirectCall 4000 0) [])
     (testChildEnd (testFrame [1] (testVMInput CallType.DirectCall 4000 0) []) [2]) [2]
     (testVMInput CallType.DirectCall 500 0)
     (by decide) (by decide) (by decide) (by decide) (by decide) (by decide) (by decide)
     (by decide) (by decide)⟩

end metering

/-! ## Theorems: state stacks of nested calls -/

section frames

variable (host : vmHost)

@[simp] theorem bigInt_PushState_frame :
    (bigIntContext.PushState host).outputContext = host.outputContext ∧
    (bigIntContext.PushState host).runtimeContext = host.runtimeContext ∧
    (bigIntContext.PushState host).meteringContext = host.meteringContext ∧
    (bigIntContext.PushState host).storageContext = host.storageContext ∧
    (bigIntContext.PushState host).bigIntContext.stateStack.length =
      host.bigIntContext.stateStack.length + 1 := by
  simp [bigIntContext.PushState]

@[simp] theorem bigInt_InitState_frame :
    (bigIntContext.InitState host).outputContext = host.outputContext ∧
    (bigIntContext.InitState host).runtimeContext = host.runtimeContext ∧
    (bigIntContext.InitState host).meteringContext = host.meteringContext ∧
    (bigIntContext.InitState host).storageContext = host.storageContext ∧
    (bigIntContext.InitState host).bigIntContext.stateStack = host.bigIntContext.stateStack := by
  simp [bigIntContext.InitState]

@[simp] theorem bigInt_PopSetActiveState_frame :
    (bigIntContext.PopSetActiveState host).outputContext = host.outputContext ∧
    (bigIntContext.PopSetActiveState host).runtimeContext = host.runtimeContext ∧
    (bigIntContext.PopSetActiveState host).meteringContext = host.meteringContext ∧
    (bigIntContext.PopSetActiveState host).storageContext = host.storageContext ∧
    (bigIntContext.PopSetActiveState host).bigIntContext.stateStack.length =
      host.bigIntContext.stateStack.length - 1 := by
  refine ⟨?_, ?_, ?_, ?_, ?_⟩ <;> simp only [bigIntContext.PopSetActiveState] <;> split <;>
    simp_all [List.getLast?_eq_none_iff]

@[simp] theorem bigInt_PopDiscard_frame :
    (bigIntContext.PopDiscard host).outputContext = host.outputContext ∧
    (bigIntContext.PopDiscard host).runtimeContext = host.runtimeContext ∧
    (bigIntContext.PopDiscard host).meteringContext = host.meteringContext ∧
    (bigIntContext.PopDiscard host).storageContext = host.storageContext ∧
    (bigIntContext.PopDiscard host).bigIntContext.stateStack.length =
      host.bigIntContext.stateStack.length - 1 := by
  refine ⟨?_, ?_, ?_, ?_, ?_⟩ <;> simp only [bigIntContext.PopDiscard] <;> split <;> simp_all

@[simp] theorem output_PushState_frame :
    (outputContext.PushState host).bigIntContext = host.bigIntContext ∧
    (outputContext.PushState host).runtimeContext = host.runtimeContext ∧
    (outputContext.PushState host).meteringContext = host.meteringContext ∧
    (outputContext.PushState host).storageContext = host.storageContext ∧
    (outputContext.PushState host).outputContext.stateStack =
      host.outputContext.stateStack ++ [host.outputContext.outputState] := by
  simp [outputContext.PushState]

@[simp] theorem output_CensorVMOutput_frame :
    (outputContext.CensorVMOutput host).bigIntContext = host.bigIntContext ∧
    (outputContext.CensorVMOutput host).runtimeContext = host.runtimeContext ∧
    (outputContext.CensorVMOutput host).meteringContext = host.meteringContext ∧
    (outputContext.CensorVMOutput host).storageContext = host.storageContext ∧
    (outputContext.CensorVMOutput host).outputContext.stateStack = host.outputContext.stateStack := by
  simp [outputContext.CensorVMOutput]

@[simp] theorem setOutputState_frame (out : VMOutput) :
    (host.setOutputState out).bigIntContext = host.bigIntContext ∧
    (host.setOutputState out).runtimeContext = host.runtimeContext ∧
    (host.setOutputState out).meteringContext = host.meteringContext ∧
    (host.setOutputState out).storageContext = host.storageContext ∧
    (host.setOutputState out).outputContext.stateStack = host.outputContext.stateStack := by
  simp [vmHost.setOutputState]

@[simp] theorem output_PopSetActiveState_frame :
    (outputContext.PopSetActiveState host).bigIntContext = host.bigIntContext ∧
    (outputContext.PopSetActiveState host).runtimeContext = host.runtimeContext ∧
    (outputContext.PopSetActiveState host).meteringContext = host.meteringContext ∧
    (outputContext.PopSetActiveState host).storageContext = host.storageContext ∧
    (outputContext.PopSetActiveState host).outputContext.stateStack.length =
      host.outputContext.stateStack.length - 1 := by
  refine ⟨?_, ?_, ?_, ?_, ?_⟩ <;> simp only [outputContext.PopSetActiveState] <;> split <;>
    simp_all [List.getLast?_eq_none_iff]

@[simp] theorem output_PopMergeActiveState_frame :
    (outputContext.PopMergeActiveState host).bigIntContext = host.bigIntContext ∧
    (outputContext.PopMergeActiveState host).runtimeContext = host.runtimeContext ∧
    (outputContext.PopMergeActiveState host).meteringContext = host.meteringContext ∧
    (outputContext.PopMergeActiveState host).storageContext = host.storageContext ∧
    (outputContext.PopMergeActiveState host).outputContext.stateStack.length =
      host.outputContext.stateStack.length - 1 := by
  refine ⟨?_, ?_, ?_, ?_, ?_⟩ <;> simp only [outputContext.PopMergeActiveState] <;> split <;>
    simp_all [List.getLast?_eq_none_iff]

@[simp] theorem output_PopDiscard_frame :
    (outputContext.PopDiscard host).bigIntContext = host.bigIntContext ∧
    (outputContext.PopDiscard host).runtimeContext = host.runtimeContext ∧
    (outputContext.PopDiscard host).meteringContext = host.meteringContext ∧
    (outputContext.PopDiscard host).storageContext = host.storageContext ∧
    (outputContext.PopDiscard host).outputContext.stateStack.length =
      host.outputContext.stateStack.length - 1 := by
  refine ⟨?_, ?_, ?_, ?_, ?_⟩ <;> simp only [outputContext.PopDiscard] <;> split <;> simp_all

@[simp] theorem runtime_PushState_frame :
    (runtimeContext.PushState host).bigIntContext = host.bigIntContext ∧
    (runtimeContext.PushState host).outputContext = host.outputContext ∧
    (runtimeContext.PushState host).meteringContext = host.meteringContext ∧
    (runtimeContext.PushState host).storageContext = host.storageContext ∧
    (runtimeContext.PushState host).runtimeContext.stateStack.length =
      host.runtimeContext.stateStack.length + 1 := by
  simp [runtimeContext.PushState]

@[simp] theorem runtime_InitState_frame (input : ContractCallInput) :
    (runtimeContext.InitStateFromContractCallInput host input).bigIntContext = host.bigIntContext ∧
    (runtimeContext.InitStateFromContractCallInput host input).outputContext = host.outputContext ∧
    (runtimeContext.InitStateFromContractCallInput host input).meteringContext =
      host.meteringContext ∧
    (runtimeContext.InitStateFromContractCallInput host input).storageContext =
      host.storageContext ∧
    (runtimeContext.InitStateFromContractCallInput host input).runtimeContext.stateStack =
      host.runtimeContext.stateStack := by
  simp [runtimeContext.InitStateFromContractCallInput]

@[simp] theorem runtime_PopSetActiveState_frame :
    (runtimeContext.PopSetActiveState host).bigIntContext = host.bigIntContext ∧
    (runtimeContext.PopSetActiveState host).outputContext = host.outputContext ∧
    (runtimeContext.PopSetActiveState host).meteringContext = host.meteringContext ∧
    (runtimeContext.PopSetActiveState host).storageContext = host.storageContext ∧
    (runtimeContext.PopSetActiveState host).runtimeContext.stateStack.length =
      host.runtimeContext.stateStack.length - 1 := by
  refine ⟨?_, ?_, ?_, ?_, ?_⟩ <;> simp only [runtimeContext.PopSetActiveState] <;> split <;>
    simp_all [List.getLast?_eq_none_iff]

@[simp] theorem storage_PushState_frame :
    (storageContext.PushState host).bigIntContext = host.bigIntContext ∧
    (storageContext.PushState host).outputContext = host.outputContext ∧
    (storageContext.PushState host).meteringContext = host.meteringContext ∧
    (storageContext.PushState host).runtimeContext = host.runtimeContext ∧
    (storageContext.PushState host).storageContext.stateStack.length =
      host.storageContext.stateStack.length + 1 := by
  simp [storageContext.PushState]

@[simp] theorem storage_SetAddress_frame (address : Address) :
    (storageContext.SetAddress host address).bigIntContext = host.bigIntContext ∧
    (storageContext.SetAddress host address).outputContext = host.outputContext ∧
    (storageContext.SetAddress host address).meteringContext = host.meteringContext ∧
    (storageContext.SetAddress host address).runtimeContext = host.runtimeContext ∧
    (storageContext.SetAddress host address).storageContext.stateStack =
      host.storageContext.stateStack := by
  simp [storageContext.SetAddress]

@[simp] theorem storage_PopSetActiveState_frame :
    (storageContext.PopSetActiveState host).bigIntContext = host.bigIntContext ∧
    (storageContext.PopSetActiveState host).outputContext = host.outputContext ∧
    (storageContext.PopSetActiveState host).meteringContext = host.meteringContext ∧
    (storageContext.PopSetActiveState host).runtimeContext = host.runtimeContext ∧
    (storageContext.PopSetActiveState host).storageContext.stateStack.length =
      host.storageContext.stateStack.length - 1 := by
  refine ⟨?_, ?_, ?_, ?_, ?_⟩ <;> simp only [storageContext.PopSetActiveState] <;> split <;>
    simp_all [List.getLast?_eq_none_iff]

@[simp] theorem metering_PushState_frame :
    (meteringContext.PushState host).bigIntContext = host.bigIntContext ∧
    (meteringContext.PushState host).outputContext = host.outputContext ∧
    (meteringContext.PushState host).runtimeContext = host.runtimeContext ∧
    (meteringContext.PushState host).storageContext = host.storageContext ∧
    (meteringContext.PushState host).meteringContext.stateStack.length =
      host.meteringContext.stateStack.length + 1 := by
  simp [meteringContext.PushState]

@[simp] theorem metering_PopSetActiveState_frame :
    (meteringContext.PopSetActiveState host).bigIntContext = host.bigIntContext ∧
    (meteringContext.PopSetActiveState host).outputContext = host.outputContext ∧
    (meteringContext.PopSetActiveState host).runtimeContext = host.runtimeContext ∧
    (meteringContext.PopSetActiveState host).storageContext = host.storageContext ∧
    (meteringContext.PopSetActiveState host).meteringContext.stateStack.length =
      host.meteringContext.stateStack.length - 1 := by
  refine ⟨?_, ?_, ?_, ?_, ?_⟩ <;> simp only [meteringContext.PopSetActiveState] <;> split <;>
    simp_all [List.getLast?_eq_none_iff]

@[simp] theorem metering_InitState_frame (input : VMInput) :
    (meteringContext.InitStateFromContractCallInput host input).1.bigIntContext =
      host.bigIntContext ∧
    (meteringContext.InitStateFromContractCallInput host input).1.outputContext =
      host.outputContext ∧
    (meteringContext.InitStateFromContractCallInput host input).1.runtimeContext =
      host.runtimeContext ∧
    (meteringContext.InitStateFromContractCallInput host input).1.storageContext =
      host.storageContext ∧
    (meteringContext.InitStateFromContractCallInput host input).1.meteringContext.stateStack =
      host.meteringContext.stateStack := by
  refine ⟨?_, ?_, ?_, ?_, ?_⟩ <;>
    simp only [meteringContext.InitStateFromContractCallInput,
      meteringContext.unlockGasIfAsyncCallback] <;> split <;> rfl

@[simp] theorem metering_SetTotalUsedGas_frame (total : Nat) :
    (meteringContext.SetTotalUsedGas host total).bigIntContext = host.bigIntContext ∧
    (meteringContext.SetTotalUsedGas host total).outputContext = host.outputContext ∧
    (meteringContext.SetTotalUsedGas host total).runtimeContext = host.runtimeContext ∧
    (meteringContext.SetTotalUsedGas host total).storageContext = host.storageContext ∧
    (meteringContext.SetTotalUsedGas host total).meteringContext.stateStack =
      host.meteringContext.stateStack := by
  simp [meteringContext.SetTotalUsedGas]

@[simp] theorem metering_RestoreGas_frame (gas : Nat) :
    (meteringContext.RestoreGas host gas).bigIntContext = host.bigIntContext ∧
    (meteringContext.RestoreGas host gas).outputContext = host.outputContext ∧
    (meteringContext.RestoreGas host gas).meteringContext = host.meteringContext ∧
    (meteringContext.RestoreGas host gas).storageContext = host.storageContext ∧
    (meteringContext.RestoreGas host gas).runtimeContext.stateStack =
      host.runtimeContext.stateStack := by
  refine ⟨?_, ?_, ?_, ?_, ?_⟩ <;> simp only [meteringContext.RestoreGas] <;> split <;> rfl

theorem metering_addForwardedGas_frame (address : Address) (gas : Nat) :
    (meteringContext.addForwardedGas host address gas).bigIntContext = host.bigIntContext ∧
    (meteringContext.addForwardedGas host address gas).outputContext = host.outputContext ∧
    (meteringContext.addForwardedGas host address gas).runtimeContext = host.runtimeContext ∧
    (meteringContext.addForwardedGas host address gas).storageContext = host.storageContext ∧
    (meteringContext.addForwardedGas host address gas).meteringContext.stateStack =
      host.meteringContext.stateStack := by
  refine ⟨?_, ?_, ?_, ?_, ?_⟩ <;>
    simp only [meteringContext.addForwardedGas, meteringContext.getContractGasState,
      meteringContext.setContractGasState] <;> split <;> rfl

theorem metering_addReturnedGas_frame (address : Address) (gas : Nat) :
    (meteringContext.addReturnedGas host address gas).bigIntContext = host.bigIntContext ∧
    (meteringContext.addReturnedGas host address gas).outputContext = host.outputContext ∧
    (meteringContext.addReturnedGas host address gas).runtimeContext = host.runtimeContext ∧
    (meteringContext.addReturnedGas host address gas).storageContext = host.storageContext ∧
    (meteringContext.addReturnedGas host address gas).meteringContext.stateStack =
      host.meteringContext.stateStack := by
  refine ⟨?_, ?_, ?_, ?_, ?_⟩ <;>
    simp only [meteringContext.addReturnedGas, meteringContext.getContractGasState,
      meteringContext.setContractGasState] <;> split <;> rfl

@[simp] theorem metering_ForwardGas_frame (source dest : Address) (gas : Nat) :
    (meteringContext.ForwardGas host source dest gas).bigIntContext = host.bigIntContext ∧
    (meteringContext.ForwardGas host source dest gas).outputContext = host.outputContext ∧
    (meteringContext.ForwardGas host source dest gas).runtimeContext = host.runtimeContext ∧
    (meteringContext.ForwardGas host source dest gas).storageContext = host.storageContext ∧
    (meteringContext.ForwardGas host source dest gas).meteringContext.stateStack =
      host.meteringContext.stateStack := by
  refine ⟨?_, ?_, ?_, ?_, ?_⟩ <;> simp only [meteringContext.ForwardGas] <;> split <;>
    simp [metering_addForwardedGas_frame, metering_addReturnedGas_frame]

@[simp] theorem computeGasUsedBefore_frame (E : Collaborators) :
    (computeGasUsedBefore E host).bigIntContext = host.bigIntContext ∧
    (computeGasUsedBefore E host).outputContext = host.outputContext ∧
    (computeGasUsedBefore E host).runtimeContext = host.runtimeContext ∧
    (computeGasUsedBefore E host).storageContext = host.storageContext ∧
    (computeGasUsedBefore E host).meteringContext.stateStack = host.meteringContext.stateStack := by
  simp [computeGasUsedBefore]

end frames

theorem resolveReturnCodeFromError_ne_Ok (err : VMError) :
    outputContext.resolveReturnCodeFromError err ≠ ReturnCode.Ok := by
  cases err <;> simp [outputContext.resolveReturnCodeFromError]

theorem enterExecuteOnDestContext_output (E : Collaborators) (host : vmHost)
    (input : ContractCallInput) :
    (enterExecuteOnDestContext E host input).1.outputContext.stateStack =
      host.outputContext.stateStack ++ [host.outputContext.outputState] := by
  simp [enterExecuteOnDestContext]

/-- Any relation between hosts that is reflexive, transitive and kept by the
steps of the body of `ExecuteOnDestContext` holds between its first and its last
host. -/
theorem bodyExecuteOnDestContext_rel (E : Collaborators) (R : vmHost → vmHost → Prop)
    (hrefl : ∀ h, R h h) (htrans : ∀ a b c, R a b → R b c → R a c)
    (hset : ∀ h out, R h (h.setOutputState out))
    (hexec : ∀ h i, R h (E.execute h i).2)
    (hasync : ∀ h a, R h (E.processAsyncInfo h a).2)
    (host : vmHost) (input : ContractCallInput) :
    R host (bodyExecuteOnDestContext E host input).2.2.2 := by
  have hT : ∀ t : Option VMError × vmHost,
      t = (if input.VMInput.CallType ≠ CallType.AsynchronousCallBack ∨ input.VMInput.CallValue = 0
        then
          ((E.TransferValueOnly host input.RecipientAddr input.VMInput.CallerAddr
              input.VMInput.CallValue false).1,
            host.setOutputState (E.TransferValueOnly host input.RecipientAddr
              input.VMInput.CallerAddr input.VMInput.CallValue false).2)
        else (none, host)) → R host t.2 := by
    intro t ht
    rw [ht]
    split
    · exact hset _ _
    · exact hrefl _
  simp only [bodyExecuteOnDestContext]
  split
  · rename_i heq
    exact hT _ heq.symm
  · rename_i h1 heq
    have hR1 : R host h1 := hT _ heq.symm
    split
    · rename_i g e h2 hx
      have : h2 = (E.execute h1 input).2 := by rw [hx]
      rw [this]
      exact htrans _ _ _ hR1 (hexec _ _)
    · rename_i g h2 hx
      have h2e : h2 = (E.execute h1 input).2 := by rw [hx]
      refine htrans _ _ _ hR1 (htrans _ h2 _ ?_ (hasync _ _))
      rw [h2e]
      exact hexec _ _

/-- The same for the body of `ExecuteOnSameContext`. -/
theorem bodyExecuteOnSameContext_rel (E : Collaborators) (R : vmHost → vmHost → Prop)
    (htrans : ∀ a b c, R a b → R b c → R a c)
    (hset : ∀ h out, R h (h.setOutputState out))
    (hexec : ∀ h i, R h (E.execute h i).2)
    (host : vmHost) (input : ContractCallInput) :
    R host (bodyExecuteOnSameContext E host input).2.2 := by
  simp only [bodyExecuteOnSameContext]
  split
  · exact hset _ _
  · split
    · rename_i g e h2 hx
      have : h2 = (E.execute (host.setOutputState (E.TransferValueOnly host input.RecipientAddr
          input.VMInput.CallerAddr input.VMInput.CallValue false).2) input).2 := by rw [hx]
      rw [this]
      exact htrans _ _ _ (hset _ _) (hexec _ _)
    · rename_i g h2 hx
      have : h2 = (E.execute (host.setOutputState (E.TransferValueOnly host input.RecipientAddr
          input.VMInput.CallerAddr input.VMInput.CallValue false).2) input).2 := by rw [hx]
      rw [this]
      exact htrans _ _ _ (hset _ _) (hexec _ _)

theorem finishExecuteOnDestContext_fst (E : Collaborators) (host : vmHost)
    (executeErr : Option VMError) :
    (finishExecuteOnDestContext E host executeErr).1 =
      match executeErr with
      | some err => outputContext.CreateVMOutputInCaseOfError err
      | none => (E.GetVMOutput host).1 := by
  cases executeErr <;> rfl

theorem finishExecuteOnDestContext_failed (E : Collaborators) (host : vmHost)
    (executeErr : Option VMError) (st : List VMOutput) (x : VMOutput)
    (hstack : host.outputContext.stateStack = st ++ [x])
    (hcode : (finishExecuteOnDestContext E host executeErr).1.ReturnCode ≠ ReturnCode.Ok) :
    (finishExecuteOnDestContext E host executeErr).2.outputContext =
      { outputState := x, stateStack := st } := by
  rw [finishExecuteOnDestContext_fst] at hcode
  cases executeErr with
  | some err =>
    simp only [finishExecuteOnDestContext]
    rw [if_neg hcode]
    simp [outputContext.PopSetActiveState, hstack]
  | none =>
    simp only [finishExecuteOnDestContext]
    rw [if_neg hcode]
    simp [outputContext.PopSetActiveState, hstack]

/-- C1. Provided the nested steps (the execution of the callee and the processing
of the async info) leave the state stack of the Output context as they found it:
if `ExecuteOnDestContext` ends in failure (it returns an error, be it from the
value transfer, the execution or the async info, or its `VMOutput` has a return
code other than `Ok`), the active state of the Output context after the call is
its active state before the call, and so is its state stack. -/
theorem ExecuteOnDestContext_failure_restores_output (E : Collaborators) (hE : E.KeepsOutputStack) (host : vmHost)
    (input : ContractCallInput)
    (hfail : (ExecuteOnDestContext E host input).err ≠ none ∨
      (ExecuteOnDestContext E host input).vmOutput.ReturnCode ≠ ReturnCode.Ok) :
    (ExecuteOnDestContext E host input).host.outputContext.outputState =
      host.outputContext.outputState ∧
    (ExecuteOnDestContext E host input).host.outputContext.stateStack =
      host.outputContext.stateStack := by
  have hbody := bodyExecuteOnDestContext_rel E
    (fun a b => b.outputContext.stateStack = a.outputContext.stateStack)
    (fun _ => rfl) (fun a b c h1 h2 => h2.trans h1) (fun h out => by simp) hE.1 hE.2
    (enterExecuteOnDestContext E host input).1 (enterExecuteOnDestContext E host input).2
  simp only [enterExecuteOnDestContext_output] at hbody
  have hcode : (finishExecuteOnDestContext E
      (bodyExecuteOnDestContext E (enterExecuteOnDestContext E host input).1
        (enterExecuteOnDestContext E host input).2).2.2.2
      (bodyExecuteOnDestContext E (enterExecuteOnDestContext E host input).1
        (enterExecuteOnDestContext E host input).2).2.2.1).1.ReturnCode ≠ ReturnCode.Ok := by
    rcases hfail with h | h
    · simp only [ExecuteOnDestContext] at h
      rw [finishExecuteOnDestContext_fst]
      intro hok
      cases hb : (bodyExecuteOnDestContext E (enterExecuteOnDestContext E host input).1
        (enterExecuteOnDestContext E host input).2).2.2.1 with
      | some err =>
        rw [hb] at hok
        exact resolveReturnCodeFromError_ne_Ok err hok
      | none =>
        rw [hb] at hok
        apply h
        rw [finishExecuteOnDestContext_fst, hb]
        simp only [] at hok
        simp [hok]
    · exact h
  have hfin := finishExecuteOnDestContext_failed E _ _ _ _ hbody hcode
  simp only [ExecuteOnDestContext]
  simp [hfin]

theorem finishExecuteOnDestContext_output_stack (E : Collaborators) (host : vmHost)
    (executeErr : Option VMError) :
    (finishExecuteOnDestContext E host executeErr).2.outputContext.stateStack =
      host.outputContext.stateStack.dropLast := by
  have hpop : ∀ h : vmHost, (outputContext.PopSetActiveState h).outputContext.stateStack =
      h.outputContext.stateStack.dropLast := by
    intro h
    simp only [outputContext.PopSetActiveState]
    split <;> simp_all [List.getLast?_eq_none_iff]
  have hmerge : ∀ h : vmHost, (outputContext.PopMergeActiveState h).outputContext.stateStack =
      h.outputContext.stateStack.dropLast := by
    intro h
    simp only [outputContext.PopMergeActiveState]
    split <;> simp_all [List.getLast?_eq_none_iff]
  cases executeErr <;> simp only [finishExecuteOnDestContext] <;> split <;>
    simp [hpop, hmerge]

/-- The assumption made on the nested steps is kept by `ExecuteOnDestContext`
itself, on success as on failure: a nested call made through it leaves the state
stack of the Output context as it found it. -/
theorem ExecuteOnDestContext_keeps_output_stack (E : Collaborators) (hE : E.KeepsOutputStack)
    (host : vmHost) (input : ContractCallInput) :
    (ExecuteOnDestContext E host input).host.outputContext.stateStack =
      host.outputContext.stateStack := by
  have hbody := bodyExecuteOnDestContext_rel E
    (fun a b => b.outputContext.stateStack = a.outputContext.stateStack)
    (fun _ => rfl) (fun a b c h1 h2 => h2.trans h1) (fun h out => by simp) hE.1 hE.2
    (enterExecuteOnDestContext E host input).1 (enterExecuteOnDestContext E host input).2
  simp only [enterExecuteOnDestContext_output] at hbody
  simp only [ExecuteOnDestContext]
  simp [finishExecuteOnDestContext_output_stack, hbody]

theorem failingCollaborators_KeepsOutputStack : failingCollaborators.KeepsOutputStack :=
  ⟨fun _ _ => rfl, fun _ _ => rfl⟩

/-- Witness of C1: the caller has return data, a log and an output account with a
storage update; the callee receives value 5, writes return data and a log, and
runs out of gas; the Output context of the caller is as before the call. -/
theorem ExecuteOnDestContext_failure_restores_output_witness :
    failingCollaborators.KeepsOutputStack ∧
    ((ExecuteOnDestContext failingCollaborators (testHostWithOutput [1]) testCallInput).err ≠ none ∨
      (ExecuteOnDestContext failingCollaborators (testHostWithOutput [1])
        testCallInput).vmOutput.ReturnCode ≠ ReturnCode.Ok) ∧
    ((ExecuteOnDestContext failingCollaborators (testHostWithOutput [1])
        testCallInput).host.outputContext.outputState =
        (testHostWithOutput [1]).outputContext.outputState ∧
      (ExecuteOnDestContext failingCollaborators (testHostWithOutput [1])
        testCallInput).host.outputContext.stateStack =
        (testHostWithOutput [1]).outputContext.stateStack) :=
  ⟨failingCollaborators_KeepsOutputStack, by decide,
   ExecuteOnDestContext_failure_restores_output failingCollaborators
     failingCollaborators_KeepsOutputStack (testHostWithOutput [1]) testCallInput (by decide)⟩

theorem enterExecuteOnDestContext_depths (E : Collaborators) (host : vmHost)
    (input : ContractCallInput) :
    (enterExecuteOnDestContext E host input).1.stackDepths =
      (host.bigIntContext.stateStack.length + 1, host.outputContext.stateStack.length + 1,
       host.runtimeContext.stateStack.length + 1, host.meteringContext.stateStack.length + 1,
       host.storageContext.stateStack.length + 1) := by
  simp [enterExecuteOnDestContext, vmHost.stackDepths]

theorem finishExecuteOnDestContext_depths (E : Collaborators) (host : vmHost)
    (executeErr : Option VMError) :
    (finishExecuteOnDestContext E host executeErr).2.stackDepths =
      (host.bigIntContext.stateStack.length - 1, host.outputContext.stateStack.length - 1,
       host.runtimeContext.stateStack.length - 1, host.meteringContext.stateStack.length - 1,
       host.storageContext.stateStack.length - 1) := by
  cases executeErr <;> simp only [finishExecuteOnDestContext] <;> split <;>
    simp [vmHost.stackDepths]

theorem enterExecuteOnSameContext_depths (host : vmHost) (input : ContractCallInput) :
    (enterExecuteOnSameContext host input).1.stackDepths =
      (host.bigIntContext.stateStack.length + 1, host.outputContext.stateStack.length + 1,
       host.runtimeContext.stateStack.length + 1, host.meteringContext.stateStack.length + 1,
       host.storageContext.stateStack.length) := by
  simp [enterExecuteOnSameContext, vmHost.stackDepths]

theorem finishExecuteOnSameContext_depths (E : Collaborators) (host : vmHost)
    (executeErr : Option VMError) :
    (finishExecuteOnSameContext E host executeErr).stackDepths =
      (host.bigIntContext.stateStack.length - 1, host.outputContext.stateStack.length - 1,
       host.runtimeContext.stateStack.length - 1, host.meteringContext.stateStack.length - 1,
       host.storageContext.stateStack.length) := by
  simp only [finishExecuteOnSameContext]
  split <;> simp [vmHost.stackDepths]

theorem setOutputState_depths (host : vmHost) (out : VMOutput) :
    (host.setOutputState out).stackDepths = host.stackDepths := by
  simp [vmHost.stackDepths]

/-- C2. Provided the nested steps (the execution of the callee and the processing
of the async info) keep the depth of every state stack. The opening of
`ExecuteOnDestContext` pushes each of the BigInt, Output, Runtime, Metering and
Storage stacks exactly once; `finishExecuteOnDestContext` pops each of them
exactly once, whatever the error it is given and whatever the return code; so
the depths after `ExecuteOnDestContext` are the depths before. When
`ExecuteOnSameContext` rejects a builtin function name it leaves the host
untouched; otherwise its opening pushes each of the BigInt, Output, Runtime and
Metering stacks exactly once (not the Storage stack), `finishExecuteOnSameContext`
pops each of the four exactly once on both of its paths, and the depths after
`ExecuteOnSameContext` are the depths before. -/
theorem nested_calls_balance_state_stacks (E : Collaborators) (hE : E.DepthPreserving) (host : vmHost)
    (input : ContractCallInput) :
    ((enterExecuteOnDestContext E host input).1.stackDepths =
      (host.bigIntContext.stateStack.length + 1, host.outputContext.stateStack.length + 1,
       host.runtimeContext.stateStack.length + 1, host.meteringContext.stateStack.length + 1,
       host.storageContext.stateStack.length + 1)) ∧
    (∀ (h : vmHost) (executeErr : Option VMError),
      (finishExecuteOnDestContext E h executeErr).2.stackDepths =
        (h.bigIntContext.stateStack.length - 1, h.outputContext.stateStack.length - 1,
         h.runtimeContext.stateStack.length - 1, h.meteringContext.stateStack.length - 1,
         h.storageContext.stateStack.length - 1)) ∧
    (ExecuteOnDestContext E host input).host.stackDepths = host.stackDepths ∧
    (host.IsBuiltinFunctionName input.Function = true →
      (ExecuteOnSameContext E host input).2.2 = host) ∧
    ((enterExecuteOnSameContext host input).1.stackDepths =
      (host.bigIntContext.stateStack.length + 1, host.outputContext.stateStack.length + 1,
       host.runtimeContext.stateStack.length + 1, host.meteringContext.stateStack.length + 1,
       host.storageContext.stateStack.length)) ∧
    (∀ (h : vmHost) (executeErr : Option VMError),
      (finishExecuteOnSameContext E h executeErr).stackDepths =
        (h.bigIntContext.stateStack.length - 1, h.outputContext.stateStack.length - 1,
         h.runtimeContext.stateStack.length - 1, h.meteringContext.stateStack.length - 1,
         h.storageContext.stateStack.length)) ∧
    (ExecuteOnSameContext E host input).2.2.stackDepths = host.stackDepths := by
  refine ⟨enterExecuteOnDestContext_depths E host input,
    finishExecuteOnDestContext_depths E, ?_, ?_,
    enterExecuteOnSameContext_depths host input, finishExecuteOnSameContext_depths E, ?_⟩
  · have hbody := bodyExecuteOnDestContext_rel E (fun a b => b.stackDepths = a.stackDepths)
      (fun _ => rfl) (fun a b c h1 h2 => h2.trans h1) (fun h out => setOutputState_depths h out)
      hE.1 hE.2 (enterExecuteOnDestContext E host input).1 (enterExecuteOnDestContext E host input).2
    simp only [enterExecuteOnDestContext_depths] at hbody
    have hfin := finishExecuteOnDestContext_depths E
      (bodyExecuteOnDestContext E (enterExecuteOnDestContext E host input).1
        (enterExecuteOnDestContext E host input).2).2.2.2
      (bodyExecuteOnDestContext E (enterExecuteOnDestContext E host input).1
        (enterExecuteOnDestContext E host input).2).2.2.1
    simp only [vmHost.stackDepths, Prod.mk.injEq] at hbody hfin ⊢
    obtain ⟨b1, b2, b3, b4, b5⟩ := hbody
    obtain ⟨f1, f2, f3, f4, f5⟩ := hfin
    simp only [ExecuteOnDestContext]
    simp only [metering_SetTotalUsedGas_frame]
    rw [f1, f2, f3, f4, f5, b1, b2, b3, b4, b5]
    simp
  · intro hb
    simp only [ExecuteOnSameContext]
    rw [if_pos hb]
  · by_cases hb : host.IsBuiltinFunctionName input.Function = true
    · simp only [ExecuteOnSameContext]
      rw [if_pos hb]
    · have hbody := bodyExecuteOnSameContext_rel E (fun a b => b.stackDepths = a.stackDepths)
        (fun a b c h1 h2 => h2.trans h1) (fun h out => setOutputState_depths h out)
        hE.1 (enterExecuteOnSameContext host input).1 (enterExecuteOnSameContext host input).2
      simp only [enterExecuteOnSameContext_depths] at hbody
      have hfin := finishExecuteOnSameContext_depths E
        (bodyExecuteOnSameContext E (enterExecuteOnSameContext host input).1
          (enterExecuteOnSameContext host input).2).2.2
        (bodyExecuteOnSameContext E (enterExecuteOnSameContext host input).1
          (enterExecuteOnSameContext host input).2).2.1
      simp only [vmHost.stackDepths, Prod.mk.injEq] at hbody hfin ⊢
      obtain ⟨b1, b2, b3, b4, b5⟩ := hbody
      obtain ⟨f1, f2, f3, f4, f5⟩ := hfin
      simp only [ExecuteOnSameContext]
      rw [if_neg hb]
      simp only []
      rw [f1, f2, f3, f4, f5, b1, b2, b3, b4, b5]
      simp

theorem failingCollaborators_DepthPreserving : failingCollaborators.DepthPreserving :=
  ⟨fun _ _ => rfl, fun _ _ => rfl⟩

/-- Witness of C2: with a callee that fails for lack of gas, every stack of the
host is as deep after `ExecuteOnDestContext` and after `ExecuteOnSameContext` as
before; and when `f` is a builtin function name, `ExecuteOnSameContext` leaves
the host untouched. -/
theorem nested_calls_balance_state_stacks_witness :
    failingCollaborators.DepthPreserving ∧
    (ExecuteOnDestContext failingCollaborators (testHostWithOutput [1])
      testCallInput).host.stackDepths = (testHostWithOutput [1]).stackDepths ∧
    (ExecuteOnSameContext failingCollaborators (testHostWithOutput [1])
      testCallInput).2.2.stackDepths = (testHostWithOutput [1]).stackDepths ∧
    ({ testHost [1] with protocolBuiltinFunctions := ["f"] }.IsBuiltinFunctionName
      testCallInput.Function = true) ∧
    (ExecuteOnSameContext failingCollaborators
      { testHost [1] with protocolBuiltinFunctions := ["f"] } testCallInput).2.2 =
      { testHost [1] with protocolBuiltinFunctions := ["f"] } :=
  ⟨failingCollaborators_DepthPreserving,
   (nested_calls_balance_state_stacks failingCollaborators failingCollaborators_DepthPreserving
     (testHostWithOutput [1]) testCallInput).2.2.1,
   (nested_calls_balance_state_stacks failingCollaborators failingCollaborators_DepthPreserving
     (testHostWithOutput [1]) testCallInput).2.2.2.2.2.2,
   by decide,
   (nested_calls_balance_state_stacks failingCollaborators failingCollaborators_DepthPreserving
     { testHost [1] with protocolBuiltinFunctions := ["f"] } testCallInput).2.2.2.1 (by decide)⟩

/-! ## Theorems: the gas ledger -/

section ledger

open meteringContext

theorem lookup_map_set_ne (gs : List (Address × contractGasState)) (a b : Address)
    (st : contractGasState) (hne : b ≠ a) :
    (gs.map (fun kv => if kv.1 = a then (kv.1, st) else kv)).lookup b = gs.lookup b := by
  induction gs with
  | nil => rfl
  | cons kv rest ih =>
    by_cases h : kv.1 = a
    · have h2 : (b == kv.1) = false := by
        simp; rw [h]; exact hne
      rw [List.map_cons, if_pos h, List.lookup_cons, List.lookup_cons]
      simp only [h2]
      exact ih
    · rw [List.map_cons, if_neg h, List.lookup_cons, List.lookup_cons, ih]

theorem addForwardedGas_lookup_ne (host : vmHost) (a b : Address) (g : Nat) (hne : b ≠ a) :
    (addForwardedGas host a g).meteringContext.gasStates.lookup b =
      host.meteringContext.gasStates.lookup b := by
  have h2 : (b == a) = false := by simp; exact hne
  unfold addForwardedGas getContractGasState setContractGasState
  cases hl : host.meteringContext.gasStates.lookup a with
  | none =>
    simp only [List.map_cons, if_true, List.lookup_cons, h2]
    exact lookup_map_set_ne _ _ _ _ hne
  | some st => exact lookup_map_set_ne _ _ _ _ hne

theorem addReturnedGas_lookup (host : vmHost) (a : Address) (g : Nat) :
    (addReturnedGas host a g).meteringContext.gasStates.lookup a =
      some { forwarded := forwardedOf host a, returned := AddUint64 (returnedOf host a) g } := by
  unfold addReturnedGas getContractGasState setContractGasState forwardedOf returnedOf
  cases hl : host.meteringContext.gasStates.lookup a with
  | none =>
    simp only [List.map_cons, if_true, List.lookup_cons, beq_self_eq_true]
  | some st => simp [lookup_map_set, hl]

theorem addReturnedGas_lookup_ne (host : vmHost) (a b : Address) (g : Nat) (hne : b ≠ a) :
    (addReturnedGas host a g).meteringContext.gasStates.lookup b =
      host.meteringContext.gasStates.lookup b := by
  have h2 : (b == a) = false := by simp; exact hne
  unfold addReturnedGas getContractGasState setContractGasState
  cases hl : host.meteringContext.gasStates.lookup a with
  | none =>
    simp only [List.map_cons, if_true, List.lookup_cons, h2]
    exact lookup_map_set_ne _ _ _ _ hne
  | some st => exact lookup_map_set_ne _ _ _ _ hne

/-- The ledger after `addForwardedGas`, at every address. -/
theorem ledger_addForwardedGas (host : vmHost) (a b : Address) (g : Nat) :
    forwardedOf (addForwardedGas host a g) b =
      (if b = a then AddUint64 (forwardedOf host b) g else forwardedOf host b) ∧
    returnedOf (addForwardedGas host a g) b = returnedOf host b := by
  by_cases h : b = a
  · subst h
    have hl := addForwardedGas_lookup host b g
    simp [forwardedOf, returnedOf, hl]
  · have hl := addForwardedGas_lookup_ne host a b g h
    simp [forwardedOf, returnedOf, hl, h]

/-- The ledger after `addReturnedGas`, at every address. -/
theorem ledger_addReturnedGas (host : vmHost) (a b : Address) (g : Nat) :
    forwardedOf (addReturnedGas host a g) b = forwardedOf host b ∧
    returnedOf (addReturnedGas host a g) b =
      (if b = a then AddUint64 (returnedOf host b) g else returnedOf host b) := by
  by_cases h : b = a
  · subst h
    have hl := addReturnedGas_lookup host b g
    simp [forwardedOf, returnedOf, hl]
  · have hl := addReturnedGas_lookup_ne host a b g h
    simp [forwardedOf, returnedOf, hl, h]

theorem addReturnedGas_rest (host : vmHost) (a : Address) (g : Nat) :
    (addReturnedGas host a g).runtimeContext = host.runtimeContext ∧
    (addReturnedGas host a g).vmV2Enabled = host.vmV2Enabled ∧
    (addReturnedGas host a g).meteringContext.initialCost = host.meteringContext.initialCost ∧
    (addReturnedGas host a g).meteringContext.gasForExecution =
      host.meteringContext.gasForExecution ∧
    (addReturnedGas host a g).meteringContext.initialGasProvided =
      host.meteringContext.initialGasProvided := by
  unfold addReturnedGas getContractGasState setContractGasState
  cases host.meteringContext.gasStates.lookup a <;> simp

theorem addForwardedGas_provided (host : vmHost) (a : Address) (g : Nat) :
    (addForwardedGas host a g).meteringContext.initialGasProvided =
      host.meteringContext.initialGasProvided := by
  unfold addForwardedGas getContractGasState setContractGasState
  cases host.meteringContext.gasStates.lookup a <;> simp

/-- The ledger and the frame fields after `ForwardGas`, in saturating
arithmetic. -/
theorem ledger_ForwardGas (host : vmHost) (source dest : Address) (n : Nat) :
    (∀ a, forwardedOf (ForwardGas host source dest n) a =
      if a = source then AddUint64 (forwardedOf host a) n else forwardedOf host a) ∧
    (∀ a, returnedOf (ForwardGas host source dest n) a =
      if a = dest ∧ (source = dest ∨ host.runtimeContext.IsContractOnTheStack dest = true) then
        AddUint64 (returnedOf host a) n
      else returnedOf host a) ∧
    (ForwardGas host source dest n).meteringContext.initialGasProvided =
      host.meteringContext.initialGasProvided ∧
    (ForwardGas host source dest n).meteringContext.initialCost =
      host.meteringContext.initialCost ∧
    (ForwardGas host source dest n).meteringContext.gasForExecution =
      host.meteringContext.gasForExecution ∧
    (ForwardGas host source dest n).vmV2Enabled = host.vmV2Enabled := by
  obtain ⟨hr1, hr2, hr3, hr4⟩ := addForwardedGas_rest host source n
  have hr5 := addForwardedGas_provided host source n
  by_cases hc : source = dest ∨ host.runtimeContext.IsContractOnTheStack dest = true
  · have hE : ForwardGas host source dest n =
        addReturnedGas (addForwardedGas host source n) dest n := by
      unfold ForwardGas
      simp only [hr1]
      rw [if_pos]
      simpa using hc
    obtain ⟨hq1, hq2, hq3, hq4, hq5⟩ := addReturnedGas_rest (addForwardedGas host source n) dest n
    rw [hE]
    refine ⟨?_, ?_, by rw [hq5, hr5], by rw [hq3, hr3], by rw [hq4, hr4], by rw [hq2, hr2]⟩
    · intro a
      rw [(ledger_addReturnedGas _ dest a n).1, (ledger_addForwardedGas host source a n).1]
    · intro a
      rw [(ledger_addReturnedGas _ dest a n).2, (ledger_addForwardedGas host source a n).2]
      simp [hc]
  · have hE : ForwardGas host source dest n = addForwardedGas host source n := by
      unfold ForwardGas
      simp only [hr1]
      rw [if_neg]
      simpa using hc
    rw [hE]
    refine ⟨?_, ?_, hr5, hr3, hr4, hr2⟩
    · intro a
      exact (ledger_addForwardedGas host source a n).1
    · intro a
      rw [(ledger_addForwardedGas host source a n).2]
      simp [hc]

/-- C11. Absent `uint64` overflow, `ForwardGas source dest n` adds `n` to the gas
forwarded by `source`; it adds `n` to the gas returned to `dest` if and only if
`source = dest` or `dest` is on the execution stack of the runtime; the
forwarded and returned gas of every other address and the frame fields
`initialGasProvided`, `initialCost` and `gasForExecution` are unchanged. -/
theorem ForwardGas_effect (host : vmHost) (source dest : Address) (n : Nat)
    (hf : forwardedOf host source + n ≤ MaxUint64)
    (hr : returnedOf host dest + n ≤ MaxUint64) :
    forwardedOf (ForwardGas host source dest n) source = forwardedOf host source + n ∧
    returnedOf (ForwardGas host source dest n) dest =
      (if source = dest ∨ host.runtimeContext.IsContractOnTheStack dest = true then
        returnedOf host dest + n
      else returnedOf host dest) ∧
    (∀ a, a ≠ source →
      forwardedOf (ForwardGas host source dest n) a = forwardedOf host a) ∧
    (∀ a, a ≠ dest →
      returnedOf (ForwardGas host source dest n) a = returnedOf host a) ∧
    (ForwardGas host source dest n).meteringContext.initialGasProvided =
      host.meteringContext.initialGasProvided ∧
    (ForwardGas host source dest n).meteringContext.initialCost =
      host.meteringContext.initialCost ∧
    (ForwardGas host source dest n).meteringContext.gasForExecution =
      host.meteringContext.gasForExecution := by
  obtain ⟨h1, h2, h3, h4, h5, _⟩ := ledger_ForwardGas host source dest n
  refine ⟨?_, ?_, ?_, ?_, h3, h4, h5⟩
  · rw [h1 source, if_pos rfl, AddUint64_of_le hf]
  · rw [h2 dest, AddUint64_of_le hr]
    simp
  · intro a ha
    rw [h1 a, if_neg ha]
  · intro a ha
    rw [h2 a, if_neg (fun h => ha h.1)]

/-- Witness of C11: in the frame of the tests, running `[1]` with an empty
execution stack, `ForwardGas [1] [2] 151` adds 151 to the gas forwarded by `[1]`
and nothing to the gas returned to `[2]`, while `ForwardGas [1] [1] 7` adds 7 to
both entries of `[1]`. -/
theorem ForwardGas_effect_witness :
    (forwardedOf (testFrame [1] (testVMInput CallType.DirectCall 4000 0)
        [([1], { forwarded := 300, returned := 100 })]) [1] + 151 ≤ MaxUint64) ∧
    (returnedOf (testFrame [1] (testVMInput CallType.DirectCall 4000 0)
        [([1], { forwarded := 300, returned := 100 })]) [2] + 151 ≤ MaxUint64) ∧
    forwardedOf (ForwardGas (testFrame [1] (testVMInput CallType.DirectCall 4000 0)
        [([1], { forwarded := 300, returned := 100 })]) [1] [2] 151) [1] = 451 ∧
    returnedOf (ForwardGas (testFrame [1] (testVMInput CallType.DirectCall 4000 0)
        [([1], { forwarded := 300, returned := 100 })]) [1] [2] 151) [2] = 0 ∧
    returnedOf (ForwardGas (testFrame [1] (testVMInput CallType.DirectCall 4000 0)
        [([1], { forwarded := 300, returned := 100 })]) [1] [1] 7) [1] = 107 := by
  refine ⟨by decide, by decide, ?_, ?_, ?_⟩
  · rw [(ForwardGas_effect _ [1] [2] 151 (by decide) (by decide)).1]
    decide
  · rw [(ForwardGas_effect _ [1] [2] 151 (by decide) (by decide)).2.1]
    decide
  · rw [(ForwardGas_effect _ [1] [1] 7 (by decide) (by decide)).2.1]
    decide

theorem self_forward_net (host : vmHost) (a : Address) (n : Nat)
    (hf : forwardedOf host a + n ≤ MaxUint64)
    (hr : returnedOf host a + n ≤ MaxUint64) :
    (SubUint64 (forwardedOf (ForwardGas host a a n) a) (returnedOf (ForwardGas host a a n) a)).1 =
      (SubUint64 (forwardedOf host a) (returnedOf host a)).1 ∧
    (host.runtimeContext.scAddress = a →
      (GasUsedByContract (ForwardGas host a a n)).1 = (GasUsedByContract host).1) := by
  obtain ⟨h1, h2, _, h4, _, h6⟩ := ledger_ForwardGas host a a n
  have hF : forwardedOf (ForwardGas host a a n) a = forwardedOf host a + n := by
    rw [h1 a, if_pos rfl, AddUint64_of_le hf]
  have hR : returnedOf (ForwardGas host a a n) a = returnedOf host a + n := by
    rw [h2 a, if_pos ⟨rfl, Or.inl rfl⟩, AddUint64_of_le hr]
  have hnet : (SubUint64 (forwardedOf (ForwardGas host a a n) a)
      (returnedOf (ForwardGas host a a n) a)).1 =
      (SubUint64 (forwardedOf host a) (returnedOf host a)).1 := by
    rw [hF, hR]
    unfold SubUint64
    split_ifs <;> simp only [] <;> omega
  refine ⟨hnet, ?_⟩
  intro hsc
  have hrt : (ForwardGas host a a n).runtimeContext = host.runtimeContext :=
    (metering_ForwardGas_frame host a a n).2.2.1
  rw [GasUsedByContract_fst, GasUsedByContract_fst, hrt, h4, h6, hsc, hnet]

/-- C12. Absent `uint64` overflow, the self-forward `ForwardGas a a n` leaves the
net forwarded gas of `a` (the gas forwarded less the gas returned, floored at
zero) unchanged, so `GasUsedByContract` of a running contract `a` returns the
same before and after it, whether or not the gas forwarded by `a` reaches the gas
returned to it; in particular after `ForwardGas parent a 100` followed by
`ForwardGas a a 0`, `GasUsedByContract` of the running contract `a` is what it
was after the first call. -/
theorem self_forward_keeps_GasUsedByContract (host : vmHost) (a : Address) (n : Nat)
    (hf : forwardedOf host a + n ≤ MaxUint64)
    (hr : returnedOf host a + n ≤ MaxUint64) :
    (SubUint64 (forwardedOf (ForwardGas host a a n) a) (returnedOf (ForwardGas host a a n) a)).1 =
      (SubUint64 (forwardedOf host a) (returnedOf host a)).1 ∧
    (host.runtimeContext.scAddress = a →
      (GasUsedByContract (ForwardGas host a a n)).1 = (GasUsedByContract host).1) ∧
    (∀ parent : Address,
      forwardedOf (ForwardGas host parent a 100) a ≤ MaxUint64 →
      returnedOf (ForwardGas host parent a 100) a ≤ MaxUint64 →
      host.runtimeContext.scAddress = a →
      (GasUsedByContract (ForwardGas (ForwardGas host parent a 100) a a 0)).1 =
        (GasUsedByContract (ForwardGas host parent a 100)).1) := by
  refine ⟨(self_forward_net host a n hf hr).1, (self_forward_net host a n hf hr).2, ?_⟩
  intro parent h1 h2 hsc
  have hrt : (ForwardGas host parent a 100).runtimeContext = host.runtimeContext :=
    (metering_ForwardGas_frame host parent a 100).2.2.1
  exact (self_forward_net (ForwardGas host parent a 100) a 0 (by omega) (by omega)).2
    (by rw [hrt]; exact hsc)

/-- Witness of C12: the child `[2]` runs the frame of the tests (initial cost 1001,
400 points used) and is on the execution stack. After `ForwardGas [1] [2] 100`
and the self-forward `ForwardGas [2] [2] 0` its ledger entry has 0 forwarded and
100 returned, and `GasUsedByContract` still reports 1401. -/
theorem self_forward_keeps_GasUsedByContract_witness :
    (runtimeContext.PushState (testFrame [2] (testVMInput CallType.DirectCall 4000 0)
      [])).runtimeContext.IsContractOnTheStack [2] = true ∧
    returnedOf (ForwardGas (runtimeContext.PushState
      (testFrame [2] (testVMInput CallType.DirectCall 4000 0) [])) [1] [2] 100) [2] = 100 ∧
    (GasUsedByContract (ForwardGas (ForwardGas (runtimeContext.PushState
      (testFrame [2] (testVMInput CallType.DirectCall 4000 0) [])) [1] [2] 100) [2] [2] 0)).1 =
      (GasUsedByContract (ForwardGas (runtimeContext.PushState
        (testFrame [2] (testVMInput CallType.DirectCall 4000 0) [])) [1] [2] 100)).1 ∧
    (GasUsedByContract (ForwardGas (ForwardGas (runtimeContext.PushState
      (testFrame [2] (testVMInput CallType.DirectCall 4000 0) [])) [1] [2] 100) [2] [2] 0)).1 =
      (1401, 0) := by
  refine ⟨by decide, by decide, ?_, by decide⟩
  exact (self_forward_keeps_GasUsedByContract (runtimeContext.PushState
    (testFrame [2] (testVMInput CallType.DirectCall 4000 0) [])) [2] 0
    (by decide) (by decide)).2.2 [1] (by decide) (by decide) (by decide)

end ledger

/-! ## Theorems: the return from a nested call -/

section finish

theorem bigInt_PopSetActiveState_congr (h1 h2 : vmHost)
    (e : h1.bigIntContext = h2.bigIntContext) :
    (bigIntContext.PopSetActiveState h1).bigIntContext =
      (bigIntContext.PopSetActiveState h2).bigIntContext := by
  simp only [bigIntContext.PopSetActiveState, e]
  split <;> simp [e]

theorem bigInt_PopDiscard_congr (h1 h2 : vmHost)
    (e : h1.bigIntContext = h2.bigIntContext) :
    (bigIntContext.PopDiscard h1).bigIntContext = (bigIntContext.PopDiscard h2).bigIntContext := by
  simp only [bigIntContext.PopDiscard, e]
  split <;> simp [e]

theorem storage_PopSetActiveState_congr (h1 h2 : vmHost)
    (e : h1.storageContext = h2.storageContext) :
    (storageContext.PopSetActiveState h1).storageContext =
      (storageContext.PopSetActiveState h2).storageContext := by
  simp only [storageContext.PopSetActiveState, e]
  split <;> simp [e]

theorem runtime_PopSetActiveState_congr (h1 h2 : vmHost)
    (e : h1.runtimeContext = h2.runtimeContext) :
    (runtimeContext.PopSetActiveState h1).runtimeContext =
      (runtimeContext.PopSetActiveState h2).runtimeContext := by
  simp only [runtimeContext.PopSetActiveState, e]
  split <;> simp [e]

theorem metering_PopSetActiveState_congr (h1 h2 : vmHost)
    (e : h1.meteringContext = h2.meteringContext) :
    (meteringContext.PopSetActiveState h1).meteringContext =
      (meteringContext.PopSetActiveState h2).meteringContext := by
  simp only [meteringContext.PopSetActiveState, e]
  split <;> simp [e]

theorem output_PopSetActiveState_congr (h1 h2 : vmHost)
    (e : h1.outputContext = h2.outputContext) :
    (outputContext.PopSetActiveState h1).outputContext =
      (outputContext.PopSetActiveState h2).outputContext := by
  simp only [outputContext.PopSetActiveState, e]
  split <;> simp [e]

theorem output_PopMergeActiveState_congr (h1 h2 : vmHost)
    (e : h1.outputContext = h2.outputContext) :
    (outputContext.PopMergeActiveState h1).outputContext =
      (outputContext.PopMergeActiveState h2).outputContext := by
  simp only [outputContext.PopMergeActiveState, e]
  split <;> simp [e]

theorem output_PopDiscard_congr (h1 h2 : vmHost)
    (e : h1.outputContext = h2.outputContext) :
    (outputContext.PopDiscard h1).outputContext = (outputContext.PopDiscard h2).outputContext := by
  simp only [outputContext.PopDiscard, e]
  split <;> simp [e]

theorem RestoreGas_runtime_congr (h1 h2 : vmHost) (gas : Nat)
    (e : h1.runtimeContext = h2.runtimeContext) :
    (meteringContext.RestoreGas h1 gas).runtimeContext =
      (meteringContext.RestoreGas h2 gas).runtimeContext := by
  simp only [meteringContext.RestoreGas, vmHost.SetPointsUsed, e]
  split <;> simp [e]

theorem ForwardGas_metering_fields (host : vmHost) (source dest : Address) (n : Nat) :
    (meteringContext.ForwardGas host source dest n).meteringContext.stateStack =
      host.meteringContext.stateStack ∧
    (meteringContext.ForwardGas host source dest n).meteringContext.initialGasProvided =
      host.meteringContext.initialGasProvided ∧
    (meteringContext.ForwardGas host source dest n).meteringContext.initialCost =
      host.meteringContext.initialCost ∧
    (meteringContext.ForwardGas host source dest n).meteringContext.gasForExecution =
      host.meteringContext.gasForExecution := by
  obtain ⟨_, _, h3, h4, h5, _⟩ := ledger_ForwardGas host source dest n
  exact ⟨(metering_ForwardGas_frame host source dest n).2.2.2.2, h3, h4, h5⟩

/-- C13. `finishExecuteOnDestContext` leaves the Output context as
`PopMergeActiveState` leaves it if the `VMOutput` of the child has return code
`Ok`, and as `PopSetActiveState` leaves it otherwise (the top snapshot restored
verbatim); in both cases the BigInt and Storage contexts are as their
`PopSetActiveState` leaves them, the Runtime context is as its
`PopSetActiveState` leaves it, with the remaining gas restored, and the stack and
the frame fields of the Metering context are as its `PopSetActiveState` leaves
them. -/
theorem finishExecuteOnDestContext_pops (E : Collaborators) (host : vmHost)
    (executeErr : Option VMError) :
    (finishExecuteOnDestContext E host executeErr).2.outputContext =
      (if (finishExecuteOnDestContext E host executeErr).1.ReturnCode = ReturnCode.Ok then
        (outputContext.PopMergeActiveState
          (match executeErr with
           | some _ => host
           | none => host.setOutputState (E.GetVMOutput host).2)).outputContext
       else
        (outputContext.PopSetActiveState
          (match executeErr with
           | some _ => host
           | none => host.setOutputState (E.GetVMOutput host).2)).outputContext) ∧
    ((finishExecuteOnDestContext E host executeErr).1.ReturnCode ≠ ReturnCode.Ok →
      ∀ (st : List VMOutput) (x : VMOutput), host.outputContext.stateStack = st ++ [x] →
        (finishExecuteOnDestContext E host executeErr).2.outputContext =
          { outputState := x, stateStack := st }) ∧
    (finishExecuteOnDestContext E host executeErr).2.bigIntContext =
      (bigIntContext.PopSetActiveState host).bigIntContext ∧
    (finishExecuteOnDestContext E host executeErr).2.storageContext =
      (storageContext.PopSetActiveState host).storageContext ∧
    (finishExecuteOnDestContext E host executeErr).2.runtimeContext =
      (meteringContext.RestoreGas (runtimeContext.PopSetActiveState host)
        (finishExecuteOnDestContext E host executeErr).1.GasRemaining).runtimeContext ∧
    (finishExecuteOnDestContext E host executeErr).2.meteringContext.stateStack =
      (meteringContext.PopSetActiveState host).meteringContext.stateStack ∧
    (finishExecuteOnDestContext E host executeErr).2.meteringContext.initialGasProvided =
      (meteringContext.PopSetActiveState host).meteringContext.initialGasProvided ∧
    (finishExecuteOnDestContext E host executeErr).2.meteringContext.initialCost =
      (meteringContext.PopSetActiveState host).meteringContext.initialCost ∧
    (finishExecuteOnDestContext E host executeErr).2.meteringContext.gasForExecution =
      (meteringContext.PopSetActiveState host).meteringContext.gasForExecution := by
  refine ⟨?_, ?_, ?_, ?_, ?_, ?_, ?_, ?_, ?_⟩
  · cases executeErr <;> simp only [finishExecuteOnDestContext] <;> split <;>
      first
        | (apply output_PopMergeActiveState_congr; simp)
        | (apply output_PopSetActiveState_congr; simp)
  · intro hcode st x hst
    exact finishExecuteOnDestContext_failed E host executeErr st x hst hcode
  · cases executeErr <;> simp only [finishExecuteOnDestContext] <;> split <;> simp <;>
      apply bigInt_PopSetActiveState_congr <;> simp
  · cases executeErr <;> simp only [finishExecuteOnDestContext] <;> split <;> simp <;>
      apply storage_PopSetActiveState_congr <;> simp
  · cases executeErr <;> simp only [finishExecuteOnDestContext] <;> split <;> simp <;>
      apply RestoreGas_runtime_congr <;> simp <;>
      apply runtime_PopSetActiveState_congr <;> simp
  all_goals
    cases executeErr <;> simp only [finishExecuteOnDestContext] <;> split <;>
      simp [ForwardGas_metering_fields] <;>
      first
        | (apply congrArg meteringContext.stateStack; apply metering_PopSetActiveState_congr; simp)
        | (apply congrArg meteringContext.initialGasProvided; apply metering_PopSetActiveState_congr; simp)
        | (apply congrArg meteringContext.initialCost; apply metering_PopSetActiveState_congr; simp)
        | (apply congrArg meteringContext.gasForExecution; apply metering_PopSetActiveState_congr; simp)

/-- Witness of C13: a child that failed for lack of gas: the Output context is
the snapshot pushed before the call, whatever the child wrote; and for a child
that returned `Ok` the Output context is the merge of the snapshot and the output
of the child. -/
theorem finishExecuteOnDestContext_pops_witness :
    (finishExecuteOnDestContext failingCollaborators
        ((outputContext.PushState (testHostWithOutput [1])).setOutputState
          { (testHostWithOutput [1]).outputContext.outputState with ReturnData := [[9]] })
        (some VMError.ErrNotEnoughGas)).2.outputContext =
      (testHostWithOutput [1]).outputContext ∧
    (finishExecuteOnDestContext failingCollaborators
        ((outputContext.PushState (testHostWithOutput [1])).setOutputState
          { (testHostWithOutput [1]).outputContext.outputState with ReturnData := [[9]] })
        none).2.outputContext.outputState.ReturnData = [[7], [9]] :=
  ⟨(finishExecuteOnDestContext_pops failingCollaborators
      ((outputContext.PushState (testHostWithOutput [1])).setOutputState
        { (testHostWithOutput [1]).outputContext.outputState with ReturnData := [[9]] })
      (some VMError.ErrNotEnoughGas)).2.1 (by decide) []
      (testHostWithOutput [1]).outputContext.outputState rfl,
   by
    rw [(finishExecuteOnDestContext_pops failingCollaborators
      ((outputContext.PushState (testHostWithOutput [1])).setOutputState
        { (testHostWithOutput [1]).outputContext.outputState with ReturnData := [[9]] })
      none).1]
    decide⟩

theorem addForwardedGas_metering_congr (h1 h2 : vmHost) (a : Address) (g : Nat)
    (em : h1.meteringContext = h2.meteringContext) :
    (meteringContext.addForwardedGas h1 a g).meteringContext =
      (meteringContext.addForwardedGas h2 a g).meteringContext := by
  unfold meteringContext.addForwardedGas meteringContext.getContractGasState
    meteringContext.setContractGasState
  rw [em]
  cases h2.meteringContext.gasStates.lookup a <;> simp [em]

theorem addReturnedGas_metering_congr (h1 h2 : vmHost) (a : Address) (g : Nat)
    (em : h1.meteringContext = h2.meteringContext) :
    (meteringContext.addReturnedGas h1 a g).meteringContext =
      (meteringContext.addReturnedGas h2 a g).meteringContext := by
  unfold meteringContext.addReturnedGas meteringContext.getContractGasState
    meteringContext.setContractGasState
  rw [em]
  cases h2.meteringContext.gasStates.lookup a <;> simp [em]

theorem ForwardGas_metering_congr (h1 h2 : vmHost) (source dest : Address) (n : Nat)
    (em : h1.meteringContext = h2.meteringContext)
    (er : h1.runtimeContext = h2.runtimeContext) :
    (meteringContext.ForwardGas h1 source dest n).meteringContext =
      (meteringContext.ForwardGas h2 source dest n).meteringContext := by
  unfold meteringContext.ForwardGas
  simp only [(addForwardedGas_rest h1 source n).1, (addForwardedGas_rest h2 source n).1, er]
  split
  · exact addReturnedGas_metering_congr _ _ _ _ (addForwardedGas_metering_congr _ _ _ _ em)
  · exact addForwardedGas_metering_congr _ _ _ _ em

end finish

section nested

/-- C14. If the `VMOutput` returned by `ExecuteOnDestContext` has a return code
other than `Ok`, the returned error is not nil; it is `ErrExecutionFailed` when
the transfer, the execution and the async info gave no error, and the error they
gave otherwise; and a nil error comes only with a return code `Ok`. -/
theorem ExecuteOnDestContext_error_of_return_code (E : Collaborators) (host : vmHost)
    (input : ContractCallInput) :
    ((ExecuteOnDestContext E host input).vmOutput.ReturnCode ≠ ReturnCode.Ok →
      (ExecuteOnDestContext E host input).err ≠ none) ∧
    ((bodyExecuteOnDestContext E (enterExecuteOnDestContext E host input).1
        (enterExecuteOnDestContext E host input).2).2.2.1 = none →
      (ExecuteOnDestContext E host input).vmOutput.ReturnCode ≠ ReturnCode.Ok →
      (ExecuteOnDestContext E host input).err = some VMError.ErrExecutionFailed) ∧
    (∀ err, (bodyExecuteOnDestContext E (enterExecuteOnDestContext E host input).1
        (enterExecuteOnDestContext E host input).2).2.2.1 = some err →
      (ExecuteOnDestContext E host input).err = some err ∧
      (ExecuteOnDestContext E host input).vmOutput.ReturnCode ≠ ReturnCode.Ok) ∧
    ((ExecuteOnDestContext E host input).err = none →
      (ExecuteOnDestContext E host input).vmOutput.ReturnCode = ReturnCode.Ok) := by
  simp only [ExecuteOnDestContext]
  cases hb : (bodyExecuteOnDestContext E (enterExecuteOnDestContext E host input).1
      (enterExecuteOnDestContext E host input).2).2.2.1 with
  | none =>
    refine ⟨?_, ?_, ?_, ?_⟩
    · intro h
      simp [h]
    · intro _ h
      simp [h]
    · intro err h
      cases h
    · intro h
      by_contra hne
      simp [hne] at h
  | some e =>
    have hcode : (finishExecuteOnDestContext E
        (bodyExecuteOnDestContext E (enterExecuteOnDestContext E host input).1
          (enterExecuteOnDestContext E host input).2).2.2.2 (some e)).1.ReturnCode ≠
        ReturnCode.Ok := by
      rw [finishExecuteOnDestContext_fst]
      exact resolveReturnCodeFromError_ne_Ok e
    refine ⟨?_, ?_, ?_, ?_⟩
    · intro _
      simp
    · intro h
      cases h
    · intro err h
      cases h
      exact ⟨by simp, hcode⟩
    · intro h
      simp at h

/-- Witness of C14: with a callee that runs out of gas the error is the one of the
execution and the return code is `OutOfGas`; with a callee that succeeds the
error is nil and the return code is `Ok`. -/
theorem ExecuteOnDestContext_error_of_return_code_witness :
    (bodyExecuteOnDestContext failingCollaborators
        (enterExecuteOnDestContext failingCollaborators (testHostWithOutput [1]) testCallInput).1
        (enterExecuteOnDestContext failingCollaborators (testHostWithOutput [1])
          testCallInput).2).2.2.1 = some VMError.ErrNotEnoughGas ∧
    ((ExecuteOnDestContext failingCollaborators (testHostWithOutput [1]) testCallInput).err =
        some VMError.ErrNotEnoughGas ∧
      (ExecuteOnDestContext failingCollaborators (testHostWithOutput [1])
        testCallInput).vmOutput.ReturnCode ≠ ReturnCode.Ok) ∧
    (ExecuteOnDestContext refusingCollaborators (testHostWithOutput [1])
        (testCallbackInput 5)).err = none ∧
    (ExecuteOnDestContext refusingCollaborators (testHostWithOutput [1])
        (testCallbackInput 5)).vmOutput.ReturnCode = ReturnCode.Ok :=
  ⟨by decide,
   (ExecuteOnDestContext_error_of_return_code failingCollaborators (testHostWithOutput [1])
     testCallInput).2.2.1 VMError.ErrNotEnoughGas (by decide),
   by decide,
   (ExecuteOnDestContext_error_of_return_code refusingCollaborators (testHostWithOutput [1])
     (testCallbackInput 5)).2.2.2 (by decide)⟩

/-- The contexts after `finishExecuteOnSameContext`, in terms of their pops: on a
failure the BigInt, Metering, Output and Runtime contexts are as their
`PopSetActiveState` leaves them; otherwise the BigInt and Output contexts are as
their `PopDiscard` leaves them, the Runtime context is as its
`PopSetActiveState` leaves it with the remaining gas restored, and the Metering
context is as its `PopSetActiveState` leaves it with the spent gas forwarded.
The Storage context is never touched. -/
theorem finishExecuteOnSameContext_contexts (E : Collaborators) (host : vmHost)
    (executeErr : Option VMError) :
    ((outputContext.ReturnCode host ≠ ReturnCode.Ok ∨ executeErr ≠ none) →
      (finishExecuteOnSameContext E host executeErr).bigIntContext =
        (bigIntContext.PopSetActiveState host).bigIntContext ∧
      (finishExecuteOnSameContext E host executeErr).meteringContext =
        (meteringContext.PopSetActiveState host).meteringContext ∧
      (finishExecuteOnSameContext E host executeErr).outputContext =
        (outputContext.PopSetActiveState host).outputContext ∧
      (finishExecuteOnSameContext E host executeErr).runtimeContext =
        (runtimeContext.PopSetActiveState host).runtimeContext ∧
      (finishExecuteOnSameContext E host executeErr).storageContext = host.storageContext) ∧
    (¬ (outputContext.ReturnCode host ≠ ReturnCode.Ok ∨ executeErr ≠ none) →
      (finishExecuteOnSameContext E host executeErr).bigIntContext =
        (bigIntContext.PopDiscard host).bigIntContext ∧
      (finishExecuteOnSameContext E host executeErr).outputContext =
        (outputContext.PopDiscard (host.setOutputState (E.GetVMOutput host).2)).outputContext ∧
      (finishExecuteOnSameContext E host executeErr).runtimeContext =
        (meteringContext.RestoreGas (runtimeContext.PopSetActiveState host)
          (E.GetVMOutput host).1.GasRemaining).runtimeContext ∧
      (finishExecuteOnSameContext E host executeErr).meteringContext =
        (meteringContext.ForwardGas
          (meteringContext.RestoreGas
            (runtimeContext.PopSetActiveState (meteringContext.PopSetActiveState host))
            (E.GetVMOutput host).1.GasRemaining)
          (runtimeContext.PopSetActiveState host).runtimeContext.scAddress
          host.runtimeContext.scAddress
          (if (E.GetVMOutput host).1.ReturnCode ≠ ReturnCode.Ok then 0
           else meteringContext.GasSpentByContract host)).meteringContext ∧
      (finishExecuteOnSameContext E host executeErr).storageContext = host.storageContext) := by
  constructor
  · intro hfail
    simp only [finishExecuteOnSameContext]
    rw [if_pos hfail]
    refine ⟨?_, ?_, ?_, ?_, ?_⟩
    · simp
    · simp
      apply metering_PopSetActiveState_congr
      simp
    · simp
      apply output_PopSetActiveState_congr
      simp
    · apply runtime_PopSetActiveState_congr
      simp
    · simp
  · intro hok
    simp only [finishExecuteOnSameContext]
    rw [if_neg hok]
    refine ⟨?_, ?_, ?_, ?_, ?_⟩
    · simp
      apply bigInt_PopDiscard_congr
      simp
    · simp
      apply output_PopDiscard_congr
      simp
    · simp
      apply RestoreGas_runtime_congr
      apply runtime_PopSetActiveState_congr
      simp
    · have hsc : (meteringContext.RestoreGas
          (runtimeContext.PopSetActiveState
            (meteringContext.PopSetActiveState
              (outputContext.PopDiscard
                (bigIntContext.PopDiscard (host.setOutputState (E.GetVMOutput host).2)))))
          (E.GetVMOutput host).1.GasRemaining).runtimeContext.scAddress =
          (runtimeContext.PopSetActiveState host).runtimeContext.scAddress := by
        have h1 : ∀ (h : vmHost) (g : Nat), (meteringContext.RestoreGas h g).runtimeContext.scAddress =
            h.runtimeContext.scAddress := by
          intro h g
          simp only [meteringContext.RestoreGas]
          split <;> rfl
        rw [h1]
        apply congrArg runtimeContext.scAddress
        apply runtime_PopSetActiveState_congr
        simp
      rw [hsc]
      apply ForwardGas_metering_congr
      · simp
        apply metering_PopSetActiveState_congr
        simp
      · apply RestoreGas_runtime_congr
        apply runtime_PopSetActiveState_congr
        simp
    · simp

/-- C16, counterexample. With collaborators that refuse every value transfer: for
an asynchronous callback of value zero `ExecuteOnDestContext` returns the error
of the transfer, so the transfer was attempted; for an asynchronous callback of
value 5 it returns no error, so the transfer was skipped. -/
theorem zero_value_callback_transfer_counterexample :
    (testCallbackInput 0).VMInput.CallType = CallType.AsynchronousCallBack ∧
    (testCallbackInput 0).VMInput.CallValue = 0 ∧
    (ExecuteOnDestContext refusingCollaborators (testHostWithOutput [1])
      (testCallbackInput 0)).err = some (VMError.other "transfer refused") ∧
    (testCallbackInput 5).VMInput.CallType = CallType.AsynchronousCallBack ∧
    (testCallbackInput 5).VMInput.CallValue ≠ 0 ∧
    (ExecuteOnDestContext refusingCollaborators (testHostWithOutput [1])
      (testCallbackInput 5)).err = none := by
  decide

/-- C16, amended. `ExecuteOnDestContext` skips the value transfer exactly when the
call is an asynchronous callback with a call value other than zero: then its
body does not depend on `TransferValueOnly`; in every other case (also for a
callback of value zero) `TransferValueOnly` is called with the recipient, the
caller and the call value, an error it returns ends the body with that error,
and the output it leaves is the one the execution starts from. -/
theorem transfer_skipped_iff_nonzero_callback (E : Collaborators) (host : vmHost)
    (input : ContractCallInput) :
    ((input.VMInput.CallType = CallType.AsynchronousCallBack ∧ input.VMInput.CallValue ≠ 0) →
      ∀ T, bodyExecuteOnDestContext { E with TransferValueOnly := T } host input =
        bodyExecuteOnDestContext E host input) ∧
    (¬ (input.VMInput.CallType = CallType.AsynchronousCallBack ∧ input.VMInput.CallValue ≠ 0) →
      (∀ err, (E.TransferValueOnly host input.RecipientAddr input.VMInput.CallerAddr
          input.VMInput.CallValue false).1 = some err →
        bodyExecuteOnDestContext E host input =
          (none, 0, some err,
            host.setOutputState (E.TransferValueOnly host input.RecipientAddr
              input.VMInput.CallerAddr input.VMInput.CallValue false).2)) ∧
      ((E.TransferValueOnly host input.RecipientAddr input.VMInput.CallerAddr
          input.VMInput.CallValue false).1 = none →
        bodyExecuteOnDestContext E host input =
          bodyExecuteOnDestContext
            { E with TransferValueOnly := fun h _ _ _ _ => (none, h.outputContext.outputState) }
            (host.setOutputState (E.TransferValueOnly host input.RecipientAddr
              input.VMInput.CallerAddr input.VMInput.CallValue false).2)
            input)) := by
  refine ⟨?_, ?_⟩
  · rintro ⟨hc, hv⟩ T
    simp only [bodyExecuteOnDestContext]
    rw [if_neg (by simp [hc, hv]), if_neg (by simp [hc, hv])]
  · intro hn
    have hcond : input.VMInput.CallType ≠ CallType.AsynchronousCallBack ∨
        input.VMInput.CallValue = 0 := by
      by_cases hc : input.VMInput.CallType = CallType.AsynchronousCallBack
      · right
        by_contra hv
        exact hn ⟨hc, hv⟩
      · left
        exact hc
    refine ⟨?_, ?_⟩
    · intro err he
      simp only [bodyExecuteOnDestContext]
      rw [if_pos hcond]
      simp only [he]
    · intro he
      simp only [bodyExecuteOnDestContext]
      rw [if_pos hcond, if_pos hcond]
      simp only [he]
      rfl

/-- Witness of C16, amended: with collaborators that refuse every value transfer, a
direct call of value 5 ends with the error of the transfer. -/
theorem transfer_skipped_iff_nonzero_callback_witness :
    ¬ (testCallInput.VMInput.CallType = CallType.AsynchronousCallBack ∧
      testCallInput.VMInput.CallValue ≠ 0) ∧
    (refusingCollaborators.TransferValueOnly (testHostWithOutput [1]) testCallInput.RecipientAddr
      testCallInput.VMInput.CallerAddr testCallInput.VMInput.CallValue false).1 =
      some (VMError.other "transfer refused") ∧
    (bodyExecuteOnDestContext refusingCollaborators (testHostWithOutput [1])
      testCallInput).2.2.1 = some (VMError.other "transfer refused") ∧
    ((testCallbackInput 5).VMInput.CallType = CallType.AsynchronousCallBack ∧
      (testCallbackInput 5).VMInput.CallValue ≠ 0) ∧
    bodyExecuteOnDestContext
        { refusingCollaborators with TransferValueOnly := failingCollaborators.TransferValueOnly }
        (testHostWithOutput [1]) (testCallbackInput 5) =
      bodyExecuteOnDestContext refusingCollaborators (testHostWithOutput [1])
        (testCallbackInput 5) := by
  refine ⟨by decide, by decide, ?_, by decide, ?_⟩
  · rw [((transfer_skipped_iff_nonzero_callback refusingCollaborators (testHostWithOutput [1])
      testCallInput).2 (by decide)).1 (VMError.other "transfer refused") (by decide)]
  · exact (transfer_skipped_iff_nonzero_callback refusingCollaborators (testHostWithOutput [1])
      (testCallbackInput 5)).1 (by decide) failingCollaborators.TransferValueOnly

end nested

/-! ## Theorems: entry points -/

section entry

theorem deductInitialGas_failed (host : vmHost) (code : Bytes) (baseCost costPerByte : Nat)
    (h : (meteringContext.deductInitialGas host code baseCost costPerByte).1 ≠ none) :
    meteringContext.deductInitialGas host code baseCost costPerByte =
      (some VMError.ErrNotEnoughGas, host) := by
  rw [deductInitialGas_spec] at h ⊢
  split
  · rename_i hle
    rw [if_pos hle] at h
    exact absurd rfl h
  · rfl

/-- C18. `verifyAllowedFunctionCall` returns `ErrInitFuncCalledInRun` if the
function name is a reserved init name (`InitFunctionName` or
`InitFunctionNameEth`), `ErrCallBackFuncCalledInRun` if it is the callback name
and the call type is not `AsynchronousCallBack`, and no error otherwise; when it
returns an error, `callSCMethod` returns that error and leaves the host as it is,
and `doRunSmartContractCall` reports it with return code `UserError`. -/
theorem verifyAllowedFunctionCall_spec (names : FunctionNames) (host : vmHost) :
    verifyAllowedFunctionCall names host =
      (if host.runtimeContext.callFunction = names.InitFunctionName ∨
          host.runtimeContext.callFunction = names.InitFunctionNameEth then
        some VMError.ErrInitFuncCalledInRun
      else if host.runtimeContext.callFunction = names.CallbackFunctionName ∧
          host.runtimeContext.vmInput.CallType ≠ CallType.AsynchronousCallBack then
        some VMError.ErrCallBackFuncCalledInRun
      else none) ∧
    (verifyAllowedFunctionCall names host = none ↔
      host.runtimeContext.callFunction ≠ names.InitFunctionName ∧
      host.runtimeContext.callFunction ≠ names.InitFunctionNameEth ∧
      (host.runtimeContext.callFunction = names.CallbackFunctionName →
        host.runtimeContext.vmInput.CallType = CallType.AsynchronousCallBack)) ∧
    (∀ (R : HostCollaborators) (err : VMError),
      verifyAllowedFunctionCall R.names host = some err →
        callSCMethod R host = (some err, host) ∧
        (err = VMError.ErrInitFuncCalledInRun ∨ err = VMError.ErrCallBackFuncCalledInRun) ∧
        outputContext.resolveReturnCodeFromError err = ReturnCode.UserError) := by
  have hdef : verifyAllowedFunctionCall names host =
      (if host.runtimeContext.callFunction = names.InitFunctionName ∨
          host.runtimeContext.callFunction = names.InitFunctionNameEth then
        some VMError.ErrInitFuncCalledInRun
      else if host.runtimeContext.callFunction = names.CallbackFunctionName ∧
          host.runtimeContext.vmInput.CallType ≠ CallType.AsynchronousCallBack then
        some VMError.ErrCallBackFuncCalledInRun
      else none) := by
    simp only [verifyAllowedFunctionCall]
  refine ⟨hdef, ?_, ?_⟩
  · rw [hdef]
    split_ifs with h1 h2
    · simp
      tauto
    · simp
      tauto
    · simp
      tauto
  · intro R err hv
    have hor : err = VMError.ErrInitFuncCalledInRun ∨
        err = VMError.ErrCallBackFuncCalledInRun := by
      simp only [verifyAllowedFunctionCall] at hv
      split_ifs at hv <;> simp_all
    refine ⟨by simp only [callSCMethod, hv], hor, ?_⟩
    rcases hor with h | h <;> rw [h] <;> rfl

/-- Witness of C18: a direct call of `init` and a direct call of `callBack` are
both refused by `callSCMethod`, which leaves the host as it is. -/
theorem verifyAllowedFunctionCall_spec_witness :
    callSCMethod (testHostCollaborators failingCollaborators)
        { testHost [1] with
          runtimeContext := { (testHost [1]).runtimeContext with callFunction := "init" } } =
      (some VMError.ErrInitFuncCalledInRun,
        { testHost [1] with
          runtimeContext := { (testHost [1]).runtimeContext with callFunction := "init" } }) ∧
    callSCMethod (testHostCollaborators failingCollaborators)
        { testHost [1] with
          runtimeContext := { (testHost [1]).runtimeContext with callFunction := "callBack" } } =
      (some VMError.ErrCallBackFuncCalledInRun,
        { testHost [1] with
          runtimeContext := { (testHost [1]).runtimeContext with callFunction := "callBack" } }) :=
  ⟨((verifyAllowedFunctionCall_spec testNames
      { testHost [1] with
        runtimeContext := { (testHost [1]).runtimeContext with callFunction := "init" } }).2.2
      (testHostCollaborators failingCollaborators) VMError.ErrInitFuncCalledInRun
      (by decide)).1,
   ((verifyAllowedFunctionCall_spec testNames
      { testHost [1] with
        runtimeContext := { (testHost [1]).runtimeContext with callFunction := "callBack" } }).2.2
      (testHostCollaborators failingCollaborators) VMError.ErrCallBackFuncCalledInRun
      (by decide)).1⟩

theorem DeductInitialGasForExecution_failed (host : vmHost) (contract : Bytes)
    (h : (meteringContext.DeductInitialGasForExecution host contract).1 ≠ none) :
    meteringContext.DeductInitialGasForExecution host contract =
      (some VMError.ErrNotEnoughGas, host) :=
  deductInitialGas_failed _ _ _ _ h

theorem DeductInitialGasForDirectDeployment_failed (host : vmHost) (input : CodeDeployInput)
    (h : (meteringContext.DeductInitialGasForDirectDeployment host input).1 ≠ none) :
    meteringContext.DeductInitialGasForDirectDeployment host input =
      (some VMError.ErrNotEnoughGas, host) :=
  deductInitialGas_failed _ _ _ _ h

theorem DeductInitialGasForIndirectDeployment_failed (host : vmHost) (input : CodeDeployInput)
    (h : (meteringContext.DeductInitialGasForIndirectDeployment host input).1 ≠ none) :
    meteringContext.DeductInitialGasForIndirectDeployment host input =
      (some VMError.ErrNotEnoughGas, host) :=
  deductInitialGas_failed _ _ _ _ h

theorem doRunSmartContractCall_precheck (R : HostCollaborators) (host : vmHost)
    (input : ContractCallInput)
    (h : checkGasForGetCode (bindSmartContractCall R host input).1
      (bindSmartContractCall R host input).2 ≠ none) :
    doRunSmartContractCall R host input =
      (outputContext.CreateVMOutputInCaseOfError VMError.ErrNotEnoughGas,
        R.Clean (bindSmartContractCall R host input).1) := by
  simp only [doRunSmartContractCall]
  split
  · rfl
  · rename_i hn
    exact absurd hn h

theorem doRunSmartContractCall_deduct (R : HostCollaborators) (host : vmHost)
    (input : ContractCallInput) (contract : Bytes)
    (hpre : checkGasForGetCode (bindSmartContractCall R host input).1
      (bindSmartContractCall R host input).2 = none)
    (hcode : R.GetSCCode (bindSmartContractCall R host input).1 = .ok contract)
    (h : (meteringContext.DeductInitialGasForExecution (bindSmartContractCall R host input).1
      contract).1 ≠ none) :
    doRunSmartContractCall R host input =
      (outputContext.CreateVMOutputInCaseOfError VMError.ErrNotEnoughGas,
        R.Clean (bindSmartContractCall R host input).1) := by
  simp only [doRunSmartContractCall, hpre, hcode, DeductInitialGasForExecution_failed _ _ h]

theorem doRunSmartContractCreate_deduct (R : HostCollaborators) (host : vmHost)
    (input : ContractCreateInput) (address : Address)
    (haddr : R.NewAddress (R.InitState host) input.VMInput.CallerAddr = .ok address)
    (h : (meteringContext.DeductInitialGasForDirectDeployment
      (bindSmartContractCreate R (R.InitState host) input address).1
      { ContractCode := (bindSmartContractCreate R (R.InitState host) input address).2.ContractCode
        ContractCodeMetadata :=
          (bindSmartContractCreate R (R.InitState host) input address).2.ContractCodeMetadata
        ContractAddress := address
        CodeDeployerAddress :=
          (bindSmartContractCreate R (R.InitState host) input
            address).2.VMInput.CallerAddr }).1 ≠ none) :
    doRunSmartContractCreate R host input =
      (outputContext.CreateVMOutputInCaseOfError VMError.ErrNotEnoughGas,
        R.Clean (outputContext.SetReturnCode
          (bindSmartContractCreate R (R.InitState host) input address).1 ReturnCode.OutOfGas)) := by
  simp only [doRunSmartContractCreate, haddr, performCodeDeployment,
    DeductInitialGasForDirectDeployment_failed _ _ h]

/-- C17. In `doRunSmartContractCall`, when the get-code pre-check fails (V2
metering enabled and the gas provided below the `GetCode` base cost) or the
initial gas deduction returns `ErrNotEnoughGas`, and in
`doRunSmartContractCreate`, when the initial gas deduction returns
`ErrNotEnoughGas`: the `VMOutput` returned is the error output built from
`ErrNotEnoughGas`, with return code `OutOfGas`, no gas remaining and no output
account, and the result does not depend on `StartWasmerInstance`, on the
function of the contract or on its `init` function (no instance is started, no
function is called). -/
theorem entry_points_out_of_gas (R : HostCollaborators) (host : vmHost) :
    (∀ (h : vmHost) (i : ContractCallInput),
      checkGasForGetCode h i = some VMError.ErrNotEnoughGas ↔
        (h.vmV2Enabled = true ∧
          i.VMInput.GasProvided < h.meteringContext.gasSchedule.BaseOperationCost.GetCode)) ∧
    (∀ input : ContractCallInput,
      (checkGasForGetCode (bindSmartContractCall R host input).1
          (bindSmartContractCall R host input).2 = some VMError.ErrNotEnoughGas ∨
        (checkGasForGetCode (bindSmartContractCall R host input).1
            (bindSmartContractCall R host input).2 = none ∧
          ∃ contract, R.GetSCCode (bindSmartContractCall R host input).1 = .ok contract ∧
            (meteringContext.DeductInitialGasForExecution (bindSmartContractCall R host input).1
              contract).1 = some VMError.ErrNotEnoughGas)) →
      doRunSmartContractCall R host input =
        (outputContext.CreateVMOutputInCaseOfError VMError.ErrNotEnoughGas,
          R.Clean (bindSmartContractCall R host input).1) ∧
      ∀ S G I, doRunSmartContractCall
          { R with StartWasmerInstance := S, getFunctionByCallType := G, GetInitFunction := I }
          host input = doRunSmartContractCall R host input) ∧
    (∀ (input : ContractCreateInput) (address : Address),
      R.NewAddress (R.InitState host) input.VMInput.CallerAddr = .ok address →
      (meteringContext.DeductInitialGasForDirectDeployment
        (bindSmartContractCreate R (R.InitState host) input address).1
        { ContractCode :=
            (bindSmartContractCreate R (R.InitState host) input address).2.ContractCode
          ContractCodeMetadata :=
            (bindSmartContractCreate R (R.InitState host) input address).2.ContractCodeMetadata
          ContractAddress := address
          CodeDeployerAddress :=
            (bindSmartContractCreate R (R.InitState host) input
              address).2.VMInput.CallerAddr }).1 = some VMError.ErrNotEnoughGas →
      doRunSmartContractCreate R host input =
        (outputContext.CreateVMOutputInCaseOfError VMError.ErrNotEnoughGas,
          R.Clean (outputContext.SetReturnCode
            (bindSmartContractCreate R (R.InitState host) input address).1
            ReturnCode.OutOfGas)) ∧
      ∀ S G I, doRunSmartContractCreate
          { R with StartWasmerInstance := S, getFunctionByCallType := G, GetInitFunction := I }
          host input = doRunSmartContractCreate R host input) ∧
    (outputContext.CreateVMOutputInCaseOfError VMError.ErrNotEnoughGas).ReturnCode =
      ReturnCode.OutOfGas ∧
    (outputContext.CreateVMOutputInCaseOfError VMError.ErrNotEnoughGas).GasRemaining = 0 ∧
    (outputContext.CreateVMOutputInCaseOfError VMError.ErrNotEnoughGas).OutputAccounts = [] := by
  refine ⟨?_, ?_, ?_, rfl, rfl, rfl⟩
  · intro h i
    simp only [checkGasForGetCode]
    cases h.vmV2Enabled <;> simp
  · intro input hc
    have key : ∀ R2 : HostCollaborators,
        bindSmartContractCall R2 host input = bindSmartContractCall R host input →
        R2.GetSCCode = R.GetSCCode → R2.Clean = R.Clean →
        doRunSmartContractCall R2 host input =
          (outputContext.CreateVMOutputInCaseOfError VMError.ErrNotEnoughGas,
            R.Clean (bindSmartContractCall R host input).1) := by
      intro R2 hb hg hcl
      rcases hc with h | ⟨hpre, contract, hcode, hd⟩
      · rw [doRunSmartContractCall_precheck R2 host input (by rw [hb, h]; simp), hb, hcl]
      · rw [doRunSmartContractCall_deduct R2 host input contract (by rw [hb, hpre])
          (by rw [hb, hg, hcode]) (by rw [hb, hd]; simp), hb, hcl]
    refine ⟨key R rfl rfl rfl, ?_⟩
    intro S G I
    rw [key R rfl rfl rfl]
    exact key _ rfl rfl rfl
  · intro input address haddr hd
    have key : ∀ R2 : HostCollaborators,
        R2.InitState = R.InitState → R2.NewAddress = R.NewAddress →
        (∀ h, bindSmartContractCreate R2 h input address =
          bindSmartContractCreate R h input address) →
        R2.Clean = R.Clean →
        doRunSmartContractCreate R2 host input =
          (outputContext.CreateVMOutputInCaseOfError VMError.ErrNotEnoughGas,
            R.Clean (outputContext.SetReturnCode
              (bindSmartContractCreate R (R.InitState host) input address).1
              ReturnCode.OutOfGas)) := by
      intro R2 hi hn hb hcl
      rw [doRunSmartContractCreate_deduct R2 host input address (by rw [hi, hn, haddr])
        (by rw [hi, hb, hd]; simp), hi, hb, hcl]
    refine ⟨key R rfl rfl (fun _ => rfl) rfl, ?_⟩
    intro S G I
    rw [key R rfl rfl (fun _ => rfl) rfl]
    exact key _ rfl rfl (fun _ => rfl) rfl

/-- Witness of C17: in a direct call with no gas provided the pre-check fails, and
in a deployment of three bytes with 2 gas the deduction fails (the cost is 4);
both return the `OutOfGas` output. -/
theorem entry_points_out_of_gas_witness :
    checkGasForGetCode
        (bindSmartContractCall (testHostCollaborators failingCollaborators)
          (testHostWithOutput [1]) { testCallInput with
            VMInput := { testCallInput.VMInput with GasProvided := 0 } }).1
        (bindSmartContractCall (testHostCollaborators failingCollaborators)
          (testHostWithOutput [1]) { testCallInput with
            VMInput := { testCallInput.VMInput with GasProvided := 0 } }).2 =
      some VMError.ErrNotEnoughGas ∧
    (doRunSmartContractCall (testHostCollaborators failingCollaborators)
        (testHostWithOutput [1]) { testCallInput with
          VMInput := { testCallInput.VMInput with GasProvided := 0 } }).1 =
      outputContext.CreateVMOutputInCaseOfError VMError.ErrNotEnoughGas ∧
    (doRunSmartContractCreate (testHostCollaborators failingCollaborators)
        (testHostWithOutput [1]) (testCreateInput 2)).1.ReturnCode = ReturnCode.OutOfGas := by
  refine ⟨by decide, ?_, ?_⟩
  · rw [((entry_points_out_of_gas (testHostCollaborators failingCollaborators)
      (testHostWithOutput [1])).2.1 _ (Or.inl (by decide))).1]
  · rw [((entry_points_out_of_gas (testHostCollaborators failingCollaborators)
      (testHostWithOutput [1])).2.2.1 (testCreateInput 2) [9] rfl (by decide)).1]
    rfl

end entry

/-! ## Theorems: indirect deployment -/

section deployment

/-- A failed `ExecuteOnDestContext` leaves the Output context as it found it,
provided the nested steps leave its state stack as they found it. -/
theorem ExecuteOnDestContext_failed_outputContext (E : Collaborators) (hE : E.KeepsOutputStack)
    (host : vmHost) (input : ContractCallInput)
    (hfail : (ExecuteOnDestContext E host input).err ≠ none) :
    (ExecuteOnDestContext E host input).host.outputContext = host.outputContext := by
  have hbody := bodyExecuteOnDestContext_rel E
    (fun a b => b.outputContext.stateStack = a.outputContext.stateStack)
    (fun _ => rfl) (fun a b c h1 h2 => h2.trans h1) (fun h out => by simp) hE.1 hE.2
    (enterExecuteOnDestContext E host input).1 (enterExecuteOnDestContext E host input).2
  simp only [enterExecuteOnDestContext_output] at hbody
  have hcode : (finishExecuteOnDestContext E
      (bodyExecuteOnDestContext E (enterExecuteOnDestContext E host input).1
        (enterExecuteOnDestContext E host input).2).2.2.2
      (bodyExecuteOnDestContext E (enterExecuteOnDestContext E host input).1
        (enterExecuteOnDestContext E host input).2).2.2.1).1.ReturnCode ≠ ReturnCode.Ok := by
    simp only [ExecuteOnDestContext] at hfail
    rw [finishExecuteOnDestContext_fst]
    intro hok
    cases hb : (bodyExecuteOnDestContext E (enterExecuteOnDestContext E host input).1
      (enterExecuteOnDestContext E host input).2).2.2.1 with
    | some err =>
      rw [hb] at hok
      exact resolveReturnCodeFromError_ne_Ok err hok
    | none =>
      rw [hb] at hok
      apply hfail
      rw [finishExecuteOnDestContext_fst, hb]
      simp only [] at hok
      simp [hok]
  have hfin := finishExecuteOnDestContext_failed E _ _ _ _ hbody hcode
  simp only [ExecuteOnDestContext]
  simp [hfin]

theorem filter_map_set_account (l : List (Address × OutputAccount)) (a : Address)
    (x : OutputAccount) :
    (l.map (fun kv => if kv.1 = a then (kv.1, x) else kv)).filter
        (fun kv => decide (kv.1 ≠ a)) =
      l.filter (fun kv => decide (kv.1 ≠ a)) := by
  induction l with
  | nil => rfl
  | cons kv rest ih =>
    by_cases h : kv.1 = a
    · simpa [List.filter_cons, h] using ih
    · simpa [List.filter_cons, h] using ih

/-- Deleting the output account of an address after `DeployCode` on that address
leaves the accounts there were before, less the one of that address; the rest of
the Output context is unchanged. -/
theorem DeleteOutputAccount_DeployCode (host h2 : vmHost) (input : CodeDeployInput)
    (he : h2.outputContext = (outputContext.DeployCode host input).outputContext) :
    (outputContext.DeleteOutputAccount h2 input.ContractAddress).outputContext =
      { outputState :=
          { host.outputContext.outputState with
            OutputAccounts := host.outputContext.outputState.OutputAccounts.filter
              (fun kv => decide (kv.1 ≠ input.ContractAddress)) }
        stateStack := host.outputContext.stateStack } := by
  simp only [outputContext.DeleteOutputAccount, vmHost.setOutputState, he,
    outputContext.DeployCode, outputContext.GetOutputAccount]
  cases host.outputContext.outputState.OutputAccounts.lookup input.ContractAddress with
  | some acc =>
    have := filter_map_set_account host.outputContext.outputState.OutputAccounts
      input.ContractAddress
    simp_all
  | none =>
    have := filter_map_set_account host.outputContext.outputState.OutputAccounts
      input.ContractAddress
    simp_all [List.filter_append]

theorem lookup_filter_ne_self (l : List (Address × OutputAccount)) (a : Address) :
    (l.filter (fun kv => decide (kv.1 ≠ a))).lookup a = none := by
  induction l with
  | nil => rfl
  | cons kv rest ih =>
    by_cases h : kv.1 = a
    · have hd : decide (kv.1 ≠ a) = false := by simp [h]
      rw [List.filter_cons, hd]
      simp only [Bool.false_eq_true, if_false]
      exact ih
    · have hd : decide (kv.1 ≠ a) = true := by simp [h]
      have h2 : (a == kv.1) = false := by
        simp; exact fun e => h e.symm
      rw [List.filter_cons, hd]
      simp only [if_true]
      rw [List.lookup_cons, h2]
      exact ih

theorem lookup_filter_ne_other (l : List (Address × OutputAccount)) (a b : Address)
    (hne : b ≠ a) :
    (l.filter (fun kv => decide (kv.1 ≠ a))).lookup b = l.lookup b := by
  induction l with
  | nil => rfl
  | cons kv rest ih =>
    by_cases h : kv.1 = a
    · have hd : decide (kv.1 ≠ a) = false := by simp [h]
      have h2 : (b == kv.1) = false := by
        simp; rw [h]; exact hne
      rw [List.filter_cons, hd]
      simp only [Bool.false_eq_true, if_false]
      rw [List.lookup_cons, h2]
      exact ih
    · have hd : decide (kv.1 ≠ a) = true := by simp [h]
      rw [List.filter_cons, hd]
      simp only [if_true]
      rw [List.lookup_cons, List.lookup_cons, ih]

theorem deductInitialGas_other_contexts (host : vmHost) (code : Bytes)
    (baseCost costPerByte : Nat) :
    (meteringContext.deductInitialGas host code baseCost costPerByte).2.outputContext =
      host.outputContext ∧
    (meteringContext.deductInitialGas host code baseCost costPerByte).2.runtimeContext =
      host.runtimeContext := by
  rw [deductInitialGas_spec]
  split <;> exact ⟨rfl, rfl⟩

theorem DeductInitialGasForIndirectDeployment_other_contexts (host : vmHost)
    (input : CodeDeployInput) :
    (meteringContext.DeductInitialGasForIndirectDeployment host input).2.outputContext =
      host.outputContext ∧
    (meteringContext.DeductInitialGasForIndirectDeployment host input).2.runtimeContext =
      host.runtimeContext :=
  deductInitialGas_other_contexts _ _ _ _

/-- The result of `CreateNewContract` once the account of the new address has
been created by `DeployCode`. -/
theorem CreateNewContract_reached (R : HostCollaborators) (host h1 : vmHost)
    (input : ContractCreateInput) (newAddr : Address)
    (hd : meteringContext.DeductInitialGasForIndirectDeployment host
        { ContractCode := input.ContractCode
          ContractCodeMetadata := input.ContractCodeMetadata
          ContractAddress := []
          CodeDeployerAddress := input.VMInput.CallerAddr } = (none, h1))
    (hro : h1.runtimeContext.readOnly = false)
    (hna : R.NewAddress h1 input.VMInput.CallerAddr = .ok newAddr)
    (hex : R.AccountExists h1 newAddr = false) :
    CreateNewContract R host input =
      (match (ExecuteOnDestContext R.toCollaborators
          { outputContext.DeployCode h1
              { ContractCode := input.ContractCode
                ContractCodeMetadata := input.ContractCodeMetadata
                ContractAddress := newAddr
                CodeDeployerAddress := input.VMInput.CallerAddr } with
            runtimeContext := R.MustVerifyNextContractCode
              (outputContext.DeployCode h1
                { ContractCode := input.ContractCode
                  ContractCodeMetadata := input.ContractCodeMetadata
                  ContractAddress := newAddr
                  CodeDeployerAddress := input.VMInput.CallerAddr }).runtimeContext }
          { RecipientAddr := newAddr
            Function := R.names.InitFunctionName
            AllowInitFunction := true
            VMInput := input.VMInput }).err with
      | some err =>
        { newContractAddress := none, err := some err,
          host := outputContext.DeleteOutputAccount
            (ExecuteOnDestContext R.toCollaborators
              { outputContext.DeployCode h1
                  { ContractCode := input.ContractCode
                    ContractCodeMetadata := input.ContractCodeMetadata
                    ContractAddress := newAddr
                    CodeDeployerAddress := input.VMInput.CallerAddr } with
                runtimeContext := R.MustVerifyNextContractCode
                  (outputContext.DeployCode h1
                    { ContractCode := input.ContractCode
                      ContractCodeMetadata := input.ContractCodeMetadata
                      ContractAddress := newAddr
                      CodeDeployerAddress := input.VMInput.CallerAddr }).runtimeContext }
              { RecipientAddr := newAddr
                Function := R.names.InitFunctionName
                AllowInitFunction := true
                VMInput := input.VMInput }).host newAddr }
      | none =>
        { newContractAddress := some newAddr, err := none,
          host := (ExecuteOnDestContext R.toCollaborators
              { outputContext.DeployCode h1
                  { ContractCode := input.ContractCode
                    ContractCodeMetadata := input.ContractCodeMetadata
                    ContractAddress := newAddr
                    CodeDeployerAddress := input.VMInput.CallerAddr } with
                runtimeContext := R.MustVerifyNextContractCode
                  (outputContext.DeployCode h1
                    { ContractCode := input.ContractCode
                      ContractCodeMetadata := input.ContractCodeMetadata
                      ContractAddress := newAddr
                      CodeDeployerAddress := input.VMInput.CallerAddr }).runtimeContext }
              { RecipientAddr := newAddr
                Function := R.names.InitFunctionName
                AllowInitFunction := true
                VMInput := input.VMInput }).host.setOutputState
            (R.IncreaseNonce
              (ExecuteOnDestContext R.toCollaborators
                { outputContext.DeployCode h1
                    { ContractCode := input.ContractCode
                      ContractCodeMetadata := input.ContractCodeMetadata
                      ContractAddress := newAddr
                      CodeDeployerAddress := input.VMInput.CallerAddr } with
                  runtimeContext := R.MustVerifyNextContractCode
                    (outputContext.DeployCode h1
                      { ContractCode := input.ContractCode
                        ContractCodeMetadata := input.ContractCodeMetadata
                        ContractAddress := newAddr
                        CodeDeployerAddress := input.VMInput.CallerAddr }).runtimeContext }
                { RecipientAddr := newAddr
                  Function := R.names.InitFunctionName
                  AllowInitFunction := true
                  VMInput := input.VMInput }).host input.VMInput.CallerAddr) }) := by
  simp only [CreateNewContract, hd, hro, hna, hex]
  simp

/-- C19. Whenever `CreateNewContract` returns an error, the returned address is
nil and `IncreaseNonce` has no part in the result (the nonce of the caller is
not increased). If the failure comes before `DeployCode` (no gas for the
deduction, read-only runtime, no new address, or an address that has an account)
the Output context is the one before the call; if it comes after `DeployCode`,
the Output context is the one before the call less the output account of the new
address: that account is deleted, and every other output account is as it
was. -/
theorem CreateNewContract_failure (R : HostCollaborators)
    (hE : R.toCollaborators.KeepsOutputStack) (host : vmHost) (input : ContractCreateInput)
    (herr : (CreateNewContract R host input).err ≠ none) :
    (CreateNewContract R host input).newContractAddress = none ∧
    (∀ N : vmHost → Address → VMOutput,
      CreateNewContract { R with IncreaseNonce := N } host input =
        CreateNewContract R host input) ∧
    ((¬ ∃ h1 newAddr,
        meteringContext.DeductInitialGasForIndirectDeployment host
          { ContractCode := input.ContractCode
            ContractCodeMetadata := input.ContractCodeMetadata
            ContractAddress := []
            CodeDeployerAddress := input.VMInput.CallerAddr } = (none, h1) ∧
        h1.runtimeContext.readOnly = false ∧
        R.NewAddress h1 input.VMInput.CallerAddr = .ok newAddr ∧
        R.AccountExists h1 newAddr = false) →
      (CreateNewContract R host input).host.outputContext = host.outputContext) ∧
    (∀ h1 newAddr,
      meteringContext.DeductInitialGasForIndirectDeployment host
        { ContractCode := input.ContractCode
          ContractCodeMetadata := input.ContractCodeMetadata
          ContractAddress := []
          CodeDeployerAddress := input.VMInput.CallerAddr } = (none, h1) →
      h1.runtimeContext.readOnly = false →
      R.NewAddress h1 input.VMInput.CallerAddr = .ok newAddr →
      R.AccountExists h1 newAddr = false →
      (CreateNewContract R host input).host.outputContext =
        { outputState :=
            { host.outputContext.outputState with
              OutputAccounts := host.outputContext.outputState.OutputAccounts.filter
                (fun kv => decide (kv.1 ≠ newAddr)) }
          stateStack := host.outputContext.stateStack } ∧
      (CreateNewContract R host input).host.outputContext.outputState.OutputAccounts.lookup
        newAddr = none ∧
      ∀ b, b ≠ newAddr →
        (CreateNewContract R host input).host.outputContext.outputState.OutputAccounts.lookup b =
          host.outputContext.outputState.OutputAccounts.lookup b) := by
  have hreached : ∀ h1 newAddr,
      meteringContext.DeductInitialGasForIndirectDeployment host
        { ContractCode := input.ContractCode
          ContractCodeMetadata := input.ContractCodeMetadata
          ContractAddress := []
          CodeDeployerAddress := input.VMInput.CallerAddr } = (none, h1) →
      h1.runtimeContext.readOnly = false →
      R.NewAddress h1 input.VMInput.CallerAddr = .ok newAddr →
      R.AccountExists h1 newAddr = false →
      (CreateNewContract R host input).host.outputContext =
        { outputState :=
            { host.outputContext.outputState with
              OutputAccounts := host.outputContext.outputState.OutputAccounts.filter
                (fun kv => decide (kv.1 ≠ newAddr)) }
          stateStack := host.outputContext.stateStack } := by
    intro h1 newAddr hd hro hna hex
    have ho : h1.outputContext = host.outputContext := by
      have := (DeductInitialGasForIndirectDeployment_other_contexts host
        { ContractCode := input.ContractCode
          ContractCodeMetadata := input.ContractCodeMetadata
          ContractAddress := []
          CodeDeployerAddress := input.VMInput.CallerAddr }).1
      rw [hd] at this
      exact this
    have hc := CreateNewContract_reached R host h1 input newAddr hd hro hna hex
    rw [hc] at herr ⊢
    split
    · rename_i err he
      have hfail := ExecuteOnDestContext_failed_outputContext R.toCollaborators hE _ _
        (by rw [he]; exact Option.some_ne_none err)
      have hdel := DeleteOutputAccount_DeployCode h1 _
        { ContractCode := input.ContractCode
          ContractCodeMetadata := input.ContractCodeMetadata
          ContractAddress := newAddr
          CodeDeployerAddress := input.VMInput.CallerAddr } hfail
      simp only [] at hdel
      rw [hdel, ho]
    · rename_i he
      rw [he] at herr
      exact absurd rfl herr
  refine ⟨?_, ?_, ?_, ?_⟩
  · simp only [CreateNewContract] at herr ⊢
    split
    · rfl
    · split
      · rfl
      · split
        · rfl
        · split
          · rfl
          · split
            · rfl
            · rename_i h _ _ _ _ _ _ he
              simp_all [CreateNewContract]
  · intro N
    simp only [CreateNewContract] at herr ⊢
    split
    · rfl
    · split
      · rfl
      · split
        · rfl
        · split
          · rfl
          · split
            · rfl
            · simp_all [CreateNewContract]
  · intro hnot
    simp only [CreateNewContract]
    split
    · rename_i err h1 hd
      have := DeductInitialGasForIndirectDeployment_failed host _
        (by rw [hd]; exact Option.some_ne_none err)
      rw [hd] at this
      simp only [Prod.mk.injEq] at this
      rw [this.2]
    · rename_i h1 hd
      have ho := (DeductInitialGasForIndirectDeployment_other_contexts host
        { ContractCode := input.ContractCode
          ContractCodeMetadata := input.ContractCodeMetadata
          ContractAddress := []
          CodeDeployerAddress := input.VMInput.CallerAddr }).1
      rw [hd] at ho
      split
      · exact ho
      · rename_i hro
        split
        · exact ho
        · rename_i newAddr hna
          split
          · exact ho
          · rename_i hex
            exact absurd ⟨h1, newAddr, hd, by simpa using hro, hna, by simpa using hex⟩ hnot
  · intro h1 newAddr hd hro hna hex
    have h := hreached h1 newAddr hd hro hna hex
    refine ⟨h, ?_, ?_⟩
    · rw [h]
      exact lookup_filter_ne_self _ _
    · intro b hb
      rw [h]
      exact lookup_filter_ne_other _ _ _ hb

/-- Witness of C19: the contract at `[1]`, running with 500 gas, deploys a code of
three bytes whose `init` call fails for lack of gas; the address `[9]` is not
returned, no output account of `[9]` remains, and the output account of `[1]`
is as it was. -/
theorem CreateNewContract_failure_witness :
    (CreateNewContract (testHostCollaborators failingCollaborators)
        (bindVMInput (testHostWithOutput [1]) (testVMInput CallType.DirectCall 500 0))
        (testCreateInput 100)).err ≠ none ∧
    (CreateNewContract (testHostCollaborators failingCollaborators)
        (bindVMInput (testHostWithOutput [1]) (testVMInput CallType.DirectCall 500 0))
        (testCreateInput 100)).newContractAddress = none ∧
    (CreateNewContract (testHostCollaborators failingCollaborators)
        (bindVMInput (testHostWithOutput [1]) (testVMInput CallType.DirectCall 500 0))
        (testCreateInput 100)).host.outputContext.outputState.OutputAccounts.lookup [9] = none ∧
    (CreateNewContract (testHostCollaborators failingCollaborators)
        (bindVMInput (testHostWithOutput [1]) (testVMInput CallType.DirectCall 500 0))
        (testCreateInput 100)).host.outputContext.outputState.OutputAccounts.lookup [1] =
      (testHostWithOutput [1]).outputContext.outputState.OutputAccounts.lookup [1] :=
  ⟨by decide,
   (CreateNewContract_failure (testHostCollaborators failingCollaborators)
     failingCollaborators_KeepsOutputStack
     (bindVMInput (testHostWithOutput [1]) (testVMInput CallType.DirectCall 500 0))
     (testCreateInput 100) (by decide)).1,
   ((CreateNewContract_failure (testHostCollaborators failingCollaborators)
     failingCollaborators_KeepsOutputStack
     (bindVMInput (testHostWithOutput [1]) (testVMInput CallType.DirectCall 500 0))
     (testCreateInput 100) (by decide)).2.2.2 _ [9] rfl rfl rfl rfl).2.1,
   ((CreateNewContract_failure (testHostCollaborators failingCollaborators)
     failingCollaborators_KeepsOutputStack
     (bindVMInput (testHostWithOutput [1]) (testVMInput CallType.DirectCall 500 0))
     (testCreateInput 100) (by decide)).2.2.2 _ [9] rfl rfl rfl rfl).2.2 [1] (by decide)⟩

/-- Counterexample to C20 as stated: the runtime is read-only, but the running
call has only 2 gas and the code to deploy has three bytes (cost 3), so the
initial deduction, which comes first, fails and `CreateNewContract` returns
`ErrNotEnoughGas`, not `ErrInvalidCallOnReadOnlyMode`. -/
theorem CreateNewContract_read_only_counterexample :
    (bindVMInput
        { testHost [1] with
          runtimeContext := { (testHost [1]).runtimeContext with readOnly := true } }
        (testVMInput CallType.DirectCall 2 0)).runtimeContext.readOnly = true ∧
    (CreateNewContract (testHostCollaborators failingCollaborators)
        (bindVMInput
          { testHost [1] with
            runtimeContext := { (testHost [1]).runtimeContext with readOnly := true } }
          (testVMInput CallType.DirectCall 2 0))
        (testCreateInput 2)).err = some VMError.ErrNotEnoughGas ∧
    (CreateNewContract (testHostCollaborators failingCollaborators)
        (bindVMInput
          { testHost [1] with
            runtimeContext := { (testHost [1]).runtimeContext with readOnly := true } }
          (testVMInput CallType.DirectCall 2 0))
        (testCreateInput 2)).err ≠ some VMError.ErrInvalidCallOnReadOnlyMode := by
  decide

/-- C20, amended. Whenever the initial gas deduction succeeds and the runtime is
in read-only mode, `CreateNewContract` fails with `ErrInvalidCallOnReadOnlyMode`;
whenever the deduction succeeds, the runtime is not read-only, `NewAddress`
succeeds and the new address already has an account, it fails with
`ErrDeploymentOverExistingAccount`. In both cases the returned address is nil,
the host is the one left by the deduction, whose Output context is the one
before the call (no code is deployed), and the collaborators of the nested call
have no part in the result (`ExecuteOnDestContext` is not invoked). -/
theorem CreateNewContract_refusals (R : HostCollaborators) (host : vmHost)
    (input : ContractCreateInput)
    (hd : (meteringContext.DeductInitialGasForIndirectDeployment host
        { ContractCode := input.ContractCode
          ContractCodeMetadata := input.ContractCodeMetadata
          ContractAddress := []
          CodeDeployerAddress := input.VMInput.CallerAddr }).1 = none) :
    (host.runtimeContext.readOnly = true →
      ∀ E : Collaborators,
        CreateNewContract { R with toCollaborators := E } host input =
          { newContractAddress := none
            err := some VMError.ErrInvalidCallOnReadOnlyMode
            host := (meteringContext.DeductInitialGasForIndirectDeployment host
              { ContractCode := input.ContractCode
                ContractCodeMetadata := input.ContractCodeMetadata
                ContractAddress := []
                CodeDeployerAddress := input.VMInput.CallerAddr }).2 }) ∧
    (host.runtimeContext.readOnly = false →
      ∀ newAddr,
        R.NewAddress (meteringContext.DeductInitialGasForIndirectDeployment host
          { ContractCode := input.ContractCode
            ContractCodeMetadata := input.ContractCodeMetadata
            ContractAddress := []
            CodeDeployerAddress := input.VMInput.CallerAddr }).2
          input.VMInput.CallerAddr = .ok newAddr →
        R.AccountExists (meteringContext.DeductInitialGasForIndirectDeployment host
          { ContractCode := input.ContractCode
            ContractCodeMetadata := input.ContractCodeMetadata
            ContractAddress := []
            CodeDeployerAddress := input.VMInput.CallerAddr }).2 newAddr = true →
        ∀ E : Collaborators,
          CreateNewContract { R with toCollaborators := E } host input =
            { newContractAddress := none
              err := some VMError.ErrDeploymentOverExistingAccount
              host := (meteringContext.DeductInitialGasForIndirectDeployment host
                { ContractCode := input.ContractCode
                  ContractCodeMetadata := input.ContractCodeMetadata
                  ContractAddress := []
                  CodeDeployerAddress := input.VMInput.CallerAddr }).2 }) ∧
    (meteringContext.DeductInitialGasForIndirectDeployment host
        { ContractCode := input.ContractCode
          ContractCodeMetadata := input.ContractCodeMetadata
          ContractAddress := []
          CodeDeployerAddress := input.VMInput.CallerAddr }).2.outputContext =
      host.outputContext := by
  have hctx := DeductInitialGasForIndirectDeployment_other_contexts host
    { ContractCode := input.ContractCode
      ContractCodeMetadata := input.ContractCodeMetadata
      ContractAddress := []
      CodeDeployerAddress := input.VMInput.CallerAddr }
  cases hp : meteringContext.DeductInitialGasForIndirectDeployment host
      { ContractCode := input.ContractCode
        ContractCodeMetadata := input.ContractCodeMetadata
        ContractAddress := []
        CodeDeployerAddress := input.VMInput.CallerAddr } with
  | mk e h1 =>
    rw [hp] at hd hctx
    simp only [] at hd hctx
    subst hd
    refine ⟨?_, ?_, hctx.1⟩
    · intro hro E
      have hro1 : h1.runtimeContext.readOnly = true := by rw [hctx.2]; exact hro
      simp only [CreateNewContract, hp, hro1]
      simp
    · intro hro newAddr hna hex E
      have hro1 : h1.runtimeContext.readOnly = false := by rw [hctx.2]; exact hro
      simp only [CreateNewContract, hp, hro1, hna, hex]
      simp

/-- Witness of C20, amended: with 500 gas the deduction succeeds; on a read-only
runtime the deployment fails with `ErrInvalidCallOnReadOnlyMode`, and when the
new address `[9]` has an account it fails with
`ErrDeploymentOverExistingAccount`; no output account of `[9]` is created. -/
theorem CreateNewContract_refusals_witness :
    (CreateNewContract (testHostCollaborators failingCollaborators)
        (bindVMInput
          { testHost [1] with
            runtimeContext := { (testHost [1]).runtimeContext with readOnly := true } }
          (testVMInput CallType.DirectCall 500 0))
        (testCreateInput 100)).err = some VMError.ErrInvalidCallOnReadOnlyMode ∧
    (CreateNewContract
        { testHostCollaborators failingCollaborators with AccountExists := fun _ _ => true }
        (bindVMInput (testHost [1]) (testVMInput CallType.DirectCall 500 0))
        (testCreateInput 100)).err = some VMError.ErrDeploymentOverExistingAccount ∧
    (CreateNewContract
        { testHostCollaborators failingCollaborators with AccountExists := fun _ _ => true }
        (bindVMInput (testHost [1]) (testVMInput CallType.DirectCall 500 0))
        (testCreateInput 100)).host.outputContext.outputState.OutputAccounts = [] := by
  refine ⟨?_, ?_, ?_⟩
  · exact congrArg CreateNewContractResult.err
      ((CreateNewContract_refusals (testHostCollaborators failingCollaborators)
        (bindVMInput
          { testHost [1] with
            runtimeContext := { (testHost [1]).runtimeContext with readOnly := true } }
          (testVMInput CallType.DirectCall 500 0))
        (testCreateInput 100) (by decide)).1 (by decide) failingCollaborators)
  · exact congrArg CreateNewContractResult.err
      ((CreateNewContract_refusals
        { testHostCollaborators failingCollaborators with AccountExists := fun _ _ => true }
        (bindVMInput (testHost [1]) (testVMInput CallType.DirectCall 500 0))
        (testCreateInput 100) (by decide)).2.1 (by decide) [9] rfl rfl failingCollaborators)
  · refine Eq.trans (congrArg (fun r => r.host.outputContext.outputState.OutputAccounts)
      ((CreateNewContract_refusals
        { testHostCollaborators failingCollaborators with AccountExists := fun _ _ => true }
        (bindVMInput (testHost [1]) (testVMInput CallType.DirectCall 500 0))
        (testCreateInput 100) (by decide)).2.1 (by decide) [9] rfl rfl failingCollaborators)) ?_
    decide

end deployment

/-! ## Theorems: costs of the entry paths, gas locking, the points-used counter -/

section costs

open meteringContext

theorem MulUint64_of_le {a b : Nat} (h : a * b ≤ MaxUint64) : MulUint64 a b = a * b := by
  unfold MulUint64
  rw [if_neg (by omega)]

/-- The initial cost left by a successful initial deduction. -/
theorem deductInitialGas_initialCost (host : vmHost) (code : Bytes) (baseCost costPerByte : Nat)
    (hok : (deductInitialGas host code baseCost costPerByte).1 = none) :
    (deductInitialGas host code baseCost costPerByte).2.meteringContext.initialCost =
      AddUint64 baseCost (MulUint64 code.length costPerByte) := by
  rw [deductInitialGas_spec] at hok ⊢
  split
  · rfl
  · rename_i h
    rw [if_neg h] at hok
    cases hok

/-- C24. Absent `uint64` overflow of `CreateContract + L * CompilePerByte`, the
initial cost set by a successful `DeductInitialGasForIndirectDeployment` is
exactly `L * CompilePerByte`, with no `CreateContract` fee, the one set by a
successful `DeductInitialGasForDirectDeployment` is
`CreateContract + L * CompilePerByte`, and so the latter exceeds the former by
exactly `CreateContract` for the same code. -/
theorem deployment_initial_costs (host : vmHost) (input : CodeDeployInput)
    (hU : host.meteringContext.gasSchedule.BaseOpsAPICost.CreateContract +
      input.ContractCode.length *
        host.meteringContext.gasSchedule.BaseOperationCost.CompilePerByte ≤ MaxUint64) :
    ((DeductInitialGasForIndirectDeployment host input).1 = none →
      (DeductInitialGasForIndirectDeployment host input).2.meteringContext.initialCost =
        input.ContractCode.length *
          host.meteringContext.gasSchedule.BaseOperationCost.CompilePerByte) ∧
    ((DeductInitialGasForDirectDeployment host input).1 = none →
      (DeductInitialGasForDirectDeployment host input).2.meteringContext.initialCost =
        host.meteringContext.gasSchedule.BaseOpsAPICost.CreateContract +
          input.ContractCode.length *
            host.meteringContext.gasSchedule.BaseOperationCost.CompilePerByte) ∧
    ((DeductInitialGasForIndirectDeployment host input).1 = none →
      (DeductInitialGasForDirectDeployment host input).1 = none →
      (DeductInitialGasForDirectDeployment host input).2.meteringContext.initialCost =
        (DeductInitialGasForIndirectDeployment host input).2.meteringContext.initialCost +
          host.meteringContext.gasSchedule.BaseOpsAPICost.CreateContract) := by
  have hind : (DeductInitialGasForIndirectDeployment host input).1 = none →
      (DeductInitialGasForIndirectDeployment host input).2.meteringContext.initialCost =
        input.ContractCode.length *
          host.meteringContext.gasSchedule.BaseOperationCost.CompilePerByte := by
    intro hok
    unfold DeductInitialGasForIndirectDeployment at hok ⊢
    rw [deductInitialGas_initialCost _ _ _ _ hok, cost_exact (by omega)]
    omega
  have hdir : (DeductInitialGasForDirectDeployment host input).1 = none →
      (DeductInitialGasForDirectDeployment host input).2.meteringContext.initialCost =
        host.meteringContext.gasSchedule.BaseOpsAPICost.CreateContract +
          input.ContractCode.length *
            host.meteringContext.gasSchedule.BaseOperationCost.CompilePerByte := by
    intro hok
    unfold DeductInitialGasForDirectDeployment at hok ⊢
    rw [deductInitialGas_initialCost _ _ _ _ hok, cost_exact hU]
  refine ⟨hind, hdir, ?_⟩
  intro h1 h2
  rw [hind h1, hdir h2]
  omega

/-- Witness of C24: as in `TestDeductInitialGasForIndirectDeployment`, a code of
12 bytes with 10000 gas, every cost being 1: the indirect deployment costs 12
and the direct deployment 13. -/
theorem deployment_initial_costs_witness :
    (DeductInitialGasForIndirectDeployment
        (bindVMInput (testHost [1]) (testVMInput CallType.DirectCall 10000 0))
        { ContractCode := List.replicate 12 0, ContractCodeMetadata := [], ContractAddress := [],
          CodeDeployerAddress := [] }).2.meteringContext.initialCost = 12 ∧
    (DeductInitialGasForDirectDeployment
        (bindVMInput (testHost [1]) (testVMInput CallType.DirectCall 10000 0))
        { ContractCode := List.replicate 12 0, ContractCodeMetadata := [], ContractAddress := [],
          CodeDeployerAddress := [] }).2.meteringContext.initialCost = 13 :=
  ⟨(deployment_initial_costs
      (bindVMInput (testHost [1]) (testVMInput CallType.DirectCall 10000 0))
      { ContractCode := List.replicate 12 0, ContractCodeMetadata := [], ContractAddress := [],
        CodeDeployerAddress := [] } (by decide)).1 (by decide),
   (deployment_initial_costs
      (bindVMInput (testHost [1]) (testVMInput CallType.DirectCall 10000 0))
      { ContractCode := List.replicate 12 0, ContractCodeMetadata := [], ContractAddress := [],
        CodeDeployerAddress := [] } (by decide)).2.1 (by decide)⟩

/-- Counterexample to C25 as stated. With ahead-of-time compilation enabled the
base fee `GetCode` is charged: in the frame of
`TestMeteringContext_GasUsed_NoStacking` (2000 gas, a contract of 1000 bytes,
every cost being 1) the deduction succeeds with initial cost 1001, not 1000, and
leaves 999 gas. And without ahead-of-time compilation the cost saturates: with
`CompilePerByte = 2^63`, a code of two bytes and `2^64 - 1` gas the deduction
succeeds with initial cost `2^64 - 1`, not `2 * 2^63`. -/
theorem DeductInitialGasForExecution_base_fee_counterexample :
    (testHost [1]).aotEnabled = true ∧
    (DeductInitialGasForExecution
        (bindVMInput (testHost [1]) (testVMInput CallType.DirectCall 2000 0))
        (List.replicate 1000 0)).1 = none ∧
    (DeductInitialGasForExecution
        (bindVMInput (testHost [1]) (testVMInput CallType.DirectCall 2000 0))
        (List.replicate 1000 0)).2.meteringContext.initialCost = 1001 ∧
    (DeductInitialGasForExecution
        (bindVMInput (testHost [1]) (testVMInput CallType.DirectCall 2000 0))
        (List.replicate 1000 0)).2.meteringContext.initialCost ≠
      (List.replicate 1000 0).length *
        (testHost [1]).meteringContext.gasSchedule.BaseOperationCost.AoTPreparePerByte ∧
    GasLeft (DeductInitialGasForExecution
        (bindVMInput (testHost [1]) (testVMInput CallType.DirectCall 2000 0))
        (List.replicate 1000 0)).2 = 999 ∧
    (DeductInitialGasForExecution
        (bindVMInput
          { testHost [1] with
            aotEnabled := false
            meteringContext :=
              { (testHost [1]).meteringContext with
                gasSchedule :=
                  { BaseOperationCost :=
                      { CompilePerByte := 9223372036854775808, AoTPreparePerByte := 1,
                        GetCode := 1 }
                    BaseOpsAPICost :=
                      { CreateContract := 1, AsyncCallStep := 1, AsyncCallbackGasLock := 1 } } } }
          (testVMInput CallType.DirectCall 18446744073709551615 0))
        [0, 0]).1 = none ∧
    (DeductInitialGasForExecution
        (bindVMInput
          { testHost [1] with
            aotEnabled := false
            meteringContext :=
              { (testHost [1]).meteringContext with
                gasSchedule :=
                  { BaseOperationCost :=
                      { CompilePerByte := 9223372036854775808, AoTPreparePerByte := 1,
                        GetCode := 1 }
                    BaseOpsAPICost :=
                      { CreateContract := 1, AsyncCallStep := 1, AsyncCallbackGasLock := 1 } } } }
          (testVMInput CallType.DirectCall 18446744073709551615 0))
        [0, 0]).2.meteringContext.initialCost = 18446744073709551615 ∧
    (18446744073709551615 : Nat) ≠ [0, 0].length * 9223372036854775808 := by
  decide

/-- C25, amended. Absent `uint64` overflow of the cost: a successful
`DeductInitialGasForExecution` sets the initial cost to `L * CompilePerByte`,
with no base fee, when ahead-of-time compilation is disabled, and to
`GetCode + L * AoTPreparePerByte` when it is enabled. -/
theorem DeductInitialGasForExecution_initial_cost (host : vmHost) (contract : Bytes)
    (hU : (if host.aotEnabled then host.meteringContext.gasSchedule.BaseOperationCost.GetCode
        else 0) +
      contract.length *
        (if host.aotEnabled then
          host.meteringContext.gasSchedule.BaseOperationCost.AoTPreparePerByte
        else host.meteringContext.gasSchedule.BaseOperationCost.CompilePerByte) ≤ MaxUint64)
    (hok : (DeductInitialGasForExecution host contract).1 = none) :
    (host.aotEnabled = false →
      (DeductInitialGasForExecution host contract).2.meteringContext.initialCost =
        contract.length * host.meteringContext.gasSchedule.BaseOperationCost.CompilePerByte) ∧
    (host.aotEnabled = true →
      (DeductInitialGasForExecution host contract).2.meteringContext.initialCost =
        host.meteringContext.gasSchedule.BaseOperationCost.GetCode +
          contract.length *
            host.meteringContext.gasSchedule.BaseOperationCost.AoTPreparePerByte) := by
  unfold DeductInitialGasForExecution at hok ⊢
  simp only [] at hok ⊢
  rw [deductInitialGas_initialCost _ _ _ _ hok, cost_exact hU]
  constructor
  · intro h
    simp [h]
  · intro h
    simp [h]

/-- Witness of C25, amended: the frame of `TestMeteringContext_GasUsed_NoStacking`
with ahead-of-time compilation costs 1001; without it, 1000. -/
theorem DeductInitialGasForExecution_initial_cost_witness :
    (DeductInitialGasForExecution
        (bindVMInput (testHost [1]) (testVMInput CallType.DirectCall 2000 0))
        (List.replicate 1000 0)).2.meteringContext.initialCost = 1 + 1000 * 1 ∧
    (DeductInitialGasForExecution
        (bindVMInput { testHost [1] with aotEnabled := false }
          (testVMInput CallType.DirectCall 2000 0))
        (List.replicate 1000 0)).2.meteringContext.initialCost = 1000 * 1 :=
  ⟨(DeductInitialGasForExecution_initial_cost
      (bindVMInput (testHost [1]) (testVMInput CallType.DirectCall 2000 0))
      (List.replicate 1000 0) (by decide) (by decide)).2 (by decide),
   (DeductInitialGasForExecution_initial_cost
      (bindVMInput { testHost [1] with aotEnabled := false }
        (testVMInput CallType.DirectCall 2000 0))
      (List.replicate 1000 0) (by decide) (by decide)).1 (by decide)⟩

end costs

section locking

open meteringContext

/-- Counterexample to C26 as stated. With dynamic gas locking and ahead-of-time
compilation enabled, the compilation lock is priced at `AoTPreparePerByte`, not
at `CompilePerByte`: with `CompilePerByte = 1`, `AoTPreparePerByte = 2`, a code of
10 bytes and both async costs 1, the gas locked is `10 * 2 + 1 + 1 = 22`, not
`10 * 1 + 1 + 1 = 12`. -/
theorem ComputeGasLockedForAsync_aot_counterexample :
    (testHostAoT true).dynGasLockingEnabled = true ∧
    (testHostAoT true).aotEnabled = true ∧
    ComputeGasLockedForAsync (testHostAoT true) 10 = 22 ∧
    ComputeGasLockedForAsync (testHostAoT true) 10 ≠
      10 * (testHostAoT true).meteringContext.gasSchedule.BaseOperationCost.CompilePerByte +
        (testHostAoT true).meteringContext.gasSchedule.BaseOpsAPICost.AsyncCallStep +
        (testHostAoT true).meteringContext.gasSchedule.BaseOpsAPICost.AsyncCallbackGasLock := by
  decide

/-- C26, amended. Absent `uint64` overflow,
`ComputeGasLockedForAsync = compilationLock + AsyncCallStep + AsyncCallbackGasLock`,
where `compilationLock` is 0 if dynamic gas locking is disabled and
`codeSize * costPerByte` otherwise, `costPerByte` being `AoTPreparePerByte` when
ahead-of-time compilation is enabled and `CompilePerByte` when it is not. -/
theorem ComputeGasLockedForAsync_spec (host : vmHost) (codeSize : Nat)
    (hU : codeSize *
        (if host.aotEnabled then
          host.meteringContext.gasSchedule.BaseOperationCost.AoTPreparePerByte
        else host.meteringContext.gasSchedule.BaseOperationCost.CompilePerByte) +
      host.meteringContext.gasSchedule.BaseOpsAPICost.AsyncCallStep +
      host.meteringContext.gasSchedule.BaseOpsAPICost.AsyncCallbackGasLock ≤ MaxUint64) :
    ComputeGasLockedForAsync host codeSize =
      (if host.dynGasLockingEnabled then
        codeSize *
          (if host.aotEnabled then
            host.meteringContext.gasSchedule.BaseOperationCost.AoTPreparePerByte
          else host.meteringContext.gasSchedule.BaseOperationCost.CompilePerByte)
       else 0) +
      host.meteringContext.gasSchedule.BaseOpsAPICost.AsyncCallStep +
      host.meteringContext.gasSchedule.BaseOpsAPICost.AsyncCallbackGasLock := by
  unfold ComputeGasLockedForAsync
  simp only []
  rw [AddUint64_of_le (a := host.meteringContext.gasSchedule.BaseOpsAPICost.AsyncCallStep)
    (by omega)]
  by_cases hd : host.dynGasLockingEnabled = true
  · rw [if_pos hd, if_pos hd, MulUint64_of_le (by omega), AddUint64_of_le (by omega)]
    omega
  · rw [if_neg hd, if_neg hd, AddUint64_of_le (by omega)]
    omega

/-- Witness of C26, amended: the contract of 1000 bytes of
`TestMeteringContext_AsyncCallGasLocking`, every cost being 1: 2 without dynamic
gas locking, 1002 with it. -/
theorem ComputeGasLockedForAsync_spec_witness :
    ComputeGasLockedForAsync (testHost [1]) 1000 = 0 + 1 + 1 ∧
    ComputeGasLockedForAsync { testHost [1] with dynGasLockingEnabled := true } 1000 =
      1000 * 1 + 1 + 1 :=
  ⟨ComputeGasLockedForAsync_spec (testHost [1]) 1000 (by decide),
   ComputeGasLockedForAsync_spec { testHost [1] with dynGasLockingEnabled := true } 1000
     (by decide)⟩

/-- C27. With a points-used counter `p` that is a `uint64`: if `p + n < 2^64`, the
counter after `UseGas n` is `p + n`; and for every `n` the counter after
`UseGas n` is at least `p` and at most `2^64 - 1` (an overflowing addition
saturates, it does not wrap around). Nothing but the counter changes. -/
theorem UseGas_spec (host : vmHost) (n : Nat)
    (hp : host.runtimeContext.GetPointsUsed ≤ MaxUint64) :
    (host.runtimeContext.GetPointsUsed + n ≤ MaxUint64 →
      (UseGas host n).runtimeContext.GetPointsUsed = host.runtimeContext.GetPointsUsed + n) ∧
    (MaxUint64 < host.runtimeContext.GetPointsUsed + n →
      (UseGas host n).runtimeContext.GetPointsUsed = MaxUint64) ∧
    host.runtimeContext.GetPointsUsed ≤ (UseGas host n).runtimeContext.GetPointsUsed ∧
    (UseGas host n).runtimeContext.GetPointsUsed ≤ MaxUint64 ∧
    UseGas host n =
      { host with runtimeContext :=
        { host.runtimeContext with
          pointsUsed := (UseGas host n).runtimeContext.GetPointsUsed } } := by
  have hval : (UseGas host n).runtimeContext.GetPointsUsed =
      AddUint64 host.runtimeContext.GetPointsUsed n := rfl
  refine ⟨?_, ?_, ?_, ?_, rfl⟩
  · intro h
    rw [hval, AddUint64_of_le h]
  · intro h
    rw [hval]
    unfold AddUint64
    rw [if_pos (by omega)]
  · rw [hval]
    unfold AddUint64
    split <;> omega
  · rw [hval]
    exact AddUint64_le _ _
  
/-- Witness of C27: as in `TestMeteringContext_UseGas`, from 0 points used,
`UseGas 1000` gives 1000; from `2^64 - 1` points used, `UseGas 1` stays at
`2^64 - 1`. -/
theorem UseGas_spec_witness :
    (UseGas (testHost [1]) 1000).runtimeContext.GetPointsUsed = 0 + 1000 ∧
    (UseGas ((testHost [1]).SetPointsUsed 18446744073709551615) 1).runtimeContext.GetPointsUsed =
      18446744073709551615 :=
  ⟨(UseGas_spec (testHost [1]) 1000 (by decide)).1 (by decide),
   (UseGas_spec ((testHost [1]).SetPointsUsed 18446744073709551615) 1 (by decide)).2.1
     (by decide)⟩

/-- C28. `RestoreGas n` sets the points-used counter `p` to `p - n` when `n ≤ p`
and leaves the host unchanged when `n > p`; and `RestoreGas n` directly after
`UseGas n` gives back the host there was before, when the addition did not
overflow. -/
theorem RestoreGas_spec (host : vmHost) (n : Nat) :
    (n ≤ host.runtimeContext.GetPointsUsed →
      RestoreGas host n = host.SetPointsUsed (host.runtimeContext.GetPointsUsed - n) ∧
      (RestoreGas host n).runtimeContext.GetPointsUsed =
        host.runtimeContext.GetPointsUsed - n) ∧
    (host.runtimeContext.GetPointsUsed < n → RestoreGas host n = host) ∧
    (host.runtimeContext.GetPointsUsed + n ≤ MaxUint64 →
      RestoreGas (UseGas host n) n = host) := by
  refine ⟨?_, ?_, ?_⟩
  · intro h
    unfold RestoreGas
    simp only []
    rw [if_pos h]
    exact ⟨rfl, rfl⟩
  · intro h
    unfold RestoreGas
    simp only []
    rw [if_neg (by omega)]
  · intro h
    unfold RestoreGas UseGas
    simp only [vmHost.SetPointsUsed, runtimeContext.SetPointsUsed, runtimeContext.GetPointsUsed]
      at h ⊢
    rw [AddUint64_of_le h, if_pos (by omega)]
    simp

/-- Witness of C28: from 1000 points used, `RestoreGas 400` gives 600 and
`RestoreGas 1001` changes nothing; `UseGas 400` followed by `RestoreGas 400`
gives back the host. -/
theorem RestoreGas_spec_witness :
    (RestoreGas ((testHost [1]).SetPointsUsed 1000) 400).runtimeContext.GetPointsUsed =
      1000 - 400 ∧
    RestoreGas ((testHost [1]).SetPointsUsed 1000) 1001 = (testHost [1]).SetPointsUsed 1000 ∧
    RestoreGas (UseGas ((testHost [1]).SetPointsUsed 1000) 400) 400 =
      (testHost [1]).SetPointsUsed 1000 :=
  ⟨((RestoreGas_spec ((testHost [1]).SetPointsUsed 1000) 400).1 (by decide)).2,
   (RestoreGas_spec ((testHost [1]).SetPointsUsed 1000) 1001).2.1 (by decide),
   (RestoreGas_spec ((testHost [1]).SetPointsUsed 1000) 400).2.2 (by decide)⟩

end locking

/-! ## Theorems: the state stack and the gas ledger of the metering context -/

section stack

open meteringContext

theorem PopSetActiveState_of_stack (host : vmHost) (st : List meteringFrame) (f : meteringFrame)
    (hs : host.meteringContext.stateStack = st ++ [f]) :
    (PopSetActiveState host).meteringContext =
      { host.meteringContext with
        stateStack := st
        initialGasProvided := f.initialGasProvided
        initialCost := f.initialCost
        gasForExecution := f.gasForExecution } := by
  unfold PopSetActiveState
  simp only [hs, List.getLast?_append, List.getLast?_singleton, Option.or,
    List.dropLast_concat]

theorem PopDiscard_of_stack (host : vmHost) (st : List meteringFrame) (f : meteringFrame)
    (hs : host.meteringContext.stateStack = st ++ [f]) :
    (PopDiscard host).meteringContext = { host.meteringContext with stateStack := st } := by
  unfold PopDiscard
  simp only [hs, List.length_append, List.length_singleton, List.dropLast_concat]
  rw [if_neg (by omega)]

theorem InitStateFromContractCallInput_stack (host : vmHost) (input : VMInput) :
    (InitStateFromContractCallInput host input).1.meteringContext.stateStack =
      host.meteringContext.stateStack := by
  unfold InitStateFromContractCallInput unlockGasIfAsyncCallback
  by_cases hc : input.CallType = CallType.AsynchronousCallBack <;> simp [hc]

theorem bindVMInput_stack (host : vmHost) (input : VMInput) :
    (bindVMInput host input).meteringContext.stateStack = host.meteringContext.stateStack := by
  unfold bindVMInput InitStateFromContractCallInput unlockGasIfAsyncCallback
  by_cases hc : input.CallType = CallType.AsynchronousCallBack <;> simp [hc]

theorem deductInitialGas_stack (host : vmHost) (code : Bytes) (baseCost costPerByte : Nat) :
    (deductInitialGas host code baseCost costPerByte).2.meteringContext.stateStack =
      host.meteringContext.stateStack := by
  rw [deductInitialGas_spec]
  split <;> rfl

theorem DeductCall_run_stack (host : vmHost) (call : DeductCall) :
    (call.run host).meteringContext.stateStack = host.meteringContext.stateStack := by
  cases call <;> exact deductInitialGas_stack _ _ _ _

/-- A sequence of frame changes leaves the state stack of the metering context as
it found it. -/
theorem FrameChanges_run_stack (changes : FrameChanges) :
    ∀ host : vmHost,
      (changes.run host).meteringContext.stateStack = host.meteringContext.stateStack := by
  induction changes with
  | done => intro host; rfl
  | init input rest ih =>
    intro host
    simp only [FrameChanges.run]
    rw [ih, InitStateFromContractCallInput_stack]
  | bind input rest ih =>
    intro host
    simp only [FrameChanges.run]
    rw [ih, bindVMInput_stack]
  | deduct call rest ih =>
    intro host
    simp only [FrameChanges.run]
    rw [ih, DeductCall_run_stack]
  | nested inner discard rest ihi ihr =>
    intro host
    simp only [FrameChanges.run]
    rw [ihr]
    have hs : (inner.run (PushState host)).meteringContext.stateStack =
        host.meteringContext.stateStack ++
          [{ initialGasProvided := host.meteringContext.initialGasProvided
             initialCost := host.meteringContext.initialCost
             gasForExecution := host.meteringContext.gasForExecution }] := by
      rw [ihi]
      rfl
    cases discard
    · simp only [Bool.false_eq_true, if_false]
      rw [PopSetActiveState_of_stack _ _ _ hs]
    · simp only [if_true]
      rw [PopDiscard_of_stack _ _ _ hs]

/-- C29. For every host `s` and every sequence of changes to the frame fields
(`InitStateFromContractCallInput`, the initial deductions, nested balanced
push/pop pairs): after `PushState`, the changes and `PopSetActiveState`, the
fields `initialGasProvided`, `initialCost` and `gasForExecution` of the metering
context and its state stack are those of `s`. -/
theorem push_changes_pop_round_trip (s : vmHost) (changes : FrameChanges) :
    (PopSetActiveState (changes.run (PushState s))).meteringContext.initialGasProvided =
      s.meteringContext.initialGasProvided ∧
    (PopSetActiveState (changes.run (PushState s))).meteringContext.initialCost =
      s.meteringContext.initialCost ∧
    (PopSetActiveState (changes.run (PushState s))).meteringContext.gasForExecution =
      s.meteringContext.gasForExecution ∧
    (PopSetActiveState (changes.run (PushState s))).meteringContext.stateStack =
      s.meteringContext.stateStack := by
  have hs : (changes.run (PushState s)).meteringContext.stateStack =
      s.meteringContext.stateStack ++
        [{ initialGasProvided := s.meteringContext.initialGasProvided
           initialCost := s.meteringContext.initialCost
           gasForExecution := s.meteringContext.gasForExecution }] := by
    rw [FrameChanges_run_stack]
    rfl
  rw [PopSetActiveState_of_stack _ _ _ hs]
  exact ⟨rfl, rfl, rfl, rfl⟩

theorem addForwardedGas_gasStates_congr (h1 h2 : vmHost) (a : Address) (g : Nat)
    (e : h1.meteringContext.gasStates = h2.meteringContext.gasStates) :
    (addForwardedGas h1 a g).meteringContext.gasStates =
      (addForwardedGas h2 a g).meteringContext.gasStates := by
  unfold addForwardedGas getContractGasState setContractGasState
  rw [e]
  cases h2.meteringContext.gasStates.lookup a <;> simp [e]

theorem addReturnedGas_gasStates_congr (h1 h2 : vmHost) (a : Address) (g : Nat)
    (e : h1.meteringContext.gasStates = h2.meteringContext.gasStates) :
    (addReturnedGas h1 a g).meteringContext.gasStates =
      (addReturnedGas h2 a g).meteringContext.gasStates := by
  unfold addReturnedGas getContractGasState setContractGasState
  rw [e]
  cases h2.meteringContext.gasStates.lookup a <;> simp [e]

theorem ForwardGas_gasStates_congr (h1 h2 : vmHost) (source dest : Address) (n : Nat)
    (e : h1.meteringContext.gasStates = h2.meteringContext.gasStates)
    (er : h1.runtimeContext = h2.runtimeContext) :
    (ForwardGas h1 source dest n).meteringContext.gasStates =
      (ForwardGas h2 source dest n).meteringContext.gasStates := by
  unfold ForwardGas
  simp only [(addForwardedGas_rest h1 source n).1, (addForwardedGas_rest h2 source n).1, er]
  split
  · exact addReturnedGas_gasStates_congr _ _ _ _ (addForwardedGas_gasStates_congr _ _ _ _ e)
  · exact addForwardedGas_gasStates_congr _ _ _ _ e

theorem PopSetActiveState_gasStates (host : vmHost) :
    (PopSetActiveState host).meteringContext.gasStates = host.meteringContext.gasStates := by
  unfold PopSetActiveState
  simp only []
  split <;> rfl

/-- C30. `PushState`, `PopSetActiveState`, `PopDiscard` and `ClearStateStack` of the
metering context leave the `gasStates` ledger as it is; so the gas forwarded
inside a nested frame is still recorded after the frame is popped: the ledger
after `PushState`, `ForwardGas` and a pop is the ledger that `ForwardGas` alone
gives. -/
theorem stack_operations_keep_gasStates (host : vmHost) :
    (PushState host).meteringContext.gasStates = host.meteringContext.gasStates ∧
    (PopSetActiveState host).meteringContext.gasStates = host.meteringContext.gasStates ∧
    (PopDiscard host).meteringContext.gasStates = host.meteringContext.gasStates ∧
    (ClearStateStack host).meteringContext.gasStates = host.meteringContext.gasStates ∧
    (∀ (source dest : Address) (n : Nat),
      (PopSetActiveState (ForwardGas (PushState host) source dest n)).meteringContext.gasStates =
        (ForwardGas host source dest n).meteringContext.gasStates ∧
      (PopDiscard (ForwardGas (PushState host) source dest n)).meteringContext.gasStates =
        (ForwardGas host source dest n).meteringContext.gasStates) := by
  have hd : ∀ h : vmHost,
      (PopDiscard h).meteringContext.gasStates = h.meteringContext.gasStates := by
    intro h
    unfold PopDiscard
    simp only []
    split <;> rfl
  refine ⟨rfl, PopSetActiveState_gasStates host, hd host, rfl, ?_⟩
  intro source dest n
  constructor
  · rw [PopSetActiveState_gasStates]
    exact ForwardGas_gasStates_congr _ _ _ _ _ rfl rfl
  · rw [hd]
    exact ForwardGas_gasStates_congr _ _ _ _ _ rfl rfl

end stack

section sameContext

/-- C23. `IsBuiltinFunctionName` holds exactly of the registered names of protocol
builtin functions, and for an input whose function is one of them
`ExecuteOnSameContext` returns no async info and the error
`ErrBuiltinCallOnSameContextDisallowed` and leaves the host as it is: no state
stack is pushed, no context changes, and no collaborator (value transfer,
execution) has a part in the result. -/
theorem ExecuteOnSameContext_builtin (host : vmHost) (input : ContractCallInput)
    (hb : input.Function ∈ host.protocolBuiltinFunctions) :
    host.IsBuiltinFunctionName input.Function = true ∧
    ∀ E : Collaborators,
      ExecuteOnSameContext E host input =
        (none, some VMError.ErrBuiltinCallOnSameContextDisallowed, host) := by
  have h : host.IsBuiltinFunctionName input.Function = true := by
    unfold vmHost.IsBuiltinFunctionName
    simpa using hb
  refine ⟨h, ?_⟩
  intro E
  unfold ExecuteOnSameContext
  rw [if_pos h]

/-- Witness of C23: with `f` registered as a builtin, the call `testCallInput` of
`f` on the same context is refused and the host, with its output, is as it
was. -/
theorem ExecuteOnSameContext_builtin_witness :
    ExecuteOnSameContext failingCollaborators
        { testHostWithOutput [1] with protocolBuiltinFunctions := ["f"] } testCallInput =
      (none, some VMError.ErrBuiltinCallOnSameContextDisallowed,
        { testHostWithOutput [1] with protocolBuiltinFunctions := ["f"] }) :=
  (ExecuteOnSameContext_builtin
    { testHostWithOutput [1] with protocolBuiltinFunctions := ["f"] } testCallInput
    (by decide)).2 failingCollaborators

end sameContext


/-! ## Theorems: builtin functions -/

section builtin

theorem bodyExecuteOnDestContext_transfer (E : Collaborators) (host : vmHost)
    (input : ContractCallInput) :
    bodyExecuteOnDestContext E host input =
      match transferOnDestContext E host input with
      | (some err, host) => (none, 0, some err, host)
      | (none, host) =>
        match E.execute host input with
        | ((gasUsedBeforeReset, some err), host) => (none, gasUsedBeforeReset, some err, host)
        | ((gasUsedBeforeReset, none), host) =>
          ((some host.runtimeContext.asyncContextInfo, gasUsedBeforeReset,
            (E.processAsyncInfo host host.runtimeContext.asyncContextInfo).1,
            (E.processAsyncInfo host host.runtimeContext.asyncContextInfo).2)) := by
  rfl

theorem transferOnDestContext_frame (E : Collaborators) (host : vmHost)
    (input : ContractCallInput) :
    (transferOnDestContext E host input).2.outputContext.stateStack =
      host.outputContext.stateStack ∧
    (transferOnDestContext E host input).2.runtimeContext = host.runtimeContext ∧
    (transferOnDestContext E host input).2.protocolBuiltinFunctions =
      host.protocolBuiltinFunctions ∧
    (transferOnDestContext E host input).2.builtinCalls = host.builtinCalls := by
  unfold transferOnDestContext
  split <;> simp [vmHost.setOutputState]

theorem enterExecuteOnDestContext_function (E : Collaborators) (host : vmHost)
    (input : ContractCallInput) :
    (enterExecuteOnDestContext E host input).1.protocolBuiltinFunctions =
      host.protocolBuiltinFunctions ∧
    (enterExecuteOnDestContext E host input).1.runtimeContext.callFunction = input.Function ∧
    (enterExecuteOnDestContext E host input).1.builtinCalls = host.builtinCalls := by
  refine ⟨?_, ?_, ?_⟩ <;>
    simp [enterExecuteOnDestContext, bigIntContext.PushState, bigIntContext.InitState,
      outputContext.PushState, outputContext.CensorVMOutput, runtimeContext.PushState,
      runtimeContext.InitStateFromContractCallInput, meteringContext.PushState,
      meteringContext.InitStateFromContractCallInput, meteringContext.unlockGasIfAsyncCallback,
      computeGasUsedBefore, meteringContext.SetTotalUsedGas, storageContext.PushState,
      storageContext.SetAddress, copyTxHashesFromContext] <;>
    repeat (split <;> try rfl)

end builtin

section revert

/-- C21. For an input whose function is the fungible DCDT transfer, whose call
type is not `AsynchronousCallBack` and which carries at least
`MinLenArgumentsDCDTTransfer` arguments, `RevertDCDTTransfer` returns, and it
calls the builtin-function hook exactly once: the list of the inputs the hook
has been called with grows by one input, the mirror image of the original
(caller and recipient swapped, the same function, the first
`MinLenArgumentsDCDTTransfer` arguments, call value 0, call type
`AsynchronousCallBack`, `GasLocked` 0 and `GasProvided` the block gas limit,
whatever gas the host has left); when the hook succeeds nothing else changes.
And in `execute`, when a builtin call is followed by a contract call that fails,
the result is the one of `RevertDCDTTransfer` on the original input, applied to
the host left by the failed call, with the error of that call; when the
follow-up call succeeds, `RevertDCDTTransfer` has no part in the result. -/
theorem RevertDCDTTransfer_mirror (B : BuiltinCollaborators) (host : vmHost)
    (input : ContractCallInput)
    (hf : input.Function = B.core.BuiltInFunctionDCDTTransfer)
    (hnft : input.Function ≠ B.core.BuiltInFunctionDCDTNFTTransfer)
    (hct : input.VMInput.CallType ≠ CallType.AsynchronousCallBack)
    (hargs : B.core.MinLenArgumentsDCDTTransfer ≤ input.VMInput.Arguments.length) :
    (∃ reverted : vmHost,
      RevertDCDTTransfer B host input = some reverted ∧
      reverted.builtinCalls = host.builtinCalls ++
        [{ VMInput :=
            { CallerAddr := input.RecipientAddr
              Arguments := input.VMInput.Arguments.take B.core.MinLenArgumentsDCDTTransfer
              CallValue := 0
              CallType := CallType.AsynchronousCallBack
              GasPrice := input.VMInput.GasPrice
              GasProvided := host.meteringContext.blockGasLimit
              GasLocked := 0
              OriginalTxHash := input.VMInput.OriginalTxHash
              CurrentTxHash := input.VMInput.CurrentTxHash
              PrevTxHash := []
              DCDTTransfers := [] }
           RecipientAddr := input.VMInput.CallerAddr
           Function := input.Function
           AllowInitFunction := false }] ∧
      (∀ vmOutput,
        B.ProcessBuiltInFunction host
          { VMInput :=
              { CallerAddr := input.RecipientAddr
                Arguments := input.VMInput.Arguments.take B.core.MinLenArgumentsDCDTTransfer
                CallValue := 0
                CallType := CallType.AsynchronousCallBack
                GasPrice := input.VMInput.GasPrice
                GasProvided := host.meteringContext.blockGasLimit
                GasLocked := 0
                OriginalTxHash := input.VMInput.OriginalTxHash
                CurrentTxHash := input.VMInput.CurrentTxHash
                PrevTxHash := []
                DCDTTransfers := [] }
            RecipientAddr := input.VMInput.CallerAddr
            Function := input.Function
            AllowInitFunction := false } = (some vmOutput, none) →
        vmOutput.ReturnCode = ReturnCode.Ok →
        reverted = { host with builtinCalls := reverted.builtinCalls })) ∧
    (∀ (start : vmHost) (original newVMInput : ContractCallInput) (gasUsedBeforeReset : Nat)
        (afterBuiltin : vmHost),
      isBuiltinFunctionBeingCalled start = true →
      callBuiltinFunction B start original =
        some ((some newVMInput, gasUsedBeforeReset, none), afterBuiltin) →
      (∀ err failed,
        executeSmartContractCall B (bindFollowUpCall afterBuiltin newVMInput).1
          (bindFollowUpCall afterBuiltin newVMInput).2 false = (some err, failed) →
        execute B start original =
          (RevertDCDTTransfer B failed original).map
            (fun reverted => ((gasUsedBeforeReset, some err), reverted))) ∧
      (∀ succeeded,
        executeSmartContractCall B (bindFollowUpCall afterBuiltin newVMInput).1
          (bindFollowUpCall afterBuiltin newVMInput).2 false = (none, succeeded) →
        execute B start original = some ((gasUsedBeforeReset, none), succeeded))) := by
  constructor
  · have hlen : ¬ input.VMInput.Arguments.length < B.core.MinLenArgumentsDCDTTransfer := by
      omega
    simp only [RevertDCDTTransfer, eq_true hf, hnft, hct, hlen, true_or, or_false,
      not_true_eq_false, if_false, vmHost.ProcessBuiltInFunction, meteringContext.BlockGasLimit]
    cases hp : B.ProcessBuiltInFunction host
        { VMInput :=
            { CallerAddr := input.RecipientAddr
              Arguments := input.VMInput.Arguments.take B.core.MinLenArgumentsDCDTTransfer
              CallValue := 0
              CallType := CallType.AsynchronousCallBack
              GasPrice := input.VMInput.GasPrice
              GasProvided := host.meteringContext.blockGasLimit
              GasLocked := 0
              OriginalTxHash := input.VMInput.OriginalTxHash
              CurrentTxHash := input.VMInput.CurrentTxHash
              PrevTxHash := []
              DCDTTransfers := [] }
          RecipientAddr := input.VMInput.CallerAddr
          Function := input.Function
          AllowInitFunction := false } with
    | mk o e =>
      cases e with
      | some err =>
        simp only []
        refine ⟨_, rfl, rfl, ?_⟩
        intro vmOutput h
        cases h
      | none =>
        cases o with
        | none =>
          simp only []
          refine ⟨_, rfl, rfl, ?_⟩
          intro vmOutput h
          cases h
        | some out =>
          by_cases hc : out.ReturnCode = ReturnCode.Ok
          · simp only [hc, ne_eq, not_true_eq_false, if_false]
            refine ⟨_, rfl, rfl, ?_⟩
            intro _ _ _
            rfl
          · simp only [hc, ne_eq, not_false_eq_true, if_true]
            refine ⟨_, rfl, rfl, ?_⟩
            intro vmOutput h hok
            simp only [Prod.mk.injEq, Option.some.injEq, and_true] at h
            rw [h] at hc
            exact absurd hok hc
  · intro start original newVMInput gasUsedBeforeReset afterBuiltin hb hc
    constructor
    · intro err failed hx
      simp only [execute, hb, if_true, hc, hx]
      cases RevertDCDTTransfer B failed original <;> rfl
    · intro succeeded hx
      simp only [execute, hb, if_true, hc, hx]

end revert

section revertWitness

/-- Witness of C21: the contract at `[1]` transfers a token to the contract at
`[2]` with the arguments `[7]` and `[8]`, the block gas limit being 15000. The
revert calls the hook once, with caller `[2]`, recipient `[1]`, the two
arguments, value 0, call type `AsynchronousCallBack` and 15000 gas; and when the
follow-up call fails, `execute` has called the hook twice, the second time for
the revert, and returns the error of the follow-up call. -/
theorem RevertDCDTTransfer_mirror_witness :
    (RevertDCDTTransfer (testBuiltinCollaborators true)
        (testBuiltinHost (testBuiltinInput "DCDTTransfer" [[7], [8]]))
        (testBuiltinInput "DCDTTransfer" [[7], [8]])).map (fun r => r.builtinCalls) =
      some
        [{ VMInput :=
            { CallerAddr := [2], Arguments := [[7], [8]], CallValue := 0,
              CallType := CallType.AsynchronousCallBack, GasPrice := 0, GasProvided := 15000,
              GasLocked := 0, OriginalTxHash := [], CurrentTxHash := [], PrevTxHash := [],
              DCDTTransfers := [] }
           RecipientAddr := [1]
           Function := "DCDTTransfer"
           AllowInitFunction := false }] ∧
    (execute (testBuiltinCollaborators true)
        (testBuiltinHost (testBuiltinInput "DCDTTransfer" [[7], [8]]))
        (testBuiltinInput "DCDTTransfer" [[7], [8]])).map
        (fun r => (r.1, r.2.builtinCalls.map (fun i => i.VMInput.CallerAddr))) =
      some ((0, some VMError.ErrExecutionFailed), [[1], [2]]) := by
  obtain ⟨hrevert, hexecute⟩ := RevertDCDTTransfer_mirror (testBuiltinCollaborators true)
    (testBuiltinHost (testBuiltinInput "DCDTTransfer" [[7], [8]]))
    (testBuiltinInput "DCDTTransfer" [[7], [8]]) rfl (by decide) (by decide) (by decide)
  obtain ⟨reverted, h1, h2, _⟩ := hrevert
  constructor
  · rw [h1]
    simp only [Option.map]
    rw [h2]
    rfl
  · rw [(hexecute (testBuiltinHost (testBuiltinInput "DCDTTransfer" [[7], [8]]))
      (testBuiltinInput "DCDTTransfer" [[7], [8]]) _ _ _ (by decide) rfl).1 _ _ rfl]
    decide

end revertWitness

section builtinFailure

theorem isBuiltinFunctionBeingCalled_reached (E : Collaborators) (host : vmHost)
    (input : ContractCallInput)
    (hb : host.IsBuiltinFunctionName input.Function = true) :
    isBuiltinFunctionBeingCalled
      (transferOnDestContext E (enterExecuteOnDestContext E host input).1
        (enterExecuteOnDestContext E host input).2).2 = true := by
  unfold isBuiltinFunctionBeingCalled vmHost.IsBuiltinFunctionName
  simp only [(transferOnDestContext_frame E _ _).2.1, (transferOnDestContext_frame E _ _).2.2.1,
    (enterExecuteOnDestContext_function E host input).1,
    (enterExecuteOnDestContext_function E host input).2.1]
  exact hb

theorem transferOnDestContext_stack (E : Collaborators) (host : vmHost)
    (input : ContractCallInput) :
    (transferOnDestContext E (enterExecuteOnDestContext E host input).1
      (enterExecuteOnDestContext E host input).2).2.outputContext.stateStack =
      host.outputContext.stateStack ++ [host.outputContext.outputState] := by
  rw [(transferOnDestContext_frame E _ _).1, enterExecuteOnDestContext_output]

/-- The result of `execute` when the builtin function returns an error. -/
theorem execute_builtin_error (B : BuiltinCollaborators) (host : vmHost)
    (input : ContractCallInput) (o : Option VMOutput) (err : VMError)
    (hb : isBuiltinFunctionBeingCalled host = true)
    (hh : B.ProcessBuiltInFunction (host.SetPointsUsed 0) input = (o, some err)) :
    execute B host input =
      some ((B.computeGasUsedInExecutionBeforeReset host input, some err),
        meteringContext.UseGas
          { host.SetPointsUsed 0 with builtinCalls := host.builtinCalls ++ [input] }
          input.VMInput.GasProvided) := by
  simp only [execute, hb, if_true, callBuiltinFunction, vmHost.ProcessBuiltInFunction, hh]
  rfl

theorem builtinTransferGas_output (input : ContractCallInput) (state : Nat × vmHost)
    (outTransfer : OutputTransfer) :
    (builtinTransferGas input state outTransfer).2.outputContext = state.2.outputContext := by
  unfold builtinTransferGas
  simp only []
  split
  · split
    · exact (metering_ForwardGas_frame _ _ _ _).2.1
    · rfl
  · rfl

theorem foldl_builtinTransferGas_output (input : ContractCallInput)
    (transfers : List OutputTransfer) :
    ∀ state : Nat × vmHost,
      (transfers.foldl (builtinTransferGas input) state).2.outputContext =
        state.2.outputContext := by
  induction transfers with
  | nil => intro state; rfl
  | cons t rest ih =>
    intro state
    simp only [List.foldl_cons]
    rw [ih, builtinTransferGas_output]

/-- The result of `execute` when the builtin function returns an output whose
return code is not `Ok`: no error, and the output is added to the active state
of the Output context. -/
theorem execute_builtin_refused (B : BuiltinCollaborators) (host : vmHost)
    (input : ContractCallInput) (out : VMOutput)
    (hb : isBuiltinFunctionBeingCalled host = true)
    (hh : B.ProcessBuiltInFunction (host.SetPointsUsed 0) input = (some out, none))
    (hcode : out.ReturnCode ≠ ReturnCode.Ok) :
    ∃ before after : vmHost,
      execute B host input =
        some ((B.computeGasUsedInExecutionBeforeReset host input, none), after) ∧
      after.outputContext.outputState = B.AddToActiveState before out ∧
      after.outputContext.stateStack = host.outputContext.stateStack := by
  simp only [execute, hb, if_true, callBuiltinFunction, vmHost.ProcessBuiltInFunction, hh,
    isSCExecutionAfterBuiltInFunc, addDCDTTransferToVMOutputSCIntraShardCall, hcode, ne_eq,
    not_false_eq_true, Option.isSome_none, Bool.false_eq_true, if_false]
  refine ⟨_, _, rfl, rfl, ?_⟩
  simp only [vmHost.setOutputState]
  split
  · simp only [meteringContext.UseGas, vmHost.SetPointsUsed]
    rw [foldl_builtinTransferGas_output]
  · rw [foldl_builtinTransferGas_output]
    rfl

/-- C22, amended. A builtin function reached through `ExecuteOnDestContext` (the
function of the input is a registered builtin, the value transfer gives no error
and the execution step is the method `execute`). If the builtin returns an
error, the call returns that error with the error output built from it: the
return message is the message of the error, there are no output accounts, and
the Output context of the caller is as before the call. If the builtin returns
an output whose return code is not `Ok`, the execution step returns no error and
leaves as active output state the one that `AddToActiveState` makes of the
output of the builtin, its accounts included; then, when the processing of the
async info gives no error and leaves the Output context, the call returns the
`VMOutput` that `GetVMOutput` reports, and whenever that one has a return code
other than `Ok`, the call returns `ErrExecutionFailed` and the Output context of
the caller is as before the call: no output account of the builtin is merged
into it. That is so, with the return code and the message of the builtin in the
`VMOutput`, when `AddToActiveState` writes them into the active state and
`GetVMOutput` reports them. -/
theorem builtin_failure_output (E : Collaborators) (B : BuiltinCollaborators)
    (hrun : E.RunsExecute B) (host : vmHost) (input : ContractCallInput)
    (hb : host.IsBuiltinFunctionName input.Function = true)
    (ht : (transferOnDestContext E (enterExecuteOnDestContext E host input).1
      (enterExecuteOnDestContext E host input).2).1 = none) :
    (∀ (o : Option VMOutput) (err : VMError),
      B.ProcessBuiltInFunction
        ((transferOnDestContext E (enterExecuteOnDestContext E host input).1
          (enterExecuteOnDestContext E host input).2).2.SetPointsUsed 0)
        (enterExecuteOnDestContext E host input).2 = (o, some err) →
      (ExecuteOnDestContext E host input).err = some err ∧
      (ExecuteOnDestContext E host input).vmOutput =
        outputContext.CreateVMOutputInCaseOfError err ∧
      (ExecuteOnDestContext E host input).vmOutput.ReturnMessage = err.Error ∧
      (ExecuteOnDestContext E host input).vmOutput.OutputAccounts = [] ∧
      (ExecuteOnDestContext E host input).host.outputContext = host.outputContext) ∧
    (∀ out : VMOutput,
      B.ProcessBuiltInFunction
        ((transferOnDestContext E (enterExecuteOnDestContext E host input).1
          (enterExecuteOnDestContext E host input).2).2.SetPointsUsed 0)
        (enterExecuteOnDestContext E host input).2 = (some out, none) →
      out.ReturnCode ≠ ReturnCode.Ok →
      (E.execute
        (transferOnDestContext E (enterExecuteOnDestContext E host input).1
          (enterExecuteOnDestContext E host input).2).2
        (enterExecuteOnDestContext E host input).2).1.2 = none ∧
      (∃ before : vmHost,
        (E.execute
          (transferOnDestContext E (enterExecuteOnDestContext E host input).1
            (enterExecuteOnDestContext E host input).2).2
          (enterExecuteOnDestContext E host input).2).2.outputContext.outputState =
          B.AddToActiveState before out) ∧
      (∀ final : vmHost,
        E.processAsyncInfo
          (E.execute
            (transferOnDestContext E (enterExecuteOnDestContext E host input).1
              (enterExecuteOnDestContext E host input).2).2
            (enterExecuteOnDestContext E host input).2).2
          (E.execute
            (transferOnDestContext E (enterExecuteOnDestContext E host input).1
              (enterExecuteOnDestContext E host input).2).2
            (enterExecuteOnDestContext E host input).2).2.runtimeContext.asyncContextInfo =
          (none, final) →
        final.outputContext =
          (E.execute
            (transferOnDestContext E (enterExecuteOnDestContext E host input).1
              (enterExecuteOnDestContext E host input).2).2
            (enterExecuteOnDestContext E host input).2).2.outputContext →
        (ExecuteOnDestContext E host input).vmOutput = (E.GetVMOutput final).1 ∧
        ((E.GetVMOutput final).1.ReturnCode ≠ ReturnCode.Ok →
          (ExecuteOnDestContext E host input).err = some VMError.ErrExecutionFailed ∧
          (ExecuteOnDestContext E host input).host.outputContext = host.outputContext) ∧
        ((∀ h v, (B.AddToActiveState h v).ReturnCode = v.ReturnCode ∧
            (B.AddToActiveState h v).ReturnMessage = v.ReturnMessage) →
          (∀ h, (E.GetVMOutput h).1.ReturnCode = h.outputContext.outputState.ReturnCode ∧
            (E.GetVMOutput h).1.ReturnMessage = h.outputContext.outputState.ReturnMessage) →
          (ExecuteOnDestContext E host input).vmOutput.ReturnCode = out.ReturnCode ∧
          (ExecuteOnDestContext E host input).vmOutput.ReturnMessage = out.ReturnMessage ∧
          (ExecuteOnDestContext E host input).err = some VMError.ErrExecutionFailed ∧
          (ExecuteOnDestContext E host input).host.outputContext = host.outputContext))) := by
  have hbc := isBuiltinFunctionBeingCalled_reached E host input hb
  have hstack := transferOnDestContext_stack E host input
  have hbody := bodyExecuteOnDestContext_transfer E (enterExecuteOnDestContext E host input).1
    (enterExecuteOnDestContext E host input).2
  generalize htr : transferOnDestContext E (enterExecuteOnDestContext E host input).1
    (enterExecuteOnDestContext E host input).2 = tr at ht hbc hstack hbody
  obtain ⟨terr, reached⟩ := tr
  simp only [] at ht hbc hstack hbody
  subst ht
  simp only [] at hbody
  constructor
  · intro o err hh
    have hx := hrun _ _ _ (execute_builtin_error B reached _ o err hbc hh)
    rw [hx] at hbody
    simp only [] at hbody
    have hfin : (finishExecuteOnDestContext E
        (meteringContext.UseGas
          { reached.SetPointsUsed 0 with
            builtinCalls := reached.builtinCalls ++ [(enterExecuteOnDestContext E host input).2] }
          (enterExecuteOnDestContext E host input).2.VMInput.GasProvided) (some err)).2.outputContext =
        { outputState := host.outputContext.outputState
          stateStack := host.outputContext.stateStack } := by
      apply finishExecuteOnDestContext_failed
      · exact hstack
      · rw [finishExecuteOnDestContext_fst]
        exact resolveReturnCodeFromError_ne_Ok err
    simp only [ExecuteOnDestContext, hbody, finishExecuteOnDestContext_fst]
    simp [hfin, outputContext.CreateVMOutputInCaseOfError]
  · intro out hh hcode
    obtain ⟨before, after, hex, hstate, hst⟩ :=
      execute_builtin_refused B reached _ out hbc hh hcode
    have hx := hrun _ _ _ hex
    rw [hx] at hbody
    simp only [hx]
    refine ⟨trivial, ⟨before, hstate⟩, ?_⟩
    intro final hP hPout
    simp only [hP] at hbody
    have hfinal : (finishExecuteOnDestContext E final none).1 = (E.GetVMOutput final).1 := by
      rw [finishExecuteOnDestContext_fst]
    have hrestored : (E.GetVMOutput final).1.ReturnCode ≠ ReturnCode.Ok →
        (finishExecuteOnDestContext E final none).2.outputContext =
          { outputState := host.outputContext.outputState
            stateStack := host.outputContext.stateStack } := by
      intro hc
      apply finishExecuteOnDestContext_failed
      · rw [hPout, hst]
        exact hstack
      · rw [hfinal]
        exact hc
    have hresult : (ExecuteOnDestContext E host input).vmOutput = (E.GetVMOutput final).1 := by
      simp only [ExecuteOnDestContext, hbody, hfinal]
    have hfailed : (E.GetVMOutput final).1.ReturnCode ≠ ReturnCode.Ok →
        (ExecuteOnDestContext E host input).err = some VMError.ErrExecutionFailed ∧
        (ExecuteOnDestContext E host input).host.outputContext = host.outputContext := by
      intro hc
      simp only [ExecuteOnDestContext, hbody, hfinal]
      refine ⟨?_, ?_⟩
      · simp [hc]
      · simp [hrestored hc]
    refine ⟨hresult, hfailed, ?_⟩
    intro hA hG
    have hcode2 : (E.GetVMOutput final).1.ReturnCode = out.ReturnCode := by
      rw [(hG _).1, hPout, hstate, (hA _ _).1]
    have hmsg : (E.GetVMOutput final).1.ReturnMessage = out.ReturnMessage := by
      rw [(hG _).2, hPout, hstate, (hA _ _).2]
    have hne : (E.GetVMOutput final).1.ReturnCode ≠ ReturnCode.Ok := by
      rw [hcode2]
      exact hcode
    rw [hresult]
    exact ⟨hcode2, hmsg, (hfailed hne).1, (hfailed hne).2⟩

end builtinFailure

section builtinFailureWitness

theorem testNestedCollaborators_RunsExecute (followUpFails : Bool) :
    (testNestedCollaborators followUpFails).RunsExecute
      (testBuiltinCollaborators followUpFails) := by
  intro host input result h
  simp only [testNestedCollaborators, h]

/-- Witness of C22: as in
`TestExecution_ExecuteOnDestContext_MockBuiltinFunctions_Fail`, the builtin
`builtinFail` fails with the error `whatdidyoudo`: the `VMOutput` has that
message and no output accounts, and the Output context of the caller is as it
was. And the builtin `builtinRefuse`, which returns the return code `UserError`
with the message `refused` and an output account: the call returns
`ErrExecutionFailed` with the message `refused`, and the Output context of the
caller is as it was. -/
theorem builtin_failure_output_witness :
    (ExecuteOnDestContext (testNestedCollaborators false)
        { testHostWithOutput [1] with
          protocolBuiltinFunctions := ["builtinFail", "builtinRefuse", "DCDTTransfer"] }
        (testBuiltinInput "builtinFail" [])).vmOutput.ReturnMessage = "whatdidyoudo" ∧
    (ExecuteOnDestContext (testNestedCollaborators false)
        { testHostWithOutput [1] with
          protocolBuiltinFunctions := ["builtinFail", "builtinRefuse", "DCDTTransfer"] }
        (testBuiltinInput "builtinFail" [])).vmOutput.OutputAccounts = [] ∧
    (ExecuteOnDestContext (testNestedCollaborators false)
        { testHostWithOutput [1] with
          protocolBuiltinFunctions := ["builtinFail", "builtinRefuse", "DCDTTransfer"] }
        (testBuiltinInput "builtinFail" [])).host.outputContext =
      (testHostWithOutput [1]).outputContext ∧
    (ExecuteOnDestContext (testNestedCollaborators false)
        { testHostWithOutput [1] with
          protocolBuiltinFunctions := ["builtinFail", "builtinRefuse", "DCDTTransfer"] }
        (testBuiltinInput "builtinRefuse" [])).err = some VMError.ErrExecutionFailed ∧
    (ExecuteOnDestContext (testNestedCollaborators false)
        { testHostWithOutput [1] with
          protocolBuiltinFunctions := ["builtinFail", "builtinRefuse", "DCDTTransfer"] }
        (testBuiltinInput "builtinRefuse" [])).vmOutput.ReturnMessage = "refused" ∧
    (ExecuteOnDestContext (testNestedCollaborators false)
        { testHostWithOutput [1] with
          protocolBuiltinFunctions := ["builtinFail", "builtinRefuse", "DCDTTransfer"] }
        (testBuiltinInput "builtinRefuse" [])).host.outputContext =
      (testHostWithOutput [1]).outputContext := by
  have hfail := (builtin_failure_output (testNestedCollaborators false)
    (testBuiltinCollaborators false) (testNestedCollaborators_RunsExecute false)
    { testHostWithOutput [1] with
      protocolBuiltinFunctions := ["builtinFail", "builtinRefuse", "DCDTTransfer"] }
    (testBuiltinInput "builtinFail" []) (by decide) (by decide)).1 none
    (VMError.other "whatdidyoudo") rfl
  have hrefuse := ((builtin_failure_output (testNestedCollaborators false)
    (testBuiltinCollaborators false) (testNestedCollaborators_RunsExecute false)
    { testHostWithOutput [1] with
      protocolBuiltinFunctions := ["builtinFail", "builtinRefuse", "DCDTTransfer"] }
    (testBuiltinInput "builtinRefuse" []) (by decide) (by decide)).2
    (testBuiltinOutput ReturnCode.UserError "refused" [2] []) rfl (by decide)).2.2 _ rfl rfl
  have hpass := hrefuse.2.2 (fun _ _ => ⟨rfl, rfl⟩) (fun _ => ⟨rfl, rfl⟩)
  exact ⟨hfail.2.2.1, hfail.2.2.2.1, hfail.2.2.2.2, hpass.2.2.1, hpass.2.1, hpass.2.2.2⟩

/-- C22, counterexample. The builtin `builtinRefuse`, reached through
`ExecuteOnDestContext`, returns the return code `UserError` with the message
`refused` and an output account of the recipient `[2]`. The call returns
`ErrExecutionFailed` with a `VMOutput` that carries the message `refused` and
lists the output account of `[2]`: the output of the builtin has been added to
the active state before the return code is looked at. The output of the caller
has no account of `[2]`, before and after the call. -/
theorem builtin_refusal_output_accounts_counterexample :
    (ExecuteOnDestContext (testNestedCollaborators false)
        { testHostWithOutput [1] with
          protocolBuiltinFunctions := ["builtinFail", "builtinRefuse", "DCDTTransfer"] }
        (testBuiltinInput "builtinRefuse" [])).err = some VMError.ErrExecutionFailed ∧
    (ExecuteOnDestContext (testNestedCollaborators false)
        { testHostWithOutput [1] with
          protocolBuiltinFunctions := ["builtinFail", "builtinRefuse", "DCDTTransfer"] }
        (testBuiltinInput "builtinRefuse" [])).vmOutput.ReturnCode = ReturnCode.UserError ∧
    (ExecuteOnDestContext (testNestedCollaborators false)
        { testHostWithOutput [1] with
          protocolBuiltinFunctions := ["builtinFail", "builtinRefuse", "DCDTTransfer"] }
        (testBuiltinInput "builtinRefuse" [])).vmOutput.ReturnMessage = "refused" ∧
    (ExecuteOnDestContext (testNestedCollaborators false)
        { testHostWithOutput [1] with
          protocolBuiltinFunctions := ["builtinFail", "builtinRefuse", "DCDTTransfer"] }
        (testBuiltinInput "builtinRefuse" [])).vmOutput.OutputAccounts ≠ [] ∧
    ((ExecuteOnDestContext (testNestedCollaborators false)
        { testHostWithOutput [1] with
          protocolBuiltinFunctions := ["builtinFail", "builtinRefuse", "DCDTTransfer"] }
        (testBuiltinInput "builtinRefuse" [])).vmOutput.OutputAccounts.lookup [2]).isSome = true ∧
    (testHostWithOutput [1]).outputContext.outputState.OutputAccounts.lookup [2] = none ∧
    (ExecuteOnDestContext (testNestedCollaborators false)
        { testHostWithOutput [1] with
          protocolBuiltinFunctions := ["builtinFail", "builtinRefuse", "DCDTTransfer"] }
        (testBuiltinInput "builtinRefuse" [])).host.outputContext.outputState.OutputAccounts.lookup
        [2] = none := by
  decide

end builtinFailureWitness

/-! ## Theorems: initial state, gas limits and the gas schedule -/

section initial

/-- C31, counterexample. On a host whose total used gas has been set to 5,
`InitState` leaves the total used gas at 5, so that not every field of the
metering state is 0 after `InitState`. -/
theorem InitState_totalUsedGas_counterexample :
    (meteringContext.InitState
        (meteringContext.SetTotalUsedGas (testHost [1]) 5)).meteringContext.totalUsedGas = 5 ∧
      ¬ (meteringContext.InitState
          (meteringContext.SetTotalUsedGas (testHost [1]) 5)).meteringContext.totalUsedGas = 0 := by
  decide

/-- C31, amended. After `InitState` the fields `initialGasProvided`,
`initialCost` and `gasForExecution` are 0 and `gasStates` is empty, while
`totalUsedGas`, the state stack, the gas schedule, the block gas limit and the
other contexts keep their values; after `ClearStateStack` the state stack is
empty and every active field, `totalUsedGas` included, is unchanged. -/
theorem InitState_ClearStateStack_spec (host : vmHost) :
    (meteringContext.InitState host).meteringContext =
        { stateStack := host.meteringContext.stateStack
          gasSchedule := host.meteringContext.gasSchedule
          blockGasLimit := host.meteringContext.blockGasLimit
          initialGasProvided := 0
          initialCost := 0
          gasForExecution := 0
          gasStates := []
          totalUsedGas := host.meteringContext.totalUsedGas } ∧
      meteringContext.InitState host =
        { host with meteringContext := (meteringContext.InitState host).meteringContext } ∧
      (meteringContext.ClearStateStack host).meteringContext =
        { stateStack := []
          gasSchedule := host.meteringContext.gasSchedule
          blockGasLimit := host.meteringContext.blockGasLimit
          initialGasProvided := host.meteringContext.initialGasProvided
          initialCost := host.meteringContext.initialCost
          gasForExecution := host.meteringContext.gasForExecution
          gasStates := host.meteringContext.gasStates
          totalUsedGas := host.meteringContext.totalUsedGas } ∧
      meteringContext.ClearStateStack host =
        { host with meteringContext := (meteringContext.ClearStateStack host).meteringContext } :=
  ⟨rfl, rfl, rfl, rfl⟩

/-- A host with the largest gas for execution and no points used. -/
theorem BoundGasLimit_example_host_GasLeft :
    meteringContext.GasLeft
      { testHost [1] with
        meteringContext := { (testHost [1]).meteringContext with gasForExecution := 2 ^ 64 - 1 } } =
      2 ^ 64 - 1 := by
  rw [GasLeft_eq]
  rfl

/-- C33, counterexample. With `2^64 - 1` gas left, `BoundGasLimit (-2^63)` is
`2^63`, which is not all of the gas left. -/
theorem BoundGasLimit_negative_counterexample :
    meteringContext.BoundGasLimit
        { testHost [1] with
          meteringContext :=
            { (testHost [1]).meteringContext with gasForExecution := 2 ^ 64 - 1 } }
        (-(2 ^ 63)) = 2 ^ 63 ∧
      meteringContext.GasLeft
        { testHost [1] with
          meteringContext :=
            { (testHost [1]).meteringContext with gasForExecution := 2 ^ 64 - 1 } } =
        2 ^ 64 - 1 := by
  refine ⟨?_, BoundGasLimit_example_host_GasLeft⟩
  unfold meteringContext.BoundGasLimit
  rw [BoundGasLimit_example_host_GasLeft]
  decide

/-- C33, amended. For every `int64` value `v`, `BoundGasLimit v` is `GasLeft` if
`GasLeft` is less than the limit and the limit otherwise, the limit being `v`
read as an unsigned 64-bit integer (`v` itself when `v ≥ 0`, `2^64 + v` when
`v < 0`); the result never exceeds `GasLeft`; and a negative `v` yields all of
`GasLeft` whenever `GasLeft ≤ 2^64 + v`, which holds whenever `GasLeft < 2^63`. -/
theorem BoundGasLimit_spec (host : vmHost) (v : Int) (hlo : -(2 ^ 63) ≤ v) (hhi : v < 2 ^ 63) :
    meteringContext.BoundGasLimit host v =
        (if meteringContext.GasLeft host < (if 0 ≤ v then v else 2 ^ 64 + v).toNat then
          meteringContext.GasLeft host
        else (if 0 ≤ v then v else 2 ^ 64 + v).toNat) ∧
      meteringContext.BoundGasLimit host v ≤ meteringContext.GasLeft host ∧
      (v < 0 → (meteringContext.GasLeft host : Int) ≤ 2 ^ 64 + v →
        meteringContext.BoundGasLimit host v = meteringContext.GasLeft host) ∧
      (v < 0 → meteringContext.GasLeft host < 2 ^ 63 →
        meteringContext.BoundGasLimit host v = meteringContext.GasLeft host) := by
  have hlimit : (v % 2 ^ 64).toNat = (if 0 ≤ v then v else 2 ^ 64 + v).toNat := by
    congr 1
    split
    · exact Int.emod_eq_of_lt (by omega) (by omega)
    · rw [← Int.add_emod_self_left]
      exact Int.emod_eq_of_lt (by omega) (by omega)
  have hneg : v < 0 → ((if 0 ≤ v then v else 2 ^ 64 + v).toNat : Int) = 2 ^ 64 + v := by
    intro hv
    rw [if_neg (by omega)]
    omega
  unfold meteringContext.BoundGasLimit
  simp only [hlimit]
  generalize (if 0 ≤ v then v else 2 ^ 64 + v).toNat = limit at hneg
  generalize meteringContext.GasLeft host = gasLeft
  refine ⟨trivial, ?_, ?_, ?_⟩
  · split <;> omega
  · intro hv hle
    have := hneg hv
    split
    · rfl
    · omega
  · intro hv hle
    have := hneg hv
    split
    · rfl
    · omega

/-- C33, witness: 10 gas left and the limit -1. -/
theorem BoundGasLimit_spec_witness :
    meteringContext.BoundGasLimit
        { testHost [1] with
          meteringContext := { (testHost [1]).meteringContext with gasForExecution := 10 } }
        (-1) =
      meteringContext.GasLeft
        { testHost [1] with
          meteringContext := { (testHost [1]).meteringContext with gasForExecution := 10 } } :=
  (BoundGasLimit_spec
    { testHost [1] with
      meteringContext := { (testHost [1]).meteringContext with gasForExecution := 10 } }
    (-1) (by decide) (by decide)).2.2.2 (by decide)
    (by rw [GasLeft_eq]; decide)

/-- C32. The gas-schedule setter `SetScenariosGasSchedule` loads once: a second
call, with any schedule, returns no error and changes nothing of the executor,
so the gas schedule of the metering context is the one left by the first call;
and the first call on an executor that has not loaded a schedule puts the
schedule made from its argument in effect, so that after both calls the first
schedule is in effect. -/
theorem SetScenariosGasSchedule_load_once (S : ScheduleCollaborators) (ae : VMTestExecutor)
    (first second : ScenarioGasSchedule) :
    (ae.SetScenariosGasSchedule S first).2.SetScenariosGasSchedule S second =
        (none, (ae.SetScenariosGasSchedule S first).2) ∧
      (∀ gasMap gasSchedule, ae.scenGasScheduleLoaded = false →
        ae.gasScheduleMapFromScenarios S first = .ok gasMap →
        S.CreateGasConfig gasMap = .ok gasSchedule →
        (ae.SetScenariosGasSchedule S first).2.vm.meteringContext.gasSchedule = gasSchedule ∧
        ((ae.SetScenariosGasSchedule S first).2.SetScenariosGasSchedule S
          second).2.vm.meteringContext.gasSchedule = gasSchedule) := by
  have hloaded : (ae.SetScenariosGasSchedule S first).2.scenGasScheduleLoaded = true := by
    unfold VMTestExecutor.SetScenariosGasSchedule
    split
    · assumption
    · simp only []
      split <;> rfl
  have hsecond : (ae.SetScenariosGasSchedule S first).2.SetScenariosGasSchedule S second =
      (none, (ae.SetScenariosGasSchedule S first).2) := by
    generalize ae.SetScenariosGasSchedule S first = r at hloaded
    unfold VMTestExecutor.SetScenariosGasSchedule
    rw [if_pos hloaded]
  refine ⟨hsecond, ?_⟩
  intro gasMap gasSchedule hfresh hmap hconfig
  have hfirst :
      (ae.SetScenariosGasSchedule S first).2.vm.meteringContext.gasSchedule = gasSchedule := by
    have hmap2 : VMTestExecutor.gasScheduleMapFromScenarios S
        { ae with scenGasScheduleLoaded := true } first = .ok gasMap := by
      rw [← hmap]
      cases first <;> rfl
    unfold VMTestExecutor.SetScenariosGasSchedule
    simp only [hfresh, Bool.false_eq_true, if_false, hmap2, vmHost.GasScheduleChange,
      meteringContext.SetGasSchedule, hconfig]
  exact ⟨hfirst, by rw [hsecond]; exact hfirst⟩

/-- C32, witness: the dummy schedule first, version 2 second. -/
theorem SetScenariosGasSchedule_load_once_witness :
    (({ vm := testHost [1], scenarioexecPath := "dir", scenGasScheduleLoaded := false } :
        VMTestExecutor).SetScenariosGasSchedule testScheduleCollaborators
          ScenarioGasSchedule.GasScheduleDummy).2.vm.meteringContext.gasSchedule =
        { BaseOperationCost := { CompilePerByte := 1, AoTPreparePerByte := 1, GetCode := 1 }
          BaseOpsAPICost := { CreateContract := 1, AsyncCallStep := 1, AsyncCallbackGasLock := 1 } } ∧
      (((({ vm := testHost [1], scenarioexecPath := "dir", scenGasScheduleLoaded := false } :
        VMTestExecutor).SetScenariosGasSchedule testScheduleCollaborators
          ScenarioGasSchedule.GasScheduleDummy).2).SetScenariosGasSchedule
            testScheduleCollaborators
            ScenarioGasSchedule.GasScheduleV2).2.vm.meteringContext.gasSchedule =
        { BaseOperationCost := { CompilePerByte := 1, AoTPreparePerByte := 1, GetCode := 1 }
          BaseOpsAPICost := { CreateContract := 1, AsyncCallStep := 1, AsyncCallbackGasLock := 1 } } :=
  (SetScenariosGasSchedule_load_once testScheduleCollaborators
    { vm := testHost [1], scenarioexecPath := "dir", scenGasScheduleLoaded := false }
    ScenarioGasSchedule.GasScheduleDummy ScenarioGasSchedule.GasScheduleV2).2 [] _ rfl rfl rfl

end initial

/-! ## Theorems: upgrades and follow-up calls -/

section upgrade

/-- C37. For an upgrade input whose recipient account is found and is not nil,
`checkUpgradePermission` returns no error if and only if the code metadata of
the contract mark it upgradeable and the caller is the owner of the contract;
otherwise it returns `ErrUpgradeNotAllowed`, and `executeUpgrade` returns that
error with the host as it was: no gas is deducted, no instance is started and no
code is deployed. -/
theorem checkUpgradePermission_spec (B : BuiltinCollaborators) (host : vmHost)
    (vmInput : ContractCallInput) (contract : UserAccount)
    (haccount : B.GetUserAccount host vmInput.RecipientAddr = (some contract, none)) :
    (checkUpgradePermission B host vmInput = none ↔
        (B.CodeMetadataUpgradeable contract.CodeMetadata = true ∧
          vmInput.VMInput.CallerAddr = contract.OwnerAddress)) ∧
      (¬ (B.CodeMetadataUpgradeable contract.CodeMetadata = true ∧
          vmInput.VMInput.CallerAddr = contract.OwnerAddress) →
        checkUpgradePermission B host vmInput = some VMError.ErrUpgradeNotAllowed ∧
        executeUpgrade B host vmInput = (some VMError.ErrUpgradeNotAllowed, host)) := by
  have hcheck : checkUpgradePermission B host vmInput =
      if B.CodeMetadataUpgradeable contract.CodeMetadata = true ∧
          vmInput.VMInput.CallerAddr = contract.OwnerAddress then none
      else some VMError.ErrUpgradeNotAllowed := by
    unfold checkUpgradePermission
    rw [haccount]
    simp only [decide_eq_true_eq]
  refine ⟨?_, ?_⟩
  · rw [hcheck]
    split
    · rename_i h
      simp [h]
    · rename_i h
      simp [h]
  · intro hnot
    have hc : checkUpgradePermission B host vmInput = some VMError.ErrUpgradeNotAllowed := by
      rw [hcheck, if_neg hnot]
    refine ⟨hc, ?_⟩
    unfold executeUpgrade
    rw [hc]

/-- C37, witness: the contract at `[3]` is not upgradeable. -/
theorem checkUpgradePermission_spec_witness :
    checkUpgradePermission (testBuiltinCollaborators false)
        (testBuiltinHost (testBuiltinInput "upgradeContract" []))
        { testBuiltinInput "upgradeContract" [] with RecipientAddr := [3] } =
      some VMError.ErrUpgradeNotAllowed ∧
    executeUpgrade (testBuiltinCollaborators false)
        (testBuiltinHost (testBuiltinInput "upgradeContract" []))
        { testBuiltinInput "upgradeContract" [] with RecipientAddr := [3] } =
      (some VMError.ErrUpgradeNotAllowed,
        testBuiltinHost (testBuiltinInput "upgradeContract" [])) :=
  (checkUpgradePermission_spec (testBuiltinCollaborators false)
    (testBuiltinHost (testBuiltinInput "upgradeContract" []))
    { testBuiltinInput "upgradeContract" [] with RecipientAddr := [3] }
    { CodeMetadata := [0, 0], OwnerAddress := [1] } rfl).2 (by decide)

end upgrade

section followUp

/-- The function `fillWithDCDTValue` changes nothing but the DCDT transfers of
the new input. -/
theorem fillWithDCDTValue_fields (core : DCDTConstants) (fullVMInput newVMInput nv : ContractCallInput)
    (h : fillWithDCDTValue core fullVMInput newVMInput = some nv) :
    nv = { newVMInput with
      VMInput := { newVMInput.VMInput with DCDTTransfers := nv.VMInput.DCDTTransfers } } := by
  unfold fillWithDCDTValue at h
  simp only [] at h
  split at h
  · cases h; rfl
  · split at h
    · cases h
    · split at h
      · cases h
      · split at h
        · split at h
          · cases h
          · cases h; rfl
        · cases h; rfl

/-- The returns of `isSCExecutionAfterBuiltInFunc`, one by one; the effective
recipient is the fourth argument for an NFT transfer whose caller is the
recipient of the input, and the recipient of the input otherwise. -/
theorem isSCExecutionAfterBuiltInFunc_cases (B : BuiltinCollaborators) (host : vmHost)
    (vmInput : ContractCallInput) (vmOutput : VMOutput) :
    (vmOutput.ReturnCode ≠ ReturnCode.Ok ∧
        isSCExecutionAfterBuiltInFunc B host vmInput vmOutput = some (none, none)) ∨
      (vmOutput.ReturnCode = ReturnCode.Ok ∧
        (if vmInput.Function = B.core.BuiltInFunctionDCDTNFTTransfer ∧
            vmInput.VMInput.CallerAddr = vmInput.RecipientAddr then
          vmInput.VMInput.Arguments.get? 3
        else some vmInput.RecipientAddr) = none ∧
        isSCExecutionAfterBuiltInFunc B host vmInput vmOutput = none) ∨
      ∃ recipient,
        vmOutput.ReturnCode = ReturnCode.Ok ∧
        (if vmInput.Function = B.core.BuiltInFunctionDCDTNFTTransfer ∧
            vmInput.VMInput.CallerAddr = vmInput.RecipientAddr then
          vmInput.VMInput.Arguments.get? 3
        else some vmInput.RecipientAddr) = some recipient ∧
        ((B.AreInSameShard host vmInput.VMInput.CallerAddr recipient = false ∧
            isSCExecutionAfterBuiltInFunc B host vmInput vmOutput = some (none, none)) ∨
          (B.AreInSameShard host vmInput.VMInput.CallerAddr recipient = true ∧
            B.IsSmartContract host recipient = false ∧
            isSCExecutionAfterBuiltInFunc B host vmInput vmOutput = some (none, none)) ∨
          (B.AreInSameShard host vmInput.VMInput.CallerAddr recipient = true ∧
            B.IsSmartContract host recipient = true ∧
            vmOutput.OutputAccounts.lookup recipient = none ∧
            isSCExecutionAfterBuiltInFunc B host vmInput vmOutput = some (none, none)) ∨
          ∃ outAcc,
            B.AreInSameShard host vmInput.VMInput.CallerAddr recipient = true ∧
            B.IsSmartContract host recipient = true ∧
            vmOutput.OutputAccounts.lookup recipient = some outAcc ∧
            ((outAcc.OutputTransfers.length ≠ 1 ∧
                isSCExecutionAfterBuiltInFunc B host vmInput vmOutput = some (none, none)) ∨
              ∃ scCallOutTransfer,
                outAcc.OutputTransfers = [scCallOutTransfer] ∧
                ((∃ err, B.ParseData scCallOutTransfer.Data = .error err ∧
                    isSCExecutionAfterBuiltInFunc B host vmInput vmOutput =
                      some (none, some err)) ∨
                  ∃ function arguments,
                    B.ParseData scCallOutTransfer.Data = .ok (function, arguments) ∧
                    isSCExecutionAfterBuiltInFunc B host vmInput vmOutput =
                      (fillWithDCDTValue B.core vmInput
                        { VMInput :=
                            { CallerAddr := vmInput.VMInput.CallerAddr
                              Arguments := arguments
                              CallValue := 0
                              CallType := vmInput.VMInput.CallType
                              GasPrice := vmInput.VMInput.GasPrice
                              GasProvided := scCallOutTransfer.GasLimit
                              GasLocked := scCallOutTransfer.GasLocked
                              OriginalTxHash := vmInput.VMInput.OriginalTxHash
                              CurrentTxHash := vmInput.VMInput.CurrentTxHash
                              PrevTxHash := []
                              DCDTTransfers := [] }
                          RecipientAddr := recipient
                          Function := function
                          AllowInitFunction := false }).map
                        (fun newVMInput => (some newVMInput, none))))) := by
  unfold isSCExecutionAfterBuiltInFunc
  by_cases hrc : vmOutput.ReturnCode ≠ ReturnCode.Ok
  · left
    exact ⟨hrc, by rw [if_pos hrc]⟩
  · right
    rw [if_neg hrc]
    have hok : vmOutput.ReturnCode = ReturnCode.Ok := by
      by_contra h
      exact hrc h
    simp only []
    generalize (if vmInput.Function = B.core.BuiltInFunctionDCDTNFTTransfer ∧
            vmInput.VMInput.CallerAddr = vmInput.RecipientAddr then
          vmInput.VMInput.Arguments.get? 3
        else some vmInput.RecipientAddr) = effective
    cases effective with
    | none => left; exact ⟨hok, rfl, rfl⟩
    | some recipient =>
      right
      refine ⟨recipient, hok, rfl, ?_⟩
      simp only []
      cases hshard : B.AreInSameShard host vmInput.VMInput.CallerAddr recipient with
      | false => left; exact ⟨rfl, by simp⟩
      | true =>
        right
        cases hsc : B.IsSmartContract host recipient with
        | false => left; exact ⟨rfl, rfl, by simp⟩
        | true =>
          right
          cases hacc : vmOutput.OutputAccounts.lookup recipient with
          | none => left; exact ⟨rfl, rfl, rfl, by simp⟩
          | some outAcc =>
            right
            refine ⟨outAcc, rfl, rfl, rfl, ?_⟩
            simp only [Bool.not_true, Bool.false_eq_true, if_false]
            by_cases hlen : outAcc.OutputTransfers.length ≠ 1
            · left
              exact ⟨hlen, by rw [if_pos hlen]⟩
            · right
              rw [if_neg hlen]
              have hone : outAcc.OutputTransfers.length = 1 := by
                by_contra h
                exact hlen h
              obtain ⟨scCallOutTransfer, htransfers⟩ := List.length_eq_one.mp hone
              refine ⟨scCallOutTransfer, htransfers, ?_⟩
              rw [htransfers]
              simp only [List.get?_cons_zero]
              cases hparse : B.ParseData scCallOutTransfer.Data with
              | error err => left; exact ⟨err, rfl, rfl⟩
              | ok parsed =>
                right
                obtain ⟨function, arguments⟩ := parsed
                refine ⟨function, arguments, rfl, ?_⟩
                simp only []
                cases fillWithDCDTValue B.core vmInput _ <;> rfl

/-- C34. The method `isSCExecutionAfterBuiltInFunc` returns a follow-up input
only if the return code of the builtin output is `Ok`, the caller and the
effective recipient (the fourth argument for an NFT transfer whose caller is the
recipient of the input, the recipient of the input otherwise) are in the same
shard, the recipient is a smart contract, and the output account of the
recipient in the builtin output holds exactly one output transfer, whose data
parse; the follow-up then comes with no error and has the caller and the call
type of the input, the effective recipient, call value 0, the gas limit of the
transfer as gas provided, its locked gas as gas locked, and the parsed function
and arguments. The only error returned is the parse error of that single
transfer; and an output account with zero or with two or more transfers gives
no follow-up and no error. -/
theorem isSCExecutionAfterBuiltInFunc_spec (B : BuiltinCollaborators) (host : vmHost)
    (vmInput : ContractCallInput) (vmOutput : VMOutput) :
    (∀ newVMInput err,
        isSCExecutionAfterBuiltInFunc B host vmInput vmOutput = some (some newVMInput, err) →
        err = none ∧ vmOutput.ReturnCode = ReturnCode.Ok ∧
        ∃ recipient outAcc scCallOutTransfer function arguments,
          (if vmInput.Function = B.core.BuiltInFunctionDCDTNFTTransfer ∧
              vmInput.VMInput.CallerAddr = vmInput.RecipientAddr then
            vmInput.VMInput.Arguments.get? 3
          else some vmInput.RecipientAddr) = some recipient ∧
          B.AreInSameShard host vmInput.VMInput.CallerAddr recipient = true ∧
          B.IsSmartContract host recipient = true ∧
          vmOutput.OutputAccounts.lookup recipient = some outAcc ∧
          outAcc.OutputTransfers = [scCallOutTransfer] ∧
          B.ParseData scCallOutTransfer.Data = .ok (function, arguments) ∧
          newVMInput.VMInput.CallerAddr = vmInput.VMInput.CallerAddr ∧
          newVMInput.VMInput.CallType = vmInput.VMInput.CallType ∧
          newVMInput.RecipientAddr = recipient ∧
          newVMInput.VMInput.CallValue = 0 ∧
          newVMInput.VMInput.GasProvided = scCallOutTransfer.GasLimit ∧
          newVMInput.VMInput.GasLocked = scCallOutTransfer.GasLocked ∧
          newVMInput.Function = function ∧
          newVMInput.VMInput.Arguments = arguments) ∧
      (∀ followUp err,
        isSCExecutionAfterBuiltInFunc B host vmInput vmOutput = some (followUp, some err) →
        followUp = none ∧
        ∃ recipient outAcc scCallOutTransfer,
          vmOutput.OutputAccounts.lookup recipient = some outAcc ∧
          outAcc.OutputTransfers = [scCallOutTransfer] ∧
          B.ParseData scCallOutTransfer.Data = .error err) ∧
      (∀ recipient outAcc,
        vmOutput.ReturnCode = ReturnCode.Ok →
        (if vmInput.Function = B.core.BuiltInFunctionDCDTNFTTransfer ∧
            vmInput.VMInput.CallerAddr = vmInput.RecipientAddr then
          vmInput.VMInput.Arguments.get? 3
        else some vmInput.RecipientAddr) = some recipient →
        vmOutput.OutputAccounts.lookup recipient = some outAcc →
        outAcc.OutputTransfers.length ≠ 1 →
        isSCExecutionAfterBuiltInFunc B host vmInput vmOutput = some (none, none)) := by
  rcases isSCExecutionAfterBuiltInFunc_cases B host vmInput vmOutput with
    ⟨hrc, h⟩ | ⟨_, heff, h⟩ | ⟨recipient, hok, heff, hcase⟩
  · refine ⟨?_, ?_, ?_⟩
    · intro nv err hr
      rw [h] at hr
      cases hr
    · intro fu err hr
      rw [h] at hr
      cases hr
    · intro r oa hok
      exact absurd hok hrc
  · refine ⟨?_, ?_, ?_⟩
    · intro nv err hr
      rw [h] at hr
      cases hr
    · intro fu err hr
      rw [h] at hr
      cases hr
    · intro r oa _ heff2
      rw [heff] at heff2
      cases heff2
  · rcases hcase with ⟨_, h⟩ | ⟨_, _, h⟩ | ⟨_, _, _, h⟩ | ⟨outAcc, hshard, hsc, hacc, hrest⟩
    · refine ⟨?_, ?_, ?_⟩
      · intro nv err hr
        rw [h] at hr
        cases hr
      · intro fu err hr
        rw [h] at hr
        cases hr
      · intro _ _ _ _ _ _
        exact h
    · refine ⟨?_, ?_, ?_⟩
      · intro nv err hr
        rw [h] at hr
        cases hr
      · intro fu err hr
        rw [h] at hr
        cases hr
      · intro _ _ _ _ _ _
        exact h
    · refine ⟨?_, ?_, ?_⟩
      · intro nv err hr
        rw [h] at hr
        cases hr
      · intro fu err hr
        rw [h] at hr
        cases hr
      · intro _ _ _ _ _ _
        exact h
    · rcases hrest with ⟨_, h⟩ | ⟨scCallOutTransfer, htransfers, hparse⟩
      · refine ⟨?_, ?_, ?_⟩
        · intro nv err hr
          rw [h] at hr
          cases hr
        · intro fu err hr
          rw [h] at hr
          cases hr
        · intro _ _ _ _ _ _
          exact h
      · have hthird : ∀ recipient2 outAcc2,
            vmOutput.ReturnCode = ReturnCode.Ok →
            (if vmInput.Function = B.core.BuiltInFunctionDCDTNFTTransfer ∧
                vmInput.VMInput.CallerAddr = vmInput.RecipientAddr then
              vmInput.VMInput.Arguments.get? 3
            else some vmInput.RecipientAddr) = some recipient2 →
            vmOutput.OutputAccounts.lookup recipient2 = some outAcc2 →
            outAcc2.OutputTransfers.length ≠ 1 →
            isSCExecutionAfterBuiltInFunc B host vmInput vmOutput = some (none, none) := by
          intro r2 oa2 _ heff2 hacc2 hlen
          rw [heff] at heff2
          cases heff2
          rw [hacc] at hacc2
          cases hacc2
          rw [htransfers] at hlen
          exact absurd rfl hlen
        rcases hparse with ⟨perr, hperr, h⟩ | ⟨function, arguments, hparse, h⟩
        · refine ⟨?_, ?_, hthird⟩
          · intro nv err hr
            rw [h] at hr
            cases hr
          · intro fu err hr
            rw [h] at hr
            cases hr
            exact ⟨rfl, recipient, outAcc, scCallOutTransfer, hacc, htransfers, hperr⟩
        · refine ⟨?_, ?_, hthird⟩
          · intro nv err hr
            rw [h] at hr
            cases hfill : fillWithDCDTValue B.core vmInput
                { VMInput :=
                    { CallerAddr := vmInput.VMInput.CallerAddr
                      Arguments := arguments
                      CallValue := 0
                      CallType := vmInput.VMInput.CallType
                      GasPrice := vmInput.VMInput.GasPrice
                      GasProvided := scCallOutTransfer.GasLimit
                      GasLocked := scCallOutTransfer.GasLocked
                      OriginalTxHash := vmInput.VMInput.OriginalTxHash
                      CurrentTxHash := vmInput.VMInput.CurrentTxHash
                      PrevTxHash := []
                      DCDTTransfers := [] }
                  RecipientAddr := recipient
                  Function := function
                  AllowInitFunction := false } with
            | none =>
              rw [hfill] at hr
              cases hr
            | some filled =>
              rw [hfill] at hr
              have hfields := fillWithDCDTValue_fields _ _ _ _ hfill
              cases hr
              refine ⟨rfl, hok, recipient, outAcc, scCallOutTransfer, function, arguments, heff,
                hshard, hsc, hacc, htransfers, hparse, ?_⟩
              rw [hfields]
              exact ⟨rfl, rfl, rfl, rfl, rfl, rfl, rfl, rfl⟩
          · intro fu err hr
            rw [h] at hr
            cases hfill : fillWithDCDTValue B.core vmInput
                { VMInput :=
                    { CallerAddr := vmInput.VMInput.CallerAddr
                      Arguments := arguments
                      CallValue := 0
                      CallType := vmInput.VMInput.CallType
                      GasPrice := vmInput.VMInput.GasPrice
                      GasProvided := scCallOutTransfer.GasLimit
                      GasLocked := scCallOutTransfer.GasLocked
                      OriginalTxHash := vmInput.VMInput.OriginalTxHash
                      CurrentTxHash := vmInput.VMInput.CurrentTxHash
                      PrevTxHash := []
                      DCDTTransfers := [] }
                  RecipientAddr := recipient
                  Function := function
                  AllowInitFunction := false } with
            | none =>
              rw [hfill] at hr
              cases hr
            | some filled =>
              rw [hfill] at hr
              cases hr

/-- C34, witness: a DCDT transfer from `[1]` to the contract at `[2]` whose
output account holds one transfer with gas limit 100. -/
theorem isSCExecutionAfterBuiltInFunc_spec_witness :
    ∃ newVMInput,
      isSCExecutionAfterBuiltInFunc (testBuiltinCollaborators false)
          (testBuiltinHost (testBuiltinInput "DCDTTransfer" [[84], [5]]))
          (testBuiltinInput "DCDTTransfer" [[84], [5]])
          (testBuiltinOutput ReturnCode.Ok "" [2]
            [{ Value := 0, GasLimit := 100, GasLocked := 0, Data := [103],
               CallType := CallType.AsynchronousCall, SenderAddress := [1] }]) =
        some (some newVMInput, none) ∧
      newVMInput.RecipientAddr = [2] ∧ newVMInput.VMInput.GasProvided = 100 ∧
      newVMInput.Function = "g" :=
  ⟨_, rfl,
    ((isSCExecutionAfterBuiltInFunc_spec (testBuiltinCollaborators false)
      (testBuiltinHost (testBuiltinInput "DCDTTransfer" [[84], [5]]))
      (testBuiltinInput "DCDTTransfer" [[84], [5]])
      (testBuiltinOutput ReturnCode.Ok "" [2]
        [{ Value := 0, GasLimit := 100, GasLocked := 0, Data := [103],
           CallType := CallType.AsynchronousCall, SenderAddress := [1] }])).1 _ none rfl).2.2.elim
      (fun recipient h => h.elim (fun outAcc h => h.elim (fun transfer h =>
        h.elim (fun function h => h.elim (fun arguments h => by
          obtain ⟨heff, _, _, hacc, htr, hparse, _, _, hrec, _, hgas, _, hfun, _⟩ := h
          cases heff
          cases hacc
          cases htr
          cases hparse
          exact ⟨hrec, hgas, hfun⟩)))))⟩

/-- C39, the failing input. An NFT transfer whose caller is its recipient and
which has no argument, met with a builtin output of return code `Ok`: the
method `isSCExecutionAfterBuiltInFunc` reads the fourth argument and
the run ends in an index-out-of-range panic (`none`), where
`RevertDCDTTransfer` checks the number of arguments first and returns. The same
holds for `fillWithDCDTValue` on a DCDT transfer with one argument. -/
theorem isSCExecutionAfterBuiltInFunc_index_out_of_range :
    isSCExecutionAfterBuiltInFunc (testBuiltinCollaborators false)
        (testBuiltinHost
          { testBuiltinInput "DCDTNFTTransfer" [] with RecipientAddr := [1] })
        { testBuiltinInput "DCDTNFTTransfer" [] with RecipientAddr := [1] }
        (testBuiltinOutput ReturnCode.Ok "" [1] []) = none ∧
      isSCExecutionAfterBuiltInFunc (testBuiltinCollaborators false)
        (testBuiltinHost (testBuiltinInput "DCDTTransfer" [[84]]))
        (testBuiltinInput "DCDTTransfer" [[84]])
        (testBuiltinOutput ReturnCode.Ok "" [2]
          [{ Value := 0, GasLimit := 100, GasLocked := 0, Data := [103],
             CallType := CallType.AsynchronousCall, SenderAddress := [1] }]) = none ∧
      RevertDCDTTransfer (testBuiltinCollaborators false)
        (testBuiltinHost
          { testBuiltinInput "DCDTNFTTransfer" [] with RecipientAddr := [1] })
        { testBuiltinInput "DCDTNFTTransfer" [] with RecipientAddr := [1] } =
        some (testBuiltinHost
          { testBuiltinInput "DCDTNFTTransfer" [] with RecipientAddr := [1] }) := by
  refine ⟨rfl, rfl, rfl⟩

end followUp

/-! ## Theorems: the two revert mechanisms -/

section revertAgreement

theorem buildDCDTTransferInput_fungible (core : DCDTConstants) (host : vmHost)
    (destination sender : Address) (tokenIdentifier : Bytes) (nonce : Nat) (value : Int)
    (callType : CallType) (isRevert : Bool) (hnonce : ¬ nonce > 0) :
    buildDCDTTransferInput core host destination sender tokenIdentifier nonce value callType
        isRevert =
      { VMInput :=
          { CallerAddr := sender
            Arguments := [tokenIdentifier, natToBytes value.natAbs]
            CallValue := 0
            CallType := callType
            GasPrice := host.runtimeContext.vmInput.GasPrice
            GasProvided :=
              if isRevert then meteringContext.BlockGasLimit host else meteringContext.GasLeft host
            GasLocked := 0
            OriginalTxHash := []
            CurrentTxHash := []
            PrevTxHash := []
            DCDTTransfers := [] }
        RecipientAddr := destination
        Function := core.BuiltInFunctionDCDTTransfer
        AllowInitFunction := false } := by
  unfold buildDCDTTransferInput
  simp only [if_neg hnonce, List.nil_append]
  cases isRevert <;> rfl

theorem buildDCDTTransferInput_nft (core : DCDTConstants) (host : vmHost)
    (destination sender : Address) (tokenIdentifier : Bytes) (nonce : Nat) (value : Int)
    (callType : CallType) (isRevert : Bool) (hnonce : nonce > 0) :
    buildDCDTTransferInput core host destination sender tokenIdentifier nonce value callType
        isRevert =
      { VMInput :=
          { CallerAddr := sender
            Arguments := [tokenIdentifier, natToBytes nonce, natToBytes value.natAbs, destination]
            CallValue := 0
            CallType := callType
            GasPrice := host.runtimeContext.vmInput.GasPrice
            GasProvided :=
              if isRevert then meteringContext.BlockGasLimit host else meteringContext.GasLeft host
            GasLocked := 0
            OriginalTxHash := []
            CurrentTxHash := []
            PrevTxHash := []
            DCDTTransfers := [] }
        RecipientAddr := sender
        Function := core.BuiltInFunctionDCDTNFTTransfer
        AllowInitFunction := false } := by
  unfold buildDCDTTransferInput
  simp only [if_pos hnonce, List.nil_append]
  cases isRevert <;> rfl

/-- The end of `RevertDCDTTransfer`, from the call of the hook on: it returns, and
the hook has been called once more, with the revert input. -/
theorem RevertDCDTTransfer_after_hook (B : BuiltinCollaborators) (host : vmHost)
    (revertInput : ContractCallInput) :
    ∃ reverted,
      (match host.ProcessBuiltInFunction B revertInput with
        | ((_, some err), host) =>
          some ((meteringContext.UseGas host (meteringContext.GasLeft host)).FailExecution B err)
        | ((some vmOutput, none), host) =>
          if vmOutput.ReturnCode ≠ ReturnCode.Ok then
            some ((meteringContext.UseGas host (meteringContext.GasLeft host)).FailExecution B
              (VMError.other vmOutput.ReturnMessage))
          else some host
        | ((none, none), host) => some host) = some reverted ∧
      reverted.builtinCalls = host.builtinCalls ++ [revertInput] := by
  unfold vmHost.ProcessBuiltInFunction
  rcases h : B.ProcessBuiltInFunction host revertInput with ⟨o, e⟩
  cases e with
  | some err =>
    cases o <;> exact ⟨_, rfl, rfl⟩
  | none =>
    cases o with
    | none => exact ⟨_, rfl, rfl⟩
    | some vmOutput =>
      simp only []
      split
      · exact ⟨_, rfl, rfl⟩
      · exact ⟨_, rfl, rfl⟩

/-- The hook call of `RevertDCDTTransfer` for the input of a transfer built by
`ExecuteDCDTTransfer`. -/
theorem RevertDCDTTransfer_built (B : BuiltinCollaborators) (built reverting : vmHost)
    (destination sender : Address) (tokenIdentifier : Bytes) (nonce : Nat) (value : Int)
    (callType : CallType)
    (hct : callType ≠ CallType.AsynchronousCallBack)
    (hmin : B.core.MinLenArgumentsDCDTTransfer = 2)
    (hminNFT : B.core.MinLenArgumentsDCDTNFTTransfer = 4)
    (hnames : B.core.BuiltInFunctionDCDTTransfer ≠ B.core.BuiltInFunctionDCDTNFTTransfer) :
    ∃ reverted,
      RevertDCDTTransfer B reverting
        (buildDCDTTransferInput B.core built destination sender tokenIdentifier nonce value
          callType false) = some reverted ∧
      reverted.builtinCalls = reverting.builtinCalls ++
        [{ buildDCDTTransferInput B.core reverting sender destination tokenIdentifier nonce value
            CallType.AsynchronousCallBack true with
           VMInput :=
             { (buildDCDTTransferInput B.core reverting sender destination tokenIdentifier nonce
                 value CallType.AsynchronousCallBack true).VMInput with
               GasPrice := built.runtimeContext.vmInput.GasPrice } }] := by
  by_cases hnonce : nonce > 0
  · rw [buildDCDTTransferInput_nft _ _ _ _ _ _ _ _ _ hnonce,
      buildDCDTTransferInput_nft _ _ _ _ _ _ _ _ _ hnonce]
    unfold RevertDCDTTransfer
    simp only [hminNFT, or_true, not_true_eq_false, if_false, if_neg hct, if_true,
      List.length_cons, List.length_nil, Nat.reduceAdd, Nat.lt_irrefl, OfNat.ofNat_ne_zero,
      Nat.add_one_sub_one, List.get?_cons_succ, List.get?_cons_zero, List.take_succ_cons,
      List.take_zero, List.set_cons_succ, List.set_cons_zero, Nat.reduceSub,
      Bool.false_eq_true]
    exact RevertDCDTTransfer_after_hook B reverting _
  · rw [buildDCDTTransferInput_fungible _ _ _ _ _ _ _ _ _ hnonce,
      buildDCDTTransferInput_fungible _ _ _ _ _ _ _ _ _ hnonce]
    unfold RevertDCDTTransfer
    simp only [hmin, true_or, not_true_eq_false, if_false, if_neg hct, if_neg hnames, if_true,
      List.length_cons, List.length_nil, Nat.reduceAdd, Nat.lt_irrefl,
      List.take_succ_cons, List.take_zero, Bool.false_eq_true]
    exact RevertDCDTTransfer_after_hook B reverting _

/-- Every run of `ExecuteDCDTTransfer` that returns has passed the built input
to the hook, once. -/
theorem ExecuteDCDTTransfer_builtinCalls (B : BuiltinCollaborators) (host : vmHost)
    (destination sender : Address) (tokenIdentifier : Bytes) (nonce : Nat) (value : Int)
    (callType : CallType) (isRevert : Bool)
    (result : (Option VMOutput × Nat × Option VMError) × vmHost)
    (h : ExecuteDCDTTransfer B host destination sender tokenIdentifier nonce value callType
      isRevert = some result) :
    result.2.builtinCalls = host.builtinCalls ++
      [buildDCDTTransferInput B.core host destination sender tokenIdentifier nonce value callType
        isRevert] := by
  unfold ExecuteDCDTTransfer vmHost.ProcessBuiltInFunction at h
  simp only [] at h
  rcases hh : B.ProcessBuiltInFunction host
    (buildDCDTTransferInput B.core host destination sender tokenIdentifier nonce value callType
      isRevert) with ⟨o, e⟩
  rw [hh] at h
  cases e with
  | some err =>
    cases o <;> (simp only [] at h; cases h; rfl)
  | none =>
    cases o with
    | none => simp only [] at h; cases h
    | some vmOutput =>
      simp only [] at h
      split at h
      · cases h; rfl
      · split at h
        · split at h
          · cases h; rfl
          · cases h; rfl
        · cases h; rfl

/-- C36. The two revert mechanisms agree. A run of `ExecuteDCDTTransfer` that
returns has passed to the builtin hook the input it built. For the input built
by `ExecuteDCDTTransfer (destination, sender, token, nonce, value, callType,
false)` with a call type other than `AsynchronousCallBack` (the fungible
transfer when the nonce is 0, the NFT transfer otherwise), the minimal numbers
of arguments being 2 and 4 and the two function names distinct,
`RevertDCDTTransfer` returns and passes to the hook one input, which has the
function, the caller, the recipient, the arguments, the call value 0, the locked
gas 0, the gas provided (the block gas limit) and the call type of the input
built by `ExecuteDCDTTransfer (sender, destination, token, nonce, value,
AsynchronousCallBack, true)`, and is that input when the gas price of the
runtime input is the same. And `RevertDCDTTransfer` applied to such a revert
input returns the host unchanged, without a call of the hook. -/
theorem revert_mechanisms_agree (B : BuiltinCollaborators) (built reverting : vmHost)
    (destination sender : Address) (tokenIdentifier : Bytes) (nonce : Nat) (value : Int)
    (callType : CallType)
    (hct : callType ≠ CallType.AsynchronousCallBack)
    (hmin : B.core.MinLenArgumentsDCDTTransfer = 2)
    (hminNFT : B.core.MinLenArgumentsDCDTNFTTransfer = 4)
    (hnames : B.core.BuiltInFunctionDCDTTransfer ≠ B.core.BuiltInFunctionDCDTNFTTransfer) :
    (∀ result,
        ExecuteDCDTTransfer B built destination sender tokenIdentifier nonce value callType
          false = some result →
        result.2.builtinCalls = built.builtinCalls ++
          [buildDCDTTransferInput B.core built destination sender tokenIdentifier nonce value
            callType false]) ∧
      (∀ result,
        ExecuteDCDTTransfer B reverting sender destination tokenIdentifier nonce value
          CallType.AsynchronousCallBack true = some result →
        result.2.builtinCalls = reverting.builtinCalls ++
          [buildDCDTTransferInput B.core reverting sender destination tokenIdentifier nonce value
            CallType.AsynchronousCallBack true]) ∧
      (buildDCDTTransferInput B.core built destination sender tokenIdentifier nonce value
          callType false).Function =
        (if nonce > 0 then B.core.BuiltInFunctionDCDTNFTTransfer
          else B.core.BuiltInFunctionDCDTTransfer) ∧
      (∃ reverted revertInput,
        RevertDCDTTransfer B reverting
          (buildDCDTTransferInput B.core built destination sender tokenIdentifier nonce value
            callType false) = some reverted ∧
        reverted.builtinCalls = reverting.builtinCalls ++ [revertInput] ∧
        revertInput.Function =
          (buildDCDTTransferInput B.core reverting sender destination tokenIdentifier nonce value
            CallType.AsynchronousCallBack true).Function ∧
        revertInput.VMInput.CallerAddr =
          (buildDCDTTransferInput B.core reverting sender destination tokenIdentifier nonce value
            CallType.AsynchronousCallBack true).VMInput.CallerAddr ∧
        revertInput.RecipientAddr =
          (buildDCDTTransferInput B.core reverting sender destination tokenIdentifier nonce value
            CallType.AsynchronousCallBack true).RecipientAddr ∧
        revertInput.VMInput.Arguments =
          (buildDCDTTransferInput B.core reverting sender destination tokenIdentifier nonce value
            CallType.AsynchronousCallBack true).VMInput.Arguments ∧
        revertInput.VMInput.CallValue = 0 ∧
        (buildDCDTTransferInput B.core reverting sender destination tokenIdentifier nonce value
            CallType.AsynchronousCallBack true).VMInput.CallValue = 0 ∧
        revertInput.VMInput.GasLocked = 0 ∧
        (buildDCDTTransferInput B.core reverting sender destination tokenIdentifier nonce value
            CallType.AsynchronousCallBack true).VMInput.GasLocked = 0 ∧
        revertInput.VMInput.GasProvided = meteringContext.BlockGasLimit reverting ∧
        (buildDCDTTransferInput B.core reverting sender destination tokenIdentifier nonce value
            CallType.AsynchronousCallBack true).VMInput.GasProvided =
          meteringContext.BlockGasLimit reverting ∧
        revertInput.VMInput.CallType = CallType.AsynchronousCallBack ∧
        (built.runtimeContext.vmInput.GasPrice = reverting.runtimeContext.vmInput.GasPrice →
          revertInput =
            buildDCDTTransferInput B.core reverting sender destination tokenIdentifier nonce value
              CallType.AsynchronousCallBack true)) ∧
      RevertDCDTTransfer B reverting
        (buildDCDTTransferInput B.core built sender destination tokenIdentifier nonce value
          CallType.AsynchronousCallBack true) = some reverting := by
  refine ⟨fun result h => ExecuteDCDTTransfer_builtinCalls B _ _ _ _ _ _ _ _ _ h,
    fun result h => ExecuteDCDTTransfer_builtinCalls B _ _ _ _ _ _ _ _ _ h, ?_, ?_, ?_⟩
  · by_cases hnonce : nonce > 0
    · rw [buildDCDTTransferInput_nft _ _ _ _ _ _ _ _ _ hnonce, if_pos hnonce]
    · rw [buildDCDTTransferInput_fungible _ _ _ _ _ _ _ _ _ hnonce, if_neg hnonce]
  · obtain ⟨reverted, hreturn, hcalls⟩ :=
      RevertDCDTTransfer_built B built reverting destination sender tokenIdentifier nonce value
        callType hct hmin hminNFT hnames
    refine ⟨reverted, _, hreturn, hcalls, rfl, rfl, rfl, rfl, ?_, ?_, ?_, ?_, ?_, ?_, ?_, ?_⟩
    all_goals
      by_cases hnonce : nonce > 0
      · first
          | (rw [buildDCDTTransferInput_nft _ _ _ _ _ _ _ _ _ hnonce]; done)
          | (rw [buildDCDTTransferInput_nft _ _ _ _ _ _ _ _ _ hnonce]; rfl)
          | (rw [buildDCDTTransferInput_nft _ _ _ _ _ _ _ _ _ hnonce]; intro hprice; rw [hprice])
      · first
          | (rw [buildDCDTTransferInput_fungible _ _ _ _ _ _ _ _ _ hnonce]; done)
          | (rw [buildDCDTTransferInput_fungible _ _ _ _ _ _ _ _ _ hnonce]; rfl)
          | (rw [buildDCDTTransferInput_fungible _ _ _ _ _ _ _ _ _ hnonce]; intro hprice;
              rw [hprice])
  · have hcallType :
        (buildDCDTTransferInput B.core built sender destination tokenIdentifier nonce value
          CallType.AsynchronousCallBack true).VMInput.CallType =
          CallType.AsynchronousCallBack := by
      by_cases hnonce : nonce > 0
      · rw [buildDCDTTransferInput_nft _ _ _ _ _ _ _ _ _ hnonce]
      · rw [buildDCDTTransferInput_fungible _ _ _ _ _ _ _ _ _ hnonce]
    unfold RevertDCDTTransfer
    simp only [hcallType, if_true]
    split <;> rfl

/-- C36, witness: the contract at `[1]` sends 5 of the token `[84]` to `[2]`,
fungible and as the NFT of nonce 3, the block gas limit being 15000. -/
theorem revert_mechanisms_agree_witness :
    (RevertDCDTTransfer (testBuiltinCollaborators false) (testBuiltinHost (testBuiltinInput "f" []))
        (buildDCDTTransferInput testDCDTConstants (testBuiltinHost (testBuiltinInput "f" []))
          [2] [1] [84] 0 5 CallType.DirectCall false)).map (fun r => r.builtinCalls) =
      some [buildDCDTTransferInput testDCDTConstants (testBuiltinHost (testBuiltinInput "f" []))
        [1] [2] [84] 0 5 CallType.AsynchronousCallBack true] ∧
    (RevertDCDTTransfer (testBuiltinCollaborators false) (testBuiltinHost (testBuiltinInput "f" []))
        (buildDCDTTransferInput testDCDTConstants (testBuiltinHost (testBuiltinInput "f" []))
          [2] [1] [84] 3 5 CallType.DirectCall false)).map (fun r => r.builtinCalls) =
      some [buildDCDTTransferInput testDCDTConstants (testBuiltinHost (testBuiltinInput "f" []))
        [1] [2] [84] 3 5 CallType.AsynchronousCallBack true] ∧
    buildDCDTTransferInput testDCDTConstants (testBuiltinHost (testBuiltinInput "f" []))
        [1] [2] [84] 3 5 CallType.AsynchronousCallBack true =
      { VMInput :=
          { CallerAddr := [2], Arguments := [[84], [3], [5], [1]], CallValue := 0,
            CallType := CallType.AsynchronousCallBack, GasPrice := 0, GasProvided := 15000,
            GasLocked := 0, OriginalTxHash := [], CurrentTxHash := [], PrevTxHash := [],
            DCDTTransfers := [] }
        RecipientAddr := [2]
        Function := "DCDTNFTTransfer"
        AllowInitFunction := false } := by
  refine ⟨?_, ?_, by decide⟩
  · obtain ⟨reverted, revertInput, hreturn, hcalls, _, _, _, _, _, _, _, _, _, _, _, hsame⟩ :=
      (revert_mechanisms_agree (testBuiltinCollaborators false)
        (testBuiltinHost (testBuiltinInput "f" [])) (testBuiltinHost (testBuiltinInput "f" []))
        [2] [1] [84] 0 5 CallType.DirectCall (by decide) rfl rfl (by decide)).2.2.2.1
    have hcore : (testBuiltinCollaborators false).core = testDCDTConstants := rfl
    rw [hcore] at hreturn hsame
    rw [hreturn, Option.map, hcalls, hsame rfl]
    rfl
  · obtain ⟨reverted, revertInput, hreturn, hcalls, _, _, _, _, _, _, _, _, _, _, _, hsame⟩ :=
      (revert_mechanisms_agree (testBuiltinCollaborators false)
        (testBuiltinHost (testBuiltinInput "f" [])) (testBuiltinHost (testBuiltinInput "f" []))
        [2] [1] [84] 3 5 CallType.DirectCall (by decide) rfl rfl (by decide)).2.2.2.1
    have hcore : (testBuiltinCollaborators false).core = testDCDTConstants := rfl
    rw [hcore] at hreturn hsame
    rw [hreturn, Option.map, hcalls, hsame rfl]
    rfl

end revertAgreement

/-! ## Theorems: hooks on arguments and return data -/

section hooks

/-- C38, the failing input. On a host whose return data hold the one item
`[1, 2]`, the result identifier -1 passes the only guard of
`v1_2_getReturnDataSize` and of `v1_2_getReturnData` (`resultID >= len`) and the
return data are indexed at -1: the run ends in an index-out-of-range panic
(`none`) instead of returning 0, whereas `v1_2_getArgumentLength` guards
`id < 0` and returns -1; the identifiers 0 and 1 give the length 2 and 0. -/
theorem v1_2_getReturnDataSize_negative_index :
    v1_2_getReturnDataSize
        { testHostWithOutput [1] with
          outputContext :=
            { (testHostWithOutput [1]).outputContext with
              outputState :=
                { (testHostWithOutput [1]).outputContext.outputState with
                  ReturnData := [[1, 2]] } } }
        (-1) = none ∧
      v1_2_getReturnData testHookCollaborators
        { testHostWithOutput [1] with
          outputContext :=
            { (testHostWithOutput [1]).outputContext with
              outputState :=
                { (testHostWithOutput [1]).outputContext.outputState with
                  ReturnData := [[1, 2]] } } }
        (-1) 0 = none ∧
      (v1_2_getArgumentLength
        { testHostWithOutput [1] with
          outputContext :=
            { (testHostWithOutput [1]).outputContext with
              outputState :=
                { (testHostWithOutput [1]).outputContext.outputState with
                  ReturnData := [[1, 2]] } } }
        (-1)).map Prod.fst = some (-1) ∧
      (v1_2_getReturnDataSize
        { testHostWithOutput [1] with
          outputContext :=
            { (testHostWithOutput [1]).outputContext with
              outputState :=
                { (testHostWithOutput [1]).outputContext.outputState with
                  ReturnData := [[1, 2]] } } }
        0).map Prod.fst = some 2 ∧
      (v1_2_getReturnDataSize
        { testHostWithOutput [1] with
          outputContext :=
            { (testHostWithOutput [1]).outputContext with
              outputState :=
                { (testHostWithOutput [1]).outputContext.outputState with
                  ReturnData := [[1, 2]] } } }
        1).map Prod.fst = some 0 := by
  refine ⟨by decide, by decide, by decide, by decide, by decide⟩

end hooks

/-! ## Theorems: the frame of the caller of an indirect deployment -/

section callerFrame

theorem enterExecuteOnDestContext_metering_stack (E : Collaborators) (host : vmHost)
    (input : ContractCallInput) :
    (enterExecuteOnDestContext E host input).1.meteringContext.stateStack =
      host.meteringContext.stateStack ++
        [{ initialGasProvided := host.meteringContext.initialGasProvided
           initialCost := host.meteringContext.initialCost
           gasForExecution := host.meteringContext.gasForExecution }] := by
  simp only [enterExecuteOnDestContext, computeGasUsedBefore, meteringContext.SetTotalUsedGas,
    storageContext.PushState, storageContext.SetAddress]
  rw [InitStateFromContractCallInput_stack]
  rfl

theorem bodyExecuteOnDestContext_metering_stack (E : Collaborators)
    (hE : E.KeepsMeteringStack) (host : vmHost) (input : ContractCallInput) :
    (bodyExecuteOnDestContext E host input).2.2.2.meteringContext.stateStack =
      host.meteringContext.stateStack :=
  bodyExecuteOnDestContext_rel E
    (fun a b => b.meteringContext.stateStack = a.meteringContext.stateStack)
    (fun _ => rfl) (fun _ _ _ h1 h2 => h2.trans h1) (fun _ _ => rfl)
    (fun h i => hE.1 h i) (fun h a => hE.2 h a) host input

theorem finishExecuteOnDestContext_metering_frame (E : Collaborators) (host : vmHost)
    (executeErr : Option VMError) (st : List meteringFrame) (f : meteringFrame)
    (hs : host.meteringContext.stateStack = st ++ [f]) :
    (finishExecuteOnDestContext E host executeErr).2.meteringContext.stateStack = st ∧
    (finishExecuteOnDestContext E host executeErr).2.meteringContext.initialGasProvided =
      f.initialGasProvided ∧
    (finishExecuteOnDestContext E host executeErr).2.meteringContext.initialCost =
      f.initialCost ∧
    (finishExecuteOnDestContext E host executeErr).2.meteringContext.gasForExecution =
      f.gasForExecution := by
  have hpop := PopSetActiveState_of_stack host st f hs
  have h1 : (finishExecuteOnDestContext E host executeErr).2.meteringContext.stateStack =
      (meteringContext.PopSetActiveState host).meteringContext.stateStack := by
    cases executeErr <;> simp only [finishExecuteOnDestContext] <;> split <;>
      simp [ForwardGas_metering_fields] <;>
      (apply congrArg meteringContext.stateStack; apply metering_PopSetActiveState_congr; simp)
  have h2 : (finishExecuteOnDestContext E host executeErr).2.meteringContext.initialGasProvided =
      (meteringContext.PopSetActiveState host).meteringContext.initialGasProvided := by
    cases executeErr <;> simp only [finishExecuteOnDestContext] <;> split <;>
      simp [ForwardGas_metering_fields] <;>
      (apply congrArg meteringContext.initialGasProvided
       apply metering_PopSetActiveState_congr; simp)
  have h3 : (finishExecuteOnDestContext E host executeErr).2.meteringContext.initialCost =
      (meteringContext.PopSetActiveState host).meteringContext.initialCost := by
    cases executeErr <;> simp only [finishExecuteOnDestContext] <;> split <;>
      simp [ForwardGas_metering_fields] <;>
      (apply congrArg meteringContext.initialCost; apply metering_PopSetActiveState_congr; simp)
  have h4 : (finishExecuteOnDestContext E host executeErr).2.meteringContext.gasForExecution =
      (meteringContext.PopSetActiveState host).meteringContext.gasForExecution := by
    cases executeErr <;> simp only [finishExecuteOnDestContext] <;> split <;>
      simp [ForwardGas_metering_fields] <;>
      (apply congrArg meteringContext.gasForExecution
       apply metering_PopSetActiveState_congr; simp)
  rw [h1, h2, h3, h4, hpop]
  exact ⟨rfl, rfl, rfl, rfl⟩

/-- A nested call on the destination context gives back the frame fields and the
state stack of the Metering context of its caller. -/
theorem ExecuteOnDestContext_metering_frame (E : Collaborators) (hE : E.KeepsMeteringStack)
    (host : vmHost) (input : ContractCallInput) :
    (ExecuteOnDestContext E host input).host.meteringContext.stateStack =
      host.meteringContext.stateStack ∧
    (ExecuteOnDestContext E host input).host.meteringContext.initialGasProvided =
      host.meteringContext.initialGasProvided ∧
    (ExecuteOnDestContext E host input).host.meteringContext.initialCost =
      host.meteringContext.initialCost ∧
    (ExecuteOnDestContext E host input).host.meteringContext.gasForExecution =
      host.meteringContext.gasForExecution := by
  have hbody := bodyExecuteOnDestContext_metering_stack E hE
    (enterExecuteOnDestContext E host input).1 (enterExecuteOnDestContext E host input).2
  rw [enterExecuteOnDestContext_metering_stack] at hbody
  have hfinish := finishExecuteOnDestContext_metering_frame E
    (bodyExecuteOnDestContext E (enterExecuteOnDestContext E host input).1
      (enterExecuteOnDestContext E host input).2).2.2.2
    (bodyExecuteOnDestContext E (enterExecuteOnDestContext E host input).1
      (enterExecuteOnDestContext E host input).2).2.2.1 _ _ hbody
  simp only [ExecuteOnDestContext, meteringContext.SetTotalUsedGas]
  exact hfinish

/-- The frame fields and the state stack of the Metering context after
`CreateNewContract` are those left by its initial deduction. -/
theorem CreateNewContract_metering_frame (R : HostCollaborators)
    (hR : R.toCollaborators.KeepsMeteringStack) (host : vmHost) (input : ContractCreateInput) :
    (CreateNewContract R host input).host.meteringContext.stateStack =
      (meteringContext.DeductInitialGasForIndirectDeployment host
        { ContractCode := input.ContractCode
          ContractCodeMetadata := input.ContractCodeMetadata
          ContractAddress := []
          CodeDeployerAddress := input.VMInput.CallerAddr }).2.meteringContext.stateStack ∧
    (CreateNewContract R host input).host.meteringContext.initialGasProvided =
      (meteringContext.DeductInitialGasForIndirectDeployment host
        { ContractCode := input.ContractCode
          ContractCodeMetadata := input.ContractCodeMetadata
          ContractAddress := []
          CodeDeployerAddress := input.VMInput.CallerAddr }).2.meteringContext.initialGasProvided ∧
    (CreateNewContract R host input).host.meteringContext.initialCost =
      (meteringContext.DeductInitialGasForIndirectDeployment host
        { ContractCode := input.ContractCode
          ContractCodeMetadata := input.ContractCodeMetadata
          ContractAddress := []
          CodeDeployerAddress := input.VMInput.CallerAddr }).2.meteringContext.initialCost ∧
    (CreateNewContract R host input).host.meteringContext.gasForExecution =
      (meteringContext.DeductInitialGasForIndirectDeployment host
        { ContractCode := input.ContractCode
          ContractCodeMetadata := input.ContractCodeMetadata
          ContractAddress := []
          CodeDeployerAddress := input.VMInput.CallerAddr }).2.meteringContext.gasForExecution := by
  unfold CreateNewContract
  simp only []
  rcases hd : meteringContext.DeductInitialGasForIndirectDeployment host
      { ContractCode := input.ContractCode
        ContractCodeMetadata := input.ContractCodeMetadata
        ContractAddress := []
        CodeDeployerAddress := input.VMInput.CallerAddr } with ⟨e, h1⟩
  cases e with
  | some err => exact ⟨rfl, rfl, rfl, rfl⟩
  | none =>
    simp only []
    split
    · exact ⟨rfl, rfl, rfl, rfl⟩
    · split
      · exact ⟨rfl, rfl, rfl, rfl⟩
      · split
        · exact ⟨rfl, rfl, rfl, rfl⟩
        · rename_i newContractAddress _ _
          have hframe := ExecuteOnDestContext_metering_frame R.toCollaborators hR
            { outputContext.DeployCode h1
                { ContractCode := input.ContractCode
                  ContractCodeMetadata := input.ContractCodeMetadata
                  ContractAddress := newContractAddress
                  CodeDeployerAddress := input.VMInput.CallerAddr } with
              runtimeContext := R.MustVerifyNextContractCode
                (outputContext.DeployCode h1
                  { ContractCode := input.ContractCode
                    ContractCodeMetadata := input.ContractCodeMetadata
                    ContractAddress := newContractAddress
                    CodeDeployerAddress := input.VMInput.CallerAddr }).runtimeContext }
            { RecipientAddr := newContractAddress
              Function := R.names.InitFunctionName
              AllowInitFunction := true
              VMInput := input.VMInput }
          split
          · exact hframe
          · exact hframe

/-- C35, counterexample. The contract at `[1]` runs with 500 gas and a code of
ten bytes, so that its frame has the initial cost 11 and 489 gas for execution;
it deploys a code of three bytes. After `CreateNewContract` has returned, with
no error, the frame of the caller has the initial cost 3 and 497 gas for
execution: the initial deduction for the deployment is made on the frame of the
caller. -/
theorem CreateNewContract_caller_frame_counterexample :
    ((meteringContext.DeductInitialGasForExecution
        (bindVMInput (testHostWithOutput [1]) (testVMInput CallType.DirectCall 500 0))
        (List.replicate 10 0)).2.meteringContext.initialCost = 11 ∧
      (meteringContext.DeductInitialGasForExecution
        (bindVMInput (testHostWithOutput [1]) (testVMInput CallType.DirectCall 500 0))
        (List.replicate 10 0)).2.meteringContext.gasForExecution = 489) ∧
    (CreateNewContract (testHostCollaborators succeedingCollaborators)
        (meteringContext.DeductInitialGasForExecution
          (bindVMInput (testHostWithOutput [1]) (testVMInput CallType.DirectCall 500 0))
          (List.replicate 10 0)).2
        (testCreateInput 100)).err = none ∧
    (CreateNewContract (testHostCollaborators succeedingCollaborators)
        (meteringContext.DeductInitialGasForExecution
          (bindVMInput (testHostWithOutput [1]) (testVMInput CallType.DirectCall 500 0))
          (List.replicate 10 0)).2
        (testCreateInput 100)).host.meteringContext.initialCost = 3 ∧
    (CreateNewContract (testHostCollaborators succeedingCollaborators)
        (meteringContext.DeductInitialGasForExecution
          (bindVMInput (testHostWithOutput [1]) (testVMInput CallType.DirectCall 500 0))
          (List.replicate 10 0)).2
        (testCreateInput 100)).host.meteringContext.gasForExecution = 497 := by
  decide

/-- C35, amended. When the nested steps keep the state stack of the Metering
context, `CreateNewContract` leaves, on every return, with or without an error,
the state stack and the `initialGasProvided` of the frame of the caller as they
were before the call, and its `initialCost` and `gasForExecution` as the initial
deduction for the deployment left them: when the cost of the code (its length
times `CompilePerByte`, saturating) exceeds the gas provided of the running
input, the deduction fails and the whole host is returned unchanged with
`ErrNotEnoughGas`; otherwise `initialCost` is that cost and `gasForExecution` is
the gas provided of the running input less that cost, whatever they were before
the call, and nothing after the deduction (the nested `init` call included)
changes them. -/
theorem CreateNewContract_caller_frame (R : HostCollaborators)
    (hR : R.toCollaborators.KeepsMeteringStack) (host : vmHost) (input : ContractCreateInput) :
    (CreateNewContract R host input).host.meteringContext.stateStack =
        host.meteringContext.stateStack ∧
      (CreateNewContract R host input).host.meteringContext.initialGasProvided =
        host.meteringContext.initialGasProvided ∧
      (host.runtimeContext.vmInput.GasProvided <
          AddUint64 0 (MulUint64 input.ContractCode.length
            host.meteringContext.gasSchedule.BaseOperationCost.CompilePerByte) →
        (CreateNewContract R host input).host = host ∧
        (CreateNewContract R host input).err = some VMError.ErrNotEnoughGas) ∧
      (AddUint64 0 (MulUint64 input.ContractCode.length
            host.meteringContext.gasSchedule.BaseOperationCost.CompilePerByte) ≤
          host.runtimeContext.vmInput.GasProvided →
        (CreateNewContract R host input).host.meteringContext.initialCost =
          AddUint64 0 (MulUint64 input.ContractCode.length
            host.meteringContext.gasSchedule.BaseOperationCost.CompilePerByte) ∧
        (CreateNewContract R host input).host.meteringContext.gasForExecution =
          host.runtimeContext.vmInput.GasProvided -
            AddUint64 0 (MulUint64 input.ContractCode.length
              host.meteringContext.gasSchedule.BaseOperationCost.CompilePerByte)) := by
  obtain ⟨hstack, hprovided, hcost, hgas⟩ := CreateNewContract_metering_frame R hR host input
  have hspec := deductInitialGas_spec host input.ContractCode 0
    host.meteringContext.gasSchedule.BaseOperationCost.CompilePerByte
  simp only [meteringContext.DeductInitialGasForIndirectDeployment] at hstack hprovided hcost hgas
  refine ⟨?_, ?_, ?_, ?_⟩
  · rw [hstack, hspec]
    split <;> rfl
  · rw [hprovided, hspec]
    split <;> rfl
  · intro hlt
    have hfail : meteringContext.DeductInitialGasForIndirectDeployment host
        { ContractCode := input.ContractCode
          ContractCodeMetadata := input.ContractCodeMetadata
          ContractAddress := []
          CodeDeployerAddress := input.VMInput.CallerAddr } =
        (some VMError.ErrNotEnoughGas, host) := by
      simp only [meteringContext.DeductInitialGasForIndirectDeployment]
      rw [hspec, if_neg (by omega)]
    unfold CreateNewContract
    simp [hfail]
  · intro hle
    rw [hcost, hgas, hspec, if_pos hle]
    exact ⟨rfl, rfl⟩

theorem succeedingCollaborators_KeepsMeteringStack : succeedingCollaborators.KeepsMeteringStack :=
  ⟨fun _ _ => rfl, fun _ _ => rfl⟩

/-- C35, witness: the deployment of the counterexample; the stack and the gas
provided of the frame of the caller are as before, the initial cost is 3 and
the gas for execution is 497. -/
theorem CreateNewContract_caller_frame_witness :
    succeedingCollaborators.KeepsMeteringStack ∧
    (CreateNewContract (testHostCollaborators succeedingCollaborators)
        (meteringContext.DeductInitialGasForExecution
          (bindVMInput (testHostWithOutput [1]) (testVMInput CallType.DirectCall 500 0))
          (List.replicate 10 0)).2
        (testCreateInput 100)).host.meteringContext.initialGasProvided = 500 ∧
    (CreateNewContract (testHostCollaborators succeedingCollaborators)
        (meteringContext.DeductInitialGasForExecution
          (bindVMInput (testHostWithOutput [1]) (testVMInput CallType.DirectCall 500 0))
          (List.replicate 10 0)).2
        (testCreateInput 100)).host.meteringContext.initialCost = 3 ∧
    (CreateNewContract (testHostCollaborators succeedingCollaborators)
        (meteringContext.DeductInitialGasForExecution
          (bindVMInput (testHostWithOutput [1]) (testVMInput CallType.DirectCall 500 0))
          (List.replicate 10 0)).2
        (testCreateInput 100)).host.meteringContext.gasForExecution = 497 :=
  ⟨succeedingCollaborators_KeepsMeteringStack,
    (CreateNewContract_caller_frame (testHostCollaborators succeedingCollaborators)
      succeedingCollaborators_KeepsMeteringStack
      (meteringContext.DeductInitialGasForExecution
        (bindVMInput (testHostWithOutput [1]) (testVMInput CallType.DirectCall 500 0))
        (List.replicate 10 0)).2
      (testCreateInput 100)).2.1,
    ((CreateNewContract_caller_frame (testHostCollaborators succeedingCollaborators)
      succeedingCollaborators_KeepsMeteringStack
      (meteringContext.DeductInitialGasForExecution
        (bindVMInput (testHostWithOutput [1]) (testVMInput CallType.DirectCall 500 0))
        (List.replicate 10 0)).2
      (testCreateInput 100)).2.2.2 (by decide)).1,
    ((CreateNewContract_caller_frame (testHostCollaborators succeedingCollaborators)
      succeedingCollaborators_KeepsMeteringStack
      (meteringContext.DeductInitialGasForExecution
        (bindVMInput (testHostWithOutput [1]) (testVMInput CallType.DirectCall 500 0))
        (List.replicate 10 0)).2
      (testCreateInput 100)).2.2.2 (by decide)).2⟩

end callerFrame

/-! ## Theorems: the token checks of the scenario executor -/

section tokenChecks

theorem goMapGet_mem_keys {K V : Type} [DecidableEq K] (m : List (K × V)) (k : K) (v : V)
    (h : goMapGet m k = some v) : k ∈ goMapKeys m := by
  unfold goMapGet at h
  unfold goMapKeys
  cases hf : m.find? (fun kv => decide (kv.1 = k)) with
  | none => rw [hf] at h; cases h
  | some kv =>
    have hmem := List.mem_of_find?_eq_some hf
    have hk := List.find?_some hf
    simp only [decide_eq_true_eq] at hk
    rw [← hk]
    exact List.mem_map_of_mem Prod.fst hmem

theorem makeErrorString_step_length (n : Nat) (l : List (Nat × String)) :
    ∀ acc : String,
      acc.length ≤
        (l.foldl
          (fun errorString ie =>
            let errorString := errorString ++ ie.2
            if ie.1 + 1 < n then errorString ++ "\n" else errorString) acc).length := by
  induction l with
  | nil => intro acc; exact Nat.le_refl _
  | cons x rest ih =>
    intro acc
    simp only [List.foldl_cons]
    refine Nat.le_trans ?_ (ih _)
    split <;> simp only [String.length_append] <;> omega

theorem makeErrorString_nil : makeErrorString [] = "" := rfl

theorem makeErrorString_length_pos (errors : List String) (hne : errors ≠ [])
    (hall : ∀ e ∈ errors, 0 < e.length) : 0 < (makeErrorString errors).length := by
  cases errors with
  | nil => exact absurd rfl hne
  | cons e rest =>
    unfold makeErrorString
    simp only [List.enum_cons, List.foldl_cons]
    refine Nat.lt_of_lt_of_le ?_ (makeErrorString_step_length _ _ _)
    have he := hall e (List.mem_cons_self _ _)
    split <;> simp only [String.length_append] <;> omega

theorem message_length_pos (literal rest : String) (h : 0 < literal.length) :
    0 < (literal ++ rest).length := by
  rw [String.length_append]
  omega

theorem checkTokenRoles_eq_nil_iff (accountAddress tokenName : String)
    (expectedToken : CheckDCDTData) (accountToken : MockDCDTData) :
    checkTokenRoles accountAddress tokenName expectedToken accountToken = [] ↔
      ∀ role, role ∈ expectedToken.Roles ↔ role ∈ accountToken.Roles := by
  unfold checkTokenRoles
  simp only [List.flatMap_eq_nil_iff, List.mem_dedup, List.mem_append, List.append_eq_nil,
    decide_eq_true_eq]
  constructor
  · intro h role
    constructor
    · intro hr
      have := (h role (Or.inl hr)).2
      by_contra hn
      rw [if_pos hn] at this
      cases this
    · intro hr
      have := (h role (Or.inr hr)).1
      by_contra hn
      rw [if_pos hn] at this
      cases this
  · intro h role hr
    have he : role ∈ expectedToken.Roles := hr.elim id (h role).mpr
    have ha : role ∈ accountToken.Roles := (h role).mp he
    exact ⟨if_neg (not_not.mpr he), if_neg (not_not.mpr ha)⟩

theorem checkTokenRoles_pos (accountAddress tokenName : String)
    (expectedToken : CheckDCDTData) (accountToken : MockDCDTData) :
    ∀ message ∈ checkTokenRoles accountAddress tokenName expectedToken accountToken,
      0 < message.length := by
  intro message hm
  unfold checkTokenRoles at hm
  simp only [List.mem_flatMap, List.mem_append] at hm
  obtain ⟨role, _, hm | hm⟩ := hm
  · split at hm
    · rw [List.mem_singleton] at hm
      rw [hm]
      simp only [String.append_assoc]
      exact message_length_pos _ _ (by decide)
    · cases hm
  · split at hm
    · rw [List.mem_singleton] at hm
      rw [hm]
      simp only [String.append_assoc]
      exact message_length_pos _ _ (by decide)
    · cases hm

theorem checkTokenInstances_eq_nil_iff (C : CheckCollaborators) (accountAddress tokenName : String)
    (expectedToken : CheckDCDTData) (accountToken : MockDCDTData) :
    checkTokenInstances C accountAddress tokenName expectedToken accountToken = [] ↔
      ¬ ∃ nonce expectedInstance accountInstance,
        goMapGet (expectedInstances expectedToken) nonce = some expectedInstance ∧
        goMapGet (accountInstances accountToken) nonce = some accountInstance ∧
        C.CheckBigInt expectedInstance.Balance accountInstance.Value = false := by
  unfold checkTokenInstances
  simp only [List.flatMap_eq_nil_iff, List.mem_dedup, List.mem_append]
  constructor
  · intro h hex
    obtain ⟨nonce, expectedInstance, accountInstance, he, ha, hc⟩ := hex
    have := h nonce (Or.inl (goMapGet_mem_keys _ _ _ he))
    rw [he, ha] at this
    simp only [hc, Bool.false_eq_true, not_false_eq_true, if_true] at this
    cases this
  · intro h nonce _
    cases he : goMapGet (expectedInstances expectedToken) nonce with
    | none => rfl
    | some expectedInstance =>
      cases ha : goMapGet (accountInstances accountToken) nonce with
      | none => rfl
      | some accountInstance =>
        simp only []
        split
        · rename_i hc
          exact absurd ⟨nonce, expectedInstance, accountInstance, he, ha,
            Bool.eq_false_iff.mpr hc⟩ h
        · rfl

theorem checkTokenInstances_pos (C : CheckCollaborators) (accountAddress tokenName : String)
    (expectedToken : CheckDCDTData) (accountToken : MockDCDTData) :
    ∀ message ∈ checkTokenInstances C accountAddress tokenName expectedToken accountToken,
      0 < message.length := by
  intro message hm
  unfold checkTokenInstances at hm
  simp only [List.mem_flatMap] at hm
  obtain ⟨nonce, _, hm⟩ := hm
  split at hm
  · cases hm
  · cases hm
  · split at hm
    · rw [List.mem_singleton] at hm
      rw [hm]
      simp only [String.append_assoc]
      exact message_length_pos _ _ (by decide)
    · cases hm

theorem checkTokenState_eq_nil_iff (C : CheckCollaborators) (accountAddress tokenName : String)
    (expectedToken : CheckDCDTData) (accountToken : MockDCDTData) :
    checkTokenState C accountAddress tokenName expectedToken accountToken = [] ↔
      ¬ ((∃ nonce expectedInstance accountInstance,
          goMapGet (expectedInstances expectedToken) nonce = some expectedInstance ∧
          goMapGet (accountInstances accountToken) nonce = some accountInstance ∧
          C.CheckBigInt expectedInstance.Balance accountInstance.Value = false) ∨
        C.CheckUint64 expectedToken.LastNonce accountToken.LastNonce = false ∨
        ¬ (∀ role, role ∈ expectedToken.Roles ↔ role ∈ accountToken.Roles)) := by
  unfold checkTokenState
  simp only [List.append_eq_nil, checkTokenRoles_eq_nil_iff]
  cases hc : C.CheckUint64 expectedToken.LastNonce accountToken.LastNonce with
  | false =>
    simp only [Bool.false_eq_true, not_false_eq_true, if_true, List.append_eq_nil,
      List.cons_ne_nil, and_false, false_and, true_or, or_true, not_true_eq_false]
  | true =>
    simp only [not_true_eq_false, if_false, checkTokenInstances_eq_nil_iff,
      Bool.true_eq_false, false_or, not_or, not_not]

theorem checkTokenState_pos (C : CheckCollaborators) (accountAddress tokenName : String)
    (expectedToken : CheckDCDTData) (accountToken : MockDCDTData) :
    ∀ message ∈ checkTokenState C accountAddress tokenName expectedToken accountToken,
      0 < message.length := by
  intro message hm
  unfold checkTokenState at hm
  simp only [List.mem_append] at hm
  rcases hm with hm | hm
  · split at hm
    · rw [List.mem_append, List.mem_singleton] at hm
      rcases hm with hm | hm
      · exact checkTokenInstances_pos _ _ _ _ _ _ hm
      · rw [hm]
        simp only [String.append_assoc]
        exact message_length_pos _ _ (by decide)
    · exact checkTokenInstances_pos _ _ _ _ _ _ hm
  · exact checkTokenRoles_pos _ _ _ _ _ hm

theorem checkAccountDCDTErrors_eq_nil_iff (C : CheckCollaborators) (accountAddress : String)
    (expectedTokens : List (String × CheckDCDTData))
    (accountTokens : List (String × MockDCDTData)) :
    checkAccountDCDTErrors C accountAddress expectedTokens accountTokens = [] ↔
      ¬ ∃ tokenName expectedToken accountToken,
        goMapGet expectedTokens tokenName = some expectedToken ∧
        goMapGet accountTokens tokenName = some accountToken ∧
        ((∃ nonce expectedInstance accountInstance,
            goMapGet (expectedInstances expectedToken) nonce = some expectedInstance ∧
            goMapGet (accountInstances accountToken) nonce = some accountInstance ∧
            C.CheckBigInt expectedInstance.Balance accountInstance.Value = false) ∨
          C.CheckUint64 expectedToken.LastNonce accountToken.LastNonce = false ∨
          ¬ (∀ role, role ∈ expectedToken.Roles ↔ role ∈ accountToken.Roles)) := by
  unfold checkAccountDCDTErrors
  simp only [List.flatMap_eq_nil_iff, List.mem_dedup, List.mem_append]
  constructor
  · intro h hex
    obtain ⟨tokenName, expectedToken, accountToken, he, ha, hmis⟩ := hex
    have := h tokenName (Or.inl (goMapGet_mem_keys _ _ _ he))
    rw [he, ha] at this
    exact (checkTokenState_eq_nil_iff C accountAddress tokenName expectedToken accountToken).mp
      this hmis
  · intro h tokenName _
    cases he : goMapGet expectedTokens tokenName with
    | none => rfl
    | some expectedToken =>
      cases ha : goMapGet accountTokens tokenName with
      | none => rfl
      | some accountToken =>
        simp only []
        rw [checkTokenState_eq_nil_iff]
        intro hmis
        exact h ⟨tokenName, expectedToken, accountToken, he, ha, hmis⟩

theorem checkAccountDCDTErrors_pos (C : CheckCollaborators) (accountAddress : String)
    (expectedTokens : List (String × CheckDCDTData))
    (accountTokens : List (String × MockDCDTData)) :
    ∀ message ∈ checkAccountDCDTErrors C accountAddress expectedTokens accountTokens,
      0 < message.length := by
  intro message hm
  unfold checkAccountDCDTErrors at hm
  simp only [List.mem_flatMap] at hm
  obtain ⟨tokenName, _, hm⟩ := hm
  split at hm
  · cases hm
  · cases hm
  · exact checkTokenState_pos _ _ _ _ _ _ hm

/-- The result of `checkAccountDCDT` when the check is not ignored and the
tokens of the account have been read. -/
theorem checkAccountDCDT_eq_none_iff (C : CheckCollaborators) (expectedAcct : CheckAccount)
    (matchingAcct : Account) (accountTokens : List (String × MockDCDTData))
    (hignore : expectedAcct.IgnoreDCDT = false)
    (hread : matchingAcct.GetFullMockDCDTData = .ok accountTokens) :
    checkAccountDCDT C expectedAcct matchingAcct = none ↔
      checkAccountDCDTErrors C expectedAcct.Address.Original (getExpectedTokens expectedAcct)
        accountTokens = [] := by
  unfold checkAccountDCDT
  simp only [hignore, Bool.false_eq_true, if_false, hread]
  constructor
  · intro h
    by_contra hne
    have hpos := makeErrorString_length_pos _ hne (checkAccountDCDTErrors_pos _ _ _ _)
    rw [if_pos hpos] at h
    cases h
  · intro h
    rw [h, makeErrorString_nil]
    rfl

/-- C40. The method `checkAccountDCDT`, when the check is not ignored and the
tokens of the account have been read, compares only the tokens that are present
both in the expectation and in the account: it returns an error if and only if
some token present on both sides differs in an instance balance present on both
sides, in its last nonce, or in its role set; so that when no token is present
on both sides it returns no error, whatever is expected and whatever the account
holds, and when every token present on both sides has no nonce with an instance
on both sides, checks in its last nonce and has the same roles, it returns no
error either. -/
theorem checkAccountDCDT_spec (C : CheckCollaborators) (expectedAcct : CheckAccount)
    (matchingAcct : Account) (accountTokens : List (String × MockDCDTData))
    (hignore : expectedAcct.IgnoreDCDT = false)
    (hread : matchingAcct.GetFullMockDCDTData = .ok accountTokens) :
    ((checkAccountDCDT C expectedAcct matchingAcct).isSome = true ↔
        TokenMismatch C expectedAcct accountTokens) ∧
      ((∀ tokenName,
          goMapGet (getExpectedTokens expectedAcct) tokenName = none ∨
            goMapGet accountTokens tokenName = none) →
        checkAccountDCDT C expectedAcct matchingAcct = none) ∧
      ((∀ tokenName expectedToken accountToken,
          goMapGet (getExpectedTokens expectedAcct) tokenName = some expectedToken →
          goMapGet accountTokens tokenName = some accountToken →
          (∀ nonce, goMapGet (expectedInstances expectedToken) nonce = none ∨
            goMapGet (accountInstances accountToken) nonce = none) ∧
          C.CheckUint64 expectedToken.LastNonce accountToken.LastNonce = true ∧
          (∀ role, role ∈ expectedToken.Roles ↔ role ∈ accountToken.Roles)) →
        checkAccountDCDT C expectedAcct matchingAcct = none) := by
  have hnone := checkAccountDCDT_eq_none_iff C expectedAcct matchingAcct accountTokens hignore
    hread
  rw [checkAccountDCDTErrors_eq_nil_iff] at hnone
  refine ⟨?_, ?_, ?_⟩
  · unfold TokenMismatch
    constructor
    · intro hsome
      by_contra hno
      rw [hnone.mpr hno] at hsome
      cases hsome
    · intro hmis
      cases hr : checkAccountDCDT C expectedAcct matchingAcct with
      | none => exact absurd hmis (hnone.mp hr)
      | some _ => rfl
  · intro hone
    apply hnone.mpr
    rintro ⟨tokenName, expectedToken, accountToken, he, ha, _⟩
    rcases hone tokenName with h | h
    · rw [h] at he
      cases he
    · rw [h] at ha
      cases ha
  · intro hall
    apply hnone.mpr
    rintro ⟨tokenName, expectedToken, accountToken, he, ha, hmis⟩
    obtain ⟨hinst, hnonce, hroles⟩ := hall tokenName expectedToken accountToken he ha
    rcases hmis with ⟨nonce, ei, ai, hei, hai, _⟩ | hc | hr
    · rcases hinst nonce with h | h
      · rw [h] at hei
        cases hei
      · rw [h] at hai
        cases hai
    · rw [hnonce] at hc
      cases hc
    · exact hr hroles

/-- C40, witness: the expectation holds `TOK` and `ONLY`, and the account holds
`TOK` and `EXTRA`. With the expected balance 5 of `TOK` there is no error,
although `ONLY` is missing from the account and `EXTRA` is not expected; with
the balance 6 there is an error. -/
theorem checkAccountDCDT_spec_witness :
    checkAccountDCDT testCheckCollaborators testCheckAccount (testAccount 5) = none ∧
      (checkAccountDCDT testCheckCollaborators testCheckAccount (testAccount 6)).isSome = true ∧
      TokenMismatch testCheckCollaborators testCheckAccount
        [ ("TOK",
            { TokenIdentifier := "TOK"
              Instances := [ { Value := 6, TokenMetaData := { Name := "TOK", Nonce := 0 } } ]
              LastNonce := 0
              Roles := [] }),
          ("EXTRA",
            { TokenIdentifier := "EXTRA"
              Instances := [ { Value := 7, TokenMetaData := { Name := "EXTRA", Nonce := 0 } } ]
              LastNonce := 0
              Roles := [] }) ] :=
  ⟨by decide, by decide,
    (checkAccountDCDT_spec testCheckCollaborators testCheckAccount (testAccount 6) _ rfl rfl).1.mp
      (by decide)⟩

end tokenChecks

/-! ## Theorems: the instance of the caller -/

section callerInstance

theorem callerInstance_congr (a b : vmHost) (h : b.runtimeContext = a.runtimeContext) :
    b.callerInstance = a.callerInstance := by
  unfold vmHost.callerInstance
  rw [h]

theorem runtime_PopSetActiveState_pointsUsed (host : vmHost) (p : Nat)
    (h : host.runtimeContext.callerPointsUsed = some p) :
    (runtimeContext.PopSetActiveState host).runtimeContext.pointsUsed = p := by
  unfold runtimeContext.callerPointsUsed at h
  unfold runtimeContext.PopSetActiveState
  cases hl : host.runtimeContext.stateStack.getLast? with
  | none => rw [hl] at h; cases h
  | some prevState =>
    rw [hl] at h
    simp only [Option.map_some', Option.some.injEq] at h
    simp only [hl]
    exact h

theorem copyTxHashesFromContext_Function (copyEnabled : Bool) (runtime : runtimeContext)
    (input : ContractCallInput) :
    (copyTxHashesFromContext copyEnabled runtime input).Function = input.Function := by
  unfold copyTxHashesFromContext
  cases copyEnabled
  · rfl
  · simp only [Bool.not_true, Bool.false_eq_true, if_false]
    split <;> split <;> split <;> rfl

theorem InitStateFromContractCallInput_runtime (host : vmHost) (input : VMInput) :
    (meteringContext.InitStateFromContractCallInput host input).1.runtimeContext =
      host.runtimeContext := by
  unfold meteringContext.InitStateFromContractCallInput meteringContext.unlockGasIfAsyncCallback
  by_cases hc : input.CallType = CallType.AsynchronousCallBack <;> simp [hc]

/-- The Runtime context at the end of the opening of `ExecuteOnSameContext`: the
instance of the caller is still running, with its counter, and the top snapshot
holds it. -/
theorem enterExecuteOnSameContext_runtime (host : vmHost) (input : ContractCallInput) :
    (enterExecuteOnSameContext host input).1.runtimeContext.callFunction = input.Function ∧
    (enterExecuteOnSameContext host input).1.runtimeContext.pointsUsed =
      host.runtimeContext.pointsUsed ∧
    (enterExecuteOnSameContext host input).1.runtimeContext.instanceHandle =
      host.runtimeContext.instanceHandle ∧
    (enterExecuteOnSameContext host input).1.runtimeContext.stateStack.getLast?.map
        (fun st => st.instanceHandle) = some host.runtimeContext.instanceHandle ∧
    (enterExecuteOnSameContext host input).1.protocolBuiltinFunctions =
      host.protocolBuiltinFunctions := by
  simp only [enterExecuteOnSameContext, InitStateFromContractCallInput_runtime]
  refine ⟨?_, ?_, ?_, ?_, ?_⟩
  · simp only [runtimeContext.InitStateFromContractCallInput]
    exact copyTxHashesFromContext_Function _ _ _
  · rfl
  · rfl
  · simp [runtimeContext.InitStateFromContractCallInput, runtimeContext.PushState,
      outputContext.PushState, bigIntContext.PushState]
  · simp [meteringContext.InitStateFromContractCallInput, meteringContext.unlockGasIfAsyncCallback,
      runtimeContext.InitStateFromContractCallInput, runtimeContext.PushState,
      outputContext.PushState, bigIntContext.PushState, meteringContext.PushState]
    split <;> rfl

theorem UseGas_runtime (host : vmHost) (gas : Nat) :
    (meteringContext.UseGas host gas).runtimeContext =
      { host.runtimeContext with pointsUsed := AddUint64 host.runtimeContext.pointsUsed gas } :=
  rfl

/-- A charge on the running instance is a charge on the instance of the caller
as long as the top snapshot holds the running instance. -/
theorem UseGas_callerInstance (host : vmHost) (gas : Nat)
    (hcaller : host.runtimeContext.stateStack.getLast?.map (fun st => st.instanceHandle) =
      some host.runtimeContext.instanceHandle) :
    (meteringContext.UseGas host gas).callerInstance =
      (host.runtimeContext.stateStack, some (AddUint64 host.runtimeContext.pointsUsed gas)) := by
  unfold vmHost.callerInstance runtimeContext.callerPointsUsed
  rw [UseGas_runtime]
  cases hl : host.runtimeContext.stateStack.getLast? with
  | none => rw [hl] at hcaller; cases hcaller
  | some prevState =>
    rw [hl] at hcaller
    simp only [Option.map_some', Option.some.injEq] at hcaller
    simp only [hl, Option.map_some', runtimeContext.pointsUsedOf, hcaller, if_true]

theorem executeUpgrade_callerInstance (B : BuiltinCollaborators) (hB : B.KeepsCallerInstance)
    (host : vmHost) (input : ContractCallInput) :
    (executeUpgrade B host input).2.callerInstance = host.callerInstance := by
  obtain ⟨hverify, hstart, _, hinit⟩ := hB
  unfold executeUpgrade
  split
  · rfl
  · split
    · rfl
    · rename_i code codeMetadata _
      simp only []
      have hd := (deductInitialGas_other_contexts host code
        host.meteringContext.gasSchedule.BaseOpsAPICost.CreateContract
        host.meteringContext.gasSchedule.BaseOperationCost.CompilePerByte).2
      simp only [meteringContext.DeductInitialGasForDirectDeployment]
      generalize meteringContext.deductInitialGas host code
        host.meteringContext.gasSchedule.BaseOpsAPICost.CreateContract
        host.meteringContext.gasSchedule.BaseOperationCost.CompilePerByte = d at hd
      obtain ⟨derr, deducted⟩ := d
      simp only [] at hd
      have hded : deducted.callerInstance = host.callerInstance := callerInstance_congr _ _ hd
      cases derr with
      | some err =>
        simp only []
        rw [← hded]
        exact callerInstance_congr _ _ rfl
      | none =>
        simp only []
        have hv := hverify deducted
        split
        · rename_i e started heq
          have hs := congrArg (fun r : Option VMError × vmHost => r.2.callerInstance) heq
          simp only [hstart] at hs
          simp only []
          rw [← hs, hv, hded]
        · rename_i started heq
          have hi := hinit _ _ _ _ (congrArg Prod.fst heq)
          rw [heq] at hi
          simp only [] at hi
          split
          · rename_i e inited heq2
            rw [heq2] at hi
            simp only [] at hi ⊢
            rw [hi, hv, hded]
          · rename_i inited heq2
            rw [heq2] at hi
            simp only [] at hi ⊢
            have hdep : ∀ cdi, (outputContext.DeployCode inited cdi).callerInstance =
                inited.callerInstance := fun cdi => callerInstance_congr _ _ rfl
            split
            · simp only []
              rw [hdep, hi, hv, hded]
            · simp only []
              rw [hdep, hi, hv, hded]

/-- Past its guard on the `init` function, `executeSmartContractCall` charges the
gas provided on the running instance, and nothing that follows changes the
state stack of the Runtime context or the instance of the caller. -/
theorem executeSmartContractCall_callerInstance (B : BuiltinCollaborators)
    (hB : B.KeepsCallerInstance) (host : vmHost) (input : ContractCallInput)
    (withInitialGasDeduct : Bool)
    (hguard : ¬ (isInitFunctionBeingCalled B.names host = true ∧ ¬ input.AllowInitFunction = true)) :
    (executeSmartContractCall B host input withInitialGasDeduct).2.callerInstance =
      (meteringContext.UseGas host input.VMInput.GasProvided).callerInstance := by
  unfold executeSmartContractCall
  rw [if_neg hguard]
  simp only []
  generalize meteringContext.UseGas host input.VMInput.GasProvided = charged
  split
  · exact executeUpgrade_callerInstance B hB charged input
  · split
    · rfl
    · rename_i contract _
      have hded : (if withInitialGasDeduct = true then
            meteringContext.DeductInitialGasForExecution charged contract
          else (none, charged)).2.callerInstance = charged.callerInstance := by
        split
        · exact callerInstance_congr _ _ (deductInitialGas_other_contexts _ _ _ _).2
        · rfl
      generalize (if withInitialGasDeduct = true then
            meteringContext.DeductInitialGasForExecution charged contract
          else (none, charged)) = d at hded
      obtain ⟨derr, deducted⟩ := d
      simp only [] at hded ⊢
      cases derr with
      | some e => exact hded
      | none =>
        simp only []
        split
        · rename_i e started heq
          have hs := congrArg (fun r : Option VMError × vmHost => r.2.callerInstance) heq
          simp only [hB.2.1] at hs
          simp only []
          rw [← hs, hded]
        · rename_i started heq
          have hm := hB.2.2.1 _ _ _ _ (congrArg Prod.fst heq)
          rw [heq] at hm
          simp only [] at hm
          split
          · rename_i e called heq2
            rw [heq2] at hm
            simp only [] at hm ⊢
            rw [hm, hded]
          · rename_i called heq2
            rw [heq2] at hm
            simp only [] at hm
            split
            · simp only []
              rw [hm, hded]
            · simp only []
              rw [hm, hded]

/-- The method `execute` on a function that is not a builtin is
`executeSmartContractCall` with the initial deduction. -/
theorem execute_not_builtin (B : BuiltinCollaborators) (host : vmHost)
    (input : ContractCallInput) (hnb : isBuiltinFunctionBeingCalled host = false) :
    execute B host input =
      some ((0, (executeSmartContractCall B host input true).1),
        (executeSmartContractCall B host input true).2) := by
  unfold execute
  rw [hnb]
  rfl

/-- The host and the error that the body of `ExecuteOnSameContext` leaves when
the value transfer succeeds. -/
theorem bodyExecuteOnSameContext_transferred (E : Collaborators) (host : vmHost)
    (input : ContractCallInput)
    (ht : (E.TransferValueOnly host input.RecipientAddr input.VMInput.CallerAddr
      input.VMInput.CallValue false).1 = none) :
    (bodyExecuteOnSameContext E host input).2.1 =
      (E.execute (host.setOutputState (E.TransferValueOnly host input.RecipientAddr
        input.VMInput.CallerAddr input.VMInput.CallValue false).2) input).1.2 ∧
    (bodyExecuteOnSameContext E host input).2.2 =
      (E.execute (host.setOutputState (E.TransferValueOnly host input.RecipientAddr
        input.VMInput.CallerAddr input.VMInput.CallValue false).2) input).2 := by
  unfold bodyExecuteOnSameContext
  generalize E.TransferValueOnly host input.RecipientAddr input.VMInput.CallerAddr
    input.VMInput.CallValue false = tr at ht
  obtain ⟨terr, out⟩ := tr
  simp only [] at ht
  subst ht
  simp only []
  generalize E.execute (host.setOutputState out) input = ex
  obtain ⟨⟨g, eerr⟩, after⟩ := ex
  cases eerr <;> exact ⟨rfl, rfl⟩

/-- The points used of the caller after a same-context call that fails once the
execution step has been reached and has passed the guard on the `init`
function: the gas provided has been charged and nothing of it is restored. -/
theorem ExecuteOnSameContext_failed_pointsUsed (E : Collaborators) (B : BuiltinCollaborators)
    (hrun : E.RunsExecute B) (hB : B.KeepsCallerInstance)
    (caller : vmHost) (input : ContractCallInput)
    (hname : caller.IsBuiltinFunctionName input.Function = false)
    (ht : (E.TransferValueOnly (enterExecuteOnSameContext caller input).1
      (enterExecuteOnSameContext caller input).2.RecipientAddr
      (enterExecuteOnSameContext caller input).2.VMInput.CallerAddr
      (enterExecuteOnSameContext caller input).2.VMInput.CallValue false).1 = none)
    (hguard : ¬ ((input.Function = B.names.InitFunctionName ∨
        input.Function = B.names.InitFunctionNameEth) ∧
      ¬ (enterExecuteOnSameContext caller input).2.AllowInitFunction = true))
    (hfail : (ExecuteOnSameContext E caller input).2.1 ≠ none) :
    (ExecuteOnSameContext E caller input).2.2.runtimeContext.pointsUsed =
      AddUint64 caller.runtimeContext.pointsUsed
        (enterExecuteOnSameContext caller input).2.VMInput.GasProvided := by
  obtain ⟨hfn, hpoints, hhandle, htop, hnames⟩ := enterExecuteOnSameContext_runtime caller input
  obtain ⟨hberr, hbhost⟩ := bodyExecuteOnSameContext_transferred E
    (enterExecuteOnSameContext caller input).1 (enterExecuteOnSameContext caller input).2 ht
  generalize hout : (E.TransferValueOnly (enterExecuteOnSameContext caller input).1
      (enterExecuteOnSameContext caller input).2.RecipientAddr
      (enterExecuteOnSameContext caller input).2.VMInput.CallerAddr
      (enterExecuteOnSameContext caller input).2.VMInput.CallValue false).2 = out at hberr hbhost
  have hnb : isBuiltinFunctionBeingCalled
      ((enterExecuteOnSameContext caller input).1.setOutputState out) = false := by
    unfold isBuiltinFunctionBeingCalled vmHost.IsBuiltinFunctionName
    show (enterExecuteOnSameContext caller input).1.protocolBuiltinFunctions.contains
      (enterExecuteOnSameContext caller input).1.runtimeContext.callFunction = false
    rw [hnames, hfn]
    exact hname
  have hg : ¬ (isInitFunctionBeingCalled B.names
        ((enterExecuteOnSameContext caller input).1.setOutputState out) = true ∧
      ¬ (enterExecuteOnSameContext caller input).2.AllowInitFunction = true) := by
    unfold isInitFunctionBeingCalled
    show ¬ (decide ((enterExecuteOnSameContext caller input).1.runtimeContext.callFunction =
          B.names.InitFunctionName ∨
        (enterExecuteOnSameContext caller input).1.runtimeContext.callFunction =
          B.names.InitFunctionNameEth) = true ∧ _)
    rw [hfn, decide_eq_true_eq]
    exact hguard
  have hex := hrun _ _ _ (execute_not_builtin B
    ((enterExecuteOnSameContext caller input).1.setOutputState out)
    (enterExecuteOnSameContext caller input).2 hnb)
  rw [hex] at hberr hbhost
  simp only [] at hberr hbhost
  have hcaller : (bodyExecuteOnSameContext E (enterExecuteOnSameContext caller input).1
      (enterExecuteOnSameContext caller input).2).2.2.runtimeContext.callerPointsUsed =
      some (AddUint64 caller.runtimeContext.pointsUsed
        (enterExecuteOnSameContext caller input).2.VMInput.GasProvided) := by
    rw [hbhost]
    have h1 := executeSmartContractCall_callerInstance B hB
      ((enterExecuteOnSameContext caller input).1.setOutputState out)
      (enterExecuteOnSameContext caller input).2 true hg
    rw [UseGas_callerInstance _ _ (by
      show (enterExecuteOnSameContext caller input).1.runtimeContext.stateStack.getLast?.map
        (fun st => st.instanceHandle) =
        some (enterExecuteOnSameContext caller input).1.runtimeContext.instanceHandle
      rw [htop, hhandle])] at h1
    have h2 := congrArg Prod.snd h1
    simp only [vmHost.callerInstance] at h2
    rw [h2]
    show some (AddUint64 (enterExecuteOnSameContext caller input).1.runtimeContext.pointsUsed _) = _
    rw [hpoints]
  have hres : (ExecuteOnSameContext E caller input) =
      ((bodyExecuteOnSameContext E (enterExecuteOnSameContext caller input).1
          (enterExecuteOnSameContext caller input).2).1,
        (bodyExecuteOnSameContext E (enterExecuteOnSameContext caller input).1
          (enterExecuteOnSameContext caller input).2).2.1,
        finishExecuteOnSameContext E
          (bodyExecuteOnSameContext E (enterExecuteOnSameContext caller input).1
            (enterExecuteOnSameContext caller input).2).2.2
          (bodyExecuteOnSameContext E (enterExecuteOnSameContext caller input).1
            (enterExecuteOnSameContext caller input).2).2.1) := by
    unfold ExecuteOnSameContext
    rw [hname]
    rfl
  rw [hres] at hfail ⊢
  simp only [] at hfail ⊢
  simp only [finishExecuteOnSameContext]
  rw [if_pos (Or.inr hfail)]
  have hpop : (runtimeContext.PopSetActiveState
      (outputContext.PopSetActiveState
        (meteringContext.PopSetActiveState
          (bigIntContext.PopSetActiveState
            (bodyExecuteOnSameContext E (enterExecuteOnSameContext caller input).1
              (enterExecuteOnSameContext caller input).2).2.2)))).runtimeContext =
      (runtimeContext.PopSetActiveState
        (bodyExecuteOnSameContext E (enterExecuteOnSameContext caller input).1
          (enterExecuteOnSameContext caller input).2).2.2).runtimeContext := by
    apply runtime_PopSetActiveState_congr
    simp
  rw [hpop]
  exact runtime_PopSetActiveState_pointsUsed _ _ hcaller

/-- The input that the opening of `ExecuteOnSameContext` hands on: only the
transaction hashes and, for a callback, the gas (the locked gas is unlocked) are
changed. -/
theorem enterExecuteOnSameContext_input (host : vmHost) (input : ContractCallInput) :
    (enterExecuteOnSameContext host input).2.RecipientAddr = input.RecipientAddr ∧
    (enterExecuteOnSameContext host input).2.AllowInitFunction = input.AllowInitFunction ∧
    (enterExecuteOnSameContext host input).2.VMInput.CallerAddr = input.VMInput.CallerAddr ∧
    (enterExecuteOnSameContext host input).2.VMInput.CallValue = input.VMInput.CallValue ∧
    (enterExecuteOnSameContext host input).2.VMInput.GasProvided =
      (if input.VMInput.CallType = CallType.AsynchronousCallBack then
        AddUint64 input.VMInput.GasProvided input.VMInput.GasLocked
       else input.VMInput.GasProvided) := by
  have hc : ∀ (b : Bool) (r : runtimeContext),
      (copyTxHashesFromContext b r input).RecipientAddr = input.RecipientAddr ∧
      (copyTxHashesFromContext b r input).AllowInitFunction = input.AllowInitFunction ∧
      (copyTxHashesFromContext b r input).VMInput.CallerAddr = input.VMInput.CallerAddr ∧
      (copyTxHashesFromContext b r input).VMInput.CallValue = input.VMInput.CallValue ∧
      (copyTxHashesFromContext b r input).VMInput.GasProvided = input.VMInput.GasProvided ∧
      (copyTxHashesFromContext b r input).VMInput.GasLocked = input.VMInput.GasLocked ∧
      (copyTxHashesFromContext b r input).VMInput.CallType = input.VMInput.CallType := by
    intro b r
    unfold copyTxHashesFromContext
    cases b
    · exact ⟨rfl, rfl, rfl, rfl, rfl, rfl, rfl⟩
    · simp only [Bool.not_true, Bool.false_eq_true, if_false]
      split <;> split <;> split <;> exact ⟨rfl, rfl, rfl, rfl, rfl, rfl, rfl⟩
  simp only [enterExecuteOnSameContext, meteringContext.InitStateFromContractCallInput,
    meteringContext.unlockGasIfAsyncCallback]
  obtain ⟨h1, h2, h3, h4, h5, h6, h7⟩ := hc
    (outputContext.PushState (bigIntContext.PushState host)).dcdtFunctionsEnabled
    (outputContext.PushState (bigIntContext.PushState host)).runtimeContext
  refine ⟨h1, h2, ?_, ?_, ?_⟩
  · split <;> simp only [h3]
  · split <;> simp only [h4]
  · by_cases hct : input.VMInput.CallType = CallType.AsynchronousCallBack
    · have hct2 := hct
      rw [← h7] at hct2
      rw [if_neg (not_not.mpr hct2), if_pos hct]
      simp only [h5, h6]
    · have hct2 := hct
      rw [← h7] at hct2
      rw [if_pos hct2, if_neg hct]
      exact h5

theorem freshInstance_gt (r : runtimeContext) (st : runtimeFrame) (h : st ∈ r.stateStack) :
    st.instanceHandle < r.freshInstance := by
  unfold runtimeContext.freshInstance
  have hle : ∀ (l : List runtimeFrame) (a : Nat), st ∈ l →
      st.instanceHandle ≤ (l.map (fun s => s.instanceHandle)).foldr max a := by
    intro l a
    induction l with
    | nil => intro hm; cases hm
    | cons x rest ih =>
      intro hm
      simp only [List.map_cons, List.foldr_cons]
      rcases List.mem_cons.mp hm with hx | hx
      · rw [hx]
        exact Nat.le_max_left _ _
      · exact Nat.le_trans (ih hx) (Nat.le_max_right _ _)
  exact Nat.lt_succ_of_le (hle _ _ h)

/-- The start of an instance leaves the state stack of the Runtime context and
the instance of the caller as it found them. -/
theorem startInstance_callerInstance (host : vmHost) :
    ({ host with runtimeContext := host.runtimeContext.startInstance } : vmHost).callerInstance =
      host.callerInstance := by
  unfold vmHost.callerInstance runtimeContext.callerPointsUsed
  show (host.runtimeContext.stateStack,
      host.runtimeContext.stateStack.getLast?.map
        (fun prevState => host.runtimeContext.startInstance.pointsUsedOf prevState.instanceHandle)) =
    _
  cases hl : host.runtimeContext.stateStack.getLast? with
  | none => rfl
  | some prevState =>
    have hmem : prevState ∈ host.runtimeContext.stateStack := List.mem_of_getLast?_eq_some hl
    have hlt := freshInstance_gt _ _ hmem
    simp only [Option.map_some', runtimeContext.pointsUsedOf, runtimeContext.startInstance,
      List.lookup_cons]
    rw [if_neg (by omega)]
    by_cases hh : prevState.instanceHandle = host.runtimeContext.instanceHandle
    · simp [hh]
    · have hb : (prevState.instanceHandle == host.runtimeContext.instanceHandle) = false := by
        simpa using hh
      simp [hh, hb]

theorem testBuiltinCollaborators_KeepsCallerInstance (followUpFails : Bool) :
    (testBuiltinCollaborators followUpFails).KeepsCallerInstance := by
  refine ⟨fun host => rfl, fun host _ _ _ => startInstance_callerInstance host, ?_, ?_⟩
  · intro host _ _ _ _
    have h : (callSCMethodIndirect (testBuiltinCollaborators followUpFails)
        { host with runtimeContext := host.runtimeContext.startInstance }).2 =
        { host with runtimeContext := host.runtimeContext.startInstance } := by
      cases followUpFails <;> rfl
    show (callSCMethodIndirect (testBuiltinCollaborators followUpFails)
        { host with runtimeContext := host.runtimeContext.startInstance }).2.callerInstance = _
    rw [h]
    exact startInstance_callerInstance host
  · intro host _ _ _ _
    exact startInstance_callerInstance host

/-- C15. In `finishExecuteOnSameContext`: if the execution error is not nil or the
return code of the Output context is not `Ok`, the BigInt, Metering, Output and
Runtime contexts are as their `PopSetActiveState` leaves them and the Storage
context is untouched; no gas is restored or forwarded: the gas ledger is as it
was, and the instance of the caller runs again with the very counter it has
when the call ends. Otherwise the BigInt and Output contexts are as their
`PopDiscard` leaves them (the changes of the callee are kept), the Runtime
context is as its `PopSetActiveState` leaves it with the remaining gas of the
callee restored, and the Metering context is as its `PopSetActiveState` leaves
it with the gas spent by the callee forwarded from the caller to the callee.
And the caller loses all the gas it provided: when the execution step is the
method `execute`, the steps of the callee keep the instance of the caller, the
called function is not a builtin, the value transfer succeeds and the call is
not stopped by the guard on the `init` function (both come before the charge),
then after an `ExecuteOnSameContext` that returns an error the points used of the
caller are those before the call plus the gas provided (with the locked gas for
a callback). -/
theorem finishExecuteOnSameContext_pops (E : Collaborators) :
    (∀ (host : vmHost) (executeErr : Option VMError),
      (outputContext.ReturnCode host ≠ ReturnCode.Ok ∨ executeErr ≠ none) →
      (finishExecuteOnSameContext E host executeErr).bigIntContext =
        (bigIntContext.PopSetActiveState host).bigIntContext ∧
      (finishExecuteOnSameContext E host executeErr).meteringContext =
        (meteringContext.PopSetActiveState host).meteringContext ∧
      (finishExecuteOnSameContext E host executeErr).outputContext =
        (outputContext.PopSetActiveState host).outputContext ∧
      (finishExecuteOnSameContext E host executeErr).runtimeContext =
        (runtimeContext.PopSetActiveState host).runtimeContext ∧
      (finishExecuteOnSameContext E host executeErr).storageContext = host.storageContext ∧
      (finishExecuteOnSameContext E host executeErr).meteringContext.gasStates =
        host.meteringContext.gasStates ∧
      (∀ p, host.runtimeContext.callerPointsUsed = some p →
        (finishExecuteOnSameContext E host executeErr).runtimeContext.pointsUsed = p)) ∧
    (∀ (host : vmHost) (executeErr : Option VMError),
      ¬ (outputContext.ReturnCode host ≠ ReturnCode.Ok ∨ executeErr ≠ none) →
      (finishExecuteOnSameContext E host executeErr).bigIntContext =
        (bigIntContext.PopDiscard host).bigIntContext ∧
      (finishExecuteOnSameContext E host executeErr).outputContext =
        (outputContext.PopDiscard (host.setOutputState (E.GetVMOutput host).2)).outputContext ∧
      (finishExecuteOnSameContext E host executeErr).runtimeContext =
        (meteringContext.RestoreGas (runtimeContext.PopSetActiveState host)
          (E.GetVMOutput host).1.GasRemaining).runtimeContext ∧
      (finishExecuteOnSameContext E host executeErr).meteringContext =
        (meteringContext.ForwardGas
          (meteringContext.RestoreGas
            (runtimeContext.PopSetActiveState (meteringContext.PopSetActiveState host))
            (E.GetVMOutput host).1.GasRemaining)
          (runtimeContext.PopSetActiveState host).runtimeContext.scAddress
          host.runtimeContext.scAddress
          (if (E.GetVMOutput host).1.ReturnCode ≠ ReturnCode.Ok then 0
           else meteringContext.GasSpentByContract host)).meteringContext ∧
      (finishExecuteOnSameContext E host executeErr).storageContext = host.storageContext) ∧
    (∀ (B : BuiltinCollaborators) (caller : vmHost) (input : ContractCallInput),
      E.RunsExecute B →
      B.KeepsCallerInstance →
      caller.IsBuiltinFunctionName input.Function = false →
      (E.TransferValueOnly (enterExecuteOnSameContext caller input).1 input.RecipientAddr
        input.VMInput.CallerAddr input.VMInput.CallValue false).1 = none →
      ¬ ((input.Function = B.names.InitFunctionName ∨
          input.Function = B.names.InitFunctionNameEth) ∧
        ¬ input.AllowInitFunction = true) →
      (ExecuteOnSameContext E caller input).2.1 ≠ none →
      (ExecuteOnSameContext E caller input).2.2.runtimeContext.pointsUsed =
        AddUint64 caller.runtimeContext.pointsUsed
          (if input.VMInput.CallType = CallType.AsynchronousCallBack then
            AddUint64 input.VMInput.GasProvided input.VMInput.GasLocked
           else input.VMInput.GasProvided)) := by
  refine ⟨?_, ?_, ?_⟩
  · intro host executeErr hfail
    obtain ⟨h1, h2, h3, h4, h5⟩ := (finishExecuteOnSameContext_contexts E host executeErr).1 hfail
    refine ⟨h1, h2, h3, h4, h5, ?_, ?_⟩
    · rw [h2]
      exact PopSetActiveState_gasStates host
    · intro p hp
      rw [h4]
      exact runtime_PopSetActiveState_pointsUsed host p hp
  · intro host executeErr hok
    exact (finishExecuteOnSameContext_contexts E host executeErr).2 hok
  · intro B caller input hrun hB hname ht hguard hfail
    obtain ⟨hr, ha, hc, hv, hg⟩ := enterExecuteOnSameContext_input caller input
    rw [← hg]
    apply ExecuteOnSameContext_failed_pointsUsed E B hrun hB caller input hname
    · rw [hr, hc, hv]
      exact ht
    · rw [ha]
      exact hguard
    · exact hfail

/-- C15, witness: the contract at `[1]`, which has used 400 points of its 3000
gas, calls the contract at `[2]` on the same context with 500 gas, and the call
fails for lack of gas; afterwards the caller has used 900 points. -/
theorem finishExecuteOnSameContext_pops_witness :
    (meteringContext.UseGas
        (bindVMInput (testHostWithOutput [1]) (testVMInput CallType.DirectCall 3000 0))
        400).runtimeContext.pointsUsed = 400 ∧
      (ExecuteOnSameContext (testNestedCollaborators true)
        (meteringContext.UseGas
          (bindVMInput (testHostWithOutput [1]) (testVMInput CallType.DirectCall 3000 0)) 400)
        testCallInput).2.1 = some VMError.ErrNotEnoughGas ∧
      (ExecuteOnSameContext (testNestedCollaborators true)
        (meteringContext.UseGas
          (bindVMInput (testHostWithOutput [1]) (testVMInput CallType.DirectCall 3000 0)) 400)
        testCallInput).2.2.runtimeContext.pointsUsed = 900 :=
  ⟨by decide, by decide,
    ((finishExecuteOnSameContext_pops (testNestedCollaborators true)).2.2
      (testBuiltinCollaborators true)
      (meteringContext.UseGas
        (bindVMInput (testHostWithOutput [1]) (testVMInput CallType.DirectCall 3000 0)) 400)
      testCallInput (testNestedCollaborators_RunsExecute true)
      (testBuiltinCollaborators_KeepsCallerInstance true) (by decide) (by decide) (by decide)
      (by decide)).trans (by decide)⟩

end callerInstance

end VMHost
